import Mathlib

/-!
# Transmission-timing model of `WifiPhy`

A shallow embedding of the duration functions of
`src/wifi/model/wifi-phy.cc` (`WifiPhy::GetPayloadDuration`,
`WifiPhy::CalculatePlcpPreambleAndHeaderDuration`, `WifiPhy::CalculateTxDuration` and the PLCP
field functions they call), of the A-MPDU accumulator they thread through repeated calls, and of
the mode catalog registered by the static `Constructor`.

Conventions of the embedding:

* `Time` is an integer number of nanoseconds (the default resolution of `ns3::Time`).
* `uint32_t` values are natural numbers reduced modulo `2 ^ 32` at every store; the `uint64_t`
  product behind `numDataBitsPerSymbol` is reduced modulo `2 ^ 64`.
* `double` values are exact rationals.  `ceil` is `Nat.ceil`, the truncating conversion of a
  non-negative `double` to `uint32_t` is `Nat.floor`, and `lrint`, which the source applies to
  integer-valued arguments only, is the identity.
* `NS_FATAL_ERROR` and a failing `NS_ASSERT` end the call with a `PhyError`; the accumulator
  is reported as it stands at that point.
* The members `m_totalAmpduSize` and `m_totalAmpduNumSymbols` are passed and returned
  explicitly as a `PhyState`.
-/

namespace WifiPhy

/-- Modulation classes.  The declaration (wifi-mode.h) is outside the translated sources; the
five enumerators below are the ones wifi-phy.cc names, and `WIFI_MOD_CLASS_UNKNOWN` stands for
every other enumerator, all of which reach the `default:` label of each `switch`. -/
inductive WifiModulationClass
  | WIFI_MOD_CLASS_UNKNOWN
  | WIFI_MOD_CLASS_DSSS
  | WIFI_MOD_CLASS_ERP_OFDM
  | WIFI_MOD_CLASS_OFDM
  | WIFI_MOD_CLASS_HT
  | WIFI_MOD_CLASS_S1G
  deriving DecidableEq

/-- Code rates used by the catalog entries of wifi-phy.cc. -/
inductive WifiCodeRate
  | WIFI_CODE_RATE_UNDEFINED
  | WIFI_CODE_RATE_3_4
  | WIFI_CODE_RATE_2_3
  | WIFI_CODE_RATE_1_2
  | WIFI_CODE_RATE_5_6
  deriving DecidableEq

/-- Preamble kinds named by wifi-phy.cc. -/
inductive WifiPreamble
  | WIFI_PREAMBLE_LONG
  | WIFI_PREAMBLE_SHORT
  | WIFI_PREAMBLE_HT_MF
  | WIFI_PREAMBLE_HT_GF
  | WIFI_PREAMBLE_S1G_SHORT
  | WIFI_PREAMBLE_S1G_LONG
  | WIFI_PREAMBLE_S1G_1M
  | WIFI_PREAMBLE_NONE
  deriving DecidableEq

/-- The arguments of `WifiModeFactory::CreateWifiMode`, in the order of the call:
unique name, modulation class, mandatory flag, bandwidth (Hz), data rate (bit/s), code rate,
constellation size. -/
structure WifiMode where
  uniqueName : String
  modClass : WifiModulationClass
  isMandatory : Bool
  bandwidth : Nat
  dataRate : Nat
  codingRate : WifiCodeRate
  constellationSize : Nat
  deriving DecidableEq

/-- The part of `WifiTxVector` read by the duration functions: `GetMode`, `GetNss`, `GetNess`,
`IsStbc`.  `nss` and `ness` are `uint8_t` in the source. -/
structure WifiTxVector where
  mode : WifiMode
  nss : Nat
  ness : Nat
  stbc : Bool
  deriving DecidableEq

/-- Durations, in nanoseconds. -/
abbrev Time := Int

/-- A duration given in nanoseconds. -/
def NanoSeconds (ns : Int) : Time := ns

/-- A duration given in microseconds. -/
def MicroSeconds (us : Int) : Time := us * 1000

/-- The ways a duration call can end without a result. -/
inductive PhyError
  | wrongCombination
  | unsupportedModulationClass
  | assertionFailed
  deriving DecidableEq

/-- The A-MPDU accumulator of one `WifiPhy` instance (both members are `uint32_t`). -/
structure PhyState where
  m_totalAmpduSize : Nat
  m_totalAmpduNumSymbols : Nat
  deriving DecidableEq

/-- The accumulator as the constructor `WifiPhy::WifiPhy` leaves it. -/
def PhyState.fresh : PhyState := ⟨0, 0⟩

/-- Both members hold a 32-bit value. -/
def PhyState.WellFormed (st : PhyState) : Prop :=
  st.m_totalAmpduSize < 4294967296 ∧ st.m_totalAmpduNumSymbols < 4294967296

/-- Store into a `uint32_t`. -/
def uint32 (n : Nat) : Nat := n % 4294967296

/-- The `uint32_t` subtraction `a -= b`. -/
def uint32Sub (a b : Nat) : Nat := (((a : Int) - (b : Int)) % 4294967296).toNat

/-- Store into a `uint64_t`. -/
def uint64 (n : Int) : Int := n % 18446744073709551616

def GetDsssRate1Mbps : WifiMode :=
  ⟨"DsssRate1Mbps", .WIFI_MOD_CLASS_DSSS, true, 22000000, 1000000, .WIFI_CODE_RATE_UNDEFINED, 2⟩

def GetDsssRate2Mbps : WifiMode :=
  ⟨"DsssRate2Mbps", .WIFI_MOD_CLASS_DSSS, true, 22000000, 2000000, .WIFI_CODE_RATE_UNDEFINED, 4⟩

def GetDsssRate5_5Mbps : WifiMode :=
  ⟨"DsssRate5_5Mbps", .WIFI_MOD_CLASS_DSSS, true, 22000000, 5500000, .WIFI_CODE_RATE_UNDEFINED, 4⟩

def GetDsssRate11Mbps : WifiMode :=
  ⟨"DsssRate11Mbps", .WIFI_MOD_CLASS_DSSS, true, 22000000, 11000000, .WIFI_CODE_RATE_UNDEFINED, 4⟩

def GetErpOfdmRate6Mbps : WifiMode :=
  ⟨"ErpOfdmRate6Mbps", .WIFI_MOD_CLASS_ERP_OFDM, true, 20000000, 6000000, .WIFI_CODE_RATE_1_2, 2⟩

def GetErpOfdmRate9Mbps : WifiMode :=
  ⟨"ErpOfdmRate9Mbps", .WIFI_MOD_CLASS_ERP_OFDM, false, 20000000, 9000000, .WIFI_CODE_RATE_3_4, 2⟩

def GetErpOfdmRate12Mbps : WifiMode :=
  ⟨"ErpOfdmRate12Mbps", .WIFI_MOD_CLASS_ERP_OFDM, true, 20000000, 12000000, .WIFI_CODE_RATE_1_2, 4⟩

def GetErpOfdmRate18Mbps : WifiMode :=
  ⟨"ErpOfdmRate18Mbps", .WIFI_MOD_CLASS_ERP_OFDM, false, 20000000, 18000000, .WIFI_CODE_RATE_3_4, 4⟩

def GetErpOfdmRate24Mbps : WifiMode :=
  ⟨"ErpOfdmRate24Mbps", .WIFI_MOD_CLASS_ERP_OFDM, true, 20000000, 24000000, .WIFI_CODE_RATE_1_2, 16⟩

def GetErpOfdmRate36Mbps : WifiMode :=
  ⟨"ErpOfdmRate36Mbps", .WIFI_MOD_CLASS_ERP_OFDM, false, 20000000, 36000000, .WIFI_CODE_RATE_3_4, 16⟩

def GetErpOfdmRate48Mbps : WifiMode :=
  ⟨"ErpOfdmRate48Mbps", .WIFI_MOD_CLASS_ERP_OFDM, false, 20000000, 48000000, .WIFI_CODE_RATE_2_3, 64⟩

def GetErpOfdmRate54Mbps : WifiMode :=
  ⟨"ErpOfdmRate54Mbps", .WIFI_MOD_CLASS_ERP_OFDM, false, 20000000, 54000000, .WIFI_CODE_RATE_3_4, 64⟩

def GetOfdmRate6Mbps : WifiMode :=
  ⟨"OfdmRate6Mbps", .WIFI_MOD_CLASS_OFDM, true, 20000000, 6000000, .WIFI_CODE_RATE_1_2, 2⟩

def GetOfdmRate9Mbps : WifiMode :=
  ⟨"OfdmRate9Mbps", .WIFI_MOD_CLASS_OFDM, false, 20000000, 9000000, .WIFI_CODE_RATE_3_4, 2⟩

def GetOfdmRate12Mbps : WifiMode :=
  ⟨"OfdmRate12Mbps", .WIFI_MOD_CLASS_OFDM, true, 20000000, 12000000, .WIFI_CODE_RATE_1_2, 4⟩

def GetOfdmRate18Mbps : WifiMode :=
  ⟨"OfdmRate18Mbps", .WIFI_MOD_CLASS_OFDM, false, 20000000, 18000000, .WIFI_CODE_RATE_3_4, 4⟩

def GetOfdmRate24Mbps : WifiMode :=
  ⟨"OfdmRate24Mbps", .WIFI_MOD_CLASS_OFDM, true, 20000000, 24000000, .WIFI_CODE_RATE_1_2, 16⟩

def GetOfdmRate36Mbps : WifiMode :=
  ⟨"OfdmRate36Mbps", .WIFI_MOD_CLASS_OFDM, false, 20000000, 36000000, .WIFI_CODE_RATE_3_4, 16⟩

def GetOfdmRate48Mbps : WifiMode :=
  ⟨"OfdmRate48Mbps", .WIFI_MOD_CLASS_OFDM, false, 20000000, 48000000, .WIFI_CODE_RATE_2_3, 64⟩

def GetOfdmRate54Mbps : WifiMode :=
  ⟨"OfdmRate54Mbps", .WIFI_MOD_CLASS_OFDM, false, 20000000, 54000000, .WIFI_CODE_RATE_3_4, 64⟩

def GetOfdmRate3MbpsBW10MHz : WifiMode :=
  ⟨"OfdmRate3MbpsBW10MHz", .WIFI_MOD_CLASS_OFDM, true, 10000000, 3000000, .WIFI_CODE_RATE_1_2, 2⟩

def GetOfdmRate4_5MbpsBW10MHz : WifiMode :=
  ⟨"OfdmRate4_5MbpsBW10MHz", .WIFI_MOD_CLASS_OFDM, false, 10000000, 4500000, .WIFI_CODE_RATE_3_4, 2⟩

def GetOfdmRate6MbpsBW10MHz : WifiMode :=
  ⟨"OfdmRate6MbpsBW10MHz", .WIFI_MOD_CLASS_OFDM, true, 10000000, 6000000, .WIFI_CODE_RATE_1_2, 4⟩

def GetOfdmRate9MbpsBW10MHz : WifiMode :=
  ⟨"OfdmRate9MbpsBW10MHz", .WIFI_MOD_CLASS_OFDM, false, 10000000, 9000000, .WIFI_CODE_RATE_3_4, 4⟩

def GetOfdmRate12MbpsBW10MHz : WifiMode :=
  ⟨"OfdmRate12MbpsBW10MHz", .WIFI_MOD_CLASS_OFDM, true, 10000000, 12000000, .WIFI_CODE_RATE_1_2, 16⟩

def GetOfdmRate18MbpsBW10MHz : WifiMode :=
  ⟨"OfdmRate18MbpsBW10MHz", .WIFI_MOD_CLASS_OFDM, false, 10000000, 18000000, .WIFI_CODE_RATE_3_4, 16⟩

def GetOfdmRate24MbpsBW10MHz : WifiMode :=
  ⟨"OfdmRate24MbpsBW10MHz", .WIFI_MOD_CLASS_OFDM, false, 10000000, 24000000, .WIFI_CODE_RATE_2_3, 64⟩

def GetOfdmRate27MbpsBW10MHz : WifiMode :=
  ⟨"OfdmRate27MbpsBW10MHz", .WIFI_MOD_CLASS_OFDM, false, 10000000, 27000000, .WIFI_CODE_RATE_3_4, 64⟩

def GetOfdmRate1_5MbpsBW5MHz : WifiMode :=
  ⟨"OfdmRate1_5MbpsBW5MHz", .WIFI_MOD_CLASS_OFDM, true, 5000000, 1500000, .WIFI_CODE_RATE_1_2, 2⟩

def GetOfdmRate2_25MbpsBW5MHz : WifiMode :=
  ⟨"OfdmRate2_25MbpsBW5MHz", .WIFI_MOD_CLASS_OFDM, false, 5000000, 2250000, .WIFI_CODE_RATE_3_4, 2⟩

def GetOfdmRate3MbpsBW5MHz : WifiMode :=
  ⟨"OfdmRate3MbpsBW5MHz", .WIFI_MOD_CLASS_OFDM, true, 5000000, 3000000, .WIFI_CODE_RATE_1_2, 4⟩

def GetOfdmRate4_5MbpsBW5MHz : WifiMode :=
  ⟨"OfdmRate4_5MbpsBW5MHz", .WIFI_MOD_CLASS_OFDM, false, 5000000, 4500000, .WIFI_CODE_RATE_3_4, 4⟩

def GetOfdmRate6MbpsBW5MHz : WifiMode :=
  ⟨"OfdmRate6MbpsBW5MHz", .WIFI_MOD_CLASS_OFDM, true, 5000000, 6000000, .WIFI_CODE_RATE_1_2, 16⟩

def GetOfdmRate9MbpsBW5MHz : WifiMode :=
  ⟨"OfdmRate9MbpsBW5MHz", .WIFI_MOD_CLASS_OFDM, false, 5000000, 9000000, .WIFI_CODE_RATE_3_4, 16⟩

def GetOfdmRate12MbpsBW5MHz : WifiMode :=
  ⟨"OfdmRate12MbpsBW5MHz", .WIFI_MOD_CLASS_OFDM, false, 5000000, 12000000, .WIFI_CODE_RATE_2_3, 64⟩

def GetOfdmRate13_5MbpsBW5MHz : WifiMode :=
  ⟨"OfdmRate13_5MbpsBW5MHz", .WIFI_MOD_CLASS_OFDM, false, 5000000, 13500000, .WIFI_CODE_RATE_3_4, 64⟩

def GetOfdmRate6_5MbpsBW20MHz : WifiMode :=
  ⟨"OfdmRate6_5MbpsBW20MHz", .WIFI_MOD_CLASS_HT, true, 20000000, 6500000, .WIFI_CODE_RATE_1_2, 2⟩

def GetOfdmRate7_2MbpsBW20MHz : WifiMode :=
  ⟨"OfdmRate7_2MbpsBW20MHz", .WIFI_MOD_CLASS_HT, false, 20000000, 7200000, .WIFI_CODE_RATE_1_2, 2⟩

def GetOfdmRate13MbpsBW20MHz : WifiMode :=
  ⟨"OfdmRate13MbpsBW20MHz", .WIFI_MOD_CLASS_HT, true, 20000000, 13000000, .WIFI_CODE_RATE_1_2, 4⟩

def GetOfdmRate14_4MbpsBW20MHz : WifiMode :=
  ⟨"OfdmRate14_4MbpsBW20MHz", .WIFI_MOD_CLASS_HT, false, 20000000, 14400000, .WIFI_CODE_RATE_1_2, 4⟩

def GetOfdmRate19_5MbpsBW20MHz : WifiMode :=
  ⟨"OfdmRate19_5MbpsBW20MHz", .WIFI_MOD_CLASS_HT, true, 20000000, 19500000, .WIFI_CODE_RATE_3_4, 4⟩

def GetOfdmRate21_7MbpsBW20MHz : WifiMode :=
  ⟨"OfdmRate21_7MbpsBW20MHz", .WIFI_MOD_CLASS_HT, false, 20000000, 21700000, .WIFI_CODE_RATE_3_4, 4⟩

def GetOfdmRate26MbpsBW20MHz : WifiMode :=
  ⟨"OfdmRate26MbpsBW20MHz", .WIFI_MOD_CLASS_HT, true, 20000000, 26000000, .WIFI_CODE_RATE_1_2, 16⟩

def GetOfdmRate28_9MbpsBW20MHz : WifiMode :=
  ⟨"OfdmRate28_9MbpsBW20MHz", .WIFI_MOD_CLASS_HT, false, 20000000, 28900000, .WIFI_CODE_RATE_1_2, 16⟩

def GetOfdmRate39MbpsBW20MHz : WifiMode :=
  ⟨"OfdmRate39MbpsBW20MHz", .WIFI_MOD_CLASS_HT, true, 20000000, 39000000, .WIFI_CODE_RATE_3_4, 16⟩

def GetOfdmRate43_3MbpsBW20MHz : WifiMode :=
  ⟨"OfdmRate43_3MbpsBW20MHz", .WIFI_MOD_CLASS_HT, false, 20000000, 43300000, .WIFI_CODE_RATE_3_4, 16⟩

def GetOfdmRate52MbpsBW20MHz : WifiMode :=
  ⟨"OfdmRate52MbpsBW20MHz", .WIFI_MOD_CLASS_HT, true, 20000000, 52000000, .WIFI_CODE_RATE_2_3, 64⟩

def GetOfdmRate57_8MbpsBW20MHz : WifiMode :=
  ⟨"OfdmRate57_8MbpsBW20MHz", .WIFI_MOD_CLASS_HT, false, 20000000, 57800000, .WIFI_CODE_RATE_2_3, 64⟩

def GetOfdmRate58_5MbpsBW20MHz : WifiMode :=
  ⟨"OfdmRate58_5MbpsBW20MHz", .WIFI_MOD_CLASS_HT, true, 20000000, 58500000, .WIFI_CODE_RATE_3_4, 64⟩

def GetOfdmRate65MbpsBW20MHzShGi : WifiMode :=
  ⟨"OfdmRate65MbpsBW20MHzShGi", .WIFI_MOD_CLASS_HT, false, 20000000, 65000000, .WIFI_CODE_RATE_3_4, 64⟩

def GetOfdmRate65MbpsBW20MHz : WifiMode :=
  ⟨"OfdmRate65MbpsBW20MHz", .WIFI_MOD_CLASS_HT, true, 20000000, 65000000, .WIFI_CODE_RATE_5_6, 64⟩

def GetOfdmRate72_2MbpsBW20MHz : WifiMode :=
  ⟨"OfdmRate72_2MbpsBW20MHz", .WIFI_MOD_CLASS_HT, false, 20000000, 72200000, .WIFI_CODE_RATE_5_6, 64⟩

def GetOfdmRate13_5MbpsBW40MHz : WifiMode :=
  ⟨"OfdmRate13_5MbpsBW40MHz", .WIFI_MOD_CLASS_HT, false, 40000000, 13500000, .WIFI_CODE_RATE_1_2, 2⟩

def GetOfdmRate15MbpsBW40MHz : WifiMode :=
  ⟨"OfdmRate15MbpsBW40MHz", .WIFI_MOD_CLASS_HT, false, 40000000, 15000000, .WIFI_CODE_RATE_1_2, 2⟩

def GetOfdmRate27MbpsBW40MHz : WifiMode :=
  ⟨"OfdmRate27MbpsBW40MHz", .WIFI_MOD_CLASS_HT, false, 40000000, 27000000, .WIFI_CODE_RATE_1_2, 4⟩

def GetOfdmRate30MbpsBW40MHz : WifiMode :=
  ⟨"OfdmRate30MbpsBW40MHz", .WIFI_MOD_CLASS_HT, false, 40000000, 30000000, .WIFI_CODE_RATE_1_2, 4⟩

def GetOfdmRate40_5MbpsBW40MHz : WifiMode :=
  ⟨"OfdmRate40_5MbpsBW40MHz", .WIFI_MOD_CLASS_HT, false, 40000000, 40500000, .WIFI_CODE_RATE_3_4, 4⟩

def GetOfdmRate45MbpsBW40MHz : WifiMode :=
  ⟨"OfdmRate45MbpsBW40MHz", .WIFI_MOD_CLASS_HT, false, 40000000, 45000000, .WIFI_CODE_RATE_3_4, 4⟩

def GetOfdmRate54MbpsBW40MHz : WifiMode :=
  ⟨"OfdmRate54MbpsBW40MHz", .WIFI_MOD_CLASS_HT, false, 40000000, 54000000, .WIFI_CODE_RATE_1_2, 16⟩

def GetOfdmRate60MbpsBW40MHz : WifiMode :=
  ⟨"OfdmRate60MbpsBW40MHz", .WIFI_MOD_CLASS_HT, false, 40000000, 60000000, .WIFI_CODE_RATE_1_2, 16⟩

def GetOfdmRate81MbpsBW40MHz : WifiMode :=
  ⟨"OfdmRate81MbpsBW40MHz", .WIFI_MOD_CLASS_HT, false, 40000000, 81000000, .WIFI_CODE_RATE_3_4, 16⟩

def GetOfdmRate90MbpsBW40MHz : WifiMode :=
  ⟨"OfdmRate90MbpsBW40MHz", .WIFI_MOD_CLASS_HT, false, 40000000, 90000000, .WIFI_CODE_RATE_3_4, 16⟩

def GetOfdmRate108MbpsBW40MHz : WifiMode :=
  ⟨"OfdmRate108MbpsBW40MHz", .WIFI_MOD_CLASS_HT, false, 40000000, 108000000, .WIFI_CODE_RATE_2_3, 64⟩

def GetOfdmRate120MbpsBW40MHz : WifiMode :=
  ⟨"OfdmRate120MbpsBW40MHz", .WIFI_MOD_CLASS_HT, false, 40000000, 120000000, .WIFI_CODE_RATE_2_3, 64⟩

def GetOfdmRate121_5MbpsBW40MHz : WifiMode :=
  ⟨"OfdmRate121_5MbpsBW40MHz", .WIFI_MOD_CLASS_HT, false, 40000000, 121500000, .WIFI_CODE_RATE_3_4, 64⟩

def GetOfdmRate135MbpsBW40MHzShGi : WifiMode :=
  ⟨"OfdmRate135MbpsBW40MHzShGi", .WIFI_MOD_CLASS_HT, false, 40000000, 135000000, .WIFI_CODE_RATE_3_4, 64⟩

def GetOfdmRate135MbpsBW40MHz : WifiMode :=
  ⟨"OfdmRate135MbpsBW40MHz", .WIFI_MOD_CLASS_HT, false, 40000000, 135000000, .WIFI_CODE_RATE_5_6, 64⟩

def GetOfdmRate150MbpsBW40MHz : WifiMode :=
  ⟨"OfdmRate150MbpsBW40MHz", .WIFI_MOD_CLASS_HT, false, 40000000, 150000000, .WIFI_CODE_RATE_5_6, 64⟩

def GetOfdmRate300KbpsBW1MHz : WifiMode :=
  ⟨"OfdmRate300KbpsBW1MHz", .WIFI_MOD_CLASS_S1G, true, 1000000, 300000, .WIFI_CODE_RATE_1_2, 2⟩

def GetOfdmRate333_3KbpsBW1MHz : WifiMode :=
  ⟨"OfdmRate333_3KbpsBW1MHz", .WIFI_MOD_CLASS_S1G, true, 1000000, 333300, .WIFI_CODE_RATE_1_2, 2⟩

def GetOfdmRate600KbpsBW1MHz : WifiMode :=
  ⟨"OfdmRate600KbpsBW1MHz", .WIFI_MOD_CLASS_S1G, true, 1000000, 600000, .WIFI_CODE_RATE_1_2, 4⟩

def GetOfdmRate666_7KbpsBW1MHz : WifiMode :=
  ⟨"OfdmRate666_7KbpsBW1MHz", .WIFI_MOD_CLASS_S1G, true, 1000000, 666700, .WIFI_CODE_RATE_1_2, 4⟩

def GetOfdmRate900KbpsBW1MHz : WifiMode :=
  ⟨"OfdmRate900KbpsBW1MHz", .WIFI_MOD_CLASS_S1G, true, 1000000, 900000, .WIFI_CODE_RATE_3_4, 4⟩

def GetOfdmRate1MbpsBW1MHz : WifiMode :=
  ⟨"OfdmRate1MbpsBW1MHz", .WIFI_MOD_CLASS_S1G, true, 1000000, 1000000, .WIFI_CODE_RATE_3_4, 4⟩

def GetOfdmRate1_2MbpsBW1MHz : WifiMode :=
  ⟨"OfdmRate1_2MbpsBW1MHz", .WIFI_MOD_CLASS_S1G, true, 1000000, 1200000, .WIFI_CODE_RATE_1_2, 16⟩

def GetOfdmRate1_333_3MbpsBW1MHz : WifiMode :=
  ⟨"OfdmRate1_333_3MbpsBW1MHz", .WIFI_MOD_CLASS_S1G, true, 1000000, 1333300, .WIFI_CODE_RATE_1_2, 16⟩

def GetOfdmRate1_8MbpsBW1MHz : WifiMode :=
  ⟨"OfdmRate1_8MbpsBW1MHz", .WIFI_MOD_CLASS_S1G, true, 1000000, 1800000, .WIFI_CODE_RATE_3_4, 16⟩

def GetOfdmRate2MbpsBW1MHz : WifiMode :=
  ⟨"OfdmRate2MbpsBW1MHz", .WIFI_MOD_CLASS_S1G, true, 1000000, 2000000, .WIFI_CODE_RATE_3_4, 16⟩

def GetOfdmRate2_4MbpsBW1MHz : WifiMode :=
  ⟨"OfdmRate2_4MbpsBW1MHz", .WIFI_MOD_CLASS_S1G, true, 1000000, 2400000, .WIFI_CODE_RATE_2_3, 16⟩

def GetOfdmRate2_666_7MbpsBW1MHz : WifiMode :=
  ⟨"OfdmRate2_666_7MbpsBW1MHz", .WIFI_MOD_CLASS_S1G, true, 1000000, 2666700, .WIFI_CODE_RATE_2_3, 16⟩

def GetOfdmRate2_7MbpsBW1MHz : WifiMode :=
  ⟨"OfdmRate2_7MbpsBW1MHz", .WIFI_MOD_CLASS_S1G, true, 1000000, 2700000, .WIFI_CODE_RATE_3_4, 16⟩

def GetOfdmRate3MbpsBW1MHzShGi : WifiMode :=
  ⟨"OfdmRate3MbpsBW1MHzShGi", .WIFI_MOD_CLASS_S1G, true, 1000000, 3000000, .WIFI_CODE_RATE_3_4, 16⟩

def GetOfdmRate3MbpsBW1MHz : WifiMode :=
  ⟨"OfdmRate3MbpsBW1MHz", .WIFI_MOD_CLASS_S1G, true, 1000000, 3000000, .WIFI_CODE_RATE_5_6, 16⟩

def GetOfdmRate3_333_3MbpsBW1MHz : WifiMode :=
  ⟨"OfdmRate3_333_3MbpsBW1MHz", .WIFI_MOD_CLASS_S1G, true, 1000000, 3333300, .WIFI_CODE_RATE_5_6, 16⟩

def GetOfdmRate3_6MbpsBW1MHz : WifiMode :=
  ⟨"OfdmRate3_6MbpsBW1MHz", .WIFI_MOD_CLASS_S1G, false, 1000000, 3600000, .WIFI_CODE_RATE_3_4, 256⟩

def GetOfdmRate4MbpsBW1MHzShGi : WifiMode :=
  ⟨"OfdmRate4MbpsBW1MHzShGi", .WIFI_MOD_CLASS_S1G, false, 1000000, 4000000, .WIFI_CODE_RATE_3_4, 256⟩

def GetOfdmRate4MbpsBW1MHz : WifiMode :=
  ⟨"OfdmRate4MbpsBW1MHz", .WIFI_MOD_CLASS_S1G, false, 1000000, 4000000, .WIFI_CODE_RATE_5_6, 256⟩

def GetOfdmRate4_444_4MbpsBW1MHz : WifiMode :=
  ⟨"OfdmRate4_444_4MbpsBW1MHz", .WIFI_MOD_CLASS_S1G, false, 1000000, 4444400, .WIFI_CODE_RATE_5_6, 256⟩

def GetOfdmRate150KbpsBW1MHz : WifiMode :=
  ⟨"OfdmRate150KbpsBW1MHz", .WIFI_MOD_CLASS_S1G, true, 1000000, 150000, .WIFI_CODE_RATE_1_2, 2⟩

def GetOfdmRate166_7KbpsBW1MHz : WifiMode :=
  ⟨"OfdmRate166_7KbpsBW1MHz", .WIFI_MOD_CLASS_S1G, true, 1000000, 166700, .WIFI_CODE_RATE_1_2, 2⟩

def GetOfdmRate650KbpsBW2MHz : WifiMode :=
  ⟨"OfdmRate650KbpsBW2MHz", .WIFI_MOD_CLASS_S1G, true, 2000000, 650000, .WIFI_CODE_RATE_1_2, 2⟩

def GetOfdmRate722_2KbpsBW2MHz : WifiMode :=
  ⟨"OfdmRate722_2KbpsBW2MHz", .WIFI_MOD_CLASS_S1G, true, 2000000, 722200, .WIFI_CODE_RATE_1_2, 2⟩

def GetOfdmRate1_3MbpsBW2MHz : WifiMode :=
  ⟨"OfdmRate1_3MbpsBW2MHz", .WIFI_MOD_CLASS_S1G, true, 2000000, 1300000, .WIFI_CODE_RATE_1_2, 4⟩

def GetOfdmRate1_444_4MbpsBW2MHz : WifiMode :=
  ⟨"OfdmRate1_444_4MbpsBW2MHz", .WIFI_MOD_CLASS_S1G, true, 2000000, 1444400, .WIFI_CODE_RATE_1_2, 4⟩

def GetOfdmRate1_95MbpsBW2MHz : WifiMode :=
  ⟨"OfdmRate1_95MbpsBW2MHz", .WIFI_MOD_CLASS_S1G, true, 2000000, 1950000, .WIFI_CODE_RATE_3_4, 4⟩

def GetOfdmRate2_166_7MbpsBW2MHz : WifiMode :=
  ⟨"OfdmRate2_166_7MbpsBW2MHz", .WIFI_MOD_CLASS_S1G, true, 2000000, 2166700, .WIFI_CODE_RATE_3_4, 4⟩

def GetOfdmRate2_6MbpsBW2MHz : WifiMode :=
  ⟨"OfdmRate2_6MbpsBW2MHz", .WIFI_MOD_CLASS_S1G, true, 2000000, 2600000, .WIFI_CODE_RATE_1_2, 16⟩

def GetOfdmRate2_8889MbpsBW2MHz : WifiMode :=
  ⟨"OfdmRate2_8889MbpsBW2MHz", .WIFI_MOD_CLASS_S1G, true, 2000000, 2888900, .WIFI_CODE_RATE_1_2, 16⟩

def GetOfdmRate3_9MbpsBW2MHz : WifiMode :=
  ⟨"OfdmRate3_9MbpsBW2MHz", .WIFI_MOD_CLASS_S1G, true, 2000000, 3900000, .WIFI_CODE_RATE_3_4, 16⟩

def GetOfdmRate4_333_3MbpsBW2MHz : WifiMode :=
  ⟨"OfdmRate4_333_3MbpsBW2MHz", .WIFI_MOD_CLASS_S1G, true, 2000000, 4333300, .WIFI_CODE_RATE_3_4, 16⟩

def GetOfdmRate5_2MbpsBW2MHz : WifiMode :=
  ⟨"OfdmRate5_2MbpsBW2MHz", .WIFI_MOD_CLASS_S1G, true, 2000000, 5200000, .WIFI_CODE_RATE_2_3, 64⟩

def GetOfdmRate5_777_8MbpsBW2MHz : WifiMode :=
  ⟨"OfdmRate5_777_8MbpsBW2MHz", .WIFI_MOD_CLASS_S1G, true, 2000000, 5777800, .WIFI_CODE_RATE_2_3, 64⟩

def GetOfdmRate5_85MbpsBW2MHz : WifiMode :=
  ⟨"OfdmRate5_85MbpsBW2MHz", .WIFI_MOD_CLASS_S1G, true, 2000000, 5850000, .WIFI_CODE_RATE_3_4, 64⟩

def GetOfdmRate6_5MbpsBW2MHzShGi : WifiMode :=
  ⟨"OfdmRate6_5MbpsBW2MHzShGi", .WIFI_MOD_CLASS_S1G, true, 2000000, 6500000, .WIFI_CODE_RATE_3_4, 64⟩

def GetOfdmRate6_5MbpsBW2MHz : WifiMode :=
  ⟨"OfdmRate6_5MbpsBW2MHz", .WIFI_MOD_CLASS_S1G, true, 2000000, 6500000, .WIFI_CODE_RATE_5_6, 64⟩

def GetOfdmRate7_222_2MbpsBW2MHz : WifiMode :=
  ⟨"OfdmRate7_222_2MbpsBW2MHz", .WIFI_MOD_CLASS_S1G, true, 2000000, 7222200, .WIFI_CODE_RATE_5_6, 64⟩

def GetOfdmRate7_8MbpsBW2MHz : WifiMode :=
  ⟨"OfdmRate7_8MbpsBW2MHz", .WIFI_MOD_CLASS_S1G, false, 2000000, 7800000, .WIFI_CODE_RATE_3_4, 256⟩

def GetOfdmRate8_666_7MbpsBW2MHz : WifiMode :=
  ⟨"OfdmRate8_666_7MbpsBW2MHz", .WIFI_MOD_CLASS_S1G, false, 2000000, 8666700, .WIFI_CODE_RATE_3_4, 256⟩

def GetOfdmRate1_35MbpsBW4MHz : WifiMode :=
  ⟨"OfdmRate1_35MbpsBW4MHz", .WIFI_MOD_CLASS_S1G, false, 4000000, 1350000, .WIFI_CODE_RATE_1_2, 2⟩

def GetOfdmRate1_5MbpsBW4MHz : WifiMode :=
  ⟨"OfdmRate1_5MbpsBW4MHz", .WIFI_MOD_CLASS_S1G, false, 4000000, 1500000, .WIFI_CODE_RATE_1_2, 2⟩

def GetOfdmRate2_7MbpsBW4MHz : WifiMode :=
  ⟨"OfdmRate2_7MbpsBW4MHz", .WIFI_MOD_CLASS_S1G, false, 4000000, 2700000, .WIFI_CODE_RATE_1_2, 4⟩

def GetOfdmRate3MbpsBW4MHz : WifiMode :=
  ⟨"OfdmRate3MbpsBW4MHz", .WIFI_MOD_CLASS_S1G, false, 4000000, 3000000, .WIFI_CODE_RATE_1_2, 4⟩

def GetOfdmRate4_05MbpsBW4MHz : WifiMode :=
  ⟨"OfdmRate4_05MbpsBW4MHz", .WIFI_MOD_CLASS_S1G, false, 4000000, 4050000, .WIFI_CODE_RATE_3_4, 4⟩

def GetOfdmRate4_5MbpsBW4MHz : WifiMode :=
  ⟨"OfdmRate4_5MbpsBW4MHz", .WIFI_MOD_CLASS_S1G, false, 4000000, 4500000, .WIFI_CODE_RATE_3_4, 4⟩

def GetOfdmRate5_4MbpsBW4MHz : WifiMode :=
  ⟨"OfdmRate5_4MbpsBW4MHz", .WIFI_MOD_CLASS_S1G, false, 4000000, 5400000, .WIFI_CODE_RATE_1_2, 16⟩

def GetOfdmRate6MbpsBW4MHz : WifiMode :=
  ⟨"OfdmRate6MbpsBW4MHz", .WIFI_MOD_CLASS_S1G, false, 4000000, 6000000, .WIFI_CODE_RATE_1_2, 16⟩

def GetOfdmRate8_1MbpsBW4MHz : WifiMode :=
  ⟨"OfdmRate8_1MbpsBW4MHz", .WIFI_MOD_CLASS_S1G, false, 4000000, 8100000, .WIFI_CODE_RATE_3_4, 16⟩

def GetOfdmRate9MbpsBW4MHz : WifiMode :=
  ⟨"OfdmRate9MbpsBW4MHz", .WIFI_MOD_CLASS_S1G, false, 4000000, 9000000, .WIFI_CODE_RATE_3_4, 16⟩

def GetOfdmRate10_8MbpsBW4MHz : WifiMode :=
  ⟨"OfdmRate10_8MbpsBW4MHz", .WIFI_MOD_CLASS_S1G, false, 4000000, 10800000, .WIFI_CODE_RATE_2_3, 64⟩

def GetOfdmRate12MbpsBW4MHz : WifiMode :=
  ⟨"GetOfdmRate12MbpsBW4MHz", .WIFI_MOD_CLASS_S1G, false, 4000000, 12000000, .WIFI_CODE_RATE_2_3, 64⟩

def GetOfdmRate12_15MbpsBW4MHz : WifiMode :=
  ⟨"OfdmRate12_15MbpsBW4MHz", .WIFI_MOD_CLASS_S1G, false, 4000000, 12150000, .WIFI_CODE_RATE_3_4, 64⟩

def GetOfdmRate13_5MbpsBW4MHzShGi : WifiMode :=
  ⟨"OfdmRate13_5MbpsBW4MHzShGi", .WIFI_MOD_CLASS_S1G, false, 4000000, 13500000, .WIFI_CODE_RATE_3_4, 64⟩

def GetOfdmRate13_5MbpsBW4MHz : WifiMode :=
  ⟨"OfdmRate13_5MbpsBW4MHz", .WIFI_MOD_CLASS_S1G, false, 4000000, 13500000, .WIFI_CODE_RATE_5_6, 64⟩

def GetOfdmRate15MbpsBW4MHz : WifiMode :=
  ⟨"OfdmRate15MbpsBW4MHz", .WIFI_MOD_CLASS_S1G, false, 4000000, 15000000, .WIFI_CODE_RATE_5_6, 64⟩

def GetOfdmRate16_2MbpsBW4MHz : WifiMode :=
  ⟨"OfdmRate16_2MbpsBW4MHz", .WIFI_MOD_CLASS_S1G, false, 4000000, 16200000, .WIFI_CODE_RATE_3_4, 256⟩

def GetOfdmRate18MbpsBW4MHzShGi : WifiMode :=
  ⟨"OfdmRate18MbpsBW4MHzShGi", .WIFI_MOD_CLASS_S1G, false, 4000000, 18000000, .WIFI_CODE_RATE_3_4, 256⟩

def GetOfdmRate18MbpsBW4MHz : WifiMode :=
  ⟨"OfdmRate18MbpsBW4MHz", .WIFI_MOD_CLASS_S1G, false, 4000000, 18000000, .WIFI_CODE_RATE_5_6, 256⟩

def GetOfdmRate20MbpsBW4MHz : WifiMode :=
  ⟨"OfdmRate20MbpsBW4MHz", .WIFI_MOD_CLASS_S1G, false, 4000000, 20000000, .WIFI_CODE_RATE_5_6, 256⟩

def GetOfdmRate2_925MbpsBW8MHz : WifiMode :=
  ⟨"OfdmRate2_925MbpsBW8MHz", .WIFI_MOD_CLASS_S1G, false, 8000000, 2925000, .WIFI_CODE_RATE_1_2, 2⟩

def GetOfdmRate3_25MbpsBW8MHz : WifiMode :=
  ⟨"OfdmRate3_25MbpsBW8MHz", .WIFI_MOD_CLASS_S1G, false, 8000000, 3250000, .WIFI_CODE_RATE_1_2, 2⟩

def GetOfdmRate5_85MbpsBW8MHz : WifiMode :=
  ⟨"OfdmRate5_85MbpsBW8MHz", .WIFI_MOD_CLASS_S1G, false, 8000000, 5850000, .WIFI_CODE_RATE_1_2, 4⟩

def GetOfdmRate6_5MbpsBW8MHz : WifiMode :=
  ⟨"GetOfdmRate6_5MbpsBW8MHz", .WIFI_MOD_CLASS_S1G, false, 8000000, 6500000, .WIFI_CODE_RATE_1_2, 4⟩

def GetOfdmRate8_775MbpsBW8MHz : WifiMode :=
  ⟨"OfdmRate8_775MbpsBW8MHz", .WIFI_MOD_CLASS_S1G, false, 8000000, 8775000, .WIFI_CODE_RATE_3_4, 4⟩

def GetOfdmRate9_75MbpsBW8MHz : WifiMode :=
  ⟨"OfdmRate9_75MbpsBW8MHz", .WIFI_MOD_CLASS_S1G, false, 8000000, 9750000, .WIFI_CODE_RATE_3_4, 4⟩

def GetOfdmRate11_7MbpsBW8MHz : WifiMode :=
  ⟨"OfdmRate11_7MbpsBW8MHz", .WIFI_MOD_CLASS_S1G, false, 8000000, 11700000, .WIFI_CODE_RATE_1_2, 16⟩

def GetOfdmRate13MbpsBW8MHz : WifiMode :=
  ⟨"OfdmRate13MbpsBW8MHz", .WIFI_MOD_CLASS_S1G, false, 8000000, 13000000, .WIFI_CODE_RATE_1_2, 16⟩

def GetOfdmRate17_55MbpsBW8MHz : WifiMode :=
  ⟨"OfdmRate17_55MbpsBW8MHz", .WIFI_MOD_CLASS_S1G, false, 8000000, 17550000, .WIFI_CODE_RATE_3_4, 16⟩

def GetOfdmRate19_5MbpsBW8MHz : WifiMode :=
  ⟨"OfdmRate19_5MbpsBW8MHz", .WIFI_MOD_CLASS_S1G, false, 8000000, 19500000, .WIFI_CODE_RATE_3_4, 16⟩

def GetOfdmRate23_4MbpsBW8MHz : WifiMode :=
  ⟨"OfdmRate23_4MbpsBW8MHz", .WIFI_MOD_CLASS_S1G, false, 8000000, 23400000, .WIFI_CODE_RATE_2_3, 64⟩

def GetOfdmRate26MbpsBW8MHz : WifiMode :=
  ⟨"OfdmRate26MbpsBW8MHz", .WIFI_MOD_CLASS_S1G, false, 8000000, 26000000, .WIFI_CODE_RATE_2_3, 64⟩

def GetOfdmRate26_325MbpsBW8MHz : WifiMode :=
  ⟨"OfdmRate26_325MbpsBW8MHz", .WIFI_MOD_CLASS_S1G, false, 8000000, 26325000, .WIFI_CODE_RATE_3_4, 64⟩

def GetOfdmRate29_25MbpsBW8MHzShGi : WifiMode :=
  ⟨"OfdmRate29_25MbpsBW8MHzShGi", .WIFI_MOD_CLASS_S1G, false, 8000000, 29250000, .WIFI_CODE_RATE_3_4, 64⟩

def GetOfdmRate29_25MbpsBW8MHz : WifiMode :=
  ⟨"OfdmRate29_25MbpsBW8MHz", .WIFI_MOD_CLASS_S1G, false, 8000000, 29250000, .WIFI_CODE_RATE_5_6, 64⟩

def GetOfdmRate32_5MbpsBW8MHz : WifiMode :=
  ⟨"OfdmRate32_5MbpsBW8MHz", .WIFI_MOD_CLASS_S1G, false, 8000000, 32500000, .WIFI_CODE_RATE_5_6, 64⟩

def GetOfdmRate35_1MbpsBW8MHz : WifiMode :=
  ⟨"OfdmRate35_1MbpsBW8MHz", .WIFI_MOD_CLASS_S1G, false, 8000000, 35100000, .WIFI_CODE_RATE_3_4, 256⟩

def GetOfdmRate39MbpsBW8MHzShGi : WifiMode :=
  ⟨"OfdmRate39MbpsBW8MHzShGi", .WIFI_MOD_CLASS_S1G, false, 8000000, 39000000, .WIFI_CODE_RATE_3_4, 256⟩

def GetOfdmRate39MbpsBW8MHz : WifiMode :=
  ⟨"OfdmRate39MbpsBW8MHz", .WIFI_MOD_CLASS_S1G, false, 8000000, 39000000, .WIFI_CODE_RATE_5_6, 256⟩

def GetOfdmRate43_333_3MbpsBW8MHz : WifiMode :=
  ⟨"OfdmRate43_333_3MbpsBW8MHz", .WIFI_MOD_CLASS_S1G, false, 8000000, 43333300, .WIFI_CODE_RATE_5_6, 256⟩

def GetOfdmRate5_85MbpsBW16MHz : WifiMode :=
  ⟨"OfdmRate5_85MbpsBW16MHz", .WIFI_MOD_CLASS_S1G, false, 16000000, 5850000, .WIFI_CODE_RATE_1_2, 2⟩

def GetOfdmRate6_5MbpsBW16MHz : WifiMode :=
  ⟨"OfdmRate6_5MbpsBW16MHz", .WIFI_MOD_CLASS_S1G, false, 16000000, 6500000, .WIFI_CODE_RATE_1_2, 2⟩

def GetOfdmRate11_7MbpsBW16MHz : WifiMode :=
  ⟨"OfdmRate11_7MbpsBW16MHz", .WIFI_MOD_CLASS_S1G, false, 16000000, 11700000, .WIFI_CODE_RATE_1_2, 4⟩

def GetOfdmRate13MbpsBW16MHz : WifiMode :=
  ⟨"OfdmRate13MbpsBW16MHz", .WIFI_MOD_CLASS_S1G, false, 16000000, 13000000, .WIFI_CODE_RATE_1_2, 4⟩

def GetOfdmRate17_55MbpsBW16MHz : WifiMode :=
  ⟨"OfdmRate17_55MbpsBW16MHz", .WIFI_MOD_CLASS_S1G, false, 16000000, 17550000, .WIFI_CODE_RATE_3_4, 4⟩

def GetOfdmRate19_5MbpsBW16MHz : WifiMode :=
  ⟨"OfdmRate19_5MbpsBW16MHz", .WIFI_MOD_CLASS_S1G, false, 16000000, 19500000, .WIFI_CODE_RATE_3_4, 4⟩

def GetOfdmRate23_4MbpsBW16MHz : WifiMode :=
  ⟨"OfdmRate23_4MbpsBW16MHz", .WIFI_MOD_CLASS_S1G, false, 16000000, 23400000, .WIFI_CODE_RATE_1_2, 16⟩

def GetOfdmRate26MbpsBW16MHz : WifiMode :=
  ⟨"OfdmRate26MbpsBW16MHz", .WIFI_MOD_CLASS_S1G, false, 16000000, 26000000, .WIFI_CODE_RATE_1_2, 16⟩

def GetOfdmRate35_1MbpsBW16MHz : WifiMode :=
  ⟨"OfdmRate35_1MbpsBW16MHz", .WIFI_MOD_CLASS_S1G, false, 16000000, 35100000, .WIFI_CODE_RATE_3_4, 16⟩

def GetOfdmRate39MbpsBW16MHz : WifiMode :=
  ⟨"OfdmRate39MbpsBW16MHz", .WIFI_MOD_CLASS_S1G, false, 16000000, 39000000, .WIFI_CODE_RATE_3_4, 16⟩

def GetOfdmRate46_8MbpsBW16MHz : WifiMode :=
  ⟨"OfdmRate46_8MbpsBW16MHz", .WIFI_MOD_CLASS_S1G, false, 16000000, 46800000, .WIFI_CODE_RATE_2_3, 64⟩

def GetOfdmRate52MbpsBW16MHz : WifiMode :=
  ⟨"OfdmRate52MbpsBW16MHz", .WIFI_MOD_CLASS_S1G, false, 16000000, 52000000, .WIFI_CODE_RATE_2_3, 64⟩

def GetOfdmRate52_65MbpsBW16MHz : WifiMode :=
  ⟨"OfdmRate52_65MbpsBW16MHz", .WIFI_MOD_CLASS_S1G, false, 16000000, 52650000, .WIFI_CODE_RATE_3_4, 64⟩

def GetOfdmRate58_5MbpsBW16MHzShGi : WifiMode :=
  ⟨"OfdmRate58_5MbpsBW16MHzShGi", .WIFI_MOD_CLASS_S1G, false, 16000000, 58500000, .WIFI_CODE_RATE_3_4, 64⟩

def GetOfdmRate58_5MbpsBW16MHz : WifiMode :=
  ⟨"OfdmRate58_5MbpsBW16MHz", .WIFI_MOD_CLASS_S1G, false, 16000000, 58500000, .WIFI_CODE_RATE_5_6, 64⟩

def GetOfdmRate65MbpsBW16MHz : WifiMode :=
  ⟨"OfdmRate65MbpsBW16MHz", .WIFI_MOD_CLASS_S1G, false, 16000000, 65000000, .WIFI_CODE_RATE_5_6, 64⟩

def GetOfdmRate70_2MbpsBW16MHz : WifiMode :=
  ⟨"OfdmRate70_2MbpsBW16MHz", .WIFI_MOD_CLASS_S1G, false, 16000000, 70200000, .WIFI_CODE_RATE_3_4, 256⟩

def GetOfdmRate78MbpsBW16MHzShGi : WifiMode :=
  ⟨"OfdmRate78MbpsBW16MHzShGi", .WIFI_MOD_CLASS_S1G, false, 16000000, 78000000, .WIFI_CODE_RATE_3_4, 256⟩

def GetOfdmRate78MbpsBW16MHz : WifiMode :=
  ⟨"OfdmRate78MbpsBW16MHz", .WIFI_MOD_CLASS_S1G, false, 16000000, 78000000, .WIFI_CODE_RATE_5_6, 256⟩

def GetOfdmRate86_666_7MbpsBW16MHz : WifiMode :=
  ⟨"OfdmRate86_666_7MbpsBW16MHz", .WIFI_MOD_CLASS_S1G, false, 16000000, 86666700, .WIFI_CODE_RATE_5_6, 256⟩

/-- Every mode registered at start-up: the accessors called by the static `Constructor` at the
end of wifi-phy.cc, in call order. -/
def allModes : List WifiMode :=
  [GetDsssRate1Mbps, GetDsssRate2Mbps, GetDsssRate5_5Mbps, GetDsssRate11Mbps,
   GetErpOfdmRate6Mbps, GetErpOfdmRate9Mbps, GetErpOfdmRate12Mbps, GetErpOfdmRate18Mbps,
   GetErpOfdmRate24Mbps, GetErpOfdmRate36Mbps, GetErpOfdmRate48Mbps, GetErpOfdmRate54Mbps,
   GetOfdmRate6Mbps, GetOfdmRate9Mbps, GetOfdmRate12Mbps, GetOfdmRate18Mbps, GetOfdmRate24Mbps,
   GetOfdmRate36Mbps, GetOfdmRate48Mbps, GetOfdmRate54Mbps, GetOfdmRate3MbpsBW10MHz,
   GetOfdmRate4_5MbpsBW10MHz, GetOfdmRate6MbpsBW10MHz, GetOfdmRate9MbpsBW10MHz,
   GetOfdmRate12MbpsBW10MHz, GetOfdmRate18MbpsBW10MHz, GetOfdmRate24MbpsBW10MHz,
   GetOfdmRate27MbpsBW10MHz, GetOfdmRate1_5MbpsBW5MHz, GetOfdmRate2_25MbpsBW5MHz,
   GetOfdmRate3MbpsBW5MHz, GetOfdmRate4_5MbpsBW5MHz, GetOfdmRate6MbpsBW5MHz,
   GetOfdmRate9MbpsBW5MHz, GetOfdmRate12MbpsBW5MHz, GetOfdmRate13_5MbpsBW5MHz,
   GetOfdmRate6_5MbpsBW20MHz, GetOfdmRate13MbpsBW20MHz, GetOfdmRate19_5MbpsBW20MHz,
   GetOfdmRate26MbpsBW20MHz, GetOfdmRate39MbpsBW20MHz, GetOfdmRate52MbpsBW20MHz,
   GetOfdmRate58_5MbpsBW20MHz, GetOfdmRate65MbpsBW20MHz, GetOfdmRate13_5MbpsBW40MHz,
   GetOfdmRate27MbpsBW40MHz, GetOfdmRate40_5MbpsBW40MHz, GetOfdmRate54MbpsBW40MHz,
   GetOfdmRate81MbpsBW40MHz, GetOfdmRate108MbpsBW40MHz, GetOfdmRate121_5MbpsBW40MHz,
   GetOfdmRate135MbpsBW40MHz, GetOfdmRate7_2MbpsBW20MHz, GetOfdmRate14_4MbpsBW20MHz,
   GetOfdmRate21_7MbpsBW20MHz, GetOfdmRate28_9MbpsBW20MHz, GetOfdmRate43_3MbpsBW20MHz,
   GetOfdmRate57_8MbpsBW20MHz, GetOfdmRate65MbpsBW20MHzShGi, GetOfdmRate72_2MbpsBW20MHz,
   GetOfdmRate15MbpsBW40MHz, GetOfdmRate30MbpsBW40MHz, GetOfdmRate45MbpsBW40MHz,
   GetOfdmRate60MbpsBW40MHz, GetOfdmRate90MbpsBW40MHz, GetOfdmRate120MbpsBW40MHz,
   GetOfdmRate135MbpsBW40MHzShGi, GetOfdmRate150MbpsBW40MHz, GetOfdmRate300KbpsBW1MHz,
   GetOfdmRate333_3KbpsBW1MHz, GetOfdmRate600KbpsBW1MHz, GetOfdmRate666_7KbpsBW1MHz,
   GetOfdmRate900KbpsBW1MHz, GetOfdmRate1MbpsBW1MHz, GetOfdmRate1_2MbpsBW1MHz,
   GetOfdmRate1_333_3MbpsBW1MHz, GetOfdmRate1_8MbpsBW1MHz, GetOfdmRate2MbpsBW1MHz,
   GetOfdmRate2_4MbpsBW1MHz, GetOfdmRate2_666_7MbpsBW1MHz, GetOfdmRate2_7MbpsBW1MHz,
   GetOfdmRate3MbpsBW1MHzShGi, GetOfdmRate3MbpsBW1MHz, GetOfdmRate3_333_3MbpsBW1MHz,
   GetOfdmRate3_6MbpsBW1MHz, GetOfdmRate4MbpsBW1MHzShGi, GetOfdmRate4MbpsBW1MHz,
   GetOfdmRate4_444_4MbpsBW1MHz, GetOfdmRate150KbpsBW1MHz, GetOfdmRate166_7KbpsBW1MHz,
   GetOfdmRate650KbpsBW2MHz, GetOfdmRate722_2KbpsBW2MHz, GetOfdmRate1_3MbpsBW2MHz,
   GetOfdmRate1_444_4MbpsBW2MHz, GetOfdmRate1_95MbpsBW2MHz, GetOfdmRate2_166_7MbpsBW2MHz,
   GetOfdmRate2_6MbpsBW2MHz, GetOfdmRate2_8889MbpsBW2MHz, GetOfdmRate3_9MbpsBW2MHz,
   GetOfdmRate4_333_3MbpsBW2MHz, GetOfdmRate5_2MbpsBW2MHz, GetOfdmRate5_777_8MbpsBW2MHz,
   GetOfdmRate5_85MbpsBW2MHz, GetOfdmRate6_5MbpsBW2MHzShGi, GetOfdmRate6_5MbpsBW2MHz,
   GetOfdmRate7_222_2MbpsBW2MHz, GetOfdmRate7_8MbpsBW2MHz, GetOfdmRate8_666_7MbpsBW2MHz,
   GetOfdmRate1_35MbpsBW4MHz, GetOfdmRate1_5MbpsBW4MHz, GetOfdmRate2_7MbpsBW4MHz,
   GetOfdmRate3MbpsBW4MHz, GetOfdmRate4_05MbpsBW4MHz, GetOfdmRate4_5MbpsBW4MHz,
   GetOfdmRate5_4MbpsBW4MHz, GetOfdmRate6MbpsBW4MHz, GetOfdmRate8_1MbpsBW4MHz,
   GetOfdmRate9MbpsBW4MHz, GetOfdmRate10_8MbpsBW4MHz, GetOfdmRate12MbpsBW4MHz,
   GetOfdmRate12_15MbpsBW4MHz, GetOfdmRate13_5MbpsBW4MHzShGi, GetOfdmRate13_5MbpsBW4MHz,
   GetOfdmRate15MbpsBW4MHz, GetOfdmRate16_2MbpsBW4MHz, GetOfdmRate18MbpsBW4MHzShGi,
   GetOfdmRate18MbpsBW4MHz, GetOfdmRate20MbpsBW4MHz, GetOfdmRate2_925MbpsBW8MHz,
   GetOfdmRate3_25MbpsBW8MHz, GetOfdmRate5_85MbpsBW8MHz, GetOfdmRate6_5MbpsBW8MHz,
   GetOfdmRate8_775MbpsBW8MHz, GetOfdmRate9_75MbpsBW8MHz, GetOfdmRate11_7MbpsBW8MHz,
   GetOfdmRate13MbpsBW8MHz, GetOfdmRate17_55MbpsBW8MHz, GetOfdmRate19_5MbpsBW8MHz,
   GetOfdmRate23_4MbpsBW8MHz, GetOfdmRate26MbpsBW8MHz, GetOfdmRate26_325MbpsBW8MHz,
   GetOfdmRate29_25MbpsBW8MHzShGi, GetOfdmRate29_25MbpsBW8MHz, GetOfdmRate32_5MbpsBW8MHz,
   GetOfdmRate35_1MbpsBW8MHz, GetOfdmRate39MbpsBW8MHzShGi, GetOfdmRate39MbpsBW8MHz,
   GetOfdmRate43_333_3MbpsBW8MHz, GetOfdmRate5_85MbpsBW16MHz, GetOfdmRate6_5MbpsBW16MHz,
   GetOfdmRate11_7MbpsBW16MHz, GetOfdmRate13MbpsBW16MHz, GetOfdmRate17_55MbpsBW16MHz,
   GetOfdmRate19_5MbpsBW16MHz, GetOfdmRate23_4MbpsBW16MHz, GetOfdmRate26MbpsBW16MHz,
   GetOfdmRate35_1MbpsBW16MHz, GetOfdmRate39MbpsBW16MHz, GetOfdmRate46_8MbpsBW16MHz,
   GetOfdmRate52MbpsBW16MHz, GetOfdmRate52_65MbpsBW16MHz, GetOfdmRate58_5MbpsBW16MHzShGi,
   GetOfdmRate58_5MbpsBW16MHz, GetOfdmRate65MbpsBW16MHz, GetOfdmRate70_2MbpsBW16MHz,
   GetOfdmRate78MbpsBW16MHzShGi, GetOfdmRate78MbpsBW16MHz, GetOfdmRate86_666_7MbpsBW16MHz]

/-- The mode accessors `WifiPhy::GetX` that `wifi-phy.h` declares and `wifi-phy.cc` defines,
each by its name with the mode it creates, in the order of the calls of the static
constructor. -/
def modeAccessors : List (String × WifiMode) :=
  [("GetDsssRate1Mbps", GetDsssRate1Mbps), ("GetDsssRate2Mbps", GetDsssRate2Mbps),
   ("GetDsssRate5_5Mbps", GetDsssRate5_5Mbps), ("GetDsssRate11Mbps", GetDsssRate11Mbps),
   ("GetErpOfdmRate6Mbps", GetErpOfdmRate6Mbps), ("GetErpOfdmRate9Mbps", GetErpOfdmRate9Mbps),
   ("GetErpOfdmRate12Mbps", GetErpOfdmRate12Mbps),
   ("GetErpOfdmRate18Mbps", GetErpOfdmRate18Mbps),
   ("GetErpOfdmRate24Mbps", GetErpOfdmRate24Mbps),
   ("GetErpOfdmRate36Mbps", GetErpOfdmRate36Mbps),
   ("GetErpOfdmRate48Mbps", GetErpOfdmRate48Mbps),
   ("GetErpOfdmRate54Mbps", GetErpOfdmRate54Mbps), ("GetOfdmRate6Mbps", GetOfdmRate6Mbps),
   ("GetOfdmRate9Mbps", GetOfdmRate9Mbps), ("GetOfdmRate12Mbps", GetOfdmRate12Mbps),
   ("GetOfdmRate18Mbps", GetOfdmRate18Mbps), ("GetOfdmRate24Mbps", GetOfdmRate24Mbps),
   ("GetOfdmRate36Mbps", GetOfdmRate36Mbps), ("GetOfdmRate48Mbps", GetOfdmRate48Mbps),
   ("GetOfdmRate54Mbps", GetOfdmRate54Mbps),
   ("GetOfdmRate3MbpsBW10MHz", GetOfdmRate3MbpsBW10MHz),
   ("GetOfdmRate4_5MbpsBW10MHz", GetOfdmRate4_5MbpsBW10MHz),
   ("GetOfdmRate6MbpsBW10MHz", GetOfdmRate6MbpsBW10MHz),
   ("GetOfdmRate9MbpsBW10MHz", GetOfdmRate9MbpsBW10MHz),
   ("GetOfdmRate12MbpsBW10MHz", GetOfdmRate12MbpsBW10MHz),
   ("GetOfdmRate18MbpsBW10MHz", GetOfdmRate18MbpsBW10MHz),
   ("GetOfdmRate24MbpsBW10MHz", GetOfdmRate24MbpsBW10MHz),
   ("GetOfdmRate27MbpsBW10MHz", GetOfdmRate27MbpsBW10MHz),
   ("GetOfdmRate1_5MbpsBW5MHz", GetOfdmRate1_5MbpsBW5MHz),
   ("GetOfdmRate2_25MbpsBW5MHz", GetOfdmRate2_25MbpsBW5MHz),
   ("GetOfdmRate3MbpsBW5MHz", GetOfdmRate3MbpsBW5MHz),
   ("GetOfdmRate4_5MbpsBW5MHz", GetOfdmRate4_5MbpsBW5MHz),
   ("GetOfdmRate6MbpsBW5MHz", GetOfdmRate6MbpsBW5MHz),
   ("GetOfdmRate9MbpsBW5MHz", GetOfdmRate9MbpsBW5MHz),
   ("GetOfdmRate12MbpsBW5MHz", GetOfdmRate12MbpsBW5MHz),
   ("GetOfdmRate13_5MbpsBW5MHz", GetOfdmRate13_5MbpsBW5MHz),
   ("GetOfdmRate6_5MbpsBW20MHz", GetOfdmRate6_5MbpsBW20MHz),
   ("GetOfdmRate13MbpsBW20MHz", GetOfdmRate13MbpsBW20MHz),
   ("GetOfdmRate19_5MbpsBW20MHz", GetOfdmRate19_5MbpsBW20MHz),
   ("GetOfdmRate26MbpsBW20MHz", GetOfdmRate26MbpsBW20MHz),
   ("GetOfdmRate39MbpsBW20MHz", GetOfdmRate39MbpsBW20MHz),
   ("GetOfdmRate52MbpsBW20MHz", GetOfdmRate52MbpsBW20MHz),
   ("GetOfdmRate58_5MbpsBW20MHz", GetOfdmRate58_5MbpsBW20MHz),
   ("GetOfdmRate65MbpsBW20MHz", GetOfdmRate65MbpsBW20MHz),
   ("GetOfdmRate13_5MbpsBW40MHz", GetOfdmRate13_5MbpsBW40MHz),
   ("GetOfdmRate27MbpsBW40MHz", GetOfdmRate27MbpsBW40MHz),
   ("GetOfdmRate40_5MbpsBW40MHz", GetOfdmRate40_5MbpsBW40MHz),
   ("GetOfdmRate54MbpsBW40MHz", GetOfdmRate54MbpsBW40MHz),
   ("GetOfdmRate81MbpsBW40MHz", GetOfdmRate81MbpsBW40MHz),
   ("GetOfdmRate108MbpsBW40MHz", GetOfdmRate108MbpsBW40MHz),
   ("GetOfdmRate121_5MbpsBW40MHz", GetOfdmRate121_5MbpsBW40MHz),
   ("GetOfdmRate135MbpsBW40MHz", GetOfdmRate135MbpsBW40MHz),
   ("GetOfdmRate7_2MbpsBW20MHz", GetOfdmRate7_2MbpsBW20MHz),
   ("GetOfdmRate14_4MbpsBW20MHz", GetOfdmRate14_4MbpsBW20MHz),
   ("GetOfdmRate21_7MbpsBW20MHz", GetOfdmRate21_7MbpsBW20MHz),
   ("GetOfdmRate28_9MbpsBW20MHz", GetOfdmRate28_9MbpsBW20MHz),
   ("GetOfdmRate43_3MbpsBW20MHz", GetOfdmRate43_3MbpsBW20MHz),
   ("GetOfdmRate57_8MbpsBW20MHz", GetOfdmRate57_8MbpsBW20MHz),
   ("GetOfdmRate65MbpsBW20MHzShGi", GetOfdmRate65MbpsBW20MHzShGi),
   ("GetOfdmRate72_2MbpsBW20MHz", GetOfdmRate72_2MbpsBW20MHz),
   ("GetOfdmRate15MbpsBW40MHz", GetOfdmRate15MbpsBW40MHz),
   ("GetOfdmRate30MbpsBW40MHz", GetOfdmRate30MbpsBW40MHz),
   ("GetOfdmRate45MbpsBW40MHz", GetOfdmRate45MbpsBW40MHz),
   ("GetOfdmRate60MbpsBW40MHz", GetOfdmRate60MbpsBW40MHz),
   ("GetOfdmRate90MbpsBW40MHz", GetOfdmRate90MbpsBW40MHz),
   ("GetOfdmRate120MbpsBW40MHz", GetOfdmRate120MbpsBW40MHz),
   ("GetOfdmRate135MbpsBW40MHzShGi", GetOfdmRate135MbpsBW40MHzShGi),
   ("GetOfdmRate150MbpsBW40MHz", GetOfdmRate150MbpsBW40MHz),
   ("GetOfdmRate300KbpsBW1MHz", GetOfdmRate300KbpsBW1MHz),
   ("GetOfdmRate333_3KbpsBW1MHz", GetOfdmRate333_3KbpsBW1MHz),
   ("GetOfdmRate600KbpsBW1MHz", GetOfdmRate600KbpsBW1MHz),
   ("GetOfdmRate666_7KbpsBW1MHz", GetOfdmRate666_7KbpsBW1MHz),
   ("GetOfdmRate900KbpsBW1MHz", GetOfdmRate900KbpsBW1MHz),
   ("GetOfdmRate1MbpsBW1MHz", GetOfdmRate1MbpsBW1MHz),
   ("GetOfdmRate1_2MbpsBW1MHz", GetOfdmRate1_2MbpsBW1MHz),
   ("GetOfdmRate1_333_3MbpsBW1MHz", GetOfdmRate1_333_3MbpsBW1MHz),
   ("GetOfdmRate1_8MbpsBW1MHz", GetOfdmRate1_8MbpsBW1MHz),
   ("GetOfdmRate2MbpsBW1MHz", GetOfdmRate2MbpsBW1MHz),
   ("GetOfdmRate2_4MbpsBW1MHz", GetOfdmRate2_4MbpsBW1MHz),
   ("GetOfdmRate2_666_7MbpsBW1MHz", GetOfdmRate2_666_7MbpsBW1MHz),
   ("GetOfdmRate2_7MbpsBW1MHz", GetOfdmRate2_7MbpsBW1MHz),
   ("GetOfdmRate3MbpsBW1MHzShGi", GetOfdmRate3MbpsBW1MHzShGi),
   ("GetOfdmRate3MbpsBW1MHz", GetOfdmRate3MbpsBW1MHz),
   ("GetOfdmRate3_333_3MbpsBW1MHz", GetOfdmRate3_333_3MbpsBW1MHz),
   ("GetOfdmRate3_6MbpsBW1MHz", GetOfdmRate3_6MbpsBW1MHz),
   ("GetOfdmRate4MbpsBW1MHzShGi", GetOfdmRate4MbpsBW1MHzShGi),
   ("GetOfdmRate4MbpsBW1MHz", GetOfdmRate4MbpsBW1MHz),
   ("GetOfdmRate4_444_4MbpsBW1MHz", GetOfdmRate4_444_4MbpsBW1MHz),
   ("GetOfdmRate150KbpsBW1MHz", GetOfdmRate150KbpsBW1MHz),
   ("GetOfdmRate166_7KbpsBW1MHz", GetOfdmRate166_7KbpsBW1MHz),
   ("GetOfdmRate650KbpsBW2MHz", GetOfdmRate650KbpsBW2MHz),
   ("GetOfdmRate722_2KbpsBW2MHz", GetOfdmRate722_2KbpsBW2MHz),
   ("GetOfdmRate1_3MbpsBW2MHz", GetOfdmRate1_3MbpsBW2MHz),
   ("GetOfdmRate1_444_4MbpsBW2MHz", GetOfdmRate1_444_4MbpsBW2MHz),
   ("GetOfdmRate1_95MbpsBW2MHz", GetOfdmRate1_95MbpsBW2MHz),
   ("GetOfdmRate2_166_7MbpsBW2MHz", GetOfdmRate2_166_7MbpsBW2MHz),
   ("GetOfdmRate2_6MbpsBW2MHz", GetOfdmRate2_6MbpsBW2MHz),
   ("GetOfdmRate2_8889MbpsBW2MHz", GetOfdmRate2_8889MbpsBW2MHz),
   ("GetOfdmRate3_9MbpsBW2MHz", GetOfdmRate3_9MbpsBW2MHz),
   ("GetOfdmRate4_333_3MbpsBW2MHz", GetOfdmRate4_333_3MbpsBW2MHz),
   ("GetOfdmRate5_2MbpsBW2MHz", GetOfdmRate5_2MbpsBW2MHz),
   ("GetOfdmRate5_777_8MbpsBW2MHz", GetOfdmRate5_777_8MbpsBW2MHz),
   ("GetOfdmRate5_85MbpsBW2MHz", GetOfdmRate5_85MbpsBW2MHz),
   ("GetOfdmRate6_5MbpsBW2MHzShGi", GetOfdmRate6_5MbpsBW2MHzShGi),
   ("GetOfdmRate6_5MbpsBW2MHz", GetOfdmRate6_5MbpsBW2MHz),
   ("GetOfdmRate7_222_2MbpsBW2MHz", GetOfdmRate7_222_2MbpsBW2MHz),
   ("GetOfdmRate7_8MbpsBW2MHz", GetOfdmRate7_8MbpsBW2MHz),
   ("GetOfdmRate8_666_7MbpsBW2MHz", GetOfdmRate8_666_7MbpsBW2MHz),
   ("GetOfdmRate1_35MbpsBW4MHz", GetOfdmRate1_35MbpsBW4MHz),
   ("GetOfdmRate1_5MbpsBW4MHz", GetOfdmRate1_5MbpsBW4MHz),
   ("GetOfdmRate2_7MbpsBW4MHz", GetOfdmRate2_7MbpsBW4MHz),
   ("GetOfdmRate3MbpsBW4MHz", GetOfdmRate3MbpsBW4MHz),
   ("GetOfdmRate4_05MbpsBW4MHz", GetOfdmRate4_05MbpsBW4MHz),
   ("GetOfdmRate4_5MbpsBW4MHz", GetOfdmRate4_5MbpsBW4MHz),
   ("GetOfdmRate5_4MbpsBW4MHz", GetOfdmRate5_4MbpsBW4MHz),
   ("GetOfdmRate6MbpsBW4MHz", GetOfdmRate6MbpsBW4MHz),
   ("GetOfdmRate8_1MbpsBW4MHz", GetOfdmRate8_1MbpsBW4MHz),
   ("GetOfdmRate9MbpsBW4MHz", GetOfdmRate9MbpsBW4MHz),
   ("GetOfdmRate10_8MbpsBW4MHz", GetOfdmRate10_8MbpsBW4MHz),
   ("GetOfdmRate12MbpsBW4MHz", GetOfdmRate12MbpsBW4MHz),
   ("GetOfdmRate12_15MbpsBW4MHz", GetOfdmRate12_15MbpsBW4MHz),
   ("GetOfdmRate13_5MbpsBW4MHzShGi", GetOfdmRate13_5MbpsBW4MHzShGi),
   ("GetOfdmRate13_5MbpsBW4MHz", GetOfdmRate13_5MbpsBW4MHz),
   ("GetOfdmRate15MbpsBW4MHz", GetOfdmRate15MbpsBW4MHz),
   ("GetOfdmRate16_2MbpsBW4MHz", GetOfdmRate16_2MbpsBW4MHz),
   ("GetOfdmRate18MbpsBW4MHzShGi", GetOfdmRate18MbpsBW4MHzShGi),
   ("GetOfdmRate18MbpsBW4MHz", GetOfdmRate18MbpsBW4MHz),
   ("GetOfdmRate20MbpsBW4MHz", GetOfdmRate20MbpsBW4MHz),
   ("GetOfdmRate2_925MbpsBW8MHz", GetOfdmRate2_925MbpsBW8MHz),
   ("GetOfdmRate3_25MbpsBW8MHz", GetOfdmRate3_25MbpsBW8MHz),
   ("GetOfdmRate5_85MbpsBW8MHz", GetOfdmRate5_85MbpsBW8MHz),
   ("GetOfdmRate6_5MbpsBW8MHz", GetOfdmRate6_5MbpsBW8MHz),
   ("GetOfdmRate8_775MbpsBW8MHz", GetOfdmRate8_775MbpsBW8MHz),
   ("GetOfdmRate9_75MbpsBW8MHz", GetOfdmRate9_75MbpsBW8MHz),
   ("GetOfdmRate11_7MbpsBW8MHz", GetOfdmRate11_7MbpsBW8MHz),
   ("GetOfdmRate13MbpsBW8MHz", GetOfdmRate13MbpsBW8MHz),
   ("GetOfdmRate17_55MbpsBW8MHz", GetOfdmRate17_55MbpsBW8MHz),
   ("GetOfdmRate19_5MbpsBW8MHz", GetOfdmRate19_5MbpsBW8MHz),
   ("GetOfdmRate23_4MbpsBW8MHz", GetOfdmRate23_4MbpsBW8MHz),
   ("GetOfdmRate26MbpsBW8MHz", GetOfdmRate26MbpsBW8MHz),
   ("GetOfdmRate26_325MbpsBW8MHz", GetOfdmRate26_325MbpsBW8MHz),
   ("GetOfdmRate29_25MbpsBW8MHzShGi", GetOfdmRate29_25MbpsBW8MHzShGi),
   ("GetOfdmRate29_25MbpsBW8MHz", GetOfdmRate29_25MbpsBW8MHz),
   ("GetOfdmRate32_5MbpsBW8MHz", GetOfdmRate32_5MbpsBW8MHz),
   ("GetOfdmRate35_1MbpsBW8MHz", GetOfdmRate35_1MbpsBW8MHz),
   ("GetOfdmRate39MbpsBW8MHzShGi", GetOfdmRate39MbpsBW8MHzShGi),
   ("GetOfdmRate39MbpsBW8MHz", GetOfdmRate39MbpsBW8MHz),
   ("GetOfdmRate43_333_3MbpsBW8MHz", GetOfdmRate43_333_3MbpsBW8MHz),
   ("GetOfdmRate5_85MbpsBW16MHz", GetOfdmRate5_85MbpsBW16MHz),
   ("GetOfdmRate6_5MbpsBW16MHz", GetOfdmRate6_5MbpsBW16MHz),
   ("GetOfdmRate11_7MbpsBW16MHz", GetOfdmRate11_7MbpsBW16MHz),
   ("GetOfdmRate13MbpsBW16MHz", GetOfdmRate13MbpsBW16MHz),
   ("GetOfdmRate17_55MbpsBW16MHz", GetOfdmRate17_55MbpsBW16MHz),
   ("GetOfdmRate19_5MbpsBW16MHz", GetOfdmRate19_5MbpsBW16MHz),
   ("GetOfdmRate23_4MbpsBW16MHz", GetOfdmRate23_4MbpsBW16MHz),
   ("GetOfdmRate26MbpsBW16MHz", GetOfdmRate26MbpsBW16MHz),
   ("GetOfdmRate35_1MbpsBW16MHz", GetOfdmRate35_1MbpsBW16MHz),
   ("GetOfdmRate39MbpsBW16MHz", GetOfdmRate39MbpsBW16MHz),
   ("GetOfdmRate46_8MbpsBW16MHz", GetOfdmRate46_8MbpsBW16MHz),
   ("GetOfdmRate52MbpsBW16MHz", GetOfdmRate52MbpsBW16MHz),
   ("GetOfdmRate52_65MbpsBW16MHz", GetOfdmRate52_65MbpsBW16MHz),
   ("GetOfdmRate58_5MbpsBW16MHzShGi", GetOfdmRate58_5MbpsBW16MHzShGi),
   ("GetOfdmRate58_5MbpsBW16MHz", GetOfdmRate58_5MbpsBW16MHz),
   ("GetOfdmRate65MbpsBW16MHz", GetOfdmRate65MbpsBW16MHz),
   ("GetOfdmRate70_2MbpsBW16MHz", GetOfdmRate70_2MbpsBW16MHz),
   ("GetOfdmRate78MbpsBW16MHzShGi", GetOfdmRate78MbpsBW16MHzShGi),
   ("GetOfdmRate78MbpsBW16MHz", GetOfdmRate78MbpsBW16MHz),
   ("GetOfdmRate86_666_7MbpsBW16MHz", GetOfdmRate86_666_7MbpsBW16MHz)]

/-- Embedding of `WifiPhy::GetPlcpHtTrainingSymbolDuration`. -/
def GetPlcpHtTrainingSymbolDuration (preamble : WifiPreamble) (txvector : WifiTxVector) : Time :=
  let Ndltf : Nat := if txvector.nss < 3 then txvector.nss else 4
  let Neltf : Nat := if txvector.ness < 3 then txvector.ness else 4
  match preamble with
  | .WIFI_PREAMBLE_HT_MF => MicroSeconds (4 + (4 * Ndltf) + (4 * Neltf))
  | .WIFI_PREAMBLE_HT_GF => MicroSeconds ((4 * Ndltf) + (4 * Neltf))
  | _ => MicroSeconds 0

/-- Embedding of `WifiPhy::GetPlcpS1gTrainingSymbolDuration`. -/
def GetPlcpS1gTrainingSymbolDuration (preamble : WifiPreamble) (txvector : WifiTxVector) : Time :=
  let Nltf : Nat := if txvector.nss < 3 then txvector.nss else 4
  if preamble = .WIFI_PREAMBLE_S1G_LONG then MicroSeconds (40 + 40 * Nltf)
  else MicroSeconds 0

/-- Embedding of `WifiPhy::GetPlcpHtSigHeaderDuration`. -/
def GetPlcpHtSigHeaderDuration (preamble : WifiPreamble) : Time :=
  match preamble with
  | .WIFI_PREAMBLE_HT_MF => MicroSeconds 8
  | .WIFI_PREAMBLE_HT_GF => MicroSeconds 8
  | _ => MicroSeconds 0

/-- Embedding of `WifiPhy::GetPlcpSigADuration`. -/
def GetPlcpSigADuration (preamble : WifiPreamble) : Time :=
  if preamble = .WIFI_PREAMBLE_S1G_LONG then MicroSeconds (40 * 2) else MicroSeconds 0

/-- Embedding of `WifiPhy::GetPlcpSigBDuration`. -/
def GetPlcpSigBDuration (preamble : WifiPreamble) : Time :=
  if preamble = .WIFI_PREAMBLE_S1G_LONG then MicroSeconds 40 else MicroSeconds 0

/-- Embedding of `WifiPhy::GetPlcpTrainingSymbolDuration`.  `Nltf - 1` is computed after integer promotion,
so it is `-1` when `Nltf` is `0`. -/
def GetPlcpTrainingSymbolDuration (preamble : WifiPreamble) (txvector : WifiTxVector) : Time :=
  let Nltf : Nat := if txvector.nss < 3 then txvector.nss else 4
  if preamble = .WIFI_PREAMBLE_S1G_SHORT ∨ preamble = .WIFI_PREAMBLE_S1G_1M then
    MicroSeconds (40 * ((Nltf : Int) - 1))
  else MicroSeconds 0

/-- Embedding of `WifiPhy::GetPlcpHeaderDuration`. -/
def GetPlcpHeaderDuration (payloadMode : WifiMode) (preamble : WifiPreamble) :
    Except PhyError Time :=
  if preamble = .WIFI_PREAMBLE_NONE then .ok (MicroSeconds 0)
  else
    match payloadMode.modClass with
    | .WIFI_MOD_CLASS_OFDM =>
      if payloadMode.bandwidth = 10000000 then .ok (MicroSeconds 8)
      else if payloadMode.bandwidth = 5000000 then .ok (MicroSeconds 16)
      else .ok (MicroSeconds 4)
    | .WIFI_MOD_CLASS_HT =>
      match preamble with
      | .WIFI_PREAMBLE_HT_GF => .ok (MicroSeconds 0)
      | _ => .ok (MicroSeconds 4)
    | .WIFI_MOD_CLASS_S1G =>
      match preamble with
      | .WIFI_PREAMBLE_S1G_LONG => .ok (MicroSeconds 0)
      | .WIFI_PREAMBLE_S1G_1M => .ok (MicroSeconds (40 * 6))
      | _ => .ok (MicroSeconds (40 * 2))
    | .WIFI_MOD_CLASS_ERP_OFDM => .ok (MicroSeconds 4)
    | .WIFI_MOD_CLASS_DSSS =>
      if preamble = .WIFI_PREAMBLE_SHORT then .ok (MicroSeconds 24)
      else .ok (MicroSeconds 48)
    | _ => .error .unsupportedModulationClass

/-- Embedding of `WifiPhy::GetPlcpPreambleDuration`. -/
def GetPlcpPreambleDuration (payloadMode : WifiMode) (preamble : WifiPreamble) :
    Except PhyError Time :=
  if preamble = .WIFI_PREAMBLE_NONE then .ok (MicroSeconds 0)
  else
    match payloadMode.modClass with
    | .WIFI_MOD_CLASS_OFDM =>
      if payloadMode.bandwidth = 10000000 then .ok (MicroSeconds 32)
      else if payloadMode.bandwidth = 5000000 then .ok (MicroSeconds 64)
      else .ok (MicroSeconds 16)
    | .WIFI_MOD_CLASS_HT => .ok (MicroSeconds 16)
    | .WIFI_MOD_CLASS_S1G =>
      match preamble with
      | .WIFI_PREAMBLE_S1G_1M => .ok (MicroSeconds (40 * 8))
      | _ => .ok (MicroSeconds (40 * 4))
    | .WIFI_MOD_CLASS_ERP_OFDM => .ok (MicroSeconds 16)
    | .WIFI_MOD_CLASS_DSSS =>
      if preamble = .WIFI_PREAMBLE_SHORT then .ok (MicroSeconds 72)
      else .ok (MicroSeconds 144)
    | _ => .error .unsupportedModulationClass

/-- The symbol duration chosen by the `switch (payloadMode.GetBandwidth ())` of the
OFDM / ERP-OFDM branch of `GetPayloadDuration`. -/
def ofdmSymbolDuration (payloadMode : WifiMode) : Time :=
  if payloadMode.bandwidth = 10000000 then MicroSeconds 8
  else if payloadMode.bandwidth = 5000000 then MicroSeconds 16
  else MicroSeconds 4

/-- The data rates per stream listed under `//shortGi` in the HT branch. -/
def htShortGiRates : List Nat :=
  [7200000, 14400000, 21700000, 28900000, 43300000, 57800000, 72200000, 15000000, 30000000,
   45000000, 60000000, 90000000, 120000000, 150000000]

/-- The symbol duration chosen by the HT branch of `GetPayloadDuration`.  The quotient
`GetDataRate () / GetNss ()` is an integer division; the source divides by zero when `nss` is
`0`, where the division of `Nat` gives `0`: the embedding is that of the source for
`1 ≤ nss`. -/
def htSymbolDuration (payloadMode : WifiMode) (txvector : WifiTxVector) : Time :=
  if payloadMode.uniqueName = "OfdmRate135MbpsBW40MHzShGi"
      ∨ payloadMode.uniqueName = "OfdmRate65MbpsBW20MHzShGi" then
    NanoSeconds 3600
  else if payloadMode.dataRate / txvector.nss ∈ htShortGiRates then NanoSeconds 3600
  else MicroSeconds 4

/-- The unique names for which the S1G branch selects 36 microseconds by name. -/
def s1gShortGiNames : List String :=
  ["OfdmRate6_5MbpsBW16MHz", "OfdmRate3MbpsBW4MHz", "OfdmRate13MbpsBW8MHz",
   "OfdmRate26MbpsBW16MHz", "OfdmRate19_5MbpsBW8MHz", "OfdmRate39MbpsBW16MHz",
   "OfdmRate3MbpsBW1MHzShGi", "OfdmRate6_5MbpsBW2MHzShGi", "OfdmRate13_5MbpsBW4MHzShGi",
   "OfdmRate29_25MbpsBW8MHzShGi", "OfdmRate58_5MbpsBW16MHzShGi", "OfdmRate4MbpsBW1MHzShGi",
   "OfdmRate18MbpsBW4MHzShGi", "OfdmRate39MbpsBW8MHzShGi", "OfdmRate78MbpsBW16MHzShGi"]

/-- The data rates per stream for which the `switch` of the S1G branch selects 36
microseconds. -/
def s1gShortGiRates : List Nat :=
  [333300, 722200, 1500000, 3250000, 666700, 1444400, 6500000, 13000000, 1000000, 2166700,
   4500000, 9750000, 19500000, 1333300, 2888900, 6000000, 2000000, 4333300, 9000000, 2666700,
   5777800, 12000000, 26000000, 52000000, 3333300, 7222200, 15000000, 32500000, 65000000,
   8666700, 4444400, 20000000, 43333300, 86666700, 166700]

/-- The symbol duration chosen by the S1G branch of `GetPayloadDuration` (the test
`GetModulationClass () == WIFI_MOD_CLASS_S1G` of its `else if` holds throughout the branch).
As in the HT branch, the integer division by `GetNss ()` makes the embedding that of the
source for `1 ≤ nss`. -/
def s1gSymbolDuration (payloadMode : WifiMode) (txvector : WifiTxVector) : Time :=
  if payloadMode.uniqueName ∈ s1gShortGiNames then MicroSeconds 36
  else if payloadMode.dataRate / txvector.nss ∈ s1gShortGiRates then MicroSeconds 36
  else MicroSeconds 40

/-- The value `GetDataRate () * GetNss () * symbolDuration.GetNanoSeconds () / 1e9`: an
unsigned 64-bit product converted to `double` and divided by `1e9`.  The `double` is embedded
as the exact quotient: the two agree when the quotient is a whole number (every OFDM and
ERP-OFDM mode of the catalog, HT at 65 Mbit/s, S1G at 150 kbit/s) and differ by the rounding
of the division otherwise (HT at 7.2 Mbit/s and 3.6 microseconds: 25.92), so the statements
that fix a symbol count of the HT or S1G branch by a formula assume a whole number of bits
per symbol. -/
def numDataBitsPerSymbol (dataRate nss : Nat) (symbolDuration : Time) : ℚ :=
  ((uint64 ((dataRate : Int) * (nss : Int) * symbolDuration) : Int) : ℚ) / 1000000000

/-- The role dispatch of the OFDM / ERP-OFDM branch of `GetPayloadDuration`: the value of
`numSymbols` and the accumulator after the `if` chain. -/
def ofdmNumSymbols (st : PhyState) (size : Nat) (preamble : WifiPreamble)
    (packetType incFlag : Nat) (numDataBitsPerSymbol : ℚ) : Except PhyError Nat × PhyState :=
  if packetType = 1 ∧ preamble ≠ .WIFI_PREAMBLE_NONE then
    let numSymbols := uint32 (Nat.ceil ((8 + (size : ℚ) * 8 + 6) / numDataBitsPerSymbol))
    if incFlag = 1 then
      (.ok numSymbols,
        ⟨uint32 (st.m_totalAmpduSize + size), uint32 (st.m_totalAmpduNumSymbols + numSymbols)⟩)
    else (.ok numSymbols, st)
  else if packetType = 1 ∧ preamble = .WIFI_PREAMBLE_NONE then
    let numSymbols := uint32 (Nat.floor (((size : ℚ) * 8) / numDataBitsPerSymbol))
    if incFlag = 1 then
      (.ok numSymbols,
        ⟨uint32 (st.m_totalAmpduSize + size), uint32 (st.m_totalAmpduNumSymbols + numSymbols)⟩)
    else (.ok numSymbols, st)
  else if packetType = 2 ∧ preamble = .WIFI_PREAMBLE_NONE then
    let totalAmpduSize := uint32 (st.m_totalAmpduSize + size)
    let numSymbols :=
      uint32 (Nat.ceil ((8 + (totalAmpduSize : ℚ) * 8 + 6) / numDataBitsPerSymbol))
    let numSymbols := uint32Sub numSymbols st.m_totalAmpduNumSymbols
    if incFlag = 1 then (.ok numSymbols, ⟨0, 0⟩) else (.ok numSymbols, st)
  else if packetType = 0 ∧ preamble ≠ .WIFI_PREAMBLE_NONE then
    (.ok (uint32 (Nat.ceil ((8 + (size : ℚ) * 8 + 6) / numDataBitsPerSymbol))), st)
  else (.error .wrongCombination, st)

/-- The role dispatch of the HT branch of `GetPayloadDuration`, with `m_Stbc` the factor `2`
or `1` set from `txvector.IsStbc ()` and `Nes = 1`.  The `double` quotients handed to `ceil`
and `floor` are embedded as exact quotients, which they are for a whole number of bits per
symbol and a 32-bit size. -/
def htNumSymbols (st : PhyState) (size : Nat) (preamble : WifiPreamble)
    (packetType incFlag : Nat) (m_Stbc : Nat) (numDataBitsPerSymbol : ℚ) :
    Except PhyError Nat × PhyState :=
  let Nes : ℚ := 1
  if packetType = 1 ∧ preamble ≠ .WIFI_PREAMBLE_NONE then
    let numSymbols := uint32 (Nat.ceil
      ((m_Stbc : ℚ) * (8 + (size : ℚ) * 8 + 6 * Nes) / ((m_Stbc : ℚ) * numDataBitsPerSymbol)))
    if incFlag = 1 then
      (.ok numSymbols,
        ⟨uint32 (st.m_totalAmpduSize + size), uint32 (st.m_totalAmpduNumSymbols + numSymbols)⟩)
    else (.ok numSymbols, st)
  else if packetType = 1 ∧ preamble = .WIFI_PREAMBLE_NONE then
    let numSymbols := uint32 (Nat.floor
      ((m_Stbc : ℚ) * (((size : ℚ) * 8) / ((m_Stbc : ℚ) * numDataBitsPerSymbol))))
    if incFlag = 1 then
      (.ok numSymbols,
        ⟨uint32 (st.m_totalAmpduSize + size), uint32 (st.m_totalAmpduNumSymbols + numSymbols)⟩)
    else (.ok numSymbols, st)
  else if packetType = 2 ∧ preamble = .WIFI_PREAMBLE_NONE then
    let totalAmpduSize := uint32 (st.m_totalAmpduSize + size)
    let numSymbols := uint32 (m_Stbc * Nat.ceil
      ((8 + (totalAmpduSize : ℚ) * 8 + 6 * Nes) / ((m_Stbc : ℚ) * numDataBitsPerSymbol)))
    if st.m_totalAmpduNumSymbols ≤ numSymbols then
      let numSymbols := uint32Sub numSymbols st.m_totalAmpduNumSymbols
      if incFlag = 1 then (.ok numSymbols, ⟨0, 0⟩) else (.ok numSymbols, st)
    else (.error .assertionFailed, st)
  else if packetType = 0 ∧ preamble ≠ .WIFI_PREAMBLE_NONE then
    (.ok (uint32 (m_Stbc * Nat.ceil
      ((8 + (size : ℚ) * 8 + 6 * Nes) / ((m_Stbc : ℚ) * numDataBitsPerSymbol)))), st)
  else (.error .wrongCombination, st)

/-- The role dispatch of the S1G branch of `GetPayloadDuration`; the source repeats the `if`
chain of the HT branch.  The `double` quotients are embedded as in `htNumSymbols`. -/
def s1gNumSymbols (st : PhyState) (size : Nat) (preamble : WifiPreamble)
    (packetType incFlag : Nat) (m_Stbc : Nat) (numDataBitsPerSymbol : ℚ) :
    Except PhyError Nat × PhyState :=
  let Nes : ℚ := 1
  if packetType = 1 ∧ preamble ≠ .WIFI_PREAMBLE_NONE then
    let numSymbols := uint32 (Nat.ceil
      ((m_Stbc : ℚ) * (8 + (size : ℚ) * 8 + 6 * Nes) / ((m_Stbc : ℚ) * numDataBitsPerSymbol)))
    if incFlag = 1 then
      (.ok numSymbols,
        ⟨uint32 (st.m_totalAmpduSize + size), uint32 (st.m_totalAmpduNumSymbols + numSymbols)⟩)
    else (.ok numSymbols, st)
  else if packetType = 1 ∧ preamble = .WIFI_PREAMBLE_NONE then
    let numSymbols := uint32 (Nat.floor
      ((m_Stbc : ℚ) * (((size : ℚ) * 8) / ((m_Stbc : ℚ) * numDataBitsPerSymbol))))
    if incFlag = 1 then
      (.ok numSymbols,
        ⟨uint32 (st.m_totalAmpduSize + size), uint32 (st.m_totalAmpduNumSymbols + numSymbols)⟩)
    else (.ok numSymbols, st)
  else if packetType = 2 ∧ preamble = .WIFI_PREAMBLE_NONE then
    let totalAmpduSize := uint32 (st.m_totalAmpduSize + size)
    let numSymbols := uint32 (m_Stbc * Nat.ceil
      ((8 + (totalAmpduSize : ℚ) * 8 + 6 * Nes) / ((m_Stbc : ℚ) * numDataBitsPerSymbol)))
    if st.m_totalAmpduNumSymbols ≤ numSymbols then
      let numSymbols := uint32Sub numSymbols st.m_totalAmpduNumSymbols
      if incFlag = 1 then (.ok numSymbols, ⟨0, 0⟩) else (.ok numSymbols, st)
    else (.error .assertionFailed, st)
  else if packetType = 0 ∧ preamble ≠ .WIFI_PREAMBLE_NONE then
    (.ok (uint32 (m_Stbc * Nat.ceil
      ((8 + (size : ℚ) * 8 + 6 * Nes) / ((m_Stbc : ℚ) * numDataBitsPerSymbol)))), st)
  else (.error .wrongCombination, st)

/-- The value of `numSymbols` computed by a call of `GetPayloadDuration`, with the accumulator
the call leaves.  The DSSS branch and the `default:` branch count no symbols. -/
def payloadNumSymbols (st : PhyState) (size : Nat) (txvector : WifiTxVector)
    (preamble : WifiPreamble) (packetType incFlag : Nat) : Except PhyError Nat × PhyState :=
  let payloadMode := txvector.mode
  match payloadMode.modClass with
  | .WIFI_MOD_CLASS_OFDM | .WIFI_MOD_CLASS_ERP_OFDM =>
    ofdmNumSymbols st size preamble packetType incFlag
      (numDataBitsPerSymbol payloadMode.dataRate 1 (ofdmSymbolDuration payloadMode))
  | .WIFI_MOD_CLASS_HT =>
    htNumSymbols st size preamble packetType incFlag (if txvector.stbc then 2 else 1)
      (numDataBitsPerSymbol payloadMode.dataRate txvector.nss
        (htSymbolDuration payloadMode txvector))
  | .WIFI_MOD_CLASS_S1G =>
    s1gNumSymbols st size preamble packetType incFlag (if txvector.stbc then 2 else 1)
      (numDataBitsPerSymbol payloadMode.dataRate txvector.nss
        (s1gSymbolDuration payloadMode txvector))
  | _ => (.error .unsupportedModulationClass, st)

/-- The symbol duration a call of `GetPayloadDuration` selects for a symbol-counting mode. -/
def payloadSymbolDuration (txvector : WifiTxVector) : Time :=
  match txvector.mode.modClass with
  | .WIFI_MOD_CLASS_HT => htSymbolDuration txvector.mode txvector
  | .WIFI_MOD_CLASS_S1G => s1gSymbolDuration txvector.mode txvector
  | _ => ofdmSymbolDuration txvector.mode

/-- Embedding of `WifiPhy::GetPayloadDuration`: the duration, or the error that ends the call, and the
accumulator after the call.  `frequency` is in MHz. -/
def GetPayloadDuration (st : PhyState) (size : Nat) (txvector : WifiTxVector)
    (preamble : WifiPreamble) (frequency : ℚ) (packetType incFlag : Nat) :
    Except PhyError Time × PhyState :=
  let payloadMode := txvector.mode
  match payloadMode.modClass with
  | .WIFI_MOD_CLASS_OFDM | .WIFI_MOD_CLASS_ERP_OFDM =>
    let symbolDuration := ofdmSymbolDuration payloadMode
    let r := ofdmNumSymbols st size preamble packetType incFlag
      (numDataBitsPerSymbol payloadMode.dataRate 1 symbolDuration)
    (r.1.map fun (numSymbols : Nat) =>
      if payloadMode.modClass = .WIFI_MOD_CLASS_ERP_OFDM then
        (numSymbols : Int) * symbolDuration + MicroSeconds 6
      else (numSymbols : Int) * symbolDuration, r.2)
  | .WIFI_MOD_CLASS_HT =>
    let symbolDuration := htSymbolDuration payloadMode txvector
    let r := htNumSymbols st size preamble packetType incFlag (if txvector.stbc then 2 else 1)
      (numDataBitsPerSymbol payloadMode.dataRate txvector.nss symbolDuration)
    (r.1.map fun (numSymbols : Nat) =>
      if frequency ≥ 2400 ∧ frequency ≤ 2500
          ∧ ((packetType = 0 ∧ preamble ≠ .WIFI_PREAMBLE_NONE)
            ∨ (packetType = 2 ∧ preamble = .WIFI_PREAMBLE_NONE)) then
        (numSymbols : Int) * symbolDuration + MicroSeconds 6
      else (numSymbols : Int) * symbolDuration, r.2)
  | .WIFI_MOD_CLASS_S1G =>
    let symbolDuration := s1gSymbolDuration payloadMode txvector
    let r := s1gNumSymbols st size preamble packetType incFlag (if txvector.stbc then 2 else 1)
      (numDataBitsPerSymbol payloadMode.dataRate txvector.nss symbolDuration)
    (r.1.map fun (numSymbols : Nat) => (numSymbols : Int) * symbolDuration, r.2)
  | .WIFI_MOD_CLASS_DSSS =>
    (.ok (MicroSeconds (Nat.ceil
      (((size : ℚ) * 8) / ((payloadMode.dataRate : ℚ) / 1000000)))), st)
  | _ => (.error .unsupportedModulationClass, st)

/-- Embedding of `WifiPhy::CalculatePlcpPreambleAndHeaderDuration`. -/
def CalculatePlcpPreambleAndHeaderDuration (txvector : WifiTxVector) (preamble : WifiPreamble) :
    Except PhyError Time :=
  let payloadMode := txvector.mode
  if payloadMode.modClass ≠ .WIFI_MOD_CLASS_S1G then do
    let p ← GetPlcpPreambleDuration payloadMode preamble
    let h ← GetPlcpHeaderDuration payloadMode preamble
    pure (p + h + GetPlcpHtSigHeaderDuration preamble
      + GetPlcpHtTrainingSymbolDuration preamble txvector)
  else do
    let p ← GetPlcpPreambleDuration payloadMode preamble
    let h ← GetPlcpHeaderDuration payloadMode preamble
    pure (p + h + GetPlcpTrainingSymbolDuration preamble txvector + GetPlcpSigADuration preamble
      + GetPlcpS1gTrainingSymbolDuration preamble txvector + GetPlcpSigBDuration preamble)

/-- Embedding of `WifiPhy::CalculateTxDuration`: both operands of the sum are evaluated; the call has a
result when both have one. -/
def CalculateTxDuration (st : PhyState) (size : Nat) (txvector : WifiTxVector)
    (preamble : WifiPreamble) (frequency : ℚ) (packetType incFlag : Nat) :
    Except PhyError Time × PhyState :=
  let r := GetPayloadDuration st size txvector preamble frequency packetType incFlag
  ((do
    let plcp ← CalculatePlcpPreambleAndHeaderDuration txvector preamble
    let payload ← r.1
    pure (plcp + payload)), r.2)


/-- The bits per symbol a call of `GetPayloadDuration` computes for a symbol-counting mode:
the HT and S1G branches multiply by `GetNss ()`, the OFDM / ERP-OFDM branch does not. -/
def payloadBitsPerSymbol (txvector : WifiTxVector) : ℚ :=
  match txvector.mode.modClass with
  | .WIFI_MOD_CLASS_HT | .WIFI_MOD_CLASS_S1G =>
    numDataBitsPerSymbol txvector.mode.dataRate txvector.nss (payloadSymbolDuration txvector)
  | _ => numDataBitsPerSymbol txvector.mode.dataRate 1 (payloadSymbolDuration txvector)

/-- The factor `m_Stbc` of a call: `2` on an HT or S1G mode with STBC, otherwise `1` (the OFDM
/ ERP-OFDM branch has no such factor). -/
def payloadStbc (txvector : WifiTxVector) : Nat :=
  match txvector.mode.modClass with
  | .WIFI_MOD_CLASS_HT | .WIFI_MOD_CLASS_S1G => if txvector.stbc then 2 else 1
  | _ => 1

/-- The value the Standalone and Last branches hand to `lrint`, before it is stored in the
32-bit `numSymbols`: `m_Stbc * ceil ((8 + size * 8 + 6) / (m_Stbc * numDataBitsPerSymbol))`. -/
def standaloneCount (txvector : WifiTxVector) (size : Nat) : Nat :=
  payloadStbc txvector * Nat.ceil ((8 + (size : ℚ) * 8 + 6)
    / ((payloadStbc txvector : ℚ) * payloadBitsPerSymbol txvector))

/-- The bits per symbol of the call is a whole number.  The source holds the quotient
`GetDataRate () * GetNss () * symbolDuration.GetNanoSeconds () / 1e9` in a `double`; when it is
a whole number the `double` is the exact quotient, and for every 32-bit size the `ceil` and
`floor` of the `double` divisions by it are those of the exact quotients (the numerator is
below `2 ^ 53`, so the rounding of the quotient is smaller than the distance of a fractional
quotient from the next whole number).  Otherwise (HT at 7.2 Mbit/s and 3.6 microseconds: 25.92
bits) the `double` quotient of a division that is exact over the rationals can fall on the
other side of a whole number, and the count of the source is one off the exact one. -/
def wholeBitsPerSymbol (txvector : WifiTxVector) : Prop :=
  (payloadBitsPerSymbol txvector).den = 1

instance (txvector : WifiTxVector) : Decidable (wholeBitsPerSymbol txvector) :=
  inferInstanceAs (Decidable ((payloadBitsPerSymbol txvector).den = 1))

/-- The signal extension `GetPayloadDuration` adds after the symbols of a symbol-counting
mode: 6 microseconds on an ERP-OFDM mode, and on an HT mode between 2400 and 2500 MHz in the
roles Standalone (packetType 0, real preamble) and Last (packetType 2, preamble None). -/
def signalExtension (txvector : WifiTxVector) (preamble : WifiPreamble) (frequency : ℚ)
    (packetType : Nat) : Time :=
  if txvector.mode.modClass = .WIFI_MOD_CLASS_ERP_OFDM
      ∨ (txvector.mode.modClass = .WIFI_MOD_CLASS_HT ∧ frequency ≥ 2400 ∧ frequency ≤ 2500
        ∧ ((packetType = 0 ∧ preamble ≠ .WIFI_PREAMBLE_NONE)
          ∨ (packetType = 2 ∧ preamble = .WIFI_PREAMBLE_NONE)))
  then MicroSeconds 6 else 0

/-- The arguments of one call of `GetPayloadDuration` or `CalculateTxDuration`. -/
structure Call where
  size : Nat
  txvector : WifiTxVector
  preamble : WifiPreamble
  frequency : ℚ
  packetType : Nat
  incFlag : Nat

/-- Successive calls of `GetPayloadDuration` on one `WifiPhy`: each call paired with its
result, in call order, and the accumulator after the last call. -/
def runGetPayloadDuration (st : PhyState) : List Call →
    List (Call × Except PhyError Time) × PhyState
  | [] => ([], st)
  | c :: cs =>
    let r := GetPayloadDuration st c.size c.txvector c.preamble c.frequency c.packetType c.incFlag
    let rest := runGetPayloadDuration r.2 cs
    ((c, r.1) :: rest.1, rest.2)

/-- Successive calls of `CalculateTxDuration` on one `WifiPhy`: each call paired with its
result, in call order, and the accumulator after the last call. -/
def runCalculateTxDuration (st : PhyState) : List Call →
    List (Call × Except PhyError Time) × PhyState
  | [] => ([], st)
  | c :: cs =>
    let r := CalculateTxDuration st c.size c.txvector c.preamble c.frequency c.packetType c.incFlag
    let rest := runCalculateTxDuration r.2 cs
    ((c, r.1) :: rest.1, rest.2)

/-- The symbol counts of successive calls of `GetPayloadDuration` on one `WifiPhy`, in call
order, and the accumulator after the last call. -/
def runNumSymbols (st : PhyState) : List Call → List (Except PhyError Nat) × PhyState
  | [] => ([], st)
  | c :: cs =>
    let r := payloadNumSymbols st c.size c.txvector c.preamble c.packetType c.incFlag
    let rest := runNumSymbols r.2 cs
    (r.1 :: rest.1, rest.2)

/-- The committed calls of one aggregate: the first MPDU with a real preamble, the following
ones with packetType 1 and preamble None, the last one with packetType 2 and preamble None. -/
def aggregateCalls (txvector : WifiTxVector) (preamble : WifiPreamble) (frequency : ℚ)
    (first : Nat) (middle : List Nat) (last : Nat) : List Call :=
  ⟨first, txvector, preamble, frequency, 1, 1⟩
    :: (middle.map fun s => ⟨s, txvector, .WIFI_PREAMBLE_NONE, frequency, 1, 1⟩)
    ++ [⟨last, txvector, .WIFI_PREAMBLE_NONE, frequency, 2, 1⟩]

/-- The committed calls of an aggregate before its last MPDU: the first MPDU with a real
preamble, the following ones with packetType 1 and preamble None. -/
def aggregateHead (txvector : WifiTxVector) (preamble : WifiPreamble) (frequency : ℚ)
    (first : Nat) (middle : List Nat) : List Call :=
  ⟨first, txvector, preamble, frequency, 1, 1⟩
    :: (middle.map fun s => ⟨s, txvector, .WIFI_PREAMBLE_NONE, frequency, 1, 1⟩)

/-- The accumulator after each of successive calls of `GetPayloadDuration` on one `WifiPhy`,
in call order. -/
def accumulatorTrace (st : PhyState) : List Call → List PhyState
  | [] => []
  | c :: cs =>
    let r := GetPayloadDuration st c.size c.txvector c.preamble c.frequency c.packetType c.incFlag
    r.2 :: accumulatorTrace r.2 cs

/-- Neither counter of the accumulator `b` is below the same counter of `a`. -/
def PhyState.le (a b : PhyState) : Prop :=
  a.m_totalAmpduSize ≤ b.m_totalAmpduSize ∧ a.m_totalAmpduNumSymbols ≤ b.m_totalAmpduNumSymbols

/-! ## Theorems -/

/-! ## Arithmetic of the machine types -/

/-- A value below `2 ^ 32` is stored unchanged. -/
theorem uint32_of_lt {n : Nat} (h : n < 4294967296) : uint32 n = n :=
  Nat.mod_eq_of_lt h

/-- The 64-bit product behind `numDataBitsPerSymbol` is exact when it fits. -/
theorem numDataBitsPerSymbol_eq {R nss : Nat} {sd : Int} (h0 : 0 ≤ sd)
    (h : (R : Int) * nss * sd < 18446744073709551616) :
    numDataBitsPerSymbol R nss sd = ((R : ℚ) * nss * sd) / 1000000000 := by
  unfold numDataBitsPerSymbol uint64
  rw [Int.emod_eq_of_lt (by positivity) h]
  push_cast
  rfl

/-- The ceiling of a quotient of natural numbers, as a natural-number division. -/
theorem natCeil_div (a b : Nat) (hb : 0 < b) :
    Nat.ceil ((a : ℚ) / (b : ℚ)) = (a + b - 1) / b := by
  have hb' : (0 : ℚ) < b := by exact_mod_cast hb
  apply le_antisymm
  · rw [Nat.ceil_le, div_le_iff₀ hb']
    have h1 := Nat.div_add_mod (a + b - 1) b
    have h2 := Nat.mod_lt (a + b - 1) hb
    have h3 : a ≤ (a + b - 1) / b * b := by
      rw [Nat.mul_comm]
      omega
    exact_mod_cast h3
  · rw [Nat.div_le_iff_le_mul_add_pred hb]
    have h1 : (a : ℚ) ≤ (Nat.ceil ((a : ℚ) / (b : ℚ)) : ℚ) * b := by
      rw [← div_le_iff₀ hb']
      exact Nat.le_ceil _
    have h2 : a ≤ Nat.ceil ((a : ℚ) / (b : ℚ)) * b := by exact_mod_cast h1
    rw [Nat.mul_comm] at h2
    omega

/-- A symbol count stays below `2 ^ 32` when a symbol carries at least nine bits. -/
theorem ceil_lt_of_bits {size : Nat} {N : ℚ} (hsize : size < 4294967296) (hN : 9 ≤ N) :
    Nat.ceil ((8 + (size : ℚ) * 8 + 6) / N) < 4294967296 := by
  have hpos : (0 : ℚ) < N := by linarith
  have hs : (size : ℚ) ≤ 4294967295 := by exact_mod_cast Nat.le_of_lt_succ hsize
  have : Nat.ceil ((8 + (size : ℚ) * 8 + 6) / N) ≤ 4294967295 := by
    rw [Nat.ceil_le, div_le_iff₀ hpos]
    push_cast
    nlinarith
  omega

/-! ## Facts read off the catalog -/

set_option maxRecDepth 100000 in
/-- Bandwidths and data rates of the catalog modes of class OFDM. -/
theorem ofdm_catalog_facts : ∀ m ∈ allModes, m.modClass = .WIFI_MOD_CLASS_OFDM →
    (m.bandwidth = 20000000 ∨ m.bandwidth = 10000000 ∨ m.bandwidth = 5000000)
      ∧ 1500000 ≤ m.dataRate ∧ m.dataRate ≤ 54000000
      ∧ (m.bandwidth = 20000000 → 6000000 ≤ m.dataRate)
      ∧ (m.bandwidth = 10000000 → 3000000 ≤ m.dataRate) := by
  decide

set_option maxRecDepth 100000 in
/-- Every catalog mode of class DSSS has a positive data rate. -/
theorem dsss_catalog_facts : ∀ m ∈ allModes, m.modClass = .WIFI_MOD_CLASS_DSSS →
    0 < m.dataRate := by
  decide

/-! ## Standalone payload duration, legacy OFDM and DSSS -/

/-- The OFDM / ERP-OFDM branch on a Standalone call, before any bound is used. -/
theorem GetPayloadDuration_ofdm_standalone (st : PhyState) (size : Nat) (tx : WifiTxVector)
    (preamble : WifiPreamble) (frequency : ℚ) (incFlag : Nat)
    (hcls : tx.mode.modClass = .WIFI_MOD_CLASS_OFDM) (hpre : preamble ≠ .WIFI_PREAMBLE_NONE) :
    GetPayloadDuration st size tx preamble frequency 0 incFlag
      = (.ok ((uint32 (Nat.ceil ((8 + (size : ℚ) * 8 + 6)
            / numDataBitsPerSymbol tx.mode.dataRate 1 (ofdmSymbolDuration tx.mode))) : Int)
          * ofdmSymbolDuration tx.mode), st) := by
  simp [GetPayloadDuration, hcls, ofdmNumSymbols, hpre, Except.map]

/-- The Standalone formula of the OFDM branch for a symbol of `T` microseconds. -/
theorem GetPayloadDuration_ofdm_standalone_micro (st : PhyState) (size : Nat)
    (tx : WifiTxVector) (preamble : WifiPreamble) (frequency : ℚ) (incFlag T : Nat)
    (hcls : tx.mode.modClass = .WIFI_MOD_CLASS_OFDM) (hpre : preamble ≠ .WIFI_PREAMBLE_NONE)
    (hsize : size < 4294967296) (hsd : ofdmSymbolDuration tx.mode = MicroSeconds T)
    (hT : T ≤ 16) (hhi : tx.mode.dataRate ≤ 54000000)
    (hbits : 9000000 ≤ tx.mode.dataRate * T) :
    GetPayloadDuration st size tx preamble frequency 0 incFlag
      = (.ok (MicroSeconds ((T * Nat.ceil ((8 + 8 * (size : ℚ) + 6)
            / ((tx.mode.dataRate : ℚ) * T / 1000000)) : Nat))), st) := by
  rw [GetPayloadDuration_ofdm_standalone st size tx preamble frequency incFlag hcls hpre, hsd]
  have hR : (tx.mode.dataRate : Int) ≤ 54000000 := by exact_mod_cast hhi
  have hR0 : (0 : Int) ≤ tx.mode.dataRate := by positivity
  have hT' : (T : Int) ≤ 16 := by exact_mod_cast hT
  have hT0 : (0 : Int) ≤ T := by positivity
  have hN : numDataBitsPerSymbol tx.mode.dataRate 1 (MicroSeconds T)
      = (tx.mode.dataRate : ℚ) * (T : ℚ) / 1000000 := by
    rw [numDataBitsPerSymbol_eq (by simp only [MicroSeconds]; positivity)
      (by simp only [MicroSeconds]; push_cast; nlinarith)]
    simp only [MicroSeconds]; push_cast; ring
  have hb : (9000000 : ℚ) ≤ (tx.mode.dataRate : ℚ) * (T : ℚ) := by exact_mod_cast hbits
  rw [hN, uint32_of_lt]
  · simp only [MicroSeconds]; push_cast; ring_nf
  · refine ceil_lt_of_bits hsize ?_
    linarith

/-- C1: for every catalog mode of class OFDM (data rate `R`, bandwidth 20, 10 or 5 MHz), every
32-bit payload size and every preamble other than None, a Standalone call (packetType 0) of
`GetPayloadDuration` returns `T * ceil ((8 + 8 * size + 6) / (R * T))` microseconds, where `T`
is 4, 8 or 16 microseconds for 20, 10 or 5 MHz and `R * T` is counted in bits, and leaves the
accumulator alone; for OfdmRate54Mbps, preamble Long and 1000 bytes the payload lasts 152
microseconds and `CalculateTxDuration` returns 172 microseconds. -/
theorem C1_ofdm_standalone_payload_duration (st : PhyState) (size : Nat) (tx : WifiTxVector)
    (preamble : WifiPreamble) (frequency : ℚ) (incFlag : Nat)
    (hmode : tx.mode ∈ allModes) (hcls : tx.mode.modClass = .WIFI_MOD_CLASS_OFDM)
    (hsize : size < 4294967296) (hpre : preamble ≠ .WIFI_PREAMBLE_NONE) :
    (∃ T : Nat, (tx.mode.bandwidth = 20000000 ∧ T = 4 ∨ tx.mode.bandwidth = 10000000 ∧ T = 8
        ∨ tx.mode.bandwidth = 5000000 ∧ T = 16)
      ∧ GetPayloadDuration st size tx preamble frequency 0 incFlag
        = (.ok (MicroSeconds ((T * Nat.ceil ((8 + 8 * (size : ℚ) + 6)
            / ((tx.mode.dataRate : ℚ) * T / 1000000)) : Nat))), st))
    ∧ GetPayloadDuration st 1000 ⟨GetOfdmRate54Mbps, tx.nss, tx.ness, tx.stbc⟩
        .WIFI_PREAMBLE_LONG frequency 0 incFlag = (.ok (MicroSeconds 152), st)
    ∧ CalculateTxDuration st 1000 ⟨GetOfdmRate54Mbps, tx.nss, tx.ness, tx.stbc⟩
        .WIFI_PREAMBLE_LONG frequency 0 incFlag = (.ok (MicroSeconds 172), st) := by
  obtain ⟨hbw, hlo, hhi, h20, h10⟩ := ofdm_catalog_facts tx.mode hmode hcls
  have h54 : GetPayloadDuration st 1000 ⟨GetOfdmRate54Mbps, tx.nss, tx.ness, tx.stbc⟩
        .WIFI_PREAMBLE_LONG frequency 0 incFlag = (.ok (MicroSeconds 152), st) := by
    rw [GetPayloadDuration_ofdm_standalone_micro st 1000
      ⟨GetOfdmRate54Mbps, tx.nss, tx.ness, tx.stbc⟩ .WIFI_PREAMBLE_LONG frequency incFlag 4
      rfl (by simp) (by norm_num) (by simp [ofdmSymbolDuration, GetOfdmRate54Mbps])
      (by norm_num) (by show (54000000 : Nat) ≤ 54000000; norm_num)
      (by show (9000000 : Nat) ≤ 54000000 * 4; norm_num)]
    have : Nat.ceil ((8 + 8 * ((1000 : Nat) : ℚ) + 6)
        / (((54000000 : Nat) : ℚ) * ((4 : Nat) : ℚ) / 1000000)) = 38 := by
      rw [Nat.ceil_eq_iff (by norm_num)]
      norm_num
    show (Except.ok (MicroSeconds ((4 * Nat.ceil ((8 + 8 * ((1000 : Nat) : ℚ) + 6)
        / (((54000000 : Nat) : ℚ) * ((4 : Nat) : ℚ) / 1000000)) : Nat))), st) = _
    rw [this]
    rfl
  refine ⟨?_, h54, ?_⟩
  · rcases hbw with h | h | h
    · exact ⟨4, Or.inl ⟨h, rfl⟩, GetPayloadDuration_ofdm_standalone_micro st size tx preamble
        frequency incFlag 4 hcls hpre hsize (by simp [ofdmSymbolDuration, h]) (by decide) hhi
        (by have := h20 h; omega)⟩
    · exact ⟨8, Or.inr (Or.inl ⟨h, rfl⟩), GetPayloadDuration_ofdm_standalone_micro st size tx
        preamble frequency incFlag 8 hcls hpre hsize (by simp [ofdmSymbolDuration, h])
        (by decide) hhi (by have := h10 h; omega)⟩
    · exact ⟨16, Or.inr (Or.inr ⟨h, rfl⟩), GetPayloadDuration_ofdm_standalone_micro st size tx
        preamble frequency incFlag 16 hcls hpre hsize (by simp [ofdmSymbolDuration, h])
        (by decide) hhi (by omega)⟩
  · have hp1 : GetPlcpPreambleDuration GetOfdmRate54Mbps .WIFI_PREAMBLE_LONG
        = .ok (MicroSeconds 16) := by
      simp [GetPlcpPreambleDuration, GetOfdmRate54Mbps]
    have hp2 : GetPlcpHeaderDuration GetOfdmRate54Mbps .WIFI_PREAMBLE_LONG
        = .ok (MicroSeconds 4) := by
      simp [GetPlcpHeaderDuration, GetOfdmRate54Mbps]
    have hc : GetOfdmRate54Mbps.modClass ≠ .WIFI_MOD_CLASS_S1G := by simp [GetOfdmRate54Mbps]
    simp only [CalculateTxDuration, h54, CalculatePlcpPreambleAndHeaderDuration, hp1, hp2,
      if_pos hc]
    simp only [bind, Except.bind, pure, Except.pure, GetPlcpHtSigHeaderDuration,
      GetPlcpHtTrainingSymbolDuration, MicroSeconds]
    norm_num

set_option maxRecDepth 100000 in
/-- C1 at OfdmRate54Mbps, preamble Long, 1000 bytes, 5180 MHz, on a fresh accumulator. -/
theorem C1_ofdm_standalone_payload_duration_witness :
    GetOfdmRate54Mbps ∈ allModes ∧ (1000 : Nat) < 4294967296
      ∧ GetPayloadDuration PhyState.fresh 1000 ⟨GetOfdmRate54Mbps, 1, 0, false⟩
          .WIFI_PREAMBLE_LONG 5180 0 0 = (.ok (MicroSeconds 152), PhyState.fresh)
      ∧ CalculateTxDuration PhyState.fresh 1000 ⟨GetOfdmRate54Mbps, 1, 0, false⟩
          .WIFI_PREAMBLE_LONG 5180 0 0 = (.ok (MicroSeconds 172), PhyState.fresh) :=
  ⟨by decide, by norm_num,
    (C1_ofdm_standalone_payload_duration PhyState.fresh 1000 ⟨GetOfdmRate54Mbps, 1, 0, false⟩
      .WIFI_PREAMBLE_LONG 5180 0 (by decide) rfl (by norm_num) (by simp)).2⟩

/-- C2: for every catalog mode of class DSSS with data rate `R` bit/s and every payload size,
`GetPayloadDuration` returns `ceil (8 * size / (R / 10 ^ 6))` microseconds, which is
`(8 * size * 10 ^ 6 + R - 1) / R` in natural-number division, whatever the preamble,
frequency, packetType, incFlag and accumulator, and leaves the accumulator alone; for
DsssRate2Mbps and 100 bytes the result is 400 microseconds. -/
theorem C2_dsss_payload_duration (st : PhyState) (size : Nat) (tx : WifiTxVector)
    (preamble : WifiPreamble) (frequency : ℚ) (packetType incFlag : Nat)
    (hmode : tx.mode ∈ allModes) (hcls : tx.mode.modClass = .WIFI_MOD_CLASS_DSSS) :
    GetPayloadDuration st size tx preamble frequency packetType incFlag
        = (.ok (MicroSeconds (Nat.ceil ((8 * (size : ℚ)) / ((tx.mode.dataRate : ℚ) / 1000000)))),
            st)
      ∧ Nat.ceil ((8 * (size : ℚ)) / ((tx.mode.dataRate : ℚ) / 1000000))
        = (8 * size * 1000000 + tx.mode.dataRate - 1) / tx.mode.dataRate
      ∧ GetPayloadDuration st 100 ⟨GetDsssRate2Mbps, tx.nss, tx.ness, tx.stbc⟩ preamble frequency
          packetType incFlag = (.ok (MicroSeconds 400), st) := by
  have hR := dsss_catalog_facts tx.mode hmode hcls
  have hR' : (tx.mode.dataRate : ℚ) ≠ 0 := by positivity
  refine ⟨?_, ?_, ?_⟩
  · simp [GetPayloadDuration, hcls, mul_comm]
  · rw [← natCeil_div _ _ hR]
    congr 1
    push_cast
    field_simp
  · simp only [GetPayloadDuration, GetDsssRate2Mbps]
    have : Nat.ceil ((((100 : Nat) : ℚ) * 8) / (((2000000 : Nat) : ℚ) / 1000000)) = 400 := by
      rw [Nat.ceil_eq_iff (by decide)]
      norm_num
    rw [this]
    rfl

set_option maxRecDepth 100000 in
/-- C2 at DsssRate2Mbps, 100 bytes: a Last-role call with preamble None at 2412 MHz. -/
theorem C2_dsss_payload_duration_witness :
    GetDsssRate2Mbps ∈ allModes
      ∧ GetPayloadDuration ⟨7, 3⟩ 100 ⟨GetDsssRate2Mbps, 1, 0, false⟩ .WIFI_PREAMBLE_NONE 2412 2 1
        = (.ok (MicroSeconds 400), ⟨7, 3⟩) :=
  ⟨by decide,
    (C2_dsss_payload_duration ⟨7, 3⟩ 100 ⟨GetDsssRate2Mbps, 1, 0, false⟩ .WIFI_PREAMBLE_NONE 2412
      2 1 (by decide) rfl).2.2⟩

/-! ## Total duration -/

/-- The PLCP sum has a value exactly when the preamble and header look-ups have one. -/
theorem CalculatePlcpPreambleAndHeaderDuration_ok_iff (tx : WifiTxVector)
    (preamble : WifiPreamble) :
    (∃ d, CalculatePlcpPreambleAndHeaderDuration tx preamble = .ok d)
      ↔ (∃ a, GetPlcpPreambleDuration tx.mode preamble = .ok a)
        ∧ (∃ b, GetPlcpHeaderDuration tx.mode preamble = .ok b) := by
  unfold CalculatePlcpPreambleAndHeaderDuration
  cases hp : GetPlcpPreambleDuration tx.mode preamble <;>
    cases hh : GetPlcpHeaderDuration tx.mode preamble <;>
    by_cases hc : tx.mode.modClass = .WIFI_MOD_CLASS_S1G <;>
    simp [hc, hp, hh, bind, Except.bind, pure, Except.pure]

/-- C3: `CalculateTxDuration` returns the sum of `CalculatePlcpPreambleAndHeaderDuration` and
`GetPayloadDuration` whenever both have a value, has a value exactly when
`GetPlcpPreambleDuration`, `GetPlcpHeaderDuration` and `GetPayloadDuration` all have one (the
other PLCP field functions are total), and leaves the accumulator exactly as
`GetPayloadDuration` alone does. -/
theorem C3_tx_duration_is_plcp_plus_payload (st : PhyState) (size : Nat) (tx : WifiTxVector)
    (preamble : WifiPreamble) (frequency : ℚ) (packetType incFlag : Nat) :
    (CalculateTxDuration st size tx preamble frequency packetType incFlag).2
        = (GetPayloadDuration st size tx preamble frequency packetType incFlag).2
      ∧ (∀ plcp payload : Time,
          CalculatePlcpPreambleAndHeaderDuration tx preamble = .ok plcp →
          (GetPayloadDuration st size tx preamble frequency packetType incFlag).1 = .ok payload →
          (CalculateTxDuration st size tx preamble frequency packetType incFlag).1
            = .ok (plcp + payload))
      ∧ ((∃ d, (CalculateTxDuration st size tx preamble frequency packetType incFlag).1 = .ok d)
          ↔ (∃ a, GetPlcpPreambleDuration tx.mode preamble = .ok a)
            ∧ (∃ b, GetPlcpHeaderDuration tx.mode preamble = .ok b)
            ∧ (∃ p, (GetPayloadDuration st size tx preamble frequency packetType incFlag).1
                = .ok p)) := by
  refine ⟨rfl, ?_, ?_⟩
  · intro plcp payload h1 h2
    simp only [CalculateTxDuration, h1, h2]
    rfl
  · rw [← and_assoc, ← CalculatePlcpPreambleAndHeaderDuration_ok_iff]
    simp only [CalculateTxDuration]
    cases h1 : CalculatePlcpPreambleAndHeaderDuration tx preamble <;>
      cases h2 : (GetPayloadDuration st size tx preamble frequency packetType incFlag).1 <;>
      simp [h1, h2, bind, Except.bind, pure, Except.pure]

/-- C3 at OfdmRate54Mbps, preamble Long, 1000 bytes: 20 microseconds of PLCP and 152 of
payload give a total of 172 microseconds. -/
theorem C3_tx_duration_is_plcp_plus_payload_witness :
    CalculatePlcpPreambleAndHeaderDuration ⟨GetOfdmRate54Mbps, 1, 0, false⟩ .WIFI_PREAMBLE_LONG
        = .ok (MicroSeconds 20)
      ∧ (GetPayloadDuration PhyState.fresh 1000 ⟨GetOfdmRate54Mbps, 1, 0, false⟩
          .WIFI_PREAMBLE_LONG 5180 0 1).1 = .ok (MicroSeconds 152)
      ∧ (CalculateTxDuration PhyState.fresh 1000 ⟨GetOfdmRate54Mbps, 1, 0, false⟩
          .WIFI_PREAMBLE_LONG 5180 0 1).1 = .ok (MicroSeconds 20 + MicroSeconds 152) := by
  have hp : CalculatePlcpPreambleAndHeaderDuration ⟨GetOfdmRate54Mbps, 1, 0, false⟩
      .WIFI_PREAMBLE_LONG = .ok (MicroSeconds 20) := by
    simp only [CalculatePlcpPreambleAndHeaderDuration, GetPlcpPreambleDuration,
      GetPlcpHeaderDuration, GetOfdmRate54Mbps, GetPlcpHtSigHeaderDuration,
      GetPlcpHtTrainingSymbolDuration, MicroSeconds]
    simp [bind, Except.bind, pure, Except.pure]
  have hq : (GetPayloadDuration PhyState.fresh 1000 ⟨GetOfdmRate54Mbps, 1, 0, false⟩
      .WIFI_PREAMBLE_LONG 5180 0 1).1 = .ok (MicroSeconds 152) := by
    rw [GetPayloadDuration_ofdm_standalone PhyState.fresh 1000 ⟨GetOfdmRate54Mbps, 1, 0, false⟩
      .WIFI_PREAMBLE_LONG 5180 1 rfl (by simp)]
    have hN : numDataBitsPerSymbol 54000000 1 (MicroSeconds 4) = 216 := by
      norm_num [numDataBitsPerSymbol, uint64, MicroSeconds]
    have hc : Nat.ceil ((8 + ((1000 : Nat) : ℚ) * 8 + 6) / 216) = 38 := by
      rw [Nat.ceil_eq_iff (by norm_num)]
      norm_num
    show (Except.ok (((uint32 (Nat.ceil ((8 + ((1000 : Nat) : ℚ) * 8 + 6)
      / numDataBitsPerSymbol 54000000 1 (MicroSeconds 4))) : Nat) : Int) * MicroSeconds 4)
        : Except PhyError Time) = _
    rw [hN, hc]
    norm_num [uint32, MicroSeconds]
  exact ⟨hp, hq, (C3_tx_duration_is_plcp_plus_payload PhyState.fresh 1000
    ⟨GetOfdmRate54Mbps, 1, 0, false⟩ .WIFI_PREAMBLE_LONG 5180 0 1).2.1 _ _ hp hq⟩

/-! ## The HT and S1G branches -/

/-- The S1G role dispatch is the HT role dispatch. -/
theorem s1gNumSymbols_eq_htNumSymbols : s1gNumSymbols = htNumSymbols := rfl

/-- The HT branch of `GetPayloadDuration` when the role dispatch yields a symbol count. -/
theorem GetPayloadDuration_ht_ok (st : PhyState) (size : Nat) (tx : WifiTxVector)
    (preamble : WifiPreamble) (frequency : ℚ) (packetType incFlag : Nat)
    (hcls : tx.mode.modClass = .WIFI_MOD_CLASS_HT) {n : Nat} {st2 : PhyState}
    (h : payloadNumSymbols st size tx preamble packetType incFlag = (.ok n, st2)) :
    GetPayloadDuration st size tx preamble frequency packetType incFlag
      = (.ok (if frequency ≥ 2400 ∧ frequency ≤ 2500
              ∧ ((packetType = 0 ∧ preamble ≠ .WIFI_PREAMBLE_NONE)
                ∨ (packetType = 2 ∧ preamble = .WIFI_PREAMBLE_NONE)) then
            (n : Int) * payloadSymbolDuration tx + MicroSeconds 6
          else (n : Int) * payloadSymbolDuration tx), st2) := by
  simp only [payloadNumSymbols, hcls] at h
  simp only [GetPayloadDuration, payloadSymbolDuration, hcls, h, Except.map]

/-- The S1G branch of `GetPayloadDuration` when the role dispatch yields a symbol count. -/
theorem GetPayloadDuration_s1g_ok (st : PhyState) (size : Nat) (tx : WifiTxVector)
    (preamble : WifiPreamble) (frequency : ℚ) (packetType incFlag : Nat)
    (hcls : tx.mode.modClass = .WIFI_MOD_CLASS_S1G) {n : Nat} {st2 : PhyState}
    (h : payloadNumSymbols st size tx preamble packetType incFlag = (.ok n, st2)) :
    GetPayloadDuration st size tx preamble frequency packetType incFlag
      = (.ok ((n : Int) * payloadSymbolDuration tx), st2) := by
  simp only [payloadNumSymbols, hcls] at h
  simp only [GetPayloadDuration, payloadSymbolDuration, hcls, h, Except.map]

/-- The OFDM and ERP-OFDM branch of `GetPayloadDuration` when the role dispatch yields a
symbol count. -/
theorem GetPayloadDuration_ofdm_ok (st : PhyState) (size : Nat) (tx : WifiTxVector)
    (preamble : WifiPreamble) (frequency : ℚ) (packetType incFlag : Nat)
    (hcls : tx.mode.modClass = .WIFI_MOD_CLASS_OFDM
      ∨ tx.mode.modClass = .WIFI_MOD_CLASS_ERP_OFDM) {n : Nat} {st2 : PhyState}
    (h : payloadNumSymbols st size tx preamble packetType incFlag = (.ok n, st2)) :
    GetPayloadDuration st size tx preamble frequency packetType incFlag
      = (.ok (if tx.mode.modClass = .WIFI_MOD_CLASS_ERP_OFDM then
            (n : Int) * payloadSymbolDuration tx + MicroSeconds 6
          else (n : Int) * payloadSymbolDuration tx), st2) := by
  rcases hcls with hc | hc
  · simp only [payloadNumSymbols, hc] at h
    simp only [GetPayloadDuration, payloadSymbolDuration, hc, h, Except.map]
  · simp only [payloadNumSymbols, hc] at h
    simp only [GetPayloadDuration, payloadSymbolDuration, hc, h, Except.map]

/-- A call on a symbol-counting mode fails exactly as its role dispatch does, and leaves the
accumulator the role dispatch leaves. -/
theorem GetPayloadDuration_error (st : PhyState) (size : Nat) (tx : WifiTxVector)
    (preamble : WifiPreamble) (frequency : ℚ) (packetType incFlag : Nat)
    (hcls : tx.mode.modClass ≠ .WIFI_MOD_CLASS_DSSS) {e : PhyError} {st2 : PhyState}
    (h : payloadNumSymbols st size tx preamble packetType incFlag = (.error e, st2)) :
    GetPayloadDuration st size tx preamble frequency packetType incFlag = (.error e, st2) := by
  cases hc : tx.mode.modClass <;> simp only [payloadNumSymbols, hc] at h
  case WIFI_MOD_CLASS_DSSS => exact absurd hc hcls
  case WIFI_MOD_CLASS_UNKNOWN =>
    simp only [Prod.mk.injEq, Except.error.injEq] at h
    obtain ⟨rfl, rfl⟩ := h
    simp only [GetPayloadDuration, hc]
  all_goals simp only [GetPayloadDuration, hc, h, Except.map]

set_option maxRecDepth 100000 in
/-- Data rates of the catalog, by modulation class. -/
theorem catalog_rate_facts : ∀ m ∈ allModes, 150000 ≤ m.dataRate ∧ m.dataRate ≤ 150000000
    ∧ (m.modClass = .WIFI_MOD_CLASS_HT → 6500000 ≤ m.dataRate)
    ∧ (m.modClass = .WIFI_MOD_CLASS_OFDM ∨ m.modClass = .WIFI_MOD_CLASS_ERP_OFDM →
        1500000 ≤ m.dataRate ∧ (m.bandwidth ≠ 5000000 → 3000000 ≤ m.dataRate)
          ∧ (m.bandwidth ≠ 5000000 → m.bandwidth ≠ 10000000 → 6000000 ≤ m.dataRate)) := by
  decide

/-- The HT branch selects a symbol of 3.6 or 4 microseconds. -/
theorem htSymbolDuration_cases (m : WifiMode) (tx : WifiTxVector) :
    htSymbolDuration m tx = 3600 ∨ htSymbolDuration m tx = 4000 := by
  unfold htSymbolDuration NanoSeconds MicroSeconds
  split_ifs <;> simp

/-- The S1G branch selects a symbol of 36 or 40 microseconds. -/
theorem s1gSymbolDuration_cases (m : WifiMode) (tx : WifiTxVector) :
    s1gSymbolDuration m tx = 36000 ∨ s1gSymbolDuration m tx = 40000 := by
  unfold s1gSymbolDuration MicroSeconds
  split_ifs <;> simp

/-- The OFDM branch selects a symbol of 4, 8 or 16 microseconds. -/
theorem ofdmSymbolDuration_cases (m : WifiMode) :
    (m.bandwidth = 10000000 ∧ ofdmSymbolDuration m = 8000)
      ∨ (m.bandwidth = 5000000 ∧ ofdmSymbolDuration m = 16000)
      ∨ (m.bandwidth ≠ 10000000 ∧ m.bandwidth ≠ 5000000 ∧ ofdmSymbolDuration m = 4000) := by
  unfold ofdmSymbolDuration MicroSeconds
  split_ifs with h1 h2
  · exact Or.inl ⟨h1, by norm_num⟩
  · exact Or.inr (Or.inl ⟨h2, by norm_num⟩)
  · exact Or.inr (Or.inr ⟨h1, h2, by norm_num⟩)

/-- Bits per symbol without the 64-bit reduction, for a bounded rate, stream count and symbol
duration. -/
theorem numDataBitsPerSymbol_exact {R nss : Nat} {sd : Int} (hR : R ≤ 150000000)
    (hnss : nss < 256) (h0 : 0 ≤ sd) (hsd : sd ≤ 40000) :
    numDataBitsPerSymbol R nss sd = ((R : ℚ) * nss * sd) / 1000000000 := by
  apply numDataBitsPerSymbol_eq h0
  have h1 : (R : Int) ≤ 150000000 := by exact_mod_cast hR
  have h2 : (nss : Int) ≤ 255 := by exact_mod_cast Nat.le_of_lt_succ hnss
  have h3 : (0 : Int) ≤ R := by positivity
  have h4 : (0 : Int) ≤ nss := by positivity
  have h5 : (R : Int) * nss ≤ 150000000 * 255 := by nlinarith
  have h6 : (0 : Int) ≤ (R : Int) * nss := by positivity
  nlinarith

/-- The Standalone branch of the HT role dispatch without STBC. -/
theorem htNumSymbols_standalone (st : PhyState) (size : Nat) (preamble : WifiPreamble)
    (incFlag : Nat) (N : ℚ) (hpre : preamble ≠ .WIFI_PREAMBLE_NONE) :
    htNumSymbols st size preamble 0 incFlag 1 N
      = (.ok (uint32 (Nat.ceil ((8 + 8 * (size : ℚ) + 6) / N))), st) := by
  simp [htNumSymbols, hpre, mul_comm]

/-- The symbol count of a Standalone call on an HT or S1G mode without STBC, before any bound
is used: the ceiling is stored in a 32-bit variable. -/
theorem payloadNumSymbols_standalone (st : PhyState) (size : Nat) (tx : WifiTxVector)
    (preamble : WifiPreamble) (incFlag : Nat)
    (hcls : tx.mode.modClass = .WIFI_MOD_CLASS_HT ∨ tx.mode.modClass = .WIFI_MOD_CLASS_S1G)
    (hstbc : tx.stbc = false) (hpre : preamble ≠ .WIFI_PREAMBLE_NONE) :
    payloadNumSymbols st size tx preamble 0 incFlag
      = (.ok (uint32 (Nat.ceil ((8 + 8 * (size : ℚ) + 6)
          / numDataBitsPerSymbol tx.mode.dataRate tx.nss (payloadSymbolDuration tx)))), st) := by
  rcases hcls with h | h
  · simp only [payloadNumSymbols, payloadSymbolDuration, h, hstbc]
    exact htNumSymbols_standalone st size preamble incFlag _ hpre
  · simp only [payloadNumSymbols, payloadSymbolDuration, h, hstbc,
      s1gNumSymbols_eq_htNumSymbols]
    exact htNumSymbols_standalone st size preamble incFlag _ hpre

set_option maxRecDepth 100000 in
/-- C4 fails as stated at the S1G mode OfdmRate150KbpsBW1MHz, one stream, no STBC, preamble
S1G-Short, size 4294967295: a symbol carries 6 bits, the count 5726623063 does not fit the
32-bit `numSymbols`, and the call returns 1431655767 symbols of 40 microseconds. -/
theorem C4_counterexample :
    GetOfdmRate150KbpsBW1MHz ∈ allModes
      ∧ GetOfdmRate150KbpsBW1MHz.modClass = .WIFI_MOD_CLASS_S1G
      ∧ payloadSymbolDuration ⟨GetOfdmRate150KbpsBW1MHz, 1, 0, false⟩ = MicroSeconds 40
      ∧ Nat.ceil ((8 + 8 * (4294967295 : ℚ) + 6)
          / ((150000 : ℚ) * 1 * ((MicroSeconds 40 : Int) : ℚ) / 1000000000)) = 5726623063
      ∧ GetPayloadDuration PhyState.fresh 4294967295 ⟨GetOfdmRate150KbpsBW1MHz, 1, 0, false⟩
          .WIFI_PREAMBLE_S1G_SHORT 900 0 0
        = (.ok (1431655767 * MicroSeconds 40), PhyState.fresh)
      ∧ GetPayloadDuration PhyState.fresh 4294967295 ⟨GetOfdmRate150KbpsBW1MHz, 1, 0, false⟩
          .WIFI_PREAMBLE_S1G_SHORT 900 0 0
        ≠ (.ok (5726623063 * MicroSeconds 40), PhyState.fresh) := by
  have hT : payloadSymbolDuration ⟨GetOfdmRate150KbpsBW1MHz, 1, 0, false⟩ = MicroSeconds 40 := by
    decide
  have hN : numDataBitsPerSymbol 150000 1 (MicroSeconds 40) = 6 := by
    norm_num [numDataBitsPerSymbol, uint64, MicroSeconds]
  have hc : Nat.ceil ((8 + 8 * ((4294967295 : Nat) : ℚ) + 6) / 6) = 5726623063 := by
    rw [Nat.ceil_eq_iff (by norm_num)]
    norm_num
  have hsym : payloadNumSymbols PhyState.fresh 4294967295
      ⟨GetOfdmRate150KbpsBW1MHz, 1, 0, false⟩ .WIFI_PREAMBLE_S1G_SHORT 0 0
      = (.ok 1431655767, PhyState.fresh) := by
    rw [payloadNumSymbols_standalone _ _ _ _ _ (Or.inr rfl) rfl (by simp), hT]
    show (Except.ok (uint32 (Nat.ceil ((8 + 8 * ((4294967295 : Nat) : ℚ) + 6)
      / numDataBitsPerSymbol 150000 1 (MicroSeconds 40)))), PhyState.fresh) = _
    rw [hN, hc]
    rfl
  have hval := GetPayloadDuration_s1g_ok PhyState.fresh 4294967295
    ⟨GetOfdmRate150KbpsBW1MHz, 1, 0, false⟩ .WIFI_PREAMBLE_S1G_SHORT 900 0 0 rfl hsym
  rw [hT] at hval
  refine ⟨by decide, rfl, hT, ?_, hval, ?_⟩
  · rw [Nat.ceil_eq_iff (by norm_num)]
    norm_num [MicroSeconds]
  · rw [hval]
    norm_num [MicroSeconds]

/-! ## The role dispatch, role by role -/

/-- The classes whose branch of `GetPayloadDuration` counts symbols. -/
theorem symbolCounting_cases {c : WifiModulationClass}
    (h : c = .WIFI_MOD_CLASS_OFDM ∨ c = .WIFI_MOD_CLASS_ERP_OFDM ∨ c = .WIFI_MOD_CLASS_HT
      ∨ c = .WIFI_MOD_CLASS_S1G) :
    (c = .WIFI_MOD_CLASS_OFDM ∨ c = .WIFI_MOD_CLASS_ERP_OFDM)
      ∨ (c = .WIFI_MOD_CLASS_HT ∨ c = .WIFI_MOD_CLASS_S1G) := by
  rcases h with h | h | h | h
  · exact Or.inl (Or.inl h)
  · exact Or.inl (Or.inr h)
  · exact Or.inr (Or.inl h)
  · exact Or.inr (Or.inr h)

/-- On an OFDM or ERP-OFDM mode the symbol count is the OFDM role dispatch. -/
theorem payloadNumSymbols_ofdm (st : PhyState) (size : Nat) (tx : WifiTxVector)
    (preamble : WifiPreamble) (packetType incFlag : Nat)
    (hcls : tx.mode.modClass = .WIFI_MOD_CLASS_OFDM
      ∨ tx.mode.modClass = .WIFI_MOD_CLASS_ERP_OFDM) :
    payloadNumSymbols st size tx preamble packetType incFlag
      = ofdmNumSymbols st size preamble packetType incFlag (payloadBitsPerSymbol tx) := by
  rcases hcls with h | h <;>
    simp only [payloadNumSymbols, payloadBitsPerSymbol, payloadSymbolDuration, h]

/-- On an HT or S1G mode the symbol count is the HT role dispatch. -/
theorem payloadNumSymbols_ht (st : PhyState) (size : Nat) (tx : WifiTxVector)
    (preamble : WifiPreamble) (packetType incFlag : Nat)
    (hcls : tx.mode.modClass = .WIFI_MOD_CLASS_HT ∨ tx.mode.modClass = .WIFI_MOD_CLASS_S1G) :
    payloadNumSymbols st size tx preamble packetType incFlag
      = htNumSymbols st size preamble packetType incFlag (payloadStbc tx)
          (payloadBitsPerSymbol tx) := by
  rcases hcls with h | h <;>
    simp only [payloadNumSymbols, payloadBitsPerSymbol, payloadSymbolDuration, payloadStbc, h,
      s1gNumSymbols_eq_htNumSymbols]

/-- The factor `m_Stbc` is `1` or `2`. -/
theorem payloadStbc_cases (tx : WifiTxVector) : payloadStbc tx = 1 ∨ payloadStbc tx = 2 := by
  unfold payloadStbc
  split
  · split_ifs
    · exact Or.inr rfl
    · exact Or.inl rfl
  · split_ifs
    · exact Or.inr rfl
    · exact Or.inl rfl
  · exact Or.inl rfl

/-- On an OFDM or ERP-OFDM mode the factor `m_Stbc` is `1`. -/
theorem payloadStbc_ofdm (tx : WifiTxVector)
    (hcls : tx.mode.modClass = .WIFI_MOD_CLASS_OFDM
      ∨ tx.mode.modClass = .WIFI_MOD_CLASS_ERP_OFDM) : payloadStbc tx = 1 := by
  rcases hcls with h | h <;> simp only [payloadStbc, h]

/-- The First formula: the factor `m_Stbc` cancels. -/
theorem first_formula (m : Nat) (hm : m = 1 ∨ m = 2) (size : Nat) (N : ℚ) :
    Nat.ceil ((m : ℚ) * (8 + (size : ℚ) * 8 + 6 * 1) / ((m : ℚ) * N))
      = Nat.ceil ((8 + (size : ℚ) * 8 + 6) / N) := by
  have hm0 : (m : ℚ) ≠ 0 := by rcases hm with h | h <;> simp [h]
  rw [mul_div_mul_left _ _ hm0, mul_one]

/-- The Middle formula: the factor `m_Stbc` cancels. -/
theorem middle_formula (m : Nat) (hm : m = 1 ∨ m = 2) (size : Nat) (N : ℚ) :
    Nat.floor ((m : ℚ) * (((size : ℚ) * 8) / ((m : ℚ) * N)))
      = Nat.floor (((size : ℚ) * 8) / N) := by
  have hm0 : (m : ℚ) ≠ 0 := by rcases hm with h | h <;> simp [h]
  rw [← mul_div_assoc, mul_div_mul_left _ _ hm0]

/-- Role First (packetType 1, real preamble) on a symbol-counting mode. -/
theorem payloadNumSymbols_first (st : PhyState) (size : Nat) (tx : WifiTxVector)
    (preamble : WifiPreamble) (incFlag : Nat)
    (hcls : tx.mode.modClass = .WIFI_MOD_CLASS_OFDM ∨ tx.mode.modClass = .WIFI_MOD_CLASS_ERP_OFDM
      ∨ tx.mode.modClass = .WIFI_MOD_CLASS_HT ∨ tx.mode.modClass = .WIFI_MOD_CLASS_S1G)
    (hpre : preamble ≠ .WIFI_PREAMBLE_NONE) :
    payloadNumSymbols st size tx preamble 1 incFlag
      = (.ok (uint32 (Nat.ceil ((8 + (size : ℚ) * 8 + 6) / payloadBitsPerSymbol tx))),
          if incFlag = 1 then
            ⟨uint32 (st.m_totalAmpduSize + size),
              uint32 (st.m_totalAmpduNumSymbols
                + uint32 (Nat.ceil ((8 + (size : ℚ) * 8 + 6) / payloadBitsPerSymbol tx)))⟩
          else st) := by
  rcases symbolCounting_cases hcls with h | h
  · rw [payloadNumSymbols_ofdm _ _ _ _ _ _ h]
    by_cases hi : incFlag = 1 <;> simp [ofdmNumSymbols, hpre, hi]
  · rw [payloadNumSymbols_ht _ _ _ _ _ _ h]
    have hf := first_formula (payloadStbc tx) (payloadStbc_cases tx) size
      (payloadBitsPerSymbol tx)
    by_cases hi : incFlag = 1 <;> simp only [htNumSymbols, hpre, hi, hf] <;> simp [hpre]

/-- Role Middle (packetType 1, preamble None) on a symbol-counting mode. -/
theorem payloadNumSymbols_middle (st : PhyState) (size : Nat) (tx : WifiTxVector)
    (incFlag : Nat)
    (hcls : tx.mode.modClass = .WIFI_MOD_CLASS_OFDM ∨ tx.mode.modClass = .WIFI_MOD_CLASS_ERP_OFDM
      ∨ tx.mode.modClass = .WIFI_MOD_CLASS_HT ∨ tx.mode.modClass = .WIFI_MOD_CLASS_S1G) :
    payloadNumSymbols st size tx .WIFI_PREAMBLE_NONE 1 incFlag
      = (.ok (uint32 (Nat.floor (((size : ℚ) * 8) / payloadBitsPerSymbol tx))),
          if incFlag = 1 then
            ⟨uint32 (st.m_totalAmpduSize + size),
              uint32 (st.m_totalAmpduNumSymbols
                + uint32 (Nat.floor (((size : ℚ) * 8) / payloadBitsPerSymbol tx)))⟩
          else st) := by
  rcases symbolCounting_cases hcls with h | h
  · rw [payloadNumSymbols_ofdm _ _ _ _ _ _ h]
    by_cases hi : incFlag = 1 <;> simp [ofdmNumSymbols, hi]
  · rw [payloadNumSymbols_ht _ _ _ _ _ _ h]
    have hf := middle_formula (payloadStbc tx) (payloadStbc_cases tx) size
      (payloadBitsPerSymbol tx)
    by_cases hi : incFlag = 1 <;> simp only [htNumSymbols, hi, hf] <;> simp

/-- Role Standalone (packetType 0, real preamble) on a symbol-counting mode. -/
theorem payloadNumSymbols_standalone_count (st : PhyState) (size : Nat) (tx : WifiTxVector)
    (preamble : WifiPreamble) (incFlag : Nat)
    (hcls : tx.mode.modClass = .WIFI_MOD_CLASS_OFDM ∨ tx.mode.modClass = .WIFI_MOD_CLASS_ERP_OFDM
      ∨ tx.mode.modClass = .WIFI_MOD_CLASS_HT ∨ tx.mode.modClass = .WIFI_MOD_CLASS_S1G)
    (hpre : preamble ≠ .WIFI_PREAMBLE_NONE) :
    payloadNumSymbols st size tx preamble 0 incFlag
      = (.ok (uint32 (standaloneCount tx size)), st) := by
  rcases symbolCounting_cases hcls with h | h
  · rw [payloadNumSymbols_ofdm _ _ _ _ _ _ h]
    simp [ofdmNumSymbols, hpre, standaloneCount, payloadStbc_ofdm tx h]
  · rw [payloadNumSymbols_ht _ _ _ _ _ _ h]
    simp [htNumSymbols, hpre, standaloneCount]

/-- Role Last (packetType 2, preamble None) on an OFDM or ERP-OFDM mode: no check precedes
the 32-bit subtraction. -/
theorem payloadNumSymbols_last_ofdm (st : PhyState) (size : Nat) (tx : WifiTxVector)
    (incFlag : Nat)
    (hcls : tx.mode.modClass = .WIFI_MOD_CLASS_OFDM
      ∨ tx.mode.modClass = .WIFI_MOD_CLASS_ERP_OFDM) :
    payloadNumSymbols st size tx .WIFI_PREAMBLE_NONE 2 incFlag
      = (.ok (uint32Sub (uint32 (standaloneCount tx (uint32 (st.m_totalAmpduSize + size))))
            st.m_totalAmpduNumSymbols),
          if incFlag = 1 then ⟨0, 0⟩ else st) := by
  rw [payloadNumSymbols_ofdm _ _ _ _ _ _ hcls]
  by_cases hi : incFlag = 1 <;>
    simp [ofdmNumSymbols, hi, standaloneCount, payloadStbc_ofdm tx hcls]

/-- Role Last (packetType 2, preamble None) on an HT or S1G mode: the subtraction is guarded
by `NS_ASSERT (m_totalAmpduNumSymbols <= numSymbols)`. -/
theorem payloadNumSymbols_last_ht (st : PhyState) (size : Nat) (tx : WifiTxVector)
    (incFlag : Nat)
    (hcls : tx.mode.modClass = .WIFI_MOD_CLASS_HT ∨ tx.mode.modClass = .WIFI_MOD_CLASS_S1G) :
    payloadNumSymbols st size tx .WIFI_PREAMBLE_NONE 2 incFlag
      = if st.m_totalAmpduNumSymbols
            ≤ uint32 (standaloneCount tx (uint32 (st.m_totalAmpduSize + size))) then
          (.ok (uint32Sub (uint32 (standaloneCount tx (uint32 (st.m_totalAmpduSize + size))))
              st.m_totalAmpduNumSymbols),
            if incFlag = 1 then ⟨0, 0⟩ else st)
        else (.error .assertionFailed, st) := by
  rw [payloadNumSymbols_ht _ _ _ _ _ _ hcls]
  by_cases hi : incFlag = 1 <;> simp [htNumSymbols, hi, standaloneCount]

/-! ## Bits per symbol of the catalog modes -/

/-- The selected symbol duration lies between 3.6 and 40 microseconds. -/
theorem payloadSymbolDuration_bounds (tx : WifiTxVector) :
    (3600 : Int) ≤ payloadSymbolDuration tx ∧ payloadSymbolDuration tx ≤ 40000 := by
  unfold payloadSymbolDuration
  split
  · rcases htSymbolDuration_cases tx.mode tx with h | h <;> rw [h] <;> norm_num
  · rcases s1gSymbolDuration_cases tx.mode tx with h | h <;> rw [h] <;> norm_num
  · rcases ofdmSymbolDuration_cases tx.mode with h | h | h
    · rw [h.2]; norm_num
    · rw [h.2]; norm_num
    · rw [h.2.2]; norm_num

/-- Bits per symbol of a catalog mode, without the 64-bit reduction. -/
theorem payloadBitsPerSymbol_exact (tx : WifiTxVector) (hmode : tx.mode ∈ allModes)
    (hnss : tx.nss < 256) :
    payloadBitsPerSymbol tx
      = ((tx.mode.dataRate : ℚ)
          * ((if tx.mode.modClass = .WIFI_MOD_CLASS_HT ∨ tx.mode.modClass = .WIFI_MOD_CLASS_S1G
              then tx.nss else 1 : Nat) : ℚ)
          * (payloadSymbolDuration tx : ℚ)) / 1000000000 := by
  obtain ⟨-, hhi, -, -⟩ := catalog_rate_facts tx.mode hmode
  obtain ⟨h0, h1⟩ := payloadSymbolDuration_bounds tx
  have h0' : (0 : Int) ≤ payloadSymbolDuration tx := by linarith
  cases hc : tx.mode.modClass <;>
    simp only [payloadBitsPerSymbol, hc, reduceCtorEq, or_self, or_true, true_or, or_false,
      false_or, if_true, if_false]
  all_goals first
    | exact numDataBitsPerSymbol_exact hhi hnss h0' h1
    | exact numDataBitsPerSymbol_exact hhi (by norm_num) h0' h1

/-- A symbol of a catalog mode carries a positive number of bits. -/
theorem payloadBitsPerSymbol_pos (tx : WifiTxVector) (hmode : tx.mode ∈ allModes)
    (hnss1 : 1 ≤ tx.nss) (hnss : tx.nss < 256) : 0 < payloadBitsPerSymbol tx := by
  rw [payloadBitsPerSymbol_exact tx hmode hnss]
  obtain ⟨hlo, -, -, -⟩ := catalog_rate_facts tx.mode hmode
  obtain ⟨h0, -⟩ := payloadSymbolDuration_bounds tx
  have h1 : (0 : ℚ) < tx.mode.dataRate := by
    have : 0 < tx.mode.dataRate := by omega
    exact_mod_cast this
  have h2 : (0 : ℚ) < (payloadSymbolDuration tx : ℚ) := by
    have : (0 : Int) < payloadSymbolDuration tx := by linarith
    exact_mod_cast this
  have h3 : (0 : ℚ) < ((if tx.mode.modClass = .WIFI_MOD_CLASS_HT
      ∨ tx.mode.modClass = .WIFI_MOD_CLASS_S1G then tx.nss else 1 : Nat) : ℚ) := by
    have : 0 < (if tx.mode.modClass = .WIFI_MOD_CLASS_HT
        ∨ tx.mode.modClass = .WIFI_MOD_CLASS_S1G then tx.nss else 1 : Nat) := by
      split_ifs <;> omega
    exact_mod_cast this
  positivity

/-- A symbol of a catalog mode of class OFDM, ERP-OFDM or HT carries at least 23 bits. -/
theorem payloadBitsPerSymbol_ge (tx : WifiTxVector) (hmode : tx.mode ∈ allModes)
    (hcls : tx.mode.modClass = .WIFI_MOD_CLASS_OFDM ∨ tx.mode.modClass = .WIFI_MOD_CLASS_ERP_OFDM
      ∨ tx.mode.modClass = .WIFI_MOD_CLASS_HT)
    (hnss1 : 1 ≤ tx.nss) (hnss : tx.nss < 256) : 23 ≤ payloadBitsPerSymbol tx := by
  rw [payloadBitsPerSymbol_exact tx hmode hnss]
  obtain ⟨hlo, -, hht, hofdm⟩ := catalog_rate_facts tx.mode hmode
  rw [le_div_iff₀ (by norm_num)]
  rcases hcls with h | h | h
  · obtain ⟨r5, r10, r20⟩ := hofdm (Or.inl h)
    simp only [h, reduceCtorEq, or_self, if_false, payloadSymbolDuration]
    rcases ofdmSymbolDuration_cases tx.mode with c | c | c
    · have : 3000000 ≤ tx.mode.dataRate := r10 (by omega)
      have : (3000000 : ℚ) ≤ tx.mode.dataRate := by exact_mod_cast this
      rw [c.2]; push_cast; linarith
    · have : (1500000 : ℚ) ≤ tx.mode.dataRate := by exact_mod_cast r5
      rw [c.2]; push_cast; linarith
    · have : 6000000 ≤ tx.mode.dataRate := r20 c.2.1 c.1
      have : (6000000 : ℚ) ≤ tx.mode.dataRate := by exact_mod_cast this
      rw [c.2.2]; push_cast; linarith
  · obtain ⟨r5, r10, r20⟩ := hofdm (Or.inr h)
    simp only [h, reduceCtorEq, or_self, if_false, payloadSymbolDuration]
    rcases ofdmSymbolDuration_cases tx.mode with c | c | c
    · have : 3000000 ≤ tx.mode.dataRate := r10 (by omega)
      have : (3000000 : ℚ) ≤ tx.mode.dataRate := by exact_mod_cast this
      rw [c.2]; push_cast; linarith
    · have : (1500000 : ℚ) ≤ tx.mode.dataRate := by exact_mod_cast r5
      rw [c.2]; push_cast; linarith
    · have : 6000000 ≤ tx.mode.dataRate := r20 c.2.1 c.1
      have : (6000000 : ℚ) ≤ tx.mode.dataRate := by exact_mod_cast this
      rw [c.2.2]; push_cast; linarith
  · have h1 : (6500000 : ℚ) ≤ tx.mode.dataRate := by exact_mod_cast hht h
    have h2 : (1 : ℚ) ≤ tx.nss := by exact_mod_cast hnss1
    have h3 : (3600 : ℚ) ≤ (payloadSymbolDuration tx : ℚ) := by
      exact_mod_cast (payloadSymbolDuration_bounds tx).1
    have h4 : (6500000 : ℚ) * 1 ≤ (tx.mode.dataRate : ℚ) * tx.nss :=
      mul_le_mul h1 h2 (by norm_num) (by positivity)
    have h5 : (6500000 : ℚ) * 1 * 3600 ≤ (tx.mode.dataRate : ℚ) * tx.nss
        * (payloadSymbolDuration tx : ℚ) := mul_le_mul h4 h3 (by norm_num) (by positivity)
    simp only [h, true_or, if_true]
    linarith

/-! ## Counting the symbols of an aggregate -/

/-- A ceiling plus a floor is at most the ceiling of the sum. -/
theorem ceil_add_floor_le (x y : ℚ) (hx : 0 ≤ x) (hy : 0 ≤ y) :
    Nat.ceil x + Nat.floor y ≤ Nat.ceil (x + y) := by
  rw [← Nat.ceil_add_nat hx]
  exact Nat.ceil_mono (by linarith [Nat.floor_le hy])

/-- The First formula is monotone in the number of bytes. -/
theorem first_count_mono {a b : Nat} (hab : a ≤ b) {N : ℚ} (hN : 0 < N) :
    Nat.ceil ((8 + (a : ℚ) * 8 + 6) / N) ≤ Nat.ceil ((8 + (b : ℚ) * 8 + 6) / N) := by
  apply Nat.ceil_mono
  have : (a : ℚ) ≤ b := by exact_mod_cast hab
  exact div_le_div_of_nonneg_right (by linarith) hN.le

/-- Appending a Middle fragment: the symbols counted so far stay below the First formula of
the bytes seen so far. -/
theorem first_count_add_middle (a s : Nat) {N : ℚ} (hN : 0 < N) :
    Nat.ceil ((8 + (a : ℚ) * 8 + 6) / N) + Nat.floor (((s : ℚ) * 8) / N)
      ≤ Nat.ceil ((8 + ((a + s : Nat) : ℚ) * 8 + 6) / N) := by
  have h := ceil_add_floor_le ((8 + (a : ℚ) * 8 + 6) / N) (((s : ℚ) * 8) / N)
    (by positivity) (by positivity)
  have e : (8 + (a : ℚ) * 8 + 6) / N + ((s : ℚ) * 8) / N
      = (8 + ((a + s : Nat) : ℚ) * 8 + 6) / N := by
    push_cast
    ring
  rwa [e] at h

/-- The First formula is at most the Standalone formula, whatever the factor `m_Stbc`. -/
theorem first_count_le_standaloneCount (tx : WifiTxVector) (size : Nat)
    (hN : 0 < payloadBitsPerSymbol tx) :
    Nat.ceil ((8 + (size : ℚ) * 8 + 6) / payloadBitsPerSymbol tx) ≤ standaloneCount tx size := by
  unfold standaloneCount
  have hm : (0 : ℚ) < payloadStbc tx := by
    rcases payloadStbc_cases tx with h | h <;> rw [h] <;> norm_num
  rw [Nat.ceil_le]
  push_cast
  have h1 := Nat.le_ceil ((8 + (size : ℚ) * 8 + 6)
    / ((payloadStbc tx : ℚ) * payloadBitsPerSymbol tx))
  have e : (8 + (size : ℚ) * 8 + 6) / payloadBitsPerSymbol tx
      = (payloadStbc tx : ℚ) * ((8 + (size : ℚ) * 8 + 6)
        / ((payloadStbc tx : ℚ) * payloadBitsPerSymbol tx)) := by
    field_simp
    ring
  rw [e]
  exact mul_le_mul_of_nonneg_left h1 hm.le

/-- The Standalone formula stays below `2 ^ 32` when a symbol carries at least 23 bits. -/
theorem standaloneCount_lt (tx : WifiTxVector) (size : Nat) (hsize : size < 4294967296)
    (hN : 23 ≤ payloadBitsPerSymbol tx) : standaloneCount tx size < 4294967296 := by
  unfold standaloneCount
  have hs : (size : ℚ) ≤ 4294967295 := by exact_mod_cast Nat.le_of_lt_succ hsize
  have hle : ∀ m : ℚ, 1 ≤ m → Nat.ceil ((8 + (size : ℚ) * 8 + 6)
      / (m * payloadBitsPerSymbol tx)) ≤ 1493901683 := by
    intro m hm
    have hpos : (0 : ℚ) < m * payloadBitsPerSymbol tx := by nlinarith
    rw [Nat.ceil_le, div_le_iff₀ hpos]
    push_cast
    nlinarith
  rcases payloadStbc_cases tx with h | h
  · have := hle 1 le_rfl
    rw [h]
    push_cast
    omega
  · have := hle 2 (by norm_num)
    rw [h]
    push_cast
    omega

/-- The 32-bit subtraction is exact when nothing wraps. -/
theorem uint32Sub_of_le {a b : Nat} (hba : b ≤ a) (ha : a < 4294967296) :
    uint32Sub a b = a - b := by
  unfold uint32Sub
  omega

/-- The committed Last call, when the symbols counted so far do not exceed the Standalone
formula of the whole aggregate and nothing wraps. -/
theorem payloadNumSymbols_last_commit (st : PhyState) (size : Nat) (tx : WifiTxVector)
    (hcls : tx.mode.modClass = .WIFI_MOD_CLASS_OFDM ∨ tx.mode.modClass = .WIFI_MOD_CLASS_ERP_OFDM
      ∨ tx.mode.modClass = .WIFI_MOD_CLASS_HT ∨ tx.mode.modClass = .WIFI_MOD_CLASS_S1G)
    (incFlag : Nat)
    (hbytes : st.m_totalAmpduSize + size < 4294967296)
    (hfit : standaloneCount tx (st.m_totalAmpduSize + size) < 4294967296)
    (hsyms : st.m_totalAmpduNumSymbols ≤ standaloneCount tx (st.m_totalAmpduSize + size)) :
    payloadNumSymbols st size tx .WIFI_PREAMBLE_NONE 2 incFlag
      = (.ok (standaloneCount tx (st.m_totalAmpduSize + size) - st.m_totalAmpduNumSymbols),
          if incFlag = 1 then ⟨0, 0⟩ else st) := by
  rcases symbolCounting_cases hcls with h | h
  · rw [payloadNumSymbols_last_ofdm st size tx incFlag h, uint32_of_lt hbytes,
      uint32_of_lt hfit, uint32Sub_of_le hsyms hfit]
  · rw [payloadNumSymbols_last_ht st size tx incFlag h, uint32_of_lt hbytes,
      uint32_of_lt hfit, if_pos hsyms, uint32Sub_of_le hsyms hfit]

/-- One step of `runNumSymbols`. -/
theorem runNumSymbols_cons (st : PhyState) (c : Call) (cs : List Call) :
    runNumSymbols st (c :: cs)
      = ((payloadNumSymbols st c.size c.txvector c.preamble c.packetType c.incFlag).1
            :: (runNumSymbols
              (payloadNumSymbols st c.size c.txvector c.preamble c.packetType c.incFlag).2 cs).1,
          (runNumSymbols
            (payloadNumSymbols st c.size c.txvector c.preamble c.packetType c.incFlag).2 cs).2) :=
  rfl

/-- The Middle and Last calls of an aggregate, from an accumulator whose symbol counter does
not exceed the First formula of its byte counter: every call yields a count, the counts add
up to the Standalone formula of the whole aggregate less the symbols already counted, and
the accumulator ends at zero. -/
theorem runNumSymbols_aggregate_tail (tx : WifiTxVector) (frequency : ℚ) (last : Nat)
    (hcls : tx.mode.modClass = .WIFI_MOD_CLASS_OFDM ∨ tx.mode.modClass = .WIFI_MOD_CLASS_ERP_OFDM
      ∨ tx.mode.modClass = .WIFI_MOD_CLASS_HT ∨ tx.mode.modClass = .WIFI_MOD_CLASS_S1G)
    (hN : 0 < payloadBitsPerSymbol tx) :
    ∀ (middle : List Nat) (st : PhyState),
      st.m_totalAmpduSize + middle.sum + last < 4294967296 →
      standaloneCount tx (st.m_totalAmpduSize + middle.sum + last) < 4294967296 →
      st.m_totalAmpduNumSymbols
        ≤ Nat.ceil ((8 + (st.m_totalAmpduSize : ℚ) * 8 + 6) / payloadBitsPerSymbol tx) →
      ∃ counts : List Nat,
        (runNumSymbols st ((middle.map fun s =>
            (⟨s, tx, .WIFI_PREAMBLE_NONE, frequency, 1, 1⟩ : Call))
          ++ [⟨last, tx, .WIFI_PREAMBLE_NONE, frequency, 2, 1⟩])).1 = counts.map Except.ok
        ∧ counts.length = middle.length + 1
        ∧ st.m_totalAmpduNumSymbols + counts.sum
          = standaloneCount tx (st.m_totalAmpduSize + middle.sum + last)
        ∧ (runNumSymbols st ((middle.map fun s =>
            (⟨s, tx, .WIFI_PREAMBLE_NONE, frequency, 1, 1⟩ : Call))
          ++ [⟨last, tx, .WIFI_PREAMBLE_NONE, frequency, 2, 1⟩])).2 = ⟨0, 0⟩ := by
  intro middle
  induction middle with
  | nil =>
    intro st hbytes hfit hinv
    simp only [List.sum_nil, add_zero] at hbytes hfit
    have hsyms : st.m_totalAmpduNumSymbols
        ≤ standaloneCount tx (st.m_totalAmpduSize + last) :=
      le_trans hinv (le_trans (first_count_mono (Nat.le_add_right _ _) hN)
        (first_count_le_standaloneCount tx _ hN))
    have hl := payloadNumSymbols_last_commit st last tx hcls 1 hbytes hfit hsyms
    refine ⟨[standaloneCount tx (st.m_totalAmpduSize + last) - st.m_totalAmpduNumSymbols],
      ?_, rfl, ?_, ?_⟩
    · simp [runNumSymbols, hl]
    · simp only [List.sum_cons, List.sum_nil, add_zero]
      omega
    · simp [runNumSymbols, hl]
  | cons s rest ih =>
    intro st hbytes hfit hinv
    simp only [List.sum_cons] at hbytes hfit
    have hm := payloadNumSymbols_middle st s tx 1 hcls
    -- the new counters do not wrap
    have hstep := first_count_add_middle st.m_totalAmpduSize s hN
    have htop : Nat.ceil ((8 + ((st.m_totalAmpduSize + s : Nat) : ℚ) * 8 + 6)
        / payloadBitsPerSymbol tx) < 4294967296 :=
      lt_of_le_of_lt (le_trans (first_count_mono (by omega) hN)
        (first_count_le_standaloneCount tx (st.m_totalAmpduSize + (s + rest.sum) + last) hN)) hfit
    have hc : uint32 (Nat.floor (((s : ℚ) * 8) / payloadBitsPerSymbol tx))
        = Nat.floor (((s : ℚ) * 8) / payloadBitsPerSymbol tx) := uint32_of_lt (by omega)
    have hb : uint32 (st.m_totalAmpduSize + s) = st.m_totalAmpduSize + s :=
      uint32_of_lt (by omega)
    have hs : uint32 (st.m_totalAmpduNumSymbols
        + Nat.floor (((s : ℚ) * 8) / payloadBitsPerSymbol tx))
        = st.m_totalAmpduNumSymbols + Nat.floor (((s : ℚ) * 8) / payloadBitsPerSymbol tx) :=
      uint32_of_lt (by omega)
    rw [hc, hb, hs, if_pos rfl] at hm
    obtain ⟨counts, h1, h2, h3, h4⟩ := ih
      ⟨st.m_totalAmpduSize + s, st.m_totalAmpduNumSymbols
        + Nat.floor (((s : ℚ) * 8) / payloadBitsPerSymbol tx)⟩
      (by simp only; omega)
      (by simp only; rw [show st.m_totalAmpduSize + s + rest.sum + last
          = st.m_totalAmpduSize + (s + rest.sum) + last by omega]; exact hfit)
      (by simp only; omega)
    refine ⟨Nat.floor (((s : ℚ) * 8) / payloadBitsPerSymbol tx) :: counts, ?_, ?_, ?_, ?_⟩
    · rw [List.map_cons, List.cons_append, runNumSymbols_cons]
      simp only [hm]
      rw [h1, List.map_cons]
    · simp only [List.length_cons, h2]
    · simp only [List.sum_cons]
      simp only at h3
      rw [show st.m_totalAmpduSize + (s + rest.sum) + last
          = st.m_totalAmpduSize + s + rest.sum + last by omega, ← h3]
      omega
    · rw [List.map_cons, List.cons_append, runNumSymbols_cons]
      simp only [hm]
      exact h4
/-- Bits per symbol equal to a natural number is a whole number. -/
theorem wholeBitsPerSymbol_of_eq {tx : WifiTxVector} (k : Nat)
    (h : payloadBitsPerSymbol tx = (k : ℚ)) : wholeBitsPerSymbol tx := by
  unfold wholeBitsPerSymbol
  rw [h]
  exact Rat.den_natCast k

set_option maxRecDepth 100000 in
/-- The data rate of every OFDM or ERP-OFDM mode of the catalog times its symbol duration in
nanoseconds is a multiple of `10 ^ 9`. -/
theorem ofdm_catalog_whole : ∀ m ∈ allModes,
    m.modClass = .WIFI_MOD_CLASS_OFDM ∨ m.modClass = .WIFI_MOD_CLASS_ERP_OFDM →
    (m.dataRate * (if m.bandwidth = 10000000 then 8000
      else if m.bandwidth = 5000000 then 16000 else 4000)) % 1000000000 = 0 := by
  decide

/-- Every OFDM and ERP-OFDM mode of the catalog carries a whole number of bits per symbol. -/
theorem wholeBitsPerSymbol_ofdm (tx : WifiTxVector) (hmode : tx.mode ∈ allModes)
    (hcls : tx.mode.modClass = .WIFI_MOD_CLASS_OFDM
      ∨ tx.mode.modClass = .WIFI_MOD_CLASS_ERP_OFDM) : wholeBitsPerSymbol tx := by
  have hmod := ofdm_catalog_whole tx.mode hmode hcls
  obtain ⟨-, hhi, -, -⟩ := catalog_rate_facts tx.mode hmode
  have hT : payloadSymbolDuration tx = ((if tx.mode.bandwidth = 10000000 then 8000
      else if tx.mode.bandwidth = 5000000 then 16000 else 4000 : Nat) : Int) := by
    rcases hcls with h | h <;>
      simp only [payloadSymbolDuration, h, ofdmSymbolDuration, MicroSeconds] <;>
      split_ifs <;> norm_num
  have hb : payloadBitsPerSymbol tx
      = ((tx.mode.dataRate * (if tx.mode.bandwidth = 10000000 then 8000
          else if tx.mode.bandwidth = 5000000 then 16000 else 4000) : Nat) : ℚ)
        / 1000000000 := by
    have hu : uint64 ((tx.mode.dataRate : Int) * ((1 : Nat) : Int)
        * payloadSymbolDuration tx) = ((tx.mode.dataRate * (if tx.mode.bandwidth = 10000000
          then 8000 else if tx.mode.bandwidth = 5000000 then 16000 else 4000) : Nat) : Int) := by
      rw [hT]
      unfold uint64
      push_cast
      rw [Int.emod_eq_of_lt]
      · ring
      · positivity
      · split_ifs <;> nlinarith [hhi]
    rcases hcls with h | h <;>
      · simp only [payloadBitsPerSymbol, h, numDataBitsPerSymbol]
        rw [hu]
        push_cast
        rfl
  obtain ⟨k, hk⟩ := Nat.dvd_of_mod_eq_zero hmod
  apply wholeBitsPerSymbol_of_eq k
  rw [hb, hk]
  push_cast
  field_simp

/-! ## Why whole-number bits per symbol make the exact quotient the computed one -/

/-- A value `y` within relative error `2 ^ -53` of the quotient `a / d` of natural numbers
with `a < 2 ^ 53`, lying between the whole numbers next to the quotient (as the correctly
rounded `double` quotient of `a` by `d` does, a whole number below `2 ^ 53` being a `double`),
has the ceiling and the floor of `a / d`. -/
theorem rounded_quotient_ceil_floor (a d : Nat) (hd : 0 < d) (ha : a < 9007199254740992)
    (y : ℚ) (herr : |y - (a : ℚ) / d| ≤ (a : ℚ) / d / 9007199254740992)
    (hlo : (Nat.floor ((a : ℚ) / d) : ℚ) ≤ y) (hhi : y ≤ (Nat.ceil ((a : ℚ) / d) : ℚ)) :
    Nat.ceil y = Nat.ceil ((a : ℚ) / d) ∧ Nat.floor y = Nat.floor ((a : ℚ) / d) := by
  have hdq : (0 : ℚ) < d := by exact_mod_cast hd
  have hfl : Nat.floor ((a : ℚ) / d) = a / d := Nat.floor_div_eq_div a d
  have hsplit : (a : ℚ) = ((a / d : Nat) : ℚ) * d + ((a % d : Nat) : ℚ) := by
    have := Nat.div_add_mod a d
    have h2 : ((d * (a / d) + a % d : Nat) : ℚ) = (a : ℚ) := by rw [this]
    push_cast at h2
    linarith
  have hx : (a : ℚ) / d = ((a / d : Nat) : ℚ) + ((a % d : Nat) : ℚ) / d := by
    field_simp
    linarith
  have haq : (a : ℚ) < 9007199254740992 := by exact_mod_cast ha
  have herr2 : (a : ℚ) / d / 9007199254740992 < 1 / d := by
    rw [div_div, div_lt_iff₀ (by positivity)]
    have : (1 : ℚ) / d * (d * 9007199254740992) = 9007199254740992 := by
      field_simp
    rw [this]
    exact haq
  obtain ⟨e1, e2⟩ := abs_le.mp herr
  rw [hfl] at hlo
  rw [hfl]
  by_cases hr : a % d = 0
  · have hxk : (a : ℚ) / d = ((a / d : Nat) : ℚ) := by rw [hx, hr]; simp
    rw [hxk, Nat.ceil_natCast] at hhi
    have hy : y = ((a / d : Nat) : ℚ) := le_antisymm hhi hlo
    rw [hxk, hy, Nat.ceil_natCast, Nat.floor_natCast]
    exact ⟨rfl, rfl⟩
  · have hr1 : 1 ≤ a % d := Nat.one_le_iff_ne_zero.mpr hr
    have hr2 : a % d + 1 ≤ d := Nat.mod_lt a hd
    have hr1q : (1 : ℚ) ≤ ((a % d : Nat) : ℚ) := by exact_mod_cast hr1
    have hr2q : ((a % d : Nat) : ℚ) + 1 ≤ d := by exact_mod_cast hr2
    have f1 : (1 : ℚ) / d ≤ ((a % d : Nat) : ℚ) / d := by
      apply div_le_div_of_nonneg_right hr1q hdq.le
    have f2 : ((a % d : Nat) : ℚ) / d ≤ 1 - 1 / d := by
      rw [le_sub_iff_add_le, ← add_div, div_le_one hdq]
      exact hr2q
    have ylo : ((a / d : Nat) : ℚ) < y := by linarith
    have yhi : y < ((a / d : Nat) : ℚ) + 1 := by linarith
    have hceilx : Nat.ceil ((a : ℚ) / d) = a / d + 1 := by
      rw [Nat.ceil_eq_iff (by omega)]
      push_cast
      have hpos : (0 : ℚ) < 1 / d := by positivity
      constructor
      · rw [hx]
        linarith
      · rw [hx]
        linarith
    constructor
    · rw [hceilx, Nat.ceil_eq_iff (by omega)]
      push_cast
      constructor
      · linarith
      · linarith
    · rw [Nat.floor_eq_iff (by linarith [Nat.cast_nonneg (α := ℚ) (a / d)])]
      exact ⟨ylo.le, yhi⟩

/-- The product `GetDataRate () * GetNss () * symbolDuration.GetNanoSeconds ()` of a catalog
mode with at most 255 streams is below `2 ^ 53`: its conversion to `double` is exact. -/
theorem bits_product_lt (tx : WifiTxVector) (hmode : tx.mode ∈ allModes)
    (hnss : tx.nss < 256) :
    (tx.mode.dataRate : Int) * (tx.nss : Int) * payloadSymbolDuration tx
      < 9007199254740992 := by
  obtain ⟨-, hhi, -, -⟩ := catalog_rate_facts tx.mode hmode
  obtain ⟨h0, h1⟩ := payloadSymbolDuration_bounds tx
  have hR : (tx.mode.dataRate : Int) ≤ 150000000 := by exact_mod_cast hhi
  have hn : (tx.nss : Int) ≤ 255 := by
    have : tx.nss ≤ 255 := by omega
    exact_mod_cast this
  have hR0 : (0 : Int) ≤ tx.mode.dataRate := Int.natCast_nonneg _
  have hn0 : (0 : Int) ≤ tx.nss := Int.natCast_nonneg _
  have hT0 : (0 : Int) ≤ payloadSymbolDuration tx := by linarith
  have h2 : (tx.mode.dataRate : Int) * (tx.nss : Int) ≤ 150000000 * 255 :=
    mul_le_mul hR hn hn0 (by norm_num)
  have h3 : (tx.mode.dataRate : Int) * (tx.nss : Int) * payloadSymbolDuration tx
      ≤ 150000000 * 255 * 40000 :=
    mul_le_mul h2 h1 hT0 (by norm_num)
  linarith

/-- A whole number of bits per symbol of a catalog mode is a positive natural number. -/
theorem wholeBitsPerSymbol_nat (tx : WifiTxVector) (hmode : tx.mode ∈ allModes)
    (hnss1 : 1 ≤ tx.nss) (hnss : tx.nss < 256) (hwhole : wholeBitsPerSymbol tx) :
    ∃ k : Nat, 0 < k ∧ payloadBitsPerSymbol tx = (k : ℚ) := by
  have hpos := payloadBitsPerSymbol_pos tx hmode hnss1 hnss
  have hnum : ((payloadBitsPerSymbol tx).num : ℚ) = payloadBitsPerSymbol tx :=
    Rat.coe_int_num_of_den_eq_one hwhole
  have hnpos : 0 < (payloadBitsPerSymbol tx).num := Rat.num_pos.mpr hpos
  have hcast : (((payloadBitsPerSymbol tx).num.toNat : Int)) = (payloadBitsPerSymbol tx).num :=
    Int.toNat_of_nonneg hnpos.le
  refine ⟨(payloadBitsPerSymbol tx).num.toNat, by omega, ?_⟩
  have h2 : (((payloadBitsPerSymbol tx).num.toNat : Int) : ℚ)
      = ((payloadBitsPerSymbol tx).num : ℚ) := by rw [hcast]
  rw [← hnum, ← h2]
  push_cast
  rfl

/-- With a whole number of bits per symbol and a 32-bit size, the Standalone count does not
depend on the rounding of the division: every value `y` within relative error `2 ^ -53` of
the exact quotient and between the whole numbers next to it gives
`m_Stbc * ceil y = standaloneCount`. -/
theorem standaloneCount_of_rounded (tx : WifiTxVector) (size : Nat)
    (hmode : tx.mode ∈ allModes) (hnss1 : 1 ≤ tx.nss) (hnss : tx.nss < 256)
    (hwhole : wholeBitsPerSymbol tx) (hsize : size < 4294967296) (y : ℚ)
    (herr : |y - (8 + (size : ℚ) * 8 + 6) / ((payloadStbc tx : ℚ) * payloadBitsPerSymbol tx)|
      ≤ (8 + (size : ℚ) * 8 + 6) / ((payloadStbc tx : ℚ) * payloadBitsPerSymbol tx)
        / 9007199254740992)
    (hlo : (Nat.floor ((8 + (size : ℚ) * 8 + 6)
      / ((payloadStbc tx : ℚ) * payloadBitsPerSymbol tx)) : ℚ) ≤ y)
    (hhi : y ≤ (Nat.ceil ((8 + (size : ℚ) * 8 + 6)
      / ((payloadStbc tx : ℚ) * payloadBitsPerSymbol tx)) : ℚ)) :
    payloadStbc tx * Nat.ceil y = standaloneCount tx size := by
  obtain ⟨k, hk0, hk⟩ := wholeBitsPerSymbol_nat tx hmode hnss1 hnss hwhole
  have hm : 0 < payloadStbc tx := by
    rcases payloadStbc_cases tx with h | h <;> rw [h] <;> norm_num
  have ha : ((8 + size * 8 + 6 : Nat) : ℚ) = 8 + (size : ℚ) * 8 + 6 := by push_cast; ring
  have hd : ((payloadStbc tx * k : Nat) : ℚ) = (payloadStbc tx : ℚ) * payloadBitsPerSymbol tx := by
    rw [hk]
    push_cast
    ring
  rw [← ha, ← hd] at herr hlo hhi
  have h := (rounded_quotient_ceil_floor (8 + size * 8 + 6) (payloadStbc tx * k)
    (Nat.mul_pos hm hk0) (by omega) y herr hlo hhi).1
  rw [standaloneCount, ← ha, ← hd, h]

/-- With a whole number of bits per symbol and a 32-bit size, the Middle count does not depend
on the rounding of the division: every value `y` within relative error `2 ^ -53` of the exact
quotient and between the whole numbers next to it has the floor of the exact quotient. -/
theorem middle_count_of_rounded (tx : WifiTxVector) (size : Nat)
    (hmode : tx.mode ∈ allModes) (hnss1 : 1 ≤ tx.nss) (hnss : tx.nss < 256)
    (hwhole : wholeBitsPerSymbol tx) (hsize : size < 4294967296) (y : ℚ)
    (herr : |y - ((size : ℚ) * 8) / payloadBitsPerSymbol tx|
      ≤ ((size : ℚ) * 8) / payloadBitsPerSymbol tx / 9007199254740992)
    (hlo : (Nat.floor (((size : ℚ) * 8) / payloadBitsPerSymbol tx) : ℚ) ≤ y)
    (hhi : y ≤ (Nat.ceil (((size : ℚ) * 8) / payloadBitsPerSymbol tx) : ℚ)) :
    Nat.floor y = Nat.floor (((size : ℚ) * 8) / payloadBitsPerSymbol tx) := by
  obtain ⟨k, hk0, hk⟩ := wholeBitsPerSymbol_nat tx hmode hnss1 hnss hwhole
  have ha : ((size * 8 : Nat) : ℚ) = (size : ℚ) * 8 := by push_cast; ring
  rw [hk, ← ha] at herr hlo hhi ⊢
  exact (rounded_quotient_ceil_floor (size * 8) k hk0 (by omega) y herr hlo hhi).2

/-! ## The Last count, in terms of the count of a Standalone call -/

/-- The count a Standalone call computes is determined by the mode, the tx vector and the
size. -/
theorem standalone_count_eq (st : PhyState) (size : Nat) (tx : WifiTxVector)
    (preamble : WifiPreamble) (incFlag : Nat)
    (hcls : tx.mode.modClass = .WIFI_MOD_CLASS_OFDM ∨ tx.mode.modClass = .WIFI_MOD_CLASS_ERP_OFDM
      ∨ tx.mode.modClass = .WIFI_MOD_CLASS_HT ∨ tx.mode.modClass = .WIFI_MOD_CLASS_S1G)
    (hpre : preamble ≠ .WIFI_PREAMBLE_NONE) {c : Nat} {st2 : PhyState}
    (hc : payloadNumSymbols st size tx preamble 0 incFlag = (.ok c, st2)) :
    c = uint32 (standaloneCount tx size) := by
  rw [payloadNumSymbols_standalone_count st size tx preamble incFlag hcls hpre] at hc
  have h1 := congrArg Prod.fst hc
  simp only [Except.ok.injEq] at h1
  exact h1.symm

/-- Role Last (packetType 2, preamble None), in terms of the count `c` a Standalone call on
the size `bytesAccumulated + size` (as stored in 32 bits) computes: when the symbols
accumulated do not exceed `c`, the Last call returns `c` minus the symbols accumulated and, if
committed, clears the accumulator. -/
theorem payloadNumSymbols_last_of_standalone (st : PhyState) (size : Nat) (tx : WifiTxVector)
    (preamble : WifiPreamble) (incFlag incFlag2 : Nat)
    (hcls : tx.mode.modClass = .WIFI_MOD_CLASS_OFDM ∨ tx.mode.modClass = .WIFI_MOD_CLASS_ERP_OFDM
      ∨ tx.mode.modClass = .WIFI_MOD_CLASS_HT ∨ tx.mode.modClass = .WIFI_MOD_CLASS_S1G)
    (hpre : preamble ≠ .WIFI_PREAMBLE_NONE) {c : Nat} {st2 : PhyState}
    (hc : payloadNumSymbols st (uint32 (st.m_totalAmpduSize + size)) tx preamble 0 incFlag2
      = (.ok c, st2))
    (hs : st.m_totalAmpduNumSymbols ≤ c) :
    payloadNumSymbols st size tx .WIFI_PREAMBLE_NONE 2 incFlag
      = (.ok (c - st.m_totalAmpduNumSymbols), if incFlag = 1 then ⟨0, 0⟩ else st) := by
  have hceq := standalone_count_eq st _ tx preamble incFlag2 hcls hpre hc
  have hclt : c < 4294967296 := by
    rw [hceq]
    exact Nat.mod_lt _ (by norm_num)
  rcases symbolCounting_cases hcls with h | h
  · rw [payloadNumSymbols_last_ofdm st size tx incFlag h, ← hceq, uint32Sub_of_le hs hclt]
  · rw [payloadNumSymbols_last_ht st size tx incFlag h, ← hceq, if_pos hs,
      uint32Sub_of_le hs hclt]

/-- Role Last on an OFDM or ERP-OFDM mode, in terms of the count `c` a Standalone call on the
size `bytesAccumulated + size` (as stored in 32 bits) computes: the call returns the 32-bit
difference of `c` and the symbols accumulated, whatever their order. -/
theorem payloadNumSymbols_last_ofdm_of_standalone (st : PhyState) (size : Nat)
    (tx : WifiTxVector) (preamble : WifiPreamble) (incFlag incFlag2 : Nat)
    (hcls : tx.mode.modClass = .WIFI_MOD_CLASS_OFDM
      ∨ tx.mode.modClass = .WIFI_MOD_CLASS_ERP_OFDM)
    (hpre : preamble ≠ .WIFI_PREAMBLE_NONE) {c : Nat} {st2 : PhyState}
    (hc : payloadNumSymbols st (uint32 (st.m_totalAmpduSize + size)) tx preamble 0 incFlag2
      = (.ok c, st2)) :
    payloadNumSymbols st size tx .WIFI_PREAMBLE_NONE 2 incFlag
      = (.ok (uint32Sub c st.m_totalAmpduNumSymbols), if incFlag = 1 then ⟨0, 0⟩ else st) := by
  have hcls4 : tx.mode.modClass = .WIFI_MOD_CLASS_OFDM
      ∨ tx.mode.modClass = .WIFI_MOD_CLASS_ERP_OFDM
      ∨ tx.mode.modClass = .WIFI_MOD_CLASS_HT ∨ tx.mode.modClass = .WIFI_MOD_CLASS_S1G := by
    rcases hcls with h | h
    · exact Or.inl h
    · exact Or.inr (Or.inl h)
  have hceq := standalone_count_eq st _ tx preamble incFlag2 hcls4 hpre hc
  rw [payloadNumSymbols_last_ofdm st size tx incFlag hcls, ← hceq]

/-- Role Last, in terms of the count `c` a Standalone call on the size
`bytesAccumulated + size` (as stored in 32 bits) computes: whenever the Last call returns a
count, it is the 32-bit difference of `c` and the symbols accumulated. -/
theorem payloadNumSymbols_last_count (st : PhyState) (size : Nat) (tx : WifiTxVector)
    (preamble : WifiPreamble) (incFlag incFlag2 : Nat)
    (hcls : tx.mode.modClass = .WIFI_MOD_CLASS_OFDM ∨ tx.mode.modClass = .WIFI_MOD_CLASS_ERP_OFDM
      ∨ tx.mode.modClass = .WIFI_MOD_CLASS_HT ∨ tx.mode.modClass = .WIFI_MOD_CLASS_S1G)
    (hpre : preamble ≠ .WIFI_PREAMBLE_NONE) {c n : Nat} {st2 st3 : PhyState}
    (hc : payloadNumSymbols st (uint32 (st.m_totalAmpduSize + size)) tx preamble 0 incFlag2
      = (.ok c, st2))
    (hn : payloadNumSymbols st size tx .WIFI_PREAMBLE_NONE 2 incFlag = (.ok n, st3)) :
    n = uint32Sub c st.m_totalAmpduNumSymbols
      ∧ st3 = (if incFlag = 1 then ⟨0, 0⟩ else st) := by
  have hceq := standalone_count_eq st _ tx preamble incFlag2 hcls hpre hc
  rcases symbolCounting_cases hcls with h | h
  · rw [payloadNumSymbols_last_ofdm st size tx incFlag h, ← hceq] at hn
    have h1 := congrArg Prod.fst hn
    have h2 := congrArg Prod.snd hn
    simp only [Except.ok.injEq] at h1
    exact ⟨h1.symm, h2.symm⟩
  · rw [payloadNumSymbols_last_ht st size tx incFlag h, ← hceq] at hn
    split_ifs at hn with hs hi
    · have h1 := congrArg Prod.fst hn
      have h2 := congrArg Prod.snd hn
      simp only [Except.ok.injEq] at h1
      exact ⟨h1.symm, by rw [if_pos hi]; exact h2.symm⟩
    · have h1 := congrArg Prod.fst hn
      have h2 := congrArg Prod.snd hn
      simp only [Except.ok.injEq] at h1
      exact ⟨h1.symm, by rw [if_neg hi]; exact h2.symm⟩
    · have h1 := congrArg Prod.fst hn
      simp at h1

/-- Bits per symbol of OfdmRate150KbpsBW1MHz with one stream: 150000 bit/s over 40
microseconds. -/
theorem payloadBitsPerSymbol_150Kbps :
    payloadBitsPerSymbol ⟨GetOfdmRate150KbpsBW1MHz, 1, 0, false⟩ = 6 := by
  have hT : payloadSymbolDuration ⟨GetOfdmRate150KbpsBW1MHz, 1, 0, false⟩ = 40000 := by decide
  have hN : numDataBitsPerSymbol 150000 1 40000 = 6 := by
    norm_num [numDataBitsPerSymbol, uint64]
  show numDataBitsPerSymbol 150000 1
    (payloadSymbolDuration ⟨GetOfdmRate150KbpsBW1MHz, 1, 0, false⟩) = 6
  rw [hT, hN]

/-- The Standalone formula of OfdmRate150KbpsBW1MHz at 4294967295 bytes exceeds 32 bits. -/
theorem standaloneCount_150Kbps_max :
    standaloneCount ⟨GetOfdmRate150KbpsBW1MHz, 1, 0, false⟩ 4294967295 = 5726623063 := by
  have hm : payloadStbc ⟨GetOfdmRate150KbpsBW1MHz, 1, 0, false⟩ = 1 := rfl
  unfold standaloneCount
  rw [hm, payloadBitsPerSymbol_150Kbps, Nat.one_mul, Nat.ceil_eq_iff (by norm_num)]
  norm_num

/-- C5 fails as stated at the S1G mode OfdmRate150KbpsBW1MHz (6 bits per symbol) for the
aggregate First(2147483648), Last(2147483647): the First call counts 2863311533 symbols, the
Last call computes the whole-aggregate count 5726623063, stores it in 32 bits as 1431655767
and stops at the assertion (so does `GetPayloadDuration`), while a Standalone call of
4294967295 bytes returns 1431655767 symbols. -/
theorem C5_counterexample :
    runNumSymbols ⟨0, 0⟩ (aggregateCalls ⟨GetOfdmRate150KbpsBW1MHz, 1, 0, false⟩
        .WIFI_PREAMBLE_S1G_SHORT 900 2147483648 [] 2147483647)
      = ([.ok 2863311533, .error .assertionFailed], ⟨2147483648, 2863311533⟩)
    ∧ payloadNumSymbols ⟨0, 0⟩ (2147483648 + 2147483647)
        ⟨GetOfdmRate150KbpsBW1MHz, 1, 0, false⟩ .WIFI_PREAMBLE_S1G_SHORT 0 1
      = (.ok 1431655767, ⟨0, 0⟩)
    ∧ GetPayloadDuration ⟨2147483648, 2863311533⟩ 2147483647
        ⟨GetOfdmRate150KbpsBW1MHz, 1, 0, false⟩ .WIFI_PREAMBLE_NONE 900 2 1
      = (.error .assertionFailed, ⟨2147483648, 2863311533⟩)
    ∧ ¬ ∃ counts : List Nat,
        (runNumSymbols ⟨0, 0⟩ (aggregateCalls ⟨GetOfdmRate150KbpsBW1MHz, 1, 0, false⟩
          .WIFI_PREAMBLE_S1G_SHORT 900 2147483648 [] 2147483647)).1 = counts.map Except.ok := by
  have hcls : GetOfdmRate150KbpsBW1MHz.modClass = .WIFI_MOD_CLASS_S1G := rfl
  have hc1 : Nat.ceil ((8 + ((2147483648 : Nat) : ℚ) * 8 + 6) / 6) = 2863311533 := by
    rw [Nat.ceil_eq_iff (by norm_num)]
    norm_num
  have hf := payloadNumSymbols_first ⟨0, 0⟩ 2147483648 ⟨GetOfdmRate150KbpsBW1MHz, 1, 0, false⟩
    .WIFI_PREAMBLE_S1G_SHORT 1 (Or.inr (Or.inr (Or.inr hcls))) (by simp)
  rw [payloadBitsPerSymbol_150Kbps, hc1] at hf
  have hf2 : payloadNumSymbols ⟨0, 0⟩ 2147483648 ⟨GetOfdmRate150KbpsBW1MHz, 1, 0, false⟩
      .WIFI_PREAMBLE_S1G_SHORT 1 1 = (.ok 2863311533, ⟨2147483648, 2863311533⟩) := by
    rw [hf]
    rfl
  have hl := payloadNumSymbols_last_ht ⟨2147483648, 2863311533⟩ 2147483647
    ⟨GetOfdmRate150KbpsBW1MHz, 1, 0, false⟩ 1 (Or.inr hcls)
  have hu : uint32 (2147483648 + 2147483647) = 4294967295 := rfl
  simp only [hu, standaloneCount_150Kbps_max] at hl
  have hl2 : payloadNumSymbols ⟨2147483648, 2863311533⟩ 2147483647
      ⟨GetOfdmRate150KbpsBW1MHz, 1, 0, false⟩ .WIFI_PREAMBLE_NONE 2 1
      = (.error .assertionFailed, ⟨2147483648, 2863311533⟩) := by
    rw [hl]
    rfl
  have hrun : runNumSymbols ⟨0, 0⟩ (aggregateCalls ⟨GetOfdmRate150KbpsBW1MHz, 1, 0, false⟩
        .WIFI_PREAMBLE_S1G_SHORT 900 2147483648 [] 2147483647)
      = ([.ok 2863311533, .error .assertionFailed], ⟨2147483648, 2863311533⟩) := by
    simp only [aggregateCalls, List.map_nil, List.nil_append, List.cons_append,
      runNumSymbols_cons, hf2, hl2]
    rfl
  refine ⟨hrun, ?_, GetPayloadDuration_error _ _ _ _ _ _ _ (by decide) hl2, ?_⟩
  · rw [payloadNumSymbols_standalone_count _ _ _ _ _ (Or.inr (Or.inr (Or.inr hcls))) (by simp)]
    have e : (2147483648 : Nat) + 2147483647 = 4294967295 := rfl
    rw [e, standaloneCount_150Kbps_max]
    rfl
  · rintro ⟨counts, hcounts⟩
    rw [hrun] at hcounts
    match counts, hcounts with
    | [], h => simp at h
    | [_], h => simp at h
    | _ :: _ :: _, h => simp at h

/-! ## Calls that do not commit -/

/-- The OFDM role dispatch writes the accumulator only under `incFlag == 1`. -/
theorem ofdmNumSymbols_state (st : PhyState) (size : Nat) (preamble : WifiPreamble)
    (packetType incFlag : Nat) (N : ℚ) (h : incFlag ≠ 1) :
    (ofdmNumSymbols st size preamble packetType incFlag N).2 = st := by
  simp only [ofdmNumSymbols]
  split_ifs <;> rfl

/-- The HT role dispatch writes the accumulator only under `incFlag == 1`. -/
theorem htNumSymbols_state (st : PhyState) (size : Nat) (preamble : WifiPreamble)
    (packetType incFlag m : Nat) (N : ℚ) (h : incFlag ≠ 1) :
    (htNumSymbols st size preamble packetType incFlag m N).2 = st := by
  simp only [htNumSymbols]
  split_ifs <;> rfl

/-- A call of `GetPayloadDuration` with `incFlag` other than 1 leaves the accumulator as it
found it, whether it returns a duration or fails. -/
theorem GetPayloadDuration_state (st : PhyState) (size : Nat) (tx : WifiTxVector)
    (preamble : WifiPreamble) (frequency : ℚ) (packetType incFlag : Nat) (h : incFlag ≠ 1) :
    (GetPayloadDuration st size tx preamble frequency packetType incFlag).2 = st := by
  cases hc : tx.mode.modClass <;> simp only [GetPayloadDuration, hc]
  · exact ofdmNumSymbols_state st size preamble packetType incFlag _ h
  · exact ofdmNumSymbols_state st size preamble packetType incFlag _ h
  · exact htNumSymbols_state st size preamble packetType incFlag _ _ h
  · exact htNumSymbols_state st size preamble packetType incFlag _ _ h

/-- Dropping the calls that do not commit changes neither the results of the committing
calls of `GetPayloadDuration` nor the final accumulator. -/
theorem runGetPayloadDuration_filter (calls : List Call) :
    ∀ st : PhyState,
      (runGetPayloadDuration st calls).1.filter (fun r => decide (r.1.incFlag = 1))
          = (runGetPayloadDuration st (calls.filter fun c => decide (c.incFlag = 1))).1
        ∧ (runGetPayloadDuration st calls).2
          = (runGetPayloadDuration st (calls.filter fun c => decide (c.incFlag = 1))).2 := by
  induction calls with
  | nil => intro st; exact ⟨rfl, rfl⟩
  | cons c cs ih =>
    intro st
    by_cases hc : c.incFlag = 1
    · have hf : (c :: cs).filter (fun c => decide (c.incFlag = 1))
          = c :: cs.filter (fun c => decide (c.incFlag = 1)) := by simp [hc]
      rw [hf]
      simp only [runGetPayloadDuration, List.filter_cons, hc, decide_True, if_true]
      exact ⟨congrArg _ (ih _).1, (ih _).2⟩
    · have hf : (c :: cs).filter (fun c => decide (c.incFlag = 1))
          = cs.filter (fun c => decide (c.incFlag = 1)) := by simp [hc]
      rw [hf]
      simp only [runGetPayloadDuration, List.filter_cons, hc, decide_False]
      rw [GetPayloadDuration_state st c.size c.txvector c.preamble c.frequency c.packetType
        c.incFlag hc]
      exact ih st

/-- Dropping the calls that do not commit changes neither the results of the committing
calls of `CalculateTxDuration` nor the final accumulator. -/
theorem runCalculateTxDuration_filter (calls : List Call) :
    ∀ st : PhyState,
      (runCalculateTxDuration st calls).1.filter (fun r => decide (r.1.incFlag = 1))
          = (runCalculateTxDuration st (calls.filter fun c => decide (c.incFlag = 1))).1
        ∧ (runCalculateTxDuration st calls).2
          = (runCalculateTxDuration st (calls.filter fun c => decide (c.incFlag = 1))).2 := by
  induction calls with
  | nil => intro st; exact ⟨rfl, rfl⟩
  | cons c cs ih =>
    intro st
    by_cases hc : c.incFlag = 1
    · have hf : (c :: cs).filter (fun c => decide (c.incFlag = 1))
          = c :: cs.filter (fun c => decide (c.incFlag = 1)) := by simp [hc]
      rw [hf]
      simp only [runCalculateTxDuration, List.filter_cons, hc, decide_True, if_true]
      exact ⟨congrArg _ (ih _).1, (ih _).2⟩
    · have hf : (c :: cs).filter (fun c => decide (c.incFlag = 1))
          = cs.filter (fun c => decide (c.incFlag = 1)) := by simp [hc]
      rw [hf]
      simp only [runCalculateTxDuration, List.filter_cons, hc, decide_False]
      have hs : (CalculateTxDuration st c.size c.txvector c.preamble c.frequency c.packetType
          c.incFlag).2 = st :=
        GetPayloadDuration_state st c.size c.txvector c.preamble c.frequency c.packetType
          c.incFlag hc
      rw [hs]
      exact ih st

/-- C6: a call of `GetPayloadDuration` or `CalculateTxDuration` with `incFlag` other than 1
leaves both accumulator counters unchanged; hence, in any sequence of calls on one PHY,
removing every non-committing call changes neither the results of the committing calls nor
the final accumulator (so inserting such calls anywhere changes nothing either). -/
theorem C6_idempotent_probing (st : PhyState) (size : Nat) (tx : WifiTxVector)
    (preamble : WifiPreamble) (frequency : ℚ) (packetType incFlag : Nat) (calls : List Call)
    (h : incFlag ≠ 1) :
    (GetPayloadDuration st size tx preamble frequency packetType incFlag).2 = st
      ∧ (CalculateTxDuration st size tx preamble frequency packetType incFlag).2 = st
      ∧ (runGetPayloadDuration st calls).1.filter (fun r => decide (r.1.incFlag = 1))
          = (runGetPayloadDuration st (calls.filter fun c => decide (c.incFlag = 1))).1
      ∧ (runGetPayloadDuration st calls).2
          = (runGetPayloadDuration st (calls.filter fun c => decide (c.incFlag = 1))).2
      ∧ (runCalculateTxDuration st calls).1.filter (fun r => decide (r.1.incFlag = 1))
          = (runCalculateTxDuration st (calls.filter fun c => decide (c.incFlag = 1))).1
      ∧ (runCalculateTxDuration st calls).2
          = (runCalculateTxDuration st (calls.filter fun c => decide (c.incFlag = 1))).2 :=
  ⟨GetPayloadDuration_state st size tx preamble frequency packetType incFlag h,
    GetPayloadDuration_state st size tx preamble frequency packetType incFlag h,
    (runGetPayloadDuration_filter calls st).1, (runGetPayloadDuration_filter calls st).2,
    (runCalculateTxDuration_filter calls st).1, (runCalculateTxDuration_filter calls st).2⟩

set_option maxRecDepth 100000 in
/-- C6 on the sequence probe First(1000), commit First(1000), probe Last(200), commit
Last(200) with OfdmRate54Mbps, from the accumulator (7, 3). -/
theorem C6_idempotent_probing_witness :
    (GetPayloadDuration ⟨7, 3⟩ 1000 ⟨GetOfdmRate54Mbps, 1, 0, false⟩ .WIFI_PREAMBLE_LONG 5180 1
        0).2 = ⟨7, 3⟩
      ∧ (runGetPayloadDuration ⟨7, 3⟩
          [⟨1000, ⟨GetOfdmRate54Mbps, 1, 0, false⟩, .WIFI_PREAMBLE_LONG, 5180, 1, 0⟩,
           ⟨1000, ⟨GetOfdmRate54Mbps, 1, 0, false⟩, .WIFI_PREAMBLE_LONG, 5180, 1, 1⟩,
           ⟨200, ⟨GetOfdmRate54Mbps, 1, 0, false⟩, .WIFI_PREAMBLE_NONE, 5180, 2, 0⟩,
           ⟨200, ⟨GetOfdmRate54Mbps, 1, 0, false⟩, .WIFI_PREAMBLE_NONE, 5180, 2, 1⟩]).2
        = (runGetPayloadDuration ⟨7, 3⟩
          [⟨1000, ⟨GetOfdmRate54Mbps, 1, 0, false⟩, .WIFI_PREAMBLE_LONG, 5180, 1, 1⟩,
           ⟨200, ⟨GetOfdmRate54Mbps, 1, 0, false⟩, .WIFI_PREAMBLE_NONE, 5180, 2, 1⟩]).2 :=
  have h := C6_idempotent_probing ⟨7, 3⟩ 1000 ⟨GetOfdmRate54Mbps, 1, 0, false⟩
    .WIFI_PREAMBLE_LONG 5180 1 0
    [⟨1000, ⟨GetOfdmRate54Mbps, 1, 0, false⟩, .WIFI_PREAMBLE_LONG, 5180, 1, 0⟩,
     ⟨1000, ⟨GetOfdmRate54Mbps, 1, 0, false⟩, .WIFI_PREAMBLE_LONG, 5180, 1, 1⟩,
     ⟨200, ⟨GetOfdmRate54Mbps, 1, 0, false⟩, .WIFI_PREAMBLE_NONE, 5180, 2, 0⟩,
     ⟨200, ⟨GetOfdmRate54Mbps, 1, 0, false⟩, .WIFI_PREAMBLE_NONE, 5180, 2, 1⟩]
    (by decide)
  ⟨h.1, h.2.2.2.1⟩

/-! ## State effect of a call -/

/-- On a symbol-counting mode `GetPayloadDuration` leaves the accumulator its role dispatch
leaves, and returns a duration exactly when the role dispatch yields a count. -/
theorem GetPayloadDuration_of_numSymbols (st : PhyState) (size : Nat) (tx : WifiTxVector)
    (preamble : WifiPreamble) (frequency : ℚ) (packetType incFlag : Nat)
    (hcls : tx.mode.modClass = .WIFI_MOD_CLASS_OFDM ∨ tx.mode.modClass = .WIFI_MOD_CLASS_ERP_OFDM
      ∨ tx.mode.modClass = .WIFI_MOD_CLASS_HT ∨ tx.mode.modClass = .WIFI_MOD_CLASS_S1G) :
    (GetPayloadDuration st size tx preamble frequency packetType incFlag).2
        = (payloadNumSymbols st size tx preamble packetType incFlag).2
      ∧ ((∃ d, (GetPayloadDuration st size tx preamble frequency packetType incFlag).1 = .ok d)
        ↔ ∃ n, (payloadNumSymbols st size tx preamble packetType incFlag).1 = .ok n)
      ∧ ∀ e, (GetPayloadDuration st size tx preamble frequency packetType incFlag).1 = .error e
        ↔ (payloadNumSymbols st size tx preamble packetType incFlag).1 = .error e := by
  have hd : tx.mode.modClass ≠ .WIFI_MOD_CLASS_DSSS := by
    rcases hcls with h | h | h | h <;> rw [h] <;> decide
  rcases hr : payloadNumSymbols st size tx preamble packetType incFlag with ⟨r, st2⟩
  cases r with
  | error e =>
    rw [GetPayloadDuration_error st size tx preamble frequency packetType incFlag hd hr]
    simp
  | ok n =>
    rcases hcls with h | h | h | h
    · rw [GetPayloadDuration_ofdm_ok st size tx preamble frequency packetType incFlag
        (Or.inl h) hr]
      simp
    · rw [GetPayloadDuration_ofdm_ok st size tx preamble frequency packetType incFlag
        (Or.inr h) hr]
      simp
    · rw [GetPayloadDuration_ht_ok st size tx preamble frequency packetType incFlag h hr]
      simp
    · rw [GetPayloadDuration_s1g_ok st size tx preamble frequency packetType incFlag h hr]
      simp

/-- C7, as the code has it: on a symbol-counting mode with at least one stream a committed
call (incFlag 1) of role First or Middle yields a symbol count `n` and leaves the accumulator
at `(bytesAccumulated + size) mod 2 ^ 32` and `(symbolsAccumulated + n) mod 2 ^ 32` (both
counters are 32 bits wide); a committed call of role Last that returns leaves `(0, 0)`, and
its count is the count a Standalone call computes for the size
`(bytesAccumulated + size) mod 2 ^ 32`, less `symbolsAccumulated` in 32 bits, all read from
the accumulator before the call.  `GetPayloadDuration` leaves the same accumulator. -/
theorem C7_committed_state_effect (st : PhyState) (size : Nat) (tx : WifiTxVector)
    (preamble : WifiPreamble) (frequency : ℚ)
    (hcls : tx.mode.modClass = .WIFI_MOD_CLASS_OFDM ∨ tx.mode.modClass = .WIFI_MOD_CLASS_ERP_OFDM
      ∨ tx.mode.modClass = .WIFI_MOD_CLASS_HT ∨ tx.mode.modClass = .WIFI_MOD_CLASS_S1G)
    (_hnss : 1 ≤ tx.nss) :
    (preamble ≠ .WIFI_PREAMBLE_NONE →
        ∃ n, payloadNumSymbols st size tx preamble 1 1
            = (.ok n, ⟨(st.m_totalAmpduSize + size) % 4294967296,
                (st.m_totalAmpduNumSymbols + n) % 4294967296⟩)
          ∧ (GetPayloadDuration st size tx preamble frequency 1 1).2
            = ⟨(st.m_totalAmpduSize + size) % 4294967296,
                (st.m_totalAmpduNumSymbols + n) % 4294967296⟩)
      ∧ (∃ n, payloadNumSymbols st size tx .WIFI_PREAMBLE_NONE 1 1
            = (.ok n, ⟨(st.m_totalAmpduSize + size) % 4294967296,
                (st.m_totalAmpduNumSymbols + n) % 4294967296⟩)
          ∧ (GetPayloadDuration st size tx .WIFI_PREAMBLE_NONE frequency 1 1).2
            = ⟨(st.m_totalAmpduSize + size) % 4294967296,
                (st.m_totalAmpduNumSymbols + n) % 4294967296⟩)
      ∧ (∀ n st2, payloadNumSymbols st size tx .WIFI_PREAMBLE_NONE 2 1 = (.ok n, st2) →
          st2 = ⟨0, 0⟩
            ∧ (GetPayloadDuration st size tx .WIFI_PREAMBLE_NONE frequency 2 1).2 = ⟨0, 0⟩
            ∧ ∃ c, (∀ p, p ≠ .WIFI_PREAMBLE_NONE →
                  payloadNumSymbols st ((st.m_totalAmpduSize + size) % 4294967296) tx p 0 1
                    = (.ok c, st))
                ∧ n = uint32Sub c st.m_totalAmpduNumSymbols) := by
  refine ⟨?_, ?_, ?_⟩
  · intro hpre
    have h := payloadNumSymbols_first st size tx preamble 1 hcls hpre
    rw [if_pos rfl] at h
    refine ⟨_, h, ?_⟩
    rw [(GetPayloadDuration_of_numSymbols st size tx preamble frequency 1 1 hcls).1, h]
    rfl
  · have h := payloadNumSymbols_middle st size tx 1 hcls
    rw [if_pos rfl] at h
    refine ⟨_, h, ?_⟩
    rw [(GetPayloadDuration_of_numSymbols st size tx .WIFI_PREAMBLE_NONE frequency 1 1 hcls).1,
      h]
    rfl
  · intro n st2 h
    have hg := (GetPayloadDuration_of_numSymbols st size tx .WIFI_PREAMBLE_NONE frequency 2 1
      hcls).1
    rw [h] at hg
    have hc : ∀ p, p ≠ .WIFI_PREAMBLE_NONE →
        payloadNumSymbols st (uint32 (st.m_totalAmpduSize + size)) tx p 0 1
          = (.ok (uint32 (standaloneCount tx (uint32 (st.m_totalAmpduSize + size)))), st) :=
      fun p hp => payloadNumSymbols_standalone_count st _ tx p 1 hcls hp
    have hl := payloadNumSymbols_last_count st size tx .WIFI_PREAMBLE_LONG 1 1 hcls (by simp)
      (hc .WIFI_PREAMBLE_LONG (by simp)) h
    rw [if_pos rfl] at hl
    obtain ⟨h1, h2⟩ := hl
    subst h2
    exact ⟨rfl, hg, _, hc, h1⟩

/-- C7 at OfdmRate54Mbps from the accumulator (7, 3): a committed Middle call of 1000
bytes. -/
theorem C7_committed_state_effect_witness :
    (∃ n, payloadNumSymbols ⟨7, 3⟩ 1000 ⟨GetOfdmRate54Mbps, 1, 0, false⟩
          .WIFI_PREAMBLE_NONE 1 1
        = (.ok n, ⟨(7 + 1000) % 4294967296, (3 + n) % 4294967296⟩)
      ∧ (GetPayloadDuration ⟨7, 3⟩ 1000 ⟨GetOfdmRate54Mbps, 1, 0, false⟩
          .WIFI_PREAMBLE_NONE 5180 1 1).2
        = ⟨(7 + 1000) % 4294967296, (3 + n) % 4294967296⟩) :=
  (C7_committed_state_effect ⟨7, 3⟩ 1000 ⟨GetOfdmRate54Mbps, 1, 0, false⟩
    .WIFI_PREAMBLE_LONG 5180 (Or.inl rfl) (by decide)).2.1

/-- Bits per symbol of OfdmRate54Mbps: 54 Mbit/s over 4 microseconds. -/
theorem payloadBitsPerSymbol_54Mbps (nss ness : Nat) (stbc : Bool) :
    payloadBitsPerSymbol ⟨GetOfdmRate54Mbps, nss, ness, stbc⟩ = 216 := by
  have hT : payloadSymbolDuration ⟨GetOfdmRate54Mbps, nss, ness, stbc⟩ = 4000 := by
    simp [payloadSymbolDuration, ofdmSymbolDuration, GetOfdmRate54Mbps, MicroSeconds]
  have hN : numDataBitsPerSymbol 54000000 1 4000 = 216 := by
    norm_num [numDataBitsPerSymbol, uint64]
  show numDataBitsPerSymbol 54000000 1
    (payloadSymbolDuration ⟨GetOfdmRate54Mbps, nss, ness, stbc⟩) = 216
  rw [hT, hN]

/-- C7 fails as stated on a full byte counter: after a committed First call of 4294967295
bytes with OfdmRate54Mbps the accumulator is (4294967295, 159072863), and a committed Middle
call of 1 byte (0 symbols) leaves (0, 159072863), not (4294967296, 159072863). -/
theorem C7_counterexample :
    payloadNumSymbols ⟨0, 0⟩ 4294967295 ⟨GetOfdmRate54Mbps, 1, 0, false⟩ .WIFI_PREAMBLE_LONG 1 1
        = (.ok 159072863, ⟨4294967295, 159072863⟩)
      ∧ payloadNumSymbols ⟨4294967295, 159072863⟩ 1 ⟨GetOfdmRate54Mbps, 1, 0, false⟩
          .WIFI_PREAMBLE_NONE 1 1 = (.ok 0, ⟨0, 159072863⟩)
      ∧ (GetPayloadDuration ⟨4294967295, 159072863⟩ 1 ⟨GetOfdmRate54Mbps, 1, 0, false⟩
          .WIFI_PREAMBLE_NONE 5180 1 1).2 = ⟨0, 159072863⟩
      ∧ (⟨0, 159072863⟩ : PhyState) ≠ ⟨4294967295 + 1, 159072863 + 0⟩ := by
  have hcls : GetOfdmRate54Mbps.modClass = .WIFI_MOD_CLASS_OFDM := rfl
  have hc1 : Nat.ceil ((8 + ((4294967295 : Nat) : ℚ) * 8 + 6) / 216) = 159072863 := by
    rw [Nat.ceil_eq_iff (by norm_num)]
    norm_num
  have hc2 : Nat.floor ((((1 : Nat) : ℚ) * 8) / 216) = 0 := by
    rw [Nat.floor_eq_zero]
    norm_num
  have hf := payloadNumSymbols_first ⟨0, 0⟩ 4294967295 ⟨GetOfdmRate54Mbps, 1, 0, false⟩
    .WIFI_PREAMBLE_LONG 1 (Or.inl hcls) (by simp)
  rw [payloadBitsPerSymbol_54Mbps, hc1] at hf
  have hm := payloadNumSymbols_middle ⟨4294967295, 159072863⟩ 1
    ⟨GetOfdmRate54Mbps, 1, 0, false⟩ 1 (Or.inl hcls)
  rw [payloadBitsPerSymbol_54Mbps, hc2] at hm
  have hm2 : payloadNumSymbols ⟨4294967295, 159072863⟩ 1 ⟨GetOfdmRate54Mbps, 1, 0, false⟩
      .WIFI_PREAMBLE_NONE 1 1 = (.ok 0, ⟨0, 159072863⟩) := by
    rw [hm]
    rfl
  refine ⟨?_, hm2, ?_, ?_⟩
  · rw [hf]
    rfl
  · rw [(GetPayloadDuration_of_numSymbols _ _ _ _ _ _ _ (Or.inl hcls)).1, hm2]
  · intro h
    have := congrArg PhyState.m_totalAmpduSize h
    norm_num at this

/-! ## The Last fragment -/

/-- A stored 32-bit value is below `2 ^ 32`. -/
theorem uint32_lt (n : Nat) : uint32 n < 4294967296 :=
  Nat.mod_lt _ (by norm_num)

/-- The duration `GetPayloadDuration` makes of a symbol count on a symbol-counting mode: the
count times the symbol duration, plus 6 microseconds on an ERP-OFDM mode, and on an HT mode
between 2400 and 2500 MHz in the roles Standalone and Last. -/
theorem GetPayloadDuration_ok (st : PhyState) (size : Nat) (tx : WifiTxVector)
    (preamble : WifiPreamble) (frequency : ℚ) (packetType incFlag : Nat)
    (hcls : tx.mode.modClass = .WIFI_MOD_CLASS_OFDM ∨ tx.mode.modClass = .WIFI_MOD_CLASS_ERP_OFDM
      ∨ tx.mode.modClass = .WIFI_MOD_CLASS_HT ∨ tx.mode.modClass = .WIFI_MOD_CLASS_S1G)
    {n : Nat} {st2 : PhyState}
    (h : payloadNumSymbols st size tx preamble packetType incFlag = (.ok n, st2)) :
    GetPayloadDuration st size tx preamble frequency packetType incFlag
      = (.ok ((n : Int) * payloadSymbolDuration tx
          + (if tx.mode.modClass = .WIFI_MOD_CLASS_ERP_OFDM
                ∨ (tx.mode.modClass = .WIFI_MOD_CLASS_HT ∧ frequency ≥ 2400 ∧ frequency ≤ 2500
                  ∧ ((packetType = 0 ∧ preamble ≠ .WIFI_PREAMBLE_NONE)
                    ∨ (packetType = 2 ∧ preamble = .WIFI_PREAMBLE_NONE)))
              then MicroSeconds 6 else 0)), st2) := by
  rcases hcls with hc | hc | hc | hc
  · rw [GetPayloadDuration_ofdm_ok st size tx preamble frequency packetType incFlag
      (Or.inl hc) h]
    simp [hc]
  · rw [GetPayloadDuration_ofdm_ok st size tx preamble frequency packetType incFlag
      (Or.inr hc) h]
    simp [hc]
  · rw [GetPayloadDuration_ht_ok st size tx preamble frequency packetType incFlag hc h]
    simp only [hc, reduceCtorEq, false_or, true_and]
    split_ifs <;> simp
  · rw [GetPayloadDuration_s1g_ok st size tx preamble frequency packetType incFlag hc h]
    simp [hc]

/-- The duration `GetPayloadDuration` makes of a symbol count on a symbol-counting mode, with
the signal extension of the call. -/
theorem GetPayloadDuration_eq (st : PhyState) (size : Nat) (tx : WifiTxVector)
    (preamble : WifiPreamble) (frequency : ℚ) (packetType incFlag : Nat)
    (hcls : tx.mode.modClass = .WIFI_MOD_CLASS_OFDM ∨ tx.mode.modClass = .WIFI_MOD_CLASS_ERP_OFDM
      ∨ tx.mode.modClass = .WIFI_MOD_CLASS_HT ∨ tx.mode.modClass = .WIFI_MOD_CLASS_S1G)
    {n : Nat} {st2 : PhyState}
    (h : payloadNumSymbols st size tx preamble packetType incFlag = (.ok n, st2)) :
    GetPayloadDuration st size tx preamble frequency packetType incFlag
      = (.ok ((n : Int) * payloadSymbolDuration tx
          + signalExtension tx preamble frequency packetType), st2) :=
  GetPayloadDuration_ok st size tx preamble frequency packetType incFlag hcls h

/-- C8, as the code has it: on a symbol-counting mode with at least one stream, for an
accumulator and size with `bytesAccumulated + size` below `2 ^ 32`, a Standalone call of size
`bytesAccumulated + size` computes a symbol count `c`, and when `symbolsAccumulated` is not
above `c` a Last call (packetType 2, preamble None) counts `c` minus `symbolsAccumulated`
symbols and returns their duration; and on a fresh accumulator a Last call of any 32-bit size
succeeds and returns exactly the payload duration of the Standalone call with the same size,
tx vector, frequency and incFlag. -/
theorem C8_last_symbol_count (st : PhyState) (size : Nat) (tx : WifiTxVector)
    (preamble : WifiPreamble) (frequency : ℚ) (incFlag : Nat)
    (hcls : tx.mode.modClass = .WIFI_MOD_CLASS_OFDM ∨ tx.mode.modClass = .WIFI_MOD_CLASS_ERP_OFDM
      ∨ tx.mode.modClass = .WIFI_MOD_CLASS_HT ∨ tx.mode.modClass = .WIFI_MOD_CLASS_S1G)
    (_hnss : 1 ≤ tx.nss) (hpre : preamble ≠ .WIFI_PREAMBLE_NONE)
    (hbytes : st.m_totalAmpduSize + size < 4294967296) :
    (∃ c, payloadNumSymbols st (st.m_totalAmpduSize + size) tx preamble 0 incFlag = (.ok c, st)
        ∧ (st.m_totalAmpduNumSymbols ≤ c →
          payloadNumSymbols st size tx .WIFI_PREAMBLE_NONE 2 incFlag
              = (.ok (c - st.m_totalAmpduNumSymbols), if incFlag = 1 then ⟨0, 0⟩ else st)
            ∧ GetPayloadDuration st size tx .WIFI_PREAMBLE_NONE frequency 2 incFlag
              = (.ok (((c - st.m_totalAmpduNumSymbols : Nat) : Int) * payloadSymbolDuration tx
                  + signalExtension tx .WIFI_PREAMBLE_NONE frequency 2),
                if incFlag = 1 then ⟨0, 0⟩ else st)))
      ∧ (∃ d, (GetPayloadDuration ⟨0, 0⟩ size tx .WIFI_PREAMBLE_NONE frequency 2 incFlag).1
          = .ok d)
      ∧ (GetPayloadDuration ⟨0, 0⟩ size tx .WIFI_PREAMBLE_NONE frequency 2 incFlag).1
        = (GetPayloadDuration ⟨0, 0⟩ size tx preamble frequency 0 incFlag).1 := by
  have hstand := payloadNumSymbols_standalone_count st (st.m_totalAmpduSize + size) tx
    preamble incFlag hcls hpre
  have hlast : st.m_totalAmpduNumSymbols
        ≤ uint32 (standaloneCount tx (st.m_totalAmpduSize + size)) →
      payloadNumSymbols st size tx .WIFI_PREAMBLE_NONE 2 incFlag
        = (.ok (uint32 (standaloneCount tx (st.m_totalAmpduSize + size))
            - st.m_totalAmpduNumSymbols), if incFlag = 1 then ⟨0, 0⟩ else st) := by
    intro hs
    have hstand2 : payloadNumSymbols st (uint32 (st.m_totalAmpduSize + size)) tx preamble 0
        incFlag = (.ok (uint32 (standaloneCount tx (st.m_totalAmpduSize + size))), st) := by
      rw [uint32_of_lt hbytes]
      exact hstand
    exact payloadNumSymbols_last_of_standalone st size tx preamble incFlag incFlag hcls hpre
      hstand2 hs
  -- the fresh accumulator
  have hsize : size < 4294967296 := by omega
  have hL0 : standaloneCount tx size % 4294967296 < 4294967296 := Nat.mod_lt _ (by norm_num)
  have hfl : payloadNumSymbols ⟨0, 0⟩ size tx .WIFI_PREAMBLE_NONE 2 incFlag
      = (.ok (standaloneCount tx size % 4294967296), if incFlag = 1 then ⟨0, 0⟩ else ⟨0, 0⟩) := by
    rcases symbolCounting_cases hcls with h | h
    · rw [payloadNumSymbols_last_ofdm ⟨0, 0⟩ size tx incFlag h]
      simp only [zero_add, uint32_of_lt hsize]
      show (Except.ok (uint32Sub (standaloneCount tx size % 4294967296) 0), _) = _
      rw [uint32Sub_of_le (Nat.zero_le _) hL0, Nat.sub_zero]
    · rw [payloadNumSymbols_last_ht ⟨0, 0⟩ size tx incFlag h]
      simp only [zero_add, uint32_of_lt hsize]
      show (if 0 ≤ standaloneCount tx size % 4294967296 then
          (Except.ok (uint32Sub (standaloneCount tx size % 4294967296) 0),
            if incFlag = 1 then (⟨0, 0⟩ : PhyState) else ⟨0, 0⟩)
        else (Except.error PhyError.assertionFailed, ⟨0, 0⟩)) = _
      rw [if_pos (Nat.zero_le _), uint32Sub_of_le (Nat.zero_le _) hL0, Nat.sub_zero]
  have hfs := payloadNumSymbols_standalone_count ⟨0, 0⟩ size tx preamble incFlag hcls hpre
  have hgl := GetPayloadDuration_ok ⟨0, 0⟩ size tx .WIFI_PREAMBLE_NONE frequency 2 incFlag hcls
    hfl
  have hgs := GetPayloadDuration_ok ⟨0, 0⟩ size tx preamble frequency 0 incFlag hcls hfs
  refine ⟨⟨_, hstand, fun hs => ⟨hlast hs, ?_⟩⟩, ⟨_, congrArg Prod.fst hgl⟩, ?_⟩
  · exact GetPayloadDuration_eq st size tx .WIFI_PREAMBLE_NONE frequency 2 incFlag hcls
      (hlast hs)
  · rw [hgl, hgs]
    simp only [hpre, uint32, ne_eq, not_false_eq_true, and_true, and_false, or_false, false_or,
      true_and, OfNat.ofNat_ne_zero, OfNat.zero_ne_ofNat, false_and]

/-- The Standalone formula on OfdmRate54Mbps: 216 bits per symbol, no STBC factor. -/
theorem standaloneCount_54Mbps (nss ness : Nat) (stbc : Bool) (size : Nat) :
    standaloneCount ⟨GetOfdmRate54Mbps, nss, ness, stbc⟩ size
      = Nat.ceil ((8 + (size : ℚ) * 8 + 6) / 216) := by
  have hm : payloadStbc ⟨GetOfdmRate54Mbps, nss, ness, stbc⟩ = 1 := rfl
  unfold standaloneCount
  rw [hm, payloadBitsPerSymbol_54Mbps]
  simp

/-- C8 at OfdmRate54Mbps on a fresh accumulator, 1000 bytes: the Last call returns what the
Standalone call returns. -/
theorem C8_last_symbol_count_witness :
    (GetPayloadDuration ⟨0, 0⟩ 1000 ⟨GetOfdmRate54Mbps, 1, 0, false⟩ .WIFI_PREAMBLE_NONE 5180 2
        1).1
      = (GetPayloadDuration ⟨0, 0⟩ 1000 ⟨GetOfdmRate54Mbps, 1, 0, false⟩ .WIFI_PREAMBLE_LONG 5180
        0 1).1 :=
  (C8_last_symbol_count ⟨0, 0⟩ 1000 ⟨GetOfdmRate54Mbps, 1, 0, false⟩ .WIFI_PREAMBLE_LONG 5180 1
    (Or.inl rfl) (by decide) (by simp) (by norm_num)).2.2

/-- C8 fails as stated when the byte counter wraps: after a committed First call of
4294967295 bytes with OfdmRate54Mbps the accumulator is (4294967295, 159072863); the
Standalone formula for 4294967295 + 1 bytes gives 159072863 symbols, so the claim predicts a
Last count of 0 for one more byte, but the call adds the sizes in 32 bits, counts the symbols
of 0 bytes (1) and returns 1 - 159072863 modulo `2 ^ 32`, that is 4135894434 symbols. -/
theorem C8_counterexample :
    payloadNumSymbols ⟨0, 0⟩ 4294967295 ⟨GetOfdmRate54Mbps, 1, 0, false⟩ .WIFI_PREAMBLE_LONG 1 1
        = (.ok 159072863, ⟨4294967295, 159072863⟩)
      ∧ standaloneCount ⟨GetOfdmRate54Mbps, 1, 0, false⟩ (4294967295 + 1) - 159072863 = 0
      ∧ payloadNumSymbols ⟨4294967295, 159072863⟩ 1 ⟨GetOfdmRate54Mbps, 1, 0, false⟩
          .WIFI_PREAMBLE_NONE 2 1 = (.ok 4135894434, ⟨0, 0⟩)
      ∧ GetPayloadDuration ⟨4294967295, 159072863⟩ 1 ⟨GetOfdmRate54Mbps, 1, 0, false⟩
          .WIFI_PREAMBLE_NONE 5180 2 1 = (.ok (4135894434 * MicroSeconds 4), ⟨0, 0⟩) := by
  have hcls : GetOfdmRate54Mbps.modClass = .WIFI_MOD_CLASS_OFDM := rfl
  have hc1 : Nat.ceil ((8 + ((4294967295 : Nat) : ℚ) * 8 + 6) / 216) = 159072863 := by
    rw [Nat.ceil_eq_iff (by norm_num)]
    norm_num
  have hc2 : Nat.ceil ((8 + ((4294967295 + 1 : Nat) : ℚ) * 8 + 6) / 216) = 159072863 := by
    rw [Nat.ceil_eq_iff (by norm_num)]
    norm_num
  have hc3 : Nat.ceil ((8 + ((0 : Nat) : ℚ) * 8 + 6) / 216) = 1 := by
    rw [Nat.ceil_eq_iff (by norm_num)]
    norm_num
  have hf := payloadNumSymbols_first ⟨0, 0⟩ 4294967295 ⟨GetOfdmRate54Mbps, 1, 0, false⟩
    .WIFI_PREAMBLE_LONG 1 (Or.inl hcls) (by simp)
  rw [payloadBitsPerSymbol_54Mbps, hc1] at hf
  have hl := payloadNumSymbols_last_ofdm ⟨4294967295, 159072863⟩ 1
    ⟨GetOfdmRate54Mbps, 1, 0, false⟩ 1 (Or.inl hcls)
  have hu : uint32 (4294967295 + 1) = 0 := rfl
  simp only [hu, standaloneCount_54Mbps, hc3] at hl
  have hl2 : payloadNumSymbols ⟨4294967295, 159072863⟩ 1 ⟨GetOfdmRate54Mbps, 1, 0, false⟩
      .WIFI_PREAMBLE_NONE 2 1 = (.ok 4135894434, ⟨0, 0⟩) := by
    rw [hl]
    rfl
  have hT : payloadSymbolDuration ⟨GetOfdmRate54Mbps, 1, 0, false⟩ = MicroSeconds 4 := by decide
  refine ⟨?_, ?_, hl2, ?_⟩
  · rw [hf]
    rfl
  · rw [standaloneCount_54Mbps, hc2]
  · rw [GetPayloadDuration_ok _ _ _ _ _ _ _ (Or.inl hcls) hl2, hT]
    simp [GetOfdmRate54Mbps]

/-! ## A Last fragment on an inconsistent accumulator -/

/-- Bits per symbol of OfdmRate6Mbps: 6 Mbit/s over 4 microseconds. -/
theorem payloadBitsPerSymbol_6Mbps :
    payloadBitsPerSymbol ⟨GetOfdmRate6Mbps, 1, 0, false⟩ = 24 := by
  have hT : payloadSymbolDuration ⟨GetOfdmRate6Mbps, 1, 0, false⟩ = 4000 := by decide
  have hN : numDataBitsPerSymbol 6000000 1 4000 = 24 := by
    norm_num [numDataBitsPerSymbol, uint64]
  show numDataBitsPerSymbol 6000000 1
    (payloadSymbolDuration ⟨GetOfdmRate6Mbps, 1, 0, false⟩) = 24
  rw [hT, hN]

/-- Bits per symbol of OfdmRate65MbpsBW20MHz with one stream: 65 Mbit/s over 4
microseconds. -/
theorem payloadBitsPerSymbol_65Mbps :
    payloadBitsPerSymbol ⟨GetOfdmRate65MbpsBW20MHz, 1, 0, false⟩ = 260 := by
  have hT : payloadSymbolDuration ⟨GetOfdmRate65MbpsBW20MHz, 1, 0, false⟩ = 4000 := by decide
  have hN : numDataBitsPerSymbol 65000000 1 4000 = 260 := by
    norm_num [numDataBitsPerSymbol, uint64]
  show numDataBitsPerSymbol 65000000 1
    (payloadSymbolDuration ⟨GetOfdmRate65MbpsBW20MHz, 1, 0, false⟩) = 260
  rw [hT, hN]

/-- C9 at its failing input: on a fresh PHY a committed First call of 1000 bytes with
OfdmRate6Mbps counts 334 symbols and leaves (1000, 334); a committed Last call of 10 bytes
with OfdmRate54Mbps then computes the whole-aggregate count 38, which is below 334, and
still returns a duration, of 38 - 334 modulo `2 ^ 32` = 4294967000 symbols, and clears the
accumulator.  The HT branch stops at its assertion on the same accumulator
(OfdmRate65MbpsBW20MHz, whole-aggregate count 32). -/
theorem C9_ofdm_last_returns_on_inconsistent_accumulator :
    GetPayloadDuration ⟨0, 0⟩ 1000 ⟨GetOfdmRate6Mbps, 1, 0, false⟩ .WIFI_PREAMBLE_LONG 5180 1 1
        = (.ok (334 * MicroSeconds 4), ⟨1000, 334⟩)
      ∧ standaloneCount ⟨GetOfdmRate54Mbps, 1, 0, false⟩ (1000 + 10) = 38
      ∧ GetPayloadDuration ⟨1000, 334⟩ 10 ⟨GetOfdmRate54Mbps, 1, 0, false⟩ .WIFI_PREAMBLE_NONE
          5180 2 1 = (.ok (4294967000 * MicroSeconds 4), ⟨0, 0⟩)
      ∧ standaloneCount ⟨GetOfdmRate65MbpsBW20MHz, 1, 0, false⟩ (1000 + 10) = 32
      ∧ GetPayloadDuration ⟨1000, 334⟩ 10 ⟨GetOfdmRate65MbpsBW20MHz, 1, 0, false⟩
          .WIFI_PREAMBLE_NONE 5180 2 1 = (.error .assertionFailed, ⟨1000, 334⟩) := by
  have h6 : GetOfdmRate6Mbps.modClass = .WIFI_MOD_CLASS_OFDM := rfl
  have h54 : GetOfdmRate54Mbps.modClass = .WIFI_MOD_CLASS_OFDM := rfl
  have h65 : GetOfdmRate65MbpsBW20MHz.modClass = .WIFI_MOD_CLASS_HT := rfl
  have hc1 : Nat.ceil ((8 + ((1000 : Nat) : ℚ) * 8 + 6) / 24) = 334 := by
    rw [Nat.ceil_eq_iff (by norm_num)]
    norm_num
  have hc2 : Nat.ceil ((8 + ((1000 + 10 : Nat) : ℚ) * 8 + 6) / 216) = 38 := by
    rw [Nat.ceil_eq_iff (by norm_num)]
    norm_num
  have hc3 : standaloneCount ⟨GetOfdmRate65MbpsBW20MHz, 1, 0, false⟩ (1000 + 10) = 32 := by
    have hm : payloadStbc ⟨GetOfdmRate65MbpsBW20MHz, 1, 0, false⟩ = 1 := rfl
    unfold standaloneCount
    rw [hm, payloadBitsPerSymbol_65Mbps, Nat.one_mul, Nat.ceil_eq_iff (by norm_num)]
    norm_num
  have hT6 : payloadSymbolDuration ⟨GetOfdmRate6Mbps, 1, 0, false⟩ = MicroSeconds 4 := by decide
  have hT54 : payloadSymbolDuration ⟨GetOfdmRate54Mbps, 1, 0, false⟩ = MicroSeconds 4 := by
    decide
  -- the First call
  have hf := payloadNumSymbols_first ⟨0, 0⟩ 1000 ⟨GetOfdmRate6Mbps, 1, 0, false⟩
    .WIFI_PREAMBLE_LONG 1 (Or.inl h6) (by simp)
  rw [payloadBitsPerSymbol_6Mbps, hc1] at hf
  have hf2 : payloadNumSymbols ⟨0, 0⟩ 1000 ⟨GetOfdmRate6Mbps, 1, 0, false⟩
      .WIFI_PREAMBLE_LONG 1 1 = (.ok 334, ⟨1000, 334⟩) := by
    rw [hf]
    rfl
  -- the Last call, OFDM
  have hl := payloadNumSymbols_last_ofdm ⟨1000, 334⟩ 10 ⟨GetOfdmRate54Mbps, 1, 0, false⟩ 1
    (Or.inl h54)
  have hu : uint32 (1000 + 10) = 1000 + 10 := rfl
  simp only [hu, standaloneCount_54Mbps, hc2] at hl
  have hl2 : payloadNumSymbols ⟨1000, 334⟩ 10 ⟨GetOfdmRate54Mbps, 1, 0, false⟩
      .WIFI_PREAMBLE_NONE 2 1 = (.ok 4294967000, ⟨0, 0⟩) := by
    rw [hl]
    rfl
  -- the Last call, HT
  have hh := payloadNumSymbols_last_ht ⟨1000, 334⟩ 10 ⟨GetOfdmRate65MbpsBW20MHz, 1, 0, false⟩ 1
    (Or.inl h65)
  simp only [hu, hc3] at hh
  have hh2 : payloadNumSymbols ⟨1000, 334⟩ 10 ⟨GetOfdmRate65MbpsBW20MHz, 1, 0, false⟩
      .WIFI_PREAMBLE_NONE 2 1 = (.error .assertionFailed, ⟨1000, 334⟩) := by
    rw [hh]
    rfl
  refine ⟨?_, ?_, ?_, hc3, ?_⟩
  · rw [GetPayloadDuration_ok _ _ _ _ _ _ _ (Or.inl h6) hf2, hT6]
    simp [GetOfdmRate6Mbps]
  · rw [standaloneCount_54Mbps, hc2]
  · rw [GetPayloadDuration_ok _ _ _ _ _ _ _ (Or.inl h54) hl2, hT54]
    simp [GetOfdmRate54Mbps]
  · exact GetPayloadDuration_error _ _ _ _ _ _ _ (by rw [h65]; decide) hh2

/-! ## Role and preamble that do not go together -/

/-- Role Standalone with preamble None reaches the final `else` of the role dispatch. -/
theorem payloadNumSymbols_standalone_none (st : PhyState) (size : Nat) (tx : WifiTxVector)
    (incFlag : Nat)
    (hcls : tx.mode.modClass = .WIFI_MOD_CLASS_OFDM ∨ tx.mode.modClass = .WIFI_MOD_CLASS_ERP_OFDM
      ∨ tx.mode.modClass = .WIFI_MOD_CLASS_HT ∨ tx.mode.modClass = .WIFI_MOD_CLASS_S1G) :
    payloadNumSymbols st size tx .WIFI_PREAMBLE_NONE 0 incFlag
      = (.error .wrongCombination, st) := by
  rcases symbolCounting_cases hcls with h | h
  · rw [payloadNumSymbols_ofdm _ _ _ _ _ _ h]
    simp [ofdmNumSymbols]
  · rw [payloadNumSymbols_ht _ _ _ _ _ _ h]
    simp [htNumSymbols]

/-- C10, as the code has it: for every mode of class OFDM, ERP-OFDM, HT or S1G, every tx
vector with at least one stream, every size, frequency, commit flag and accumulator,
`GetPayloadDuration` called with the Standalone role (packetType 0) and preamble None fails
with the wrong-combination error, returns no duration and leaves the accumulator alone. -/
theorem C10_standalone_none_fails (st : PhyState) (size : Nat) (tx : WifiTxVector)
    (frequency : ℚ) (incFlag : Nat)
    (hcls : tx.mode.modClass = .WIFI_MOD_CLASS_OFDM ∨ tx.mode.modClass = .WIFI_MOD_CLASS_ERP_OFDM
      ∨ tx.mode.modClass = .WIFI_MOD_CLASS_HT ∨ tx.mode.modClass = .WIFI_MOD_CLASS_S1G)
    (_hnss : 1 ≤ tx.nss) :
    GetPayloadDuration st size tx .WIFI_PREAMBLE_NONE frequency 0 incFlag
        = (.error .wrongCombination, st)
      ∧ ¬ ∃ d, (GetPayloadDuration st size tx .WIFI_PREAMBLE_NONE frequency 0 incFlag).1
          = .ok d := by
  have hd : tx.mode.modClass ≠ .WIFI_MOD_CLASS_DSSS := by
    rcases hcls with h | h | h | h <;> rw [h] <;> decide
  have h := GetPayloadDuration_error st size tx .WIFI_PREAMBLE_NONE frequency 0 incFlag hd
    (payloadNumSymbols_standalone_none st size tx incFlag hcls)
  refine ⟨h, ?_⟩
  rintro ⟨d, hd2⟩
  rw [h] at hd2
  exact absurd hd2 (by simp)

/-- C10 at OfdmRate65MbpsBW20MHz, 1000 bytes, 2412 MHz, committing, from the accumulator
(7, 3). -/
theorem C10_standalone_none_fails_witness :
    GetPayloadDuration ⟨7, 3⟩ 1000 ⟨GetOfdmRate65MbpsBW20MHz, 1, 0, false⟩ .WIFI_PREAMBLE_NONE
        2412 0 1 = (.error .wrongCombination, ⟨7, 3⟩) :=
  (C10_standalone_none_fails ⟨7, 3⟩ 1000 ⟨GetOfdmRate65MbpsBW20MHz, 1, 0, false⟩ 2412 1
    (Or.inr (Or.inr (Or.inl rfl))) (by norm_num)).1

/-- C10 fails as stated for DSSS: with DsssRate2Mbps, 100 bytes, the Standalone role and
preamble None, `GetPayloadDuration` returns 400 microseconds. -/
theorem C10_counterexample :
    GetDsssRate2Mbps.modClass = .WIFI_MOD_CLASS_DSSS
      ∧ GetPayloadDuration ⟨0, 0⟩ 100 ⟨GetDsssRate2Mbps, 1, 0, false⟩ .WIFI_PREAMBLE_NONE 2412 0
          1 = (.ok (MicroSeconds 400), ⟨0, 0⟩) := by
  refine ⟨rfl, ?_⟩
  have hc : Nat.ceil ((((100 : Nat) : ℚ) * 8) / (((2000000 : Nat) : ℚ) / 1000000)) = 400 := by
    rw [Nat.ceil_eq_iff (by norm_num)]
    norm_num
  simp only [GetPayloadDuration, GetDsssRate2Mbps]
  rw [hc]
  rfl

/-- The role dispatch ends in the wrong-combination error exactly on the pairs of packetType
and preamble that none of its four branches accepts. -/
theorem payloadNumSymbols_wrongCombination_iff (st : PhyState) (size : Nat) (tx : WifiTxVector)
    (preamble : WifiPreamble) (packetType incFlag : Nat)
    (hcls : tx.mode.modClass = .WIFI_MOD_CLASS_OFDM ∨ tx.mode.modClass = .WIFI_MOD_CLASS_ERP_OFDM
      ∨ tx.mode.modClass = .WIFI_MOD_CLASS_HT ∨ tx.mode.modClass = .WIFI_MOD_CLASS_S1G) :
    (payloadNumSymbols st size tx preamble packetType incFlag).1 = .error .wrongCombination
      ↔ (packetType = 0 ∧ preamble = .WIFI_PREAMBLE_NONE)
        ∨ (packetType = 2 ∧ preamble ≠ .WIFI_PREAMBLE_NONE)
        ∨ (packetType ≠ 0 ∧ packetType ≠ 1 ∧ packetType ≠ 2) := by
  rcases symbolCounting_cases hcls with h | h
  · rw [payloadNumSymbols_ofdm _ _ _ _ _ _ h]
    simp only [ofdmNumSymbols]
    by_cases hp : preamble = .WIFI_PREAMBLE_NONE <;> by_cases h1 : packetType = 1 <;>
      by_cases h2 : packetType = 2 <;> by_cases h0 : packetType = 0 <;>
      simp [hp, h1, h2, h0] <;> split_ifs <;> simp
  · rw [payloadNumSymbols_ht _ _ _ _ _ _ h]
    simp only [htNumSymbols]
    by_cases hp : preamble = .WIFI_PREAMBLE_NONE <;> by_cases h1 : packetType = 1 <;>
      by_cases h2 : packetType = 2 <;> by_cases h0 : packetType = 0 <;>
      simp [hp, h1, h2, h0] <;> split_ifs <;> simp

/-- Role First or Middle (packetType 1) always yields a symbol count. -/
theorem payloadNumSymbols_packetType_one (st : PhyState) (size : Nat) (tx : WifiTxVector)
    (preamble : WifiPreamble) (incFlag : Nat)
    (hcls : tx.mode.modClass = .WIFI_MOD_CLASS_OFDM ∨ tx.mode.modClass = .WIFI_MOD_CLASS_ERP_OFDM
      ∨ tx.mode.modClass = .WIFI_MOD_CLASS_HT ∨ tx.mode.modClass = .WIFI_MOD_CLASS_S1G) :
    ∃ n, (payloadNumSymbols st size tx preamble 1 incFlag).1 = .ok n := by
  by_cases hp : preamble = .WIFI_PREAMBLE_NONE
  · subst hp
    exact ⟨_, congrArg Prod.fst (payloadNumSymbols_middle st size tx incFlag hcls)⟩
  · exact ⟨_, congrArg Prod.fst (payloadNumSymbols_first st size tx preamble incFlag hcls hp)⟩

/-- C11: for a mode of class OFDM, ERP-OFDM, HT or S1G (tx vector with at least one stream),
`GetPayloadDuration` fails with the wrong-combination error if and only if packetType is 0
with preamble None, or packetType is 2 with a real preamble, or packetType is none of 0, 1,
2; with packetType 1 it returns a duration for a real preamble (First) and for preamble None
(Middle) alike. -/
theorem C11_wrong_combination_iff (st : PhyState) (size : Nat) (tx : WifiTxVector)
    (preamble : WifiPreamble) (frequency : ℚ) (packetType incFlag : Nat)
    (hcls : tx.mode.modClass = .WIFI_MOD_CLASS_OFDM ∨ tx.mode.modClass = .WIFI_MOD_CLASS_ERP_OFDM
      ∨ tx.mode.modClass = .WIFI_MOD_CLASS_HT ∨ tx.mode.modClass = .WIFI_MOD_CLASS_S1G)
    (_hnss : 1 ≤ tx.nss) :
    ((GetPayloadDuration st size tx preamble frequency packetType incFlag).1
          = .error .wrongCombination
        ↔ (packetType = 0 ∧ preamble = .WIFI_PREAMBLE_NONE)
          ∨ (packetType = 2 ∧ preamble ≠ .WIFI_PREAMBLE_NONE)
          ∨ (packetType ≠ 0 ∧ packetType ≠ 1 ∧ packetType ≠ 2))
      ∧ ∃ d, (GetPayloadDuration st size tx preamble frequency 1 incFlag).1 = .ok d := by
  constructor
  · rw [(GetPayloadDuration_of_numSymbols st size tx preamble frequency packetType incFlag
      hcls).2.2 .wrongCombination]
    exact payloadNumSymbols_wrongCombination_iff st size tx preamble packetType incFlag hcls
  · exact (GetPayloadDuration_of_numSymbols st size tx preamble frequency 1 incFlag hcls).2.1.2
      (payloadNumSymbols_packetType_one st size tx preamble incFlag hcls)

/-- C11 at OfdmRate65MbpsBW20MHz: packetType 2 with preamble HT-Mixed fails, packetType 1
with preamble None returns. -/
theorem C11_wrong_combination_iff_witness :
    (GetPayloadDuration ⟨0, 0⟩ 1000 ⟨GetOfdmRate65MbpsBW20MHz, 1, 0, false⟩ .WIFI_PREAMBLE_HT_MF
        2412 2 1).1 = .error .wrongCombination
      ∧ ∃ d, (GetPayloadDuration ⟨0, 0⟩ 1000 ⟨GetOfdmRate65MbpsBW20MHz, 1, 0, false⟩
        .WIFI_PREAMBLE_NONE 2412 1 1).1 = .ok d :=
  ⟨(C11_wrong_combination_iff ⟨0, 0⟩ 1000 ⟨GetOfdmRate65MbpsBW20MHz, 1, 0, false⟩
      .WIFI_PREAMBLE_HT_MF 2412 2 1 (Or.inr (Or.inr (Or.inl rfl))) (by norm_num)).1.2
      (Or.inr (Or.inl ⟨rfl, by simp⟩)),
    (C11_wrong_combination_iff ⟨0, 0⟩ 1000 ⟨GetOfdmRate65MbpsBW20MHz, 1, 0, false⟩
      .WIFI_PREAMBLE_NONE 2412 1 1 (Or.inr (Or.inr (Or.inl rfl))) (by norm_num)).2⟩

/-! ## Modes outside the five supported classes -/

/-- C12: for a mode whose modulation class is none of DSSS, ERP-OFDM, OFDM, HT and S1G,
`GetPayloadDuration` fails with the unsupported-modulation-class error for every size,
preamble, frequency, packetType and incFlag, and leaves the accumulator alone; so does
`CalculateTxDuration`. -/
theorem C12_unsupported_modulation_class (st : PhyState) (size : Nat) (tx : WifiTxVector)
    (preamble : WifiPreamble) (frequency : ℚ) (packetType incFlag : Nat)
    (h1 : tx.mode.modClass ≠ .WIFI_MOD_CLASS_DSSS)
    (h2 : tx.mode.modClass ≠ .WIFI_MOD_CLASS_ERP_OFDM)
    (h3 : tx.mode.modClass ≠ .WIFI_MOD_CLASS_OFDM)
    (h4 : tx.mode.modClass ≠ .WIFI_MOD_CLASS_HT)
    (h5 : tx.mode.modClass ≠ .WIFI_MOD_CLASS_S1G) :
    GetPayloadDuration st size tx preamble frequency packetType incFlag
        = (.error .unsupportedModulationClass, st)
      ∧ (CalculateTxDuration st size tx preamble frequency packetType incFlag).2 = st
      ∧ ∃ e, (CalculateTxDuration st size tx preamble frequency packetType incFlag).1
          = .error e := by
  have hg : GetPayloadDuration st size tx preamble frequency packetType incFlag
      = (.error .unsupportedModulationClass, st) := by
    cases hc : tx.mode.modClass
    case WIFI_MOD_CLASS_UNKNOWN => simp only [GetPayloadDuration, hc]
    all_goals simp_all
  refine ⟨hg, ?_, ?_⟩
  · simp only [CalculateTxDuration, hg]
  · simp only [CalculateTxDuration, hg]
    cases CalculatePlcpPreambleAndHeaderDuration tx preamble with
    | error e => exact ⟨e, rfl⟩
    | ok d => exact ⟨.unsupportedModulationClass, rfl⟩

/-- C12 at a mode of unknown class, committing role Last, from the accumulator (7, 3). -/
theorem C12_unsupported_modulation_class_witness :
    GetPayloadDuration ⟨7, 3⟩ 1000
        ⟨⟨"Invalid-WifiMode", .WIFI_MOD_CLASS_UNKNOWN, false, 0, 0, .WIFI_CODE_RATE_UNDEFINED, 0⟩,
          1, 0, false⟩ .WIFI_PREAMBLE_NONE 2412 2 1
      = (.error .unsupportedModulationClass, ⟨7, 3⟩) :=
  (C12_unsupported_modulation_class ⟨7, 3⟩ 1000
    ⟨⟨"Invalid-WifiMode", .WIFI_MOD_CLASS_UNKNOWN, false, 0, 0, .WIFI_CODE_RATE_UNDEFINED, 0⟩,
      1, 0, false⟩ .WIFI_PREAMBLE_NONE 2412 2 1 (by decide) (by decide) (by decide) (by decide)
    (by decide)).1

/-! ## Non-negative durations -/

set_option maxRecDepth 100000 in
/-- Every catalog mode belongs to one of the five supported modulation classes. -/
theorem catalog_class_facts : ∀ m ∈ allModes,
    m.modClass = .WIFI_MOD_CLASS_DSSS ∨ m.modClass = .WIFI_MOD_CLASS_OFDM
      ∨ m.modClass = .WIFI_MOD_CLASS_ERP_OFDM ∨ m.modClass = .WIFI_MOD_CLASS_HT
      ∨ m.modClass = .WIFI_MOD_CLASS_S1G := by
  decide

/-- On a supported class `GetPlcpPreambleDuration` returns a non-negative duration. -/
theorem GetPlcpPreambleDuration_nonneg (m : WifiMode) (preamble : WifiPreamble)
    (hcls : m.modClass ≠ .WIFI_MOD_CLASS_UNKNOWN) :
    ∃ d, GetPlcpPreambleDuration m preamble = .ok d ∧ 0 ≤ d := by
  unfold GetPlcpPreambleDuration MicroSeconds
  cases hc : m.modClass
  case WIFI_MOD_CLASS_UNKNOWN => exact absurd hc hcls
  all_goals
    cases preamble <;> simp only [reduceCtorEq, if_true, if_false] <;>
      first
        | exact ⟨_, rfl, by norm_num⟩
        | (split_ifs <;> exact ⟨_, rfl, by norm_num⟩)

/-- On a supported class `GetPlcpHeaderDuration` returns a non-negative duration. -/
theorem GetPlcpHeaderDuration_nonneg (m : WifiMode) (preamble : WifiPreamble)
    (hcls : m.modClass ≠ .WIFI_MOD_CLASS_UNKNOWN) :
    ∃ d, GetPlcpHeaderDuration m preamble = .ok d ∧ 0 ≤ d := by
  unfold GetPlcpHeaderDuration MicroSeconds
  cases hc : m.modClass
  case WIFI_MOD_CLASS_UNKNOWN => exact absurd hc hcls
  all_goals
    cases preamble <;> simp only [reduceCtorEq, if_true, if_false] <;>
      first
        | exact ⟨_, rfl, by norm_num⟩
        | (split_ifs <;> exact ⟨_, rfl, by norm_num⟩)

/-- The PLCP field functions that cannot fail return non-negative durations when the tx
vector has at least one stream. -/
theorem plcp_fields_nonneg (preamble : WifiPreamble) (tx : WifiTxVector) (hnss : 1 ≤ tx.nss) :
    0 ≤ GetPlcpHtSigHeaderDuration preamble
      ∧ 0 ≤ GetPlcpHtTrainingSymbolDuration preamble tx
      ∧ 0 ≤ GetPlcpSigADuration preamble
      ∧ 0 ≤ GetPlcpSigBDuration preamble
      ∧ 0 ≤ GetPlcpS1gTrainingSymbolDuration preamble tx
      ∧ 0 ≤ GetPlcpTrainingSymbolDuration preamble tx := by
  have h1 : (1 : Int) ≤ ((if tx.nss < 3 then tx.nss else 4 : Nat) : Int) := by
    have : 1 ≤ (if tx.nss < 3 then tx.nss else 4 : Nat) := by split_ifs <;> omega
    exact_mod_cast this
  have h2 : (0 : Int) ≤ ((if tx.ness < 3 then tx.ness else 4 : Nat) : Int) :=
    Int.natCast_nonneg _
  refine ⟨?_, ?_, ?_, ?_, ?_, ?_⟩
  · cases preamble <;> simp [GetPlcpHtSigHeaderDuration, MicroSeconds]
  · cases preamble <;> simp only [GetPlcpHtTrainingSymbolDuration, MicroSeconds] <;> linarith
  · cases preamble <;> simp [GetPlcpSigADuration, MicroSeconds]
  · cases preamble <;> simp [GetPlcpSigBDuration, MicroSeconds]
  · cases preamble <;>
      simp only [GetPlcpS1gTrainingSymbolDuration, MicroSeconds, reduceCtorEq, if_true,
        if_false] <;> linarith
  · cases preamble <;>
      simp only [GetPlcpTrainingSymbolDuration, MicroSeconds, reduceCtorEq, if_true, if_false,
        or_self, or_true, true_or] <;> linarith

/-- A valid role and preamble pairing on a consistent accumulator yields a symbol count. -/
theorem payloadNumSymbols_valid_ok (st : PhyState) (size : Nat) (tx : WifiTxVector)
    (preamble : WifiPreamble) (packetType incFlag : Nat)
    (hcls : tx.mode.modClass = .WIFI_MOD_CLASS_OFDM ∨ tx.mode.modClass = .WIFI_MOD_CLASS_ERP_OFDM
      ∨ tx.mode.modClass = .WIFI_MOD_CLASS_HT ∨ tx.mode.modClass = .WIFI_MOD_CLASS_S1G)
    (hvalid : (packetType = 0 ∧ preamble ≠ .WIFI_PREAMBLE_NONE) ∨ packetType = 1
      ∨ (packetType = 2 ∧ preamble = .WIFI_PREAMBLE_NONE))
    (hcons : packetType = 2 →
      tx.mode.modClass = .WIFI_MOD_CLASS_HT ∨ tx.mode.modClass = .WIFI_MOD_CLASS_S1G →
      st.m_totalAmpduNumSymbols
        ≤ uint32 (standaloneCount tx (uint32 (st.m_totalAmpduSize + size)))) :
    ∃ n st2, payloadNumSymbols st size tx preamble packetType incFlag = (.ok n, st2) := by
  rcases hvalid with ⟨h0, hp⟩ | h1 | ⟨h2, hp⟩
  · subst h0
    exact ⟨_, _, payloadNumSymbols_standalone_count st size tx preamble incFlag hcls hp⟩
  · subst h1
    by_cases hp : preamble = .WIFI_PREAMBLE_NONE
    · subst hp
      exact ⟨_, _, payloadNumSymbols_middle st size tx incFlag hcls⟩
    · exact ⟨_, _, payloadNumSymbols_first st size tx preamble incFlag hcls hp⟩
  · subst h2
    subst hp
    rcases symbolCounting_cases hcls with h | h
    · exact ⟨_, _, payloadNumSymbols_last_ofdm st size tx incFlag h⟩
    · rw [payloadNumSymbols_last_ht st size tx incFlag h, if_pos (hcons rfl h)]
      exact ⟨_, _, rfl⟩

/-- C14: for every catalog mode, a tx vector with at least one spatial stream (and any number
of extension streams), every preamble and every valid pairing of role and preamble (Standalone
with a real preamble, First or Middle with packetType 1, Last with preamble None) on an
accumulator whose symbol count does not exceed the Last total where the code asserts it,
`GetPlcpPreambleDuration`, `GetPlcpHeaderDuration`, `CalculatePlcpPreambleAndHeaderDuration`,
`GetPayloadDuration` and `CalculateTxDuration` all return a duration, and each of them and each
of HT-SIG, HT training, SIG-A, SIG-B, S1G training and the generic S1G training field
`40 * (Nltf - 1)` is at least zero. -/
theorem C14_durations_nonneg (st : PhyState) (size : Nat) (tx : WifiTxVector)
    (preamble : WifiPreamble) (frequency : ℚ) (packetType incFlag : Nat)
    (hmode : tx.mode ∈ allModes) (hnss : 1 ≤ tx.nss)
    (hvalid : (packetType = 0 ∧ preamble ≠ .WIFI_PREAMBLE_NONE) ∨ packetType = 1
      ∨ (packetType = 2 ∧ preamble = .WIFI_PREAMBLE_NONE))
    (hcons : packetType = 2 →
      tx.mode.modClass = .WIFI_MOD_CLASS_HT ∨ tx.mode.modClass = .WIFI_MOD_CLASS_S1G →
      st.m_totalAmpduNumSymbols
        ≤ uint32 (standaloneCount tx (uint32 (st.m_totalAmpduSize + size)))) :
    (∃ a, GetPlcpPreambleDuration tx.mode preamble = .ok a ∧ 0 ≤ a)
      ∧ (∃ b, GetPlcpHeaderDuration tx.mode preamble = .ok b ∧ 0 ≤ b)
      ∧ 0 ≤ GetPlcpHtSigHeaderDuration preamble
      ∧ 0 ≤ GetPlcpHtTrainingSymbolDuration preamble tx
      ∧ 0 ≤ GetPlcpSigADuration preamble
      ∧ 0 ≤ GetPlcpSigBDuration preamble
      ∧ 0 ≤ GetPlcpS1gTrainingSymbolDuration preamble tx
      ∧ 0 ≤ GetPlcpTrainingSymbolDuration preamble tx
      ∧ (∃ plcp payload : Time,
          CalculatePlcpPreambleAndHeaderDuration tx preamble = .ok plcp ∧ 0 ≤ plcp
            ∧ (GetPayloadDuration st size tx preamble frequency packetType incFlag).1
              = .ok payload ∧ 0 ≤ payload
            ∧ (CalculateTxDuration st size tx preamble frequency packetType incFlag).1
              = .ok (plcp + payload) ∧ 0 ≤ plcp + payload) := by
  have hclass := catalog_class_facts tx.mode hmode
  have hU : tx.mode.modClass ≠ .WIFI_MOD_CLASS_UNKNOWN := by
    rcases hclass with h | h | h | h | h <;> rw [h] <;> simp
  obtain ⟨a, ha, ha0⟩ := GetPlcpPreambleDuration_nonneg tx.mode preamble hU
  obtain ⟨b, hb, hb0⟩ := GetPlcpHeaderDuration_nonneg tx.mode preamble hU
  obtain ⟨f1, f2, f3, f4, f5, f6⟩ := plcp_fields_nonneg preamble tx hnss
  -- the PLCP sum
  have hplcp : ∃ plcp, CalculatePlcpPreambleAndHeaderDuration tx preamble = .ok plcp
      ∧ 0 ≤ plcp := by
    unfold CalculatePlcpPreambleAndHeaderDuration
    by_cases hc : tx.mode.modClass = .WIFI_MOD_CLASS_S1G
    · simp only [hc, ne_eq, not_true_eq_false, if_false, ha, hb, bind, Except.bind, pure,
        Except.pure]
      exact ⟨_, rfl, by linarith⟩
    · simp only [hc, ne_eq, not_false_eq_true, if_true, ha, hb, bind, Except.bind, pure,
        Except.pure]
      exact ⟨_, rfl, by linarith⟩
  -- the payload
  have hpay : ∃ payload, (GetPayloadDuration st size tx preamble frequency packetType incFlag).1
      = .ok payload ∧ 0 ≤ payload := by
    rcases hclass with h | h | h | h | h
    · refine ⟨MicroSeconds (Nat.ceil
        (((size : ℚ) * 8) / ((tx.mode.dataRate : ℚ) / 1000000))), ?_, ?_⟩
      · simp only [GetPayloadDuration, h]
      · simp only [MicroSeconds]
        positivity
    all_goals
      have hcls : tx.mode.modClass = .WIFI_MOD_CLASS_OFDM
          ∨ tx.mode.modClass = .WIFI_MOD_CLASS_ERP_OFDM
          ∨ tx.mode.modClass = .WIFI_MOD_CLASS_HT ∨ tx.mode.modClass = .WIFI_MOD_CLASS_S1G := by
        simp [h]
      obtain ⟨n, st2, hn⟩ := payloadNumSymbols_valid_ok st size tx preamble packetType incFlag
        hcls hvalid hcons
      rw [GetPayloadDuration_ok st size tx preamble frequency packetType incFlag hcls hn]
      refine ⟨_, rfl, ?_⟩
      obtain ⟨hT, -⟩ := payloadSymbolDuration_bounds tx
      have hn0 : (0 : Int) ≤ (n : Int) := Int.natCast_nonneg n
      have hT0 : (0 : Int) ≤ payloadSymbolDuration tx := by linarith
      have hprod : (0 : Int) ≤ (n : Int) * payloadSymbolDuration tx := mul_nonneg hn0 hT0
      have hext : (0 : Int) ≤ (if tx.mode.modClass = .WIFI_MOD_CLASS_ERP_OFDM
                ∨ (tx.mode.modClass = .WIFI_MOD_CLASS_HT ∧ frequency ≥ 2400 ∧ frequency ≤ 2500
                  ∧ ((packetType = 0 ∧ preamble ≠ .WIFI_PREAMBLE_NONE)
                    ∨ (packetType = 2 ∧ preamble = .WIFI_PREAMBLE_NONE)))
              then MicroSeconds 6 else 0) := by
        split_ifs <;> simp [MicroSeconds]
      exact add_nonneg hprod hext
  obtain ⟨plcp, hp, hp0⟩ := hplcp
  obtain ⟨payload, hq, hq0⟩ := hpay
  refine ⟨⟨a, ha, ha0⟩, ⟨b, hb, hb0⟩, f1, f2, f3, f4, f5, f6, plcp, payload, hp, hp0, hq, hq0,
    ?_, add_nonneg hp0 hq0⟩
  simp only [CalculateTxDuration, hp, hq]
  rfl

set_option maxRecDepth 100000 in
/-- C14 at HtMcs7 with two streams, preamble HT mixed, 1000 bytes, Standalone at 2412 MHz. -/
theorem C14_durations_nonneg_witness :
    ∃ plcp payload : Time,
      CalculatePlcpPreambleAndHeaderDuration ⟨GetOfdmRate65MbpsBW20MHz, 2, 0, false⟩
          .WIFI_PREAMBLE_HT_MF = .ok plcp ∧ 0 ≤ plcp
        ∧ (GetPayloadDuration PhyState.fresh 1000 ⟨GetOfdmRate65MbpsBW20MHz, 2, 0, false⟩
            .WIFI_PREAMBLE_HT_MF 2412 0 0).1 = .ok payload ∧ 0 ≤ payload
        ∧ (CalculateTxDuration PhyState.fresh 1000 ⟨GetOfdmRate65MbpsBW20MHz, 2, 0, false⟩
            .WIFI_PREAMBLE_HT_MF 2412 0 0).1 = .ok (plcp + payload) ∧ 0 ≤ plcp + payload :=
  (C14_durations_nonneg PhyState.fresh 1000 ⟨GetOfdmRate65MbpsBW20MHz, 2, 0, false⟩
    .WIFI_PREAMBLE_HT_MF 2412 0 0 (by decide) (by decide)
    (Or.inl ⟨rfl, by decide⟩) (fun h => absurd h (by decide))).2.2.2.2.2.2.2.2

/-! ## The Middle fragment -/

/-- C15, as the code has it: for role Middle (packetType 1, preamble None) on a symbol-counting
catalog mode with 1 to 255 streams and a whole number of bits per symbol, STBC on or off, and every
32-bit size whose quotient `floor (8 * size / bitsPerSymbol)` is below `2 ^ 32`, the symbol count is
that floor, with no service or tail bits, the payload duration is the count times the symbol
duration (plus 6 microseconds on an ERP-OFDM mode), and the count does not depend on the STBC
flag; the quotient is below `2 ^ 32` for every 32-bit size on a catalog mode of class OFDM,
ERP-OFDM or HT with 1 to 255 streams.  The two conditions on the mode keep the statement to
the inputs on which the integer division by `Nss` and the `double` division by the bits per
symbol are the exact ones. -/
theorem C15_middle_symbol_count (st : PhyState) (size : Nat) (tx : WifiTxVector)
    (frequency : ℚ) (incFlag : Nat) (_hmode : tx.mode ∈ allModes)
    (hcls : tx.mode.modClass = .WIFI_MOD_CLASS_OFDM ∨ tx.mode.modClass = .WIFI_MOD_CLASS_ERP_OFDM
      ∨ tx.mode.modClass = .WIFI_MOD_CLASS_HT ∨ tx.mode.modClass = .WIFI_MOD_CLASS_S1G)
    (_hnss1 : 1 ≤ tx.nss) (_hnss : tx.nss < 256) (_hwhole : wholeBitsPerSymbol tx)
    (_hsize : size < 4294967296)
    (hfit : Nat.floor ((8 * (size : ℚ)) / payloadBitsPerSymbol tx) < 4294967296) :
    (payloadNumSymbols st size tx .WIFI_PREAMBLE_NONE 1 incFlag).1
        = .ok (Nat.floor ((8 * (size : ℚ)) / payloadBitsPerSymbol tx))
      ∧ (GetPayloadDuration st size tx .WIFI_PREAMBLE_NONE frequency 1 incFlag).1
        = .ok ((Nat.floor ((8 * (size : ℚ)) / payloadBitsPerSymbol tx) : Int)
            * payloadSymbolDuration tx
            + (if tx.mode.modClass = .WIFI_MOD_CLASS_ERP_OFDM then MicroSeconds 6 else 0))
      ∧ (payloadNumSymbols st size ⟨tx.mode, tx.nss, tx.ness, true⟩ .WIFI_PREAMBLE_NONE 1
          incFlag).1
        = (payloadNumSymbols st size ⟨tx.mode, tx.nss, tx.ness, false⟩ .WIFI_PREAMBLE_NONE 1
          incFlag).1
      ∧ (tx.mode ∈ allModes → tx.mode.modClass ≠ .WIFI_MOD_CLASS_S1G → 1 ≤ tx.nss →
          tx.nss < 256 → ∀ s : Nat, s < 4294967296 →
          Nat.floor ((8 * (s : ℚ)) / payloadBitsPerSymbol tx) < 4294967296) := by
  have hmid := payloadNumSymbols_middle st size tx incFlag hcls
  rw [mul_comm (size : ℚ) 8, uint32_of_lt hfit] at hmid
  refine ⟨by rw [hmid], ?_, ?_, ?_⟩
  · rw [GetPayloadDuration_ok st size tx .WIFI_PREAMBLE_NONE frequency 1 incFlag hcls hmid]
    by_cases he : tx.mode.modClass = .WIFI_MOD_CLASS_ERP_OFDM <;> simp [he]
  · have h1 := payloadNumSymbols_middle st size ⟨tx.mode, tx.nss, tx.ness, true⟩ incFlag hcls
    have h2 := payloadNumSymbols_middle st size ⟨tx.mode, tx.nss, tx.ness, false⟩ incFlag hcls
    have hb : payloadBitsPerSymbol ⟨tx.mode, tx.nss, tx.ness, true⟩
        = payloadBitsPerSymbol ⟨tx.mode, tx.nss, tx.ness, false⟩ := by
      rcases hcls with h | h | h | h <;>
        simp [payloadBitsPerSymbol, payloadSymbolDuration, htSymbolDuration, s1gSymbolDuration,
          h]
    rw [h1, h2, hb]
  · intro hmode hs1g hnss1 hnss s hs
    have hcls3 : tx.mode.modClass = .WIFI_MOD_CLASS_OFDM
        ∨ tx.mode.modClass = .WIFI_MOD_CLASS_ERP_OFDM
        ∨ tx.mode.modClass = .WIFI_MOD_CLASS_HT := by
      rcases hcls with h | h | h | h
      · exact Or.inl h
      · exact Or.inr (Or.inl h)
      · exact Or.inr (Or.inr h)
      · exact absurd h hs1g
    have hN := payloadBitsPerSymbol_ge tx hmode hcls3 hnss1 hnss
    have hN0 : (0 : ℚ) < payloadBitsPerSymbol tx := by linarith
    have hsq : (s : ℚ) < 4294967296 := by exact_mod_cast hs
    have hs0 : (0 : ℚ) ≤ (s : ℚ) := Nat.cast_nonneg s
    rw [Nat.floor_lt (by positivity), div_lt_iff₀ hN0]
    push_cast
    nlinarith

/-- C15 at OfdmRate54Mbps (216 bits per symbol): a committed Middle call of 1000 bytes counts
`floor (8000 / 216) = 37` symbols and lasts 148 microseconds. -/
theorem C15_middle_symbol_count_witness :
    wholeBitsPerSymbol ⟨GetOfdmRate54Mbps, 1, 0, false⟩
      ∧ (payloadNumSymbols ⟨0, 0⟩ 1000 ⟨GetOfdmRate54Mbps, 1, 0, false⟩
          .WIFI_PREAMBLE_NONE 1 1).1 = .ok 37
      ∧ (GetPayloadDuration ⟨0, 0⟩ 1000 ⟨GetOfdmRate54Mbps, 1, 0, false⟩
          .WIFI_PREAMBLE_NONE 5180 1 1).1 = .ok (MicroSeconds 148) := by
  have hw : wholeBitsPerSymbol ⟨GetOfdmRate54Mbps, 1, 0, false⟩ :=
    wholeBitsPerSymbol_of_eq 216 (by rw [payloadBitsPerSymbol_54Mbps]; norm_num)
  have hfl : Nat.floor ((8 * ((1000 : Nat) : ℚ)) / 216) = 37 := by
    rw [Nat.floor_eq_iff (by norm_num)]
    norm_num
  have hfit : Nat.floor ((8 * ((1000 : Nat) : ℚ))
      / payloadBitsPerSymbol ⟨GetOfdmRate54Mbps, 1, 0, false⟩) < 4294967296 := by
    rw [payloadBitsPerSymbol_54Mbps, hfl]
    norm_num
  have h := C15_middle_symbol_count ⟨0, 0⟩ 1000 ⟨GetOfdmRate54Mbps, 1, 0, false⟩ 5180 1
    (by decide) (Or.inl rfl) (by decide) (by decide) hw (by norm_num) hfit
  rw [payloadBitsPerSymbol_54Mbps, hfl] at h
  refine ⟨hw, h.1, ?_⟩
  rw [h.2.1]
  have hT : payloadSymbolDuration ⟨GetOfdmRate54Mbps, 1, 0, false⟩ = MicroSeconds 4 := by
    decide
  rw [hT]
  norm_num [MicroSeconds, GetOfdmRate54Mbps]
  decide

set_option maxRecDepth 100000 in
/-- C15 fails as stated at the S1G mode OfdmRate150KbpsBW1MHz, one stream, no STBC, size
4294967295: a symbol carries 6 bits and `floor (8 * size / 6) = 5726623060` is not a value of
the 32-bit `numSymbols`; the Middle call, with the quotient reduced to its low 32 bits, counts
1431655764 symbols and returns their duration. -/
theorem C15_counterexample :
    GetOfdmRate150KbpsBW1MHz ∈ allModes
      ∧ GetOfdmRate150KbpsBW1MHz.modClass = .WIFI_MOD_CLASS_S1G
      ∧ Nat.floor ((8 * ((4294967295 : Nat) : ℚ))
          / payloadBitsPerSymbol ⟨GetOfdmRate150KbpsBW1MHz, 1, 0, false⟩) = 5726623060
      ∧ payloadNumSymbols ⟨0, 0⟩ 4294967295 ⟨GetOfdmRate150KbpsBW1MHz, 1, 0, false⟩
          .WIFI_PREAMBLE_NONE 1 0 = (.ok 1431655764, ⟨0, 0⟩)
      ∧ GetPayloadDuration ⟨0, 0⟩ 4294967295 ⟨GetOfdmRate150KbpsBW1MHz, 1, 0, false⟩
          .WIFI_PREAMBLE_NONE 900 1 0 = (.ok (1431655764 * MicroSeconds 40), ⟨0, 0⟩)
      ∧ (payloadNumSymbols ⟨0, 0⟩ 4294967295 ⟨GetOfdmRate150KbpsBW1MHz, 1, 0, false⟩
          .WIFI_PREAMBLE_NONE 1 0).1
        ≠ .ok (Nat.floor ((8 * ((4294967295 : Nat) : ℚ))
            / payloadBitsPerSymbol ⟨GetOfdmRate150KbpsBW1MHz, 1, 0, false⟩)) := by
  have hfl : Nat.floor ((8 * ((4294967295 : Nat) : ℚ)) / 6) = 5726623060 := by
    rw [Nat.floor_eq_iff (by norm_num)]
    norm_num
  have hfl2 : Nat.floor ((((4294967295 : Nat) : ℚ) * 8) / 6) = 5726623060 := by
    rw [Nat.floor_eq_iff (by norm_num)]
    norm_num
  have hmid := payloadNumSymbols_middle ⟨0, 0⟩ 4294967295
    ⟨GetOfdmRate150KbpsBW1MHz, 1, 0, false⟩ 0 (Or.inr (Or.inr (Or.inr rfl)))
  rw [payloadBitsPerSymbol_150Kbps, hfl2] at hmid
  have hmid2 : payloadNumSymbols ⟨0, 0⟩ 4294967295 ⟨GetOfdmRate150KbpsBW1MHz, 1, 0, false⟩
      .WIFI_PREAMBLE_NONE 1 0 = (.ok 1431655764, ⟨0, 0⟩) := by
    rw [hmid]
    rfl
  have hT : payloadSymbolDuration ⟨GetOfdmRate150KbpsBW1MHz, 1, 0, false⟩ = MicroSeconds 40 := by
    decide
  refine ⟨by decide, rfl, ?_, hmid2, ?_, ?_⟩
  · rw [payloadBitsPerSymbol_150Kbps, hfl]
  · rw [GetPayloadDuration_ok ⟨0, 0⟩ 4294967295 ⟨GetOfdmRate150KbpsBW1MHz, 1, 0, false⟩
      .WIFI_PREAMBLE_NONE 900 1 0 (Or.inr (Or.inr (Or.inr rfl))) hmid2, hT]
    norm_num [MicroSeconds, GetOfdmRate150KbpsBW1MHz]
    decide
  · rw [payloadBitsPerSymbol_150Kbps, hfl, hmid2]
    simp

/-! ## Monotonicity in the payload size -/

/-- The Standalone formula is monotone in the number of bytes. -/
theorem standaloneCount_mono (tx : WifiTxVector) {a b : Nat} (hab : a ≤ b)
    (hN : 0 < payloadBitsPerSymbol tx) : standaloneCount tx a ≤ standaloneCount tx b := by
  unfold standaloneCount
  have hm : (0 : ℚ) < payloadStbc tx := by
    rcases payloadStbc_cases tx with h | h <;> rw [h] <;> norm_num
  exact Nat.mul_le_mul_left _ (first_count_mono hab (mul_pos hm hN))

/-- The Middle formula is at most the First formula of the same size. -/
theorem middle_count_le_first_count (size : Nat) {N : ℚ} (hN : 0 < N) :
    Nat.floor (((size : ℚ) * 8) / N) ≤ Nat.ceil ((8 + (size : ℚ) * 8 + 6) / N) := by
  have h1 : ((size : ℚ) * 8) / N ≤ (8 + (size : ℚ) * 8 + 6) / N :=
    div_le_div_of_nonneg_right (by linarith) hN.le
  exact (Nat.floor_le_ceil _).trans (Nat.ceil_mono h1)

/-- The Middle formula is monotone in the number of bytes. -/
theorem middle_count_mono {a b : Nat} (hab : a ≤ b) {N : ℚ} (hN : 0 < N) :
    Nat.floor (((a : ℚ) * 8) / N) ≤ Nat.floor (((b : ℚ) * 8) / N) := by
  apply Nat.floor_mono
  have : (a : ℚ) ≤ b := by exact_mod_cast hab
  exact div_le_div_of_nonneg_right (by linarith) hN.le

/-- Symbol counts are monotone in the size when nothing wraps: for two calls in the same role
on the same accumulator, with the larger Standalone formula (of the whole aggregate in role
Last) below `2 ^ 32` and, in role Last on an OFDM or ERP-OFDM mode, the symbols counted so
far not above the Standalone formula of the smaller aggregate. -/
theorem payloadNumSymbols_mono (st : PhyState) (size1 size2 : Nat) (tx : WifiTxVector)
    (preamble : WifiPreamble) (packetType incFlag : Nat)
    (hcls : tx.mode.modClass = .WIFI_MOD_CLASS_OFDM ∨ tx.mode.modClass = .WIFI_MOD_CLASS_ERP_OFDM
      ∨ tx.mode.modClass = .WIFI_MOD_CLASS_HT ∨ tx.mode.modClass = .WIFI_MOD_CLASS_S1G)
    (hN : 0 < payloadBitsPerSymbol tx) (hle : size1 ≤ size2)
    (htot : (if packetType = 2 then st.m_totalAmpduSize + size2 else size2) < 4294967296)
    (hfit : standaloneCount tx (if packetType = 2 then st.m_totalAmpduSize + size2 else size2)
      < 4294967296)
    (hcons : packetType = 2 →
      tx.mode.modClass = .WIFI_MOD_CLASS_OFDM ∨ tx.mode.modClass = .WIFI_MOD_CLASS_ERP_OFDM →
      st.m_totalAmpduNumSymbols ≤ standaloneCount tx (st.m_totalAmpduSize + size1))
    {n1 n2 : Nat} {st1 st2 : PhyState}
    (h1 : payloadNumSymbols st size1 tx preamble packetType incFlag = (.ok n1, st1))
    (h2 : payloadNumSymbols st size2 tx preamble packetType incFlag = (.ok n2, st2)) :
    n1 ≤ n2 := by
  by_cases hbad : (packetType = 0 ∧ preamble = .WIFI_PREAMBLE_NONE)
      ∨ (packetType = 2 ∧ preamble ≠ .WIFI_PREAMBLE_NONE)
      ∨ (packetType ≠ 0 ∧ packetType ≠ 1 ∧ packetType ≠ 2)
  · have := (payloadNumSymbols_wrongCombination_iff st size1 tx preamble packetType incFlag
      hcls).2 hbad
    rw [h1] at this
    exact absurd this (by simp)
  · by_cases h0 : packetType = 0
    · subst h0
      have hp : preamble ≠ .WIFI_PREAMBLE_NONE := fun h => hbad (Or.inl ⟨rfl, h⟩)
      simp only [OfNat.zero_ne_ofNat, if_false] at htot hfit
      have hm := standaloneCount_mono tx hle hN
      rw [payloadNumSymbols_standalone_count st size1 tx preamble incFlag hcls hp,
        uint32_of_lt (lt_of_le_of_lt hm hfit)] at h1
      rw [payloadNumSymbols_standalone_count st size2 tx preamble incFlag hcls hp,
        uint32_of_lt hfit] at h2
      simp only [Prod.mk.injEq, Except.ok.injEq] at h1 h2
      omega
    · by_cases h1' : packetType = 1
      · subst h1'
        simp only [OfNat.one_ne_ofNat, if_false] at htot hfit
        have hc2 := first_count_le_standaloneCount tx size2 hN
        by_cases hp : preamble = .WIFI_PREAMBLE_NONE
        · subst hp
          have hf2 := middle_count_le_first_count size2 hN
          have hmm := middle_count_mono hle hN
          rw [payloadNumSymbols_middle st size1 tx incFlag hcls,
            uint32_of_lt (by omega)] at h1
          rw [payloadNumSymbols_middle st size2 tx incFlag hcls,
            uint32_of_lt (by omega)] at h2
          simp only [Prod.mk.injEq, Except.ok.injEq] at h1 h2
          omega
        · have hmm := first_count_mono hle hN
          rw [payloadNumSymbols_first st size1 tx preamble incFlag hcls hp,
            uint32_of_lt (by omega)] at h1
          rw [payloadNumSymbols_first st size2 tx preamble incFlag hcls hp,
            uint32_of_lt (by omega)] at h2
          simp only [Prod.mk.injEq, Except.ok.injEq] at h1 h2
          omega
      · have h2' : packetType = 2 := by
          by_contra h
          exact hbad (Or.inr (Or.inr ⟨h0, h1', h⟩))
        subst h2'
        have hp : preamble = .WIFI_PREAMBLE_NONE := by
          by_contra h
          exact hbad (Or.inr (Or.inl ⟨rfl, h⟩))
        subst hp
        simp only [if_true] at htot hfit
        have hle' : st.m_totalAmpduSize + size1 ≤ st.m_totalAmpduSize + size2 := by omega
        have hm := standaloneCount_mono tx hle' hN
        have hfit1 : standaloneCount tx (st.m_totalAmpduSize + size1) < 4294967296 :=
          lt_of_le_of_lt hm hfit
        have hs1 : st.m_totalAmpduNumSymbols
            ≤ standaloneCount tx (st.m_totalAmpduSize + size1) := by
          rcases symbolCounting_cases hcls with h | h
          · exact hcons rfl h
          · have hb1 : st.m_totalAmpduSize + size1 < 4294967296 := by omega
            rw [payloadNumSymbols_last_ht st size1 tx incFlag h, uint32_of_lt hb1,
              uint32_of_lt hfit1] at h1
            by_contra hc
            rw [if_neg hc] at h1
            simp only [Prod.mk.injEq, reduceCtorEq, false_and] at h1
        rw [payloadNumSymbols_last_commit st size1 tx hcls incFlag (by omega) hfit1 hs1] at h1
        rw [payloadNumSymbols_last_commit st size2 tx hcls incFlag htot hfit
          (hs1.trans hm)] at h2
        simp only [Prod.mk.injEq, Except.ok.injEq] at h1 h2
        omega

/-- A total duration is a PLCP duration plus a payload duration. -/
theorem CalculateTxDuration_ok_split (st : PhyState) (size : Nat) (tx : WifiTxVector)
    (preamble : WifiPreamble) (frequency : ℚ) (packetType incFlag : Nat) {t : Time}
    (h : (CalculateTxDuration st size tx preamble frequency packetType incFlag).1 = .ok t) :
    ∃ plcp payload : Time, CalculatePlcpPreambleAndHeaderDuration tx preamble = .ok plcp
      ∧ (GetPayloadDuration st size tx preamble frequency packetType incFlag).1 = .ok payload
      ∧ t = plcp + payload := by
  simp only [CalculateTxDuration] at h
  cases h1 : CalculatePlcpPreambleAndHeaderDuration tx preamble <;>
    cases h2 : (GetPayloadDuration st size tx preamble frequency packetType incFlag).1 <;>
    simp only [h1, h2, bind, Except.bind, pure, Except.pure, reduceCtorEq] at h
  exact ⟨_, _, rfl, rfl, (Except.ok.inj h).symm⟩

/-- C13, as the code has it: for a catalog mode with 1 to 255 streams, a fixed preamble,
frequency, role, commit flag and accumulator, and sizes `size1 <= size2` such that nothing
wraps in 32 bits (the larger size, added to the accumulated bytes in role Last, is below
`2 ^ 32`, and on an S1G mode so is the Standalone symbol count of it), and such that in role
Last on an OFDM or ERP-OFDM mode the accumulated symbols do not exceed the Standalone count
of the smaller aggregate: if both calls return, `GetPayloadDuration` of `size1` is at most
`GetPayloadDuration` of `size2`, and the same holds for `CalculateTxDuration`. -/
theorem C13_monotone_in_size (st : PhyState) (size1 size2 : Nat) (tx : WifiTxVector)
    (preamble : WifiPreamble) (frequency : ℚ) (packetType incFlag : Nat)
    (hmode : tx.mode ∈ allModes) (hnss1 : 1 ≤ tx.nss) (hnss : tx.nss < 256)
    (hle : size1 ≤ size2)
    (htot : (if packetType = 2 then st.m_totalAmpduSize + size2 else size2) < 4294967296)
    (hfit : tx.mode.modClass = .WIFI_MOD_CLASS_S1G →
      standaloneCount tx (if packetType = 2 then st.m_totalAmpduSize + size2 else size2)
        < 4294967296)
    (hcons : packetType = 2 →
      tx.mode.modClass = .WIFI_MOD_CLASS_OFDM ∨ tx.mode.modClass = .WIFI_MOD_CLASS_ERP_OFDM →
      st.m_totalAmpduNumSymbols ≤ standaloneCount tx (st.m_totalAmpduSize + size1)) :
    (∀ d1 d2 : Time,
        (GetPayloadDuration st size1 tx preamble frequency packetType incFlag).1 = .ok d1 →
        (GetPayloadDuration st size2 tx preamble frequency packetType incFlag).1 = .ok d2 →
        d1 ≤ d2)
      ∧ (∀ t1 t2 : Time,
        (CalculateTxDuration st size1 tx preamble frequency packetType incFlag).1 = .ok t1 →
        (CalculateTxDuration st size2 tx preamble frequency packetType incFlag).1 = .ok t2 →
        t1 ≤ t2) := by
  have hpay : ∀ d1 d2 : Time,
      (GetPayloadDuration st size1 tx preamble frequency packetType incFlag).1 = .ok d1 →
      (GetPayloadDuration st size2 tx preamble frequency packetType incFlag).1 = .ok d2 →
      d1 ≤ d2 := by
    intro d1 d2 e1 e2
    rcases catalog_class_facts tx.mode hmode with h | h | h | h | h
    · -- DSSS
      simp only [GetPayloadDuration, h, Except.ok.injEq] at e1 e2
      rw [← e1, ← e2]
      simp only [MicroSeconds]
      have hs : (size1 : ℚ) ≤ size2 := by exact_mod_cast hle
      have hc : Nat.ceil (((size1 : ℚ) * 8) / ((tx.mode.dataRate : ℚ) / 1000000))
          ≤ Nat.ceil (((size2 : ℚ) * 8) / ((tx.mode.dataRate : ℚ) / 1000000)) :=
        Nat.ceil_mono (div_le_div_of_nonneg_right (by linarith) (by positivity))
      have hc' : ((Nat.ceil (((size1 : ℚ) * 8) / ((tx.mode.dataRate : ℚ) / 1000000)) : Nat)
          : Int) ≤ (Nat.ceil (((size2 : ℚ) * 8) / ((tx.mode.dataRate : ℚ) / 1000000)) : Nat) := by
        exact_mod_cast hc
      linarith
    all_goals
      have hcls : tx.mode.modClass = .WIFI_MOD_CLASS_OFDM
          ∨ tx.mode.modClass = .WIFI_MOD_CLASS_ERP_OFDM
          ∨ tx.mode.modClass = .WIFI_MOD_CLASS_HT ∨ tx.mode.modClass = .WIFI_MOD_CLASS_S1G := by
        simp [h]
      have hd : tx.mode.modClass ≠ .WIFI_MOD_CLASS_DSSS := by rw [h]; decide
      have hN := payloadBitsPerSymbol_pos tx hmode hnss1 hnss
      have hfit' : standaloneCount tx
          (if packetType = 2 then st.m_totalAmpduSize + size2 else size2) < 4294967296 := by
        by_cases hs : tx.mode.modClass = .WIFI_MOD_CLASS_S1G
        · exact hfit hs
        · have hcls3 : tx.mode.modClass = .WIFI_MOD_CLASS_OFDM
              ∨ tx.mode.modClass = .WIFI_MOD_CLASS_ERP_OFDM
              ∨ tx.mode.modClass = .WIFI_MOD_CLASS_HT := by
            rcases hcls with c | c | c | c
            · exact Or.inl c
            · exact Or.inr (Or.inl c)
            · exact Or.inr (Or.inr c)
            · exact absurd c hs
          exact standaloneCount_lt tx _ htot (payloadBitsPerSymbol_ge tx hmode hcls3 hnss1 hnss)
      rcases hr1 : payloadNumSymbols st size1 tx preamble packetType incFlag with ⟨r1, s1⟩
      rcases hr2 : payloadNumSymbols st size2 tx preamble packetType incFlag with ⟨r2, s2⟩
      cases r1 with
      | error x =>
        rw [GetPayloadDuration_error st size1 tx preamble frequency packetType incFlag hd hr1]
          at e1
        exact absurd e1 (by simp)
      | ok n1 =>
        cases r2 with
        | error x =>
          rw [GetPayloadDuration_error st size2 tx preamble frequency packetType incFlag hd
            hr2] at e2
          exact absurd e2 (by simp)
        | ok n2 =>
          have hn := payloadNumSymbols_mono st size1 size2 tx preamble packetType incFlag hcls
            hN hle htot hfit' hcons hr1 hr2
          rw [GetPayloadDuration_ok st size1 tx preamble frequency packetType incFlag hcls hr1]
            at e1
          rw [GetPayloadDuration_ok st size2 tx preamble frequency packetType incFlag hcls hr2]
            at e2
          simp only [Except.ok.injEq] at e1 e2
          rw [← e1, ← e2]
          obtain ⟨hT, -⟩ := payloadSymbolDuration_bounds tx
          have hT0 : (0 : Int) ≤ payloadSymbolDuration tx := by linarith
          have hn' : (n1 : Int) ≤ (n2 : Int) := by exact_mod_cast hn
          have := mul_le_mul_of_nonneg_right hn' hT0
          linarith
  refine ⟨hpay, ?_⟩
  intro t1 t2 e1 e2
  obtain ⟨p1, d1, hp1, hd1, rfl⟩ := CalculateTxDuration_ok_split _ _ _ _ _ _ _ e1
  obtain ⟨p2, d2, hp2, hd2, rfl⟩ := CalculateTxDuration_ok_split _ _ _ _ _ _ _ e2
  rw [hp1] at hp2
  have hpp : p1 = p2 := Except.ok.inj hp2
  have := hpay d1 d2 hd1 hd2
  rw [hpp]
  linarith

set_option maxRecDepth 100000 in
/-- C13 at OfdmRate54Mbps, preamble Long, Standalone on a fresh accumulator: 100 bytes take
4 symbols (16 microseconds), 1000 bytes take 38 symbols (152 microseconds). -/
theorem C13_monotone_in_size_witness :
    (GetPayloadDuration PhyState.fresh 100 ⟨GetOfdmRate54Mbps, 1, 0, false⟩
        .WIFI_PREAMBLE_LONG 5180 0 0).1 = .ok (MicroSeconds 16)
      ∧ (GetPayloadDuration PhyState.fresh 1000 ⟨GetOfdmRate54Mbps, 1, 0, false⟩
        .WIFI_PREAMBLE_LONG 5180 0 0).1 = .ok (MicroSeconds 152)
      ∧ MicroSeconds 16 ≤ MicroSeconds 152 := by
  have hcls : (⟨GetOfdmRate54Mbps, 1, 0, false⟩ : WifiTxVector).mode.modClass
      = .WIFI_MOD_CLASS_OFDM := rfl
  have hT : payloadSymbolDuration ⟨GetOfdmRate54Mbps, 1, 0, false⟩ = MicroSeconds 4 := by decide
  have hc1 : Nat.ceil ((8 + ((100 : Nat) : ℚ) * 8 + 6) / 216) = 4 := by
    rw [Nat.ceil_eq_iff (by norm_num)]
    norm_num
  have hc2 : Nat.ceil ((8 + ((1000 : Nat) : ℚ) * 8 + 6) / 216) = 38 := by
    rw [Nat.ceil_eq_iff (by norm_num)]
    norm_num
  have hs1 := payloadNumSymbols_standalone_count PhyState.fresh 100
    ⟨GetOfdmRate54Mbps, 1, 0, false⟩ .WIFI_PREAMBLE_LONG 0 (Or.inl hcls) (by simp)
  rw [standaloneCount_54Mbps, hc1] at hs1
  have hs2 := payloadNumSymbols_standalone_count PhyState.fresh 1000
    ⟨GetOfdmRate54Mbps, 1, 0, false⟩ .WIFI_PREAMBLE_LONG 0 (Or.inl hcls) (by simp)
  rw [standaloneCount_54Mbps, hc2] at hs2
  have hd1 : (GetPayloadDuration PhyState.fresh 100 ⟨GetOfdmRate54Mbps, 1, 0, false⟩
      .WIFI_PREAMBLE_LONG 5180 0 0).1 = .ok (MicroSeconds 16) := by
    rw [GetPayloadDuration_ok PhyState.fresh 100 ⟨GetOfdmRate54Mbps, 1, 0, false⟩
      .WIFI_PREAMBLE_LONG 5180 0 0 (Or.inl hcls) hs1, hT, hcls]
    norm_num [uint32, MicroSeconds]
    decide
  have hd2 : (GetPayloadDuration PhyState.fresh 1000 ⟨GetOfdmRate54Mbps, 1, 0, false⟩
      .WIFI_PREAMBLE_LONG 5180 0 0).1 = .ok (MicroSeconds 152) := by
    rw [GetPayloadDuration_ok PhyState.fresh 1000 ⟨GetOfdmRate54Mbps, 1, 0, false⟩
      .WIFI_PREAMBLE_LONG 5180 0 0 (Or.inl hcls) hs2, hT, hcls]
    norm_num [uint32, MicroSeconds]
    decide
  exact ⟨hd1, hd2,
    (C13_monotone_in_size PhyState.fresh 100 1000 ⟨GetOfdmRate54Mbps, 1, 0, false⟩
      .WIFI_PREAMBLE_LONG 5180 0 0 (by decide) (by decide) (by decide) (by decide)
      (by decide) (fun h => absurd h (by decide)) (fun h => absurd h (by decide))).1 _ _ hd1 hd2⟩

/-- The Standalone formula on OfdmRate150KbpsBW1MHz with one stream: 6 bits per symbol. -/
theorem standaloneCount_150Kbps (size : Nat) :
    standaloneCount ⟨GetOfdmRate150KbpsBW1MHz, 1, 0, false⟩ size
      = Nat.ceil ((8 + (size : ℚ) * 8 + 6) / 6) := by
  have hm : payloadStbc ⟨GetOfdmRate150KbpsBW1MHz, 1, 0, false⟩ = 1 := rfl
  unfold standaloneCount
  rw [hm, payloadBitsPerSymbol_150Kbps]
  simp

set_option maxRecDepth 100000 in
/-- C13 fails as stated at the S1G mode OfdmRate150KbpsBW1MHz, one stream, no STBC, preamble
S1G-Short, Standalone on a fresh accumulator: 3221225469 bytes take 4294967295 symbols of 40
microseconds, while for 3221225470 bytes the count 4294967296 is stored in the 32-bit
`numSymbols` as 0 and the call returns a payload duration of zero. -/
theorem C13_counterexample :
    GetOfdmRate150KbpsBW1MHz ∈ allModes
      ∧ (3221225469 : Nat) ≤ 3221225470
      ∧ GetPayloadDuration PhyState.fresh 3221225469 ⟨GetOfdmRate150KbpsBW1MHz, 1, 0, false⟩
          .WIFI_PREAMBLE_S1G_SHORT 900 0 0
        = (.ok (4294967295 * MicroSeconds 40), PhyState.fresh)
      ∧ GetPayloadDuration PhyState.fresh 3221225470 ⟨GetOfdmRate150KbpsBW1MHz, 1, 0, false⟩
          .WIFI_PREAMBLE_S1G_SHORT 900 0 0
        = (.ok 0, PhyState.fresh)
      ∧ ¬ (4294967295 * MicroSeconds 40 ≤ (0 : Time)) := by
  have hcls : (⟨GetOfdmRate150KbpsBW1MHz, 1, 0, false⟩ : WifiTxVector).mode.modClass
      = .WIFI_MOD_CLASS_S1G := rfl
  have hT : payloadSymbolDuration ⟨GetOfdmRate150KbpsBW1MHz, 1, 0, false⟩ = MicroSeconds 40 := by
    decide
  have hc1 : Nat.ceil ((8 + ((3221225469 : Nat) : ℚ) * 8 + 6) / 6) = 4294967295 := by
    rw [Nat.ceil_eq_iff (by norm_num)]
    norm_num
  have hc2 : Nat.ceil ((8 + ((3221225470 : Nat) : ℚ) * 8 + 6) / 6) = 4294967296 := by
    rw [Nat.ceil_eq_iff (by norm_num)]
    norm_num
  have hs1 := payloadNumSymbols_standalone_count PhyState.fresh 3221225469
    ⟨GetOfdmRate150KbpsBW1MHz, 1, 0, false⟩ .WIFI_PREAMBLE_S1G_SHORT 0
    (Or.inr (Or.inr (Or.inr hcls))) (by simp)
  rw [standaloneCount_150Kbps, hc1] at hs1
  have hs2 := payloadNumSymbols_standalone_count PhyState.fresh 3221225470
    ⟨GetOfdmRate150KbpsBW1MHz, 1, 0, false⟩ .WIFI_PREAMBLE_S1G_SHORT 0
    (Or.inr (Or.inr (Or.inr hcls))) (by simp)
  rw [standaloneCount_150Kbps, hc2] at hs2
  refine ⟨by decide, by decide, ?_, ?_, by norm_num [MicroSeconds]⟩
  · rw [GetPayloadDuration_ok PhyState.fresh 3221225469 ⟨GetOfdmRate150KbpsBW1MHz, 1, 0, false⟩
      .WIFI_PREAMBLE_S1G_SHORT 900 0 0 (Or.inr (Or.inr (Or.inr hcls))) hs1, hT, hcls]
    norm_num [uint32, MicroSeconds]
    decide
  · rw [GetPayloadDuration_ok PhyState.fresh 3221225470 ⟨GetOfdmRate150KbpsBW1MHz, 1, 0, false⟩
      .WIFI_PREAMBLE_S1G_SHORT 900 0 0 (Or.inr (Or.inr (Or.inr hcls))) hs2, hT, hcls]
    norm_num [uint32, MicroSeconds]
    decide

/-! ## PLCP preamble, header and training fields -/

/-- C16: for every mode of class OFDM and every preamble other than None,
`GetPlcpPreambleDuration` and `GetPlcpHeaderDuration` return 16 and 4 microseconds at 20 MHz,
32 and 8 at 10 MHz, 64 and 16 at 5 MHz, that is four symbols and one symbol of the duration
(4, 8, 16 microseconds) the payload branch uses; with preamble None both return 0. -/
theorem C16_ofdm_preamble_header_duration (m : WifiMode) (preamble : WifiPreamble)
    (hcls : m.modClass = .WIFI_MOD_CLASS_OFDM) (hpre : preamble ≠ .WIFI_PREAMBLE_NONE) :
    (m.bandwidth = 20000000 →
        GetPlcpPreambleDuration m preamble = .ok (MicroSeconds 16)
          ∧ GetPlcpHeaderDuration m preamble = .ok (MicroSeconds 4)
          ∧ ofdmSymbolDuration m = MicroSeconds 4)
      ∧ (m.bandwidth = 10000000 →
        GetPlcpPreambleDuration m preamble = .ok (MicroSeconds 32)
          ∧ GetPlcpHeaderDuration m preamble = .ok (MicroSeconds 8)
          ∧ ofdmSymbolDuration m = MicroSeconds 8)
      ∧ (m.bandwidth = 5000000 →
        GetPlcpPreambleDuration m preamble = .ok (MicroSeconds 64)
          ∧ GetPlcpHeaderDuration m preamble = .ok (MicroSeconds 16)
          ∧ ofdmSymbolDuration m = MicroSeconds 16)
      ∧ GetPlcpPreambleDuration m .WIFI_PREAMBLE_NONE = .ok (MicroSeconds 0)
      ∧ GetPlcpHeaderDuration m .WIFI_PREAMBLE_NONE = .ok (MicroSeconds 0) := by
  refine ⟨?_, ?_, ?_, ?_, ?_⟩
  · intro hb
    simp [GetPlcpPreambleDuration, GetPlcpHeaderDuration, ofdmSymbolDuration, hcls, hpre, hb]
  · intro hb
    simp [GetPlcpPreambleDuration, GetPlcpHeaderDuration, ofdmSymbolDuration, hcls, hpre, hb]
  · intro hb
    simp [GetPlcpPreambleDuration, GetPlcpHeaderDuration, ofdmSymbolDuration, hcls, hpre, hb]
  · simp [GetPlcpPreambleDuration]
  · simp [GetPlcpHeaderDuration]

/-- C16 at OfdmRate3MbpsBW10MHz with preamble Long: 32 and 8 microseconds. -/
theorem C16_ofdm_preamble_header_duration_witness :
    GetPlcpPreambleDuration GetOfdmRate3MbpsBW10MHz .WIFI_PREAMBLE_LONG = .ok (MicroSeconds 32)
      ∧ GetPlcpHeaderDuration GetOfdmRate3MbpsBW10MHz .WIFI_PREAMBLE_LONG
        = .ok (MicroSeconds 8)
      ∧ ofdmSymbolDuration GetOfdmRate3MbpsBW10MHz = MicroSeconds 8 :=
  (C16_ofdm_preamble_header_duration GetOfdmRate3MbpsBW10MHz .WIFI_PREAMBLE_LONG rfl
    (by simp)).2.1 rfl

/-- C17: for every mode of class DSSS, `GetPlcpPreambleDuration` returns 72 microseconds for
preamble Short and 144 for Long, `GetPlcpHeaderDuration` returns 24 microseconds for Short
and 48 for Long, and both return 0 for preamble None. -/
theorem C17_dsss_preamble_header_duration (m : WifiMode)
    (hcls : m.modClass = .WIFI_MOD_CLASS_DSSS) :
    GetPlcpPreambleDuration m .WIFI_PREAMBLE_SHORT = .ok (MicroSeconds 72)
      ∧ GetPlcpPreambleDuration m .WIFI_PREAMBLE_LONG = .ok (MicroSeconds 144)
      ∧ GetPlcpHeaderDuration m .WIFI_PREAMBLE_SHORT = .ok (MicroSeconds 24)
      ∧ GetPlcpHeaderDuration m .WIFI_PREAMBLE_LONG = .ok (MicroSeconds 48)
      ∧ GetPlcpPreambleDuration m .WIFI_PREAMBLE_NONE = .ok (MicroSeconds 0)
      ∧ GetPlcpHeaderDuration m .WIFI_PREAMBLE_NONE = .ok (MicroSeconds 0) := by
  refine ⟨?_, ?_, ?_, ?_, ?_, ?_⟩ <;>
    simp [GetPlcpPreambleDuration, GetPlcpHeaderDuration, hcls]

/-- C17 at DsssRate2Mbps. -/
theorem C17_dsss_preamble_header_duration_witness :
    GetPlcpPreambleDuration GetDsssRate2Mbps .WIFI_PREAMBLE_SHORT = .ok (MicroSeconds 72)
      ∧ GetPlcpHeaderDuration GetDsssRate2Mbps .WIFI_PREAMBLE_LONG = .ok (MicroSeconds 48) :=
  ⟨(C17_dsss_preamble_header_duration GetDsssRate2Mbps rfl).1,
    (C17_dsss_preamble_header_duration GetDsssRate2Mbps rfl).2.2.2.1⟩

/-- C18: `GetPlcpHtSigHeaderDuration` returns 8 microseconds when the preamble is HT-Mixed or
HT-Greenfield and 0 for every other preamble; so it returns 8 microseconds exactly for those
two. -/
theorem C18_ht_sig_header_duration (preamble : WifiPreamble) :
    GetPlcpHtSigHeaderDuration preamble
        = (if preamble = .WIFI_PREAMBLE_HT_MF ∨ preamble = .WIFI_PREAMBLE_HT_GF
            then MicroSeconds 8 else MicroSeconds 0)
      ∧ (GetPlcpHtSigHeaderDuration preamble = MicroSeconds 8
        ↔ preamble = .WIFI_PREAMBLE_HT_MF ∨ preamble = .WIFI_PREAMBLE_HT_GF) := by
  cases preamble <;> simp [GetPlcpHtSigHeaderDuration, MicroSeconds]

/-- The number of data (or extension) long training fields: the stream count below 3,
otherwise 4. -/
theorem ltf_count_facts (n n2 : Nat) (h : n ≤ n2) :
    (if n < 3 then n else 4) ≤ 4
      ∧ (if n < 3 then n else 4) ≤ (if n2 < 3 then n2 else 4) := by
  split_ifs <;> omega

/-- C19: with `Ndltf` equal to `Nss` when `Nss < 3` and to 4 otherwise, and `Neltf` got from
`Ness` in the same way, `GetPlcpHtTrainingSymbolDuration` returns `4 + 4 * Ndltf + 4 * Neltf`
microseconds for HT-Mixed, `4 * Ndltf + 4 * Neltf` for HT-Greenfield and 0 for every other
preamble; both counts are at most 4, the result does not decrease when `Nss` and `Ness` grow,
and it is at most 36 microseconds. -/
theorem C19_ht_training_symbol_duration (preamble : WifiPreamble) (tx tx2 : WifiTxVector)
    (hnss : tx.nss ≤ tx2.nss) (hness : tx.ness ≤ tx2.ness) :
    GetPlcpHtTrainingSymbolDuration preamble tx
        = (if preamble = .WIFI_PREAMBLE_HT_MF then
            MicroSeconds (4 + 4 * ((if tx.nss < 3 then tx.nss else 4 : Nat) : Int)
              + 4 * ((if tx.ness < 3 then tx.ness else 4 : Nat) : Int))
          else if preamble = .WIFI_PREAMBLE_HT_GF then
            MicroSeconds (4 * ((if tx.nss < 3 then tx.nss else 4 : Nat) : Int)
              + 4 * ((if tx.ness < 3 then tx.ness else 4 : Nat) : Int))
          else MicroSeconds 0)
      ∧ (if tx.nss < 3 then tx.nss else 4) ≤ 4
      ∧ (if tx.ness < 3 then tx.ness else 4) ≤ 4
      ∧ GetPlcpHtTrainingSymbolDuration preamble tx
        ≤ GetPlcpHtTrainingSymbolDuration preamble tx2
      ∧ GetPlcpHtTrainingSymbolDuration preamble tx ≤ MicroSeconds 36 := by
  obtain ⟨a1, a2⟩ := ltf_count_facts tx.nss tx2.nss hnss
  obtain ⟨b1, b2⟩ := ltf_count_facts tx.ness tx2.ness hness
  have a1' : (((if tx.nss < 3 then tx.nss else 4 : Nat) : Int)) ≤ 4 := by exact_mod_cast a1
  have b1' : (((if tx.ness < 3 then tx.ness else 4 : Nat) : Int)) ≤ 4 := by exact_mod_cast b1
  have a2' : (((if tx.nss < 3 then tx.nss else 4 : Nat) : Int))
      ≤ ((if tx2.nss < 3 then tx2.nss else 4 : Nat) : Int) := by exact_mod_cast a2
  have b2' : (((if tx.ness < 3 then tx.ness else 4 : Nat) : Int))
      ≤ ((if tx2.ness < 3 then tx2.ness else 4 : Nat) : Int) := by exact_mod_cast b2
  have a0 : (0 : Int) ≤ ((if tx.nss < 3 then tx.nss else 4 : Nat) : Int) := Int.natCast_nonneg _
  have b0 : (0 : Int) ≤ ((if tx.ness < 3 then tx.ness else 4 : Nat) : Int) :=
    Int.natCast_nonneg _
  refine ⟨?_, a1, b1, ?_, ?_⟩
  · cases preamble <;> simp [GetPlcpHtTrainingSymbolDuration]
  · cases preamble <;> simp only [GetPlcpHtTrainingSymbolDuration, MicroSeconds] <;> linarith
  · cases preamble <;> simp only [GetPlcpHtTrainingSymbolDuration, MicroSeconds] <;> linarith

/-- C19 at preamble HT-Mixed: two streams and one extension stream against four and three. -/
theorem C19_ht_training_symbol_duration_witness :
    GetPlcpHtTrainingSymbolDuration .WIFI_PREAMBLE_HT_MF ⟨GetOfdmRate65MbpsBW20MHz, 2, 1, false⟩
        ≤ GetPlcpHtTrainingSymbolDuration .WIFI_PREAMBLE_HT_MF
          ⟨GetOfdmRate65MbpsBW20MHz, 4, 3, false⟩
      ∧ GetPlcpHtTrainingSymbolDuration .WIFI_PREAMBLE_HT_MF
          ⟨GetOfdmRate65MbpsBW20MHz, 2, 1, false⟩ ≤ MicroSeconds 36 :=
  (C19_ht_training_symbol_duration .WIFI_PREAMBLE_HT_MF ⟨GetOfdmRate65MbpsBW20MHz, 2, 1, false⟩
    ⟨GetOfdmRate65MbpsBW20MHz, 4, 3, false⟩ (by norm_num) (by norm_num)).2.2.2

/-- C20: the four S1G field functions `GetPlcpS1gTrainingSymbolDuration`,
`GetPlcpSigADuration`, `GetPlcpSigBDuration` and `GetPlcpTrainingSymbolDuration` are total
(they are plain functions into `Time`) and return exactly 0 for every preamble that is not an
S1G preamble, namely None, Long, Short, HT-Mixed and HT-Greenfield, for every tx vector. -/
theorem C20_s1g_fields_zero_for_other_preambles (preamble : WifiPreamble) (tx : WifiTxVector)
    (hp : preamble = .WIFI_PREAMBLE_NONE ∨ preamble = .WIFI_PREAMBLE_LONG
      ∨ preamble = .WIFI_PREAMBLE_SHORT ∨ preamble = .WIFI_PREAMBLE_HT_MF
      ∨ preamble = .WIFI_PREAMBLE_HT_GF) :
    GetPlcpS1gTrainingSymbolDuration preamble tx = 0
      ∧ GetPlcpSigADuration preamble = 0
      ∧ GetPlcpSigBDuration preamble = 0
      ∧ GetPlcpTrainingSymbolDuration preamble tx = 0 := by
  rcases hp with h | h | h | h | h <;> subst h <;>
    simp [GetPlcpS1gTrainingSymbolDuration, GetPlcpSigADuration, GetPlcpSigBDuration,
      GetPlcpTrainingSymbolDuration, MicroSeconds]

/-- C20 at preamble HT-Mixed with an S1G mode and zero streams. -/
theorem C20_s1g_fields_zero_for_other_preambles_witness :
    GetPlcpS1gTrainingSymbolDuration .WIFI_PREAMBLE_HT_MF ⟨GetOfdmRate150KbpsBW1MHz, 0, 0, true⟩
        = 0
      ∧ GetPlcpSigADuration .WIFI_PREAMBLE_HT_MF = 0
      ∧ GetPlcpSigBDuration .WIFI_PREAMBLE_HT_MF = 0
      ∧ GetPlcpTrainingSymbolDuration .WIFI_PREAMBLE_HT_MF ⟨GetOfdmRate150KbpsBW1MHz, 0, 0, true⟩
        = 0 :=
  C20_s1g_fields_zero_for_other_preambles .WIFI_PREAMBLE_HT_MF
    ⟨GetOfdmRate150KbpsBW1MHz, 0, 0, true⟩ (Or.inr (Or.inr (Or.inr (Or.inl rfl))))

/-! ## The two sums of the PLCP duration -/

/-- C21: for a mode of class DSSS, OFDM, ERP-OFDM or HT,
`CalculatePlcpPreambleAndHeaderDuration` returns preamble + header + HT-SIG + HT training and
no S1G field enters the sum; for a mode of class S1G it returns preamble + header + generic
S1G training + SIG-A + S1G training + SIG-B and no HT field enters the sum; this for every
preamble: with preamble HT-Mixed an S1G mode gets no HT-SIG and no HT training, and with
preamble S1G-Long an HT mode gets no SIG-A, SIG-B or S1G training. -/
theorem C21_plcp_sum_by_class (tx : WifiTxVector) (preamble : WifiPreamble)
    (hcls : tx.mode.modClass ≠ .WIFI_MOD_CLASS_UNKNOWN) :
    ∃ p h : Time, GetPlcpPreambleDuration tx.mode preamble = .ok p
      ∧ GetPlcpHeaderDuration tx.mode preamble = .ok h
      ∧ (tx.mode.modClass ≠ .WIFI_MOD_CLASS_S1G →
          CalculatePlcpPreambleAndHeaderDuration tx preamble
            = .ok (p + h + GetPlcpHtSigHeaderDuration preamble
                + GetPlcpHtTrainingSymbolDuration preamble tx))
      ∧ (tx.mode.modClass = .WIFI_MOD_CLASS_S1G →
          CalculatePlcpPreambleAndHeaderDuration tx preamble
            = .ok (p + h + GetPlcpTrainingSymbolDuration preamble tx
                + GetPlcpSigADuration preamble + GetPlcpS1gTrainingSymbolDuration preamble tx
                + GetPlcpSigBDuration preamble))
      ∧ (tx.mode.modClass ≠ .WIFI_MOD_CLASS_S1G → preamble = .WIFI_PREAMBLE_S1G_LONG →
          CalculatePlcpPreambleAndHeaderDuration tx preamble = .ok (p + h))
      ∧ (tx.mode.modClass = .WIFI_MOD_CLASS_S1G →
          preamble = .WIFI_PREAMBLE_HT_MF ∨ preamble = .WIFI_PREAMBLE_HT_GF →
          CalculatePlcpPreambleAndHeaderDuration tx preamble = .ok (p + h)) := by
  obtain ⟨p, hp, -⟩ := GetPlcpPreambleDuration_nonneg tx.mode preamble hcls
  obtain ⟨h, hh, -⟩ := GetPlcpHeaderDuration_nonneg tx.mode preamble hcls
  have hnot : tx.mode.modClass ≠ .WIFI_MOD_CLASS_S1G →
      CalculatePlcpPreambleAndHeaderDuration tx preamble
        = .ok (p + h + GetPlcpHtSigHeaderDuration preamble
            + GetPlcpHtTrainingSymbolDuration preamble tx) := by
    intro hc
    simp only [CalculatePlcpPreambleAndHeaderDuration, hc, ne_eq, not_false_eq_true, if_true,
      hp, hh, bind, Except.bind, pure, Except.pure]
  have hs1g : tx.mode.modClass = .WIFI_MOD_CLASS_S1G →
      CalculatePlcpPreambleAndHeaderDuration tx preamble
        = .ok (p + h + GetPlcpTrainingSymbolDuration preamble tx
            + GetPlcpSigADuration preamble + GetPlcpS1gTrainingSymbolDuration preamble tx
            + GetPlcpSigBDuration preamble) := by
    intro hc
    simp only [CalculatePlcpPreambleAndHeaderDuration, hc, ne_eq, not_true_eq_false, if_false,
      hp, hh, bind, Except.bind, pure, Except.pure]
  refine ⟨p, h, hp, hh, hnot, hs1g, ?_, ?_⟩
  · intro hc hpre
    rw [hnot hc, hpre]
    simp [GetPlcpHtSigHeaderDuration, GetPlcpHtTrainingSymbolDuration, MicroSeconds]
  · intro hc hpre
    rw [hs1g hc]
    rcases hpre with hpre | hpre <;> rw [hpre] <;>
      simp [GetPlcpTrainingSymbolDuration, GetPlcpSigADuration,
        GetPlcpS1gTrainingSymbolDuration, GetPlcpSigBDuration, MicroSeconds]

/-- C21 at the S1G mode OfdmRate150KbpsBW1MHz with preamble HT-Mixed: 160 microseconds of
preamble and 80 of header, nothing for HT-SIG (8 microseconds for that preamble) or HT
training. -/
theorem C21_plcp_sum_by_class_witness :
    GetPlcpHtSigHeaderDuration .WIFI_PREAMBLE_HT_MF = MicroSeconds 8
      ∧ CalculatePlcpPreambleAndHeaderDuration ⟨GetOfdmRate150KbpsBW1MHz, 2, 1, false⟩
          .WIFI_PREAMBLE_HT_MF = .ok (MicroSeconds 240) := by
  obtain ⟨p, h, hp, hh, -, -, -, h4⟩ := C21_plcp_sum_by_class
    ⟨GetOfdmRate150KbpsBW1MHz, 2, 1, false⟩ .WIFI_PREAMBLE_HT_MF (by decide)
  have hp2 : GetPlcpPreambleDuration GetOfdmRate150KbpsBW1MHz .WIFI_PREAMBLE_HT_MF
      = .ok (MicroSeconds 160) := by
    simp [GetPlcpPreambleDuration, GetOfdmRate150KbpsBW1MHz]
  have hh2 : GetPlcpHeaderDuration GetOfdmRate150KbpsBW1MHz .WIFI_PREAMBLE_HT_MF
      = .ok (MicroSeconds 80) := by
    simp [GetPlcpHeaderDuration, GetOfdmRate150KbpsBW1MHz]
  have e1 : p = MicroSeconds 160 := (Except.ok.inj (hp.symm.trans hp2))
  have e2 : h = MicroSeconds 80 := (Except.ok.inj (hh.symm.trans hh2))
  refine ⟨rfl, ?_⟩
  rw [h4 rfl (Or.inl rfl), e1, e2]
  rfl

/-! ## The signal extension -/

/-- C22: for every mode of class HT, every size, tx vector (with at least one stream),
accumulator and commit flag, a Standalone call (packetType 0, real preamble) and a Last call
(packetType 2, preamble None) return symbolCount * symbolDuration + 6 microseconds when `2400 <= f <= 2500` and
symbolCount * symbolDuration for any other frequency, the rule being the same for both; a
Middle call (packetType 1, preamble None) returns symbolCount * symbolDuration at every
frequency.  In each role `symbolCount` is the count the call itself computes.  The Standalone
and Middle calls always return; the Last call returns when the accumulated symbols do not
exceed the count a Standalone call computes for the whole aggregate. -/
theorem C22_ht_signal_extension (st : PhyState) (size : Nat) (tx : WifiTxVector)
    (preamble : WifiPreamble) (frequency : ℚ) (incFlag : Nat)
    (hcls : tx.mode.modClass = .WIFI_MOD_CLASS_HT) (_hnss : 1 ≤ tx.nss)
    (hpre : preamble ≠ .WIFI_PREAMBLE_NONE) :
    (∃ n, payloadNumSymbols st size tx preamble 0 incFlag = (.ok n, st)
        ∧ GetPayloadDuration st size tx preamble frequency 0 incFlag
          = (.ok ((n : Int) * htSymbolDuration tx.mode tx
              + (if 2400 ≤ frequency ∧ frequency ≤ 2500 then MicroSeconds 6 else 0)), st))
      ∧ (∀ n st2, payloadNumSymbols st size tx .WIFI_PREAMBLE_NONE 2 incFlag = (.ok n, st2) →
          GetPayloadDuration st size tx .WIFI_PREAMBLE_NONE frequency 2 incFlag
            = (.ok ((n : Int) * htSymbolDuration tx.mode tx
                + (if 2400 ≤ frequency ∧ frequency ≤ 2500 then MicroSeconds 6 else 0)), st2))
      ∧ (∀ c, payloadNumSymbols st (uint32 (st.m_totalAmpduSize + size)) tx preamble 0 incFlag
            = (.ok c, st) →
          st.m_totalAmpduNumSymbols ≤ c →
          payloadNumSymbols st size tx .WIFI_PREAMBLE_NONE 2 incFlag
            = (.ok (c - st.m_totalAmpduNumSymbols), if incFlag = 1 then ⟨0, 0⟩ else st))
      ∧ (∃ n st2, payloadNumSymbols st size tx .WIFI_PREAMBLE_NONE 1 incFlag = (.ok n, st2)
          ∧ GetPayloadDuration st size tx .WIFI_PREAMBLE_NONE frequency 1 incFlag
            = (.ok ((n : Int) * htSymbolDuration tx.mode tx), st2)) := by
  have hcls4 : tx.mode.modClass = .WIFI_MOD_CLASS_OFDM
      ∨ tx.mode.modClass = .WIFI_MOD_CLASS_ERP_OFDM
      ∨ tx.mode.modClass = .WIFI_MOD_CLASS_HT ∨ tx.mode.modClass = .WIFI_MOD_CLASS_S1G :=
    Or.inr (Or.inr (Or.inl hcls))
  have hT : payloadSymbolDuration tx = htSymbolDuration tx.mode tx := by
    simp only [payloadSymbolDuration, hcls]
  refine ⟨?_, ?_, ?_, ?_⟩
  · refine ⟨_, payloadNumSymbols_standalone_count st size tx preamble incFlag hcls4 hpre, ?_⟩
    rw [GetPayloadDuration_ok st size tx preamble frequency 0 incFlag hcls4
      (payloadNumSymbols_standalone_count st size tx preamble incFlag hcls4 hpre), hT]
    by_cases h1 : 2400 ≤ frequency <;> by_cases h2 : frequency ≤ 2500 <;>
      simp [hcls, hpre, h1, h2]
  · intro n st2 hn
    rw [GetPayloadDuration_ok st size tx .WIFI_PREAMBLE_NONE frequency 2 incFlag hcls4 hn, hT]
    by_cases h1 : 2400 ≤ frequency <;> by_cases h2 : frequency ≤ 2500 <;>
      simp [hcls, h1, h2]
  · intro c hc hs
    exact payloadNumSymbols_last_of_standalone st size tx preamble incFlag incFlag hcls4 hpre
      hc hs
  · refine ⟨_, _, payloadNumSymbols_middle st size tx incFlag hcls4, ?_⟩
    rw [GetPayloadDuration_ok st size tx .WIFI_PREAMBLE_NONE frequency 1 incFlag hcls4
      (payloadNumSymbols_middle st size tx incFlag hcls4), hT]
    simp [hcls]

/-- C22 at OfdmRate65MbpsBW20MHz (260 bits per symbol), 1000 bytes, preamble HT-Mixed, 2412
MHz: the Standalone call counts 31 symbols and returns 31 symbols of 4 microseconds plus 6
microseconds. -/
theorem C22_ht_signal_extension_witness :
    payloadNumSymbols PhyState.fresh 1000 ⟨GetOfdmRate65MbpsBW20MHz, 1, 0, false⟩
        .WIFI_PREAMBLE_HT_MF 0 0 = (.ok 31, PhyState.fresh)
      ∧ GetPayloadDuration PhyState.fresh 1000 ⟨GetOfdmRate65MbpsBW20MHz, 1, 0, false⟩
        .WIFI_PREAMBLE_HT_MF 2412 0 0 = (.ok (MicroSeconds 130), PhyState.fresh) := by
  obtain ⟨n, hn, hd⟩ := (C22_ht_signal_extension PhyState.fresh 1000
    ⟨GetOfdmRate65MbpsBW20MHz, 1, 0, false⟩ .WIFI_PREAMBLE_HT_MF 2412 0 rfl (by decide)
    (by simp)).1
  have hm : payloadStbc ⟨GetOfdmRate65MbpsBW20MHz, 1, 0, false⟩ = 1 := rfl
  have hc : Nat.ceil ((8 + ((1000 : Nat) : ℚ) * 8 + 6) / ((1 : Nat) * 260 : ℚ)) = 31 := by
    rw [Nat.ceil_eq_iff (by norm_num)]
    norm_num
  have hT : htSymbolDuration GetOfdmRate65MbpsBW20MHz ⟨GetOfdmRate65MbpsBW20MHz, 1, 0, false⟩
      = MicroSeconds 4 := by decide
  have hn31 : n = 31 := by
    have h := standalone_count_eq PhyState.fresh 1000 ⟨GetOfdmRate65MbpsBW20MHz, 1, 0, false⟩
      .WIFI_PREAMBLE_HT_MF 0 (Or.inr (Or.inr (Or.inl rfl))) (by simp) hn
    rw [standaloneCount, hm, payloadBitsPerSymbol_65Mbps, hc] at h
    rw [h]
    rfl
  subst hn31
  refine ⟨hn, ?_⟩
  rw [hd]
  show (Except.ok (((31 : Nat) : Int) * htSymbolDuration GetOfdmRate65MbpsBW20MHz
    ⟨GetOfdmRate65MbpsBW20MHz, 1, 0, false⟩
      + (if (2400 : ℚ) ≤ 2412 ∧ (2412 : ℚ) ≤ 2500 then MicroSeconds 6 else 0)),
    PhyState.fresh) = _
  rw [hT]
  norm_num [MicroSeconds]

/-- C23, as the code has it: for every mode of class S1G, every size, tx vector (with at least
one stream), accumulator, commit flag and frequency (also with `2400 <= f <= 2500`), a
Standalone call and a Last call return symbolCount * symbolDuration, with `symbolCount` the
count the call itself computes: the S1G branch adds no signal extension.  The Standalone call
always returns; the Last call returns when the accumulated symbols do not exceed the count a
Standalone call computes for the whole aggregate. -/
theorem C23_s1g_no_signal_extension (st : PhyState) (size : Nat) (tx : WifiTxVector)
    (preamble : WifiPreamble) (frequency : ℚ) (incFlag : Nat)
    (hcls : tx.mode.modClass = .WIFI_MOD_CLASS_S1G) (_hnss : 1 ≤ tx.nss)
    (hpre : preamble ≠ .WIFI_PREAMBLE_NONE) :
    (∃ n, payloadNumSymbols st size tx preamble 0 incFlag = (.ok n, st)
        ∧ GetPayloadDuration st size tx preamble frequency 0 incFlag
          = (.ok ((n : Int) * s1gSymbolDuration tx.mode tx), st))
      ∧ (∀ n st2, payloadNumSymbols st size tx .WIFI_PREAMBLE_NONE 2 incFlag = (.ok n, st2) →
          GetPayloadDuration st size tx .WIFI_PREAMBLE_NONE frequency 2 incFlag
            = (.ok ((n : Int) * s1gSymbolDuration tx.mode tx), st2))
      ∧ (∀ c, payloadNumSymbols st (uint32 (st.m_totalAmpduSize + size)) tx preamble 0 incFlag
            = (.ok c, st) →
          st.m_totalAmpduNumSymbols ≤ c →
          payloadNumSymbols st size tx .WIFI_PREAMBLE_NONE 2 incFlag
            = (.ok (c - st.m_totalAmpduNumSymbols), if incFlag = 1 then ⟨0, 0⟩ else st)) := by
  have hcls4 : tx.mode.modClass = .WIFI_MOD_CLASS_OFDM
      ∨ tx.mode.modClass = .WIFI_MOD_CLASS_ERP_OFDM
      ∨ tx.mode.modClass = .WIFI_MOD_CLASS_HT ∨ tx.mode.modClass = .WIFI_MOD_CLASS_S1G :=
    Or.inr (Or.inr (Or.inr hcls))
  have hT : payloadSymbolDuration tx = s1gSymbolDuration tx.mode tx := by
    simp only [payloadSymbolDuration, hcls]
  refine ⟨?_, ?_, ?_⟩
  · refine ⟨_, payloadNumSymbols_standalone_count st size tx preamble incFlag hcls4 hpre, ?_⟩
    rw [GetPayloadDuration_ok st size tx preamble frequency 0 incFlag hcls4
      (payloadNumSymbols_standalone_count st size tx preamble incFlag hcls4 hpre), hT]
    simp [hcls]
  · intro n st2 hn
    rw [GetPayloadDuration_ok st size tx .WIFI_PREAMBLE_NONE frequency 2 incFlag hcls4 hn, hT]
    simp [hcls]
  · intro c hc hs
    exact payloadNumSymbols_last_of_standalone st size tx preamble incFlag incFlag hcls4 hpre
      hc hs

/-- The Standalone call of 100 bytes on OfdmRate150KbpsBW1MHz at 2412 MHz: 136 symbols of 40
microseconds. -/
theorem GetPayloadDuration_150Kbps_100 :
    GetPayloadDuration PhyState.fresh 100 ⟨GetOfdmRate150KbpsBW1MHz, 1, 0, false⟩
      .WIFI_PREAMBLE_S1G_SHORT 2412 0 0 = (.ok (136 * MicroSeconds 40), PhyState.fresh) := by
  have hcls : (⟨GetOfdmRate150KbpsBW1MHz, 1, 0, false⟩ : WifiTxVector).mode.modClass
      = .WIFI_MOD_CLASS_S1G := rfl
  have hT : payloadSymbolDuration ⟨GetOfdmRate150KbpsBW1MHz, 1, 0, false⟩ = MicroSeconds 40 := by
    decide
  have hc : Nat.ceil ((8 + ((100 : Nat) : ℚ) * 8 + 6) / 6) = 136 := by
    rw [Nat.ceil_eq_iff (by norm_num)]
    norm_num
  have hs := payloadNumSymbols_standalone_count PhyState.fresh 100
    ⟨GetOfdmRate150KbpsBW1MHz, 1, 0, false⟩ .WIFI_PREAMBLE_S1G_SHORT 0
    (Or.inr (Or.inr (Or.inr hcls))) (by simp)
  rw [standaloneCount_150Kbps, hc] at hs
  rw [GetPayloadDuration_ok PhyState.fresh 100 ⟨GetOfdmRate150KbpsBW1MHz, 1, 0, false⟩
    .WIFI_PREAMBLE_S1G_SHORT 2412 0 0 (Or.inr (Or.inr (Or.inr hcls))) hs, hT, hcls]
  norm_num [uint32, MicroSeconds]
  decide

/-- C23 at OfdmRate150KbpsBW1MHz, 100 bytes, preamble S1G-Short, 2412 MHz: the Standalone
call counts 136 symbols and returns 136 symbols of 40 microseconds and nothing more. -/
theorem C23_s1g_no_signal_extension_witness :
    payloadNumSymbols PhyState.fresh 100 ⟨GetOfdmRate150KbpsBW1MHz, 1, 0, false⟩
        .WIFI_PREAMBLE_S1G_SHORT 0 0 = (.ok 136, PhyState.fresh)
      ∧ GetPayloadDuration PhyState.fresh 100 ⟨GetOfdmRate150KbpsBW1MHz, 1, 0, false⟩
        .WIFI_PREAMBLE_S1G_SHORT 2412 0 0 = (.ok (MicroSeconds 5440), PhyState.fresh) := by
  obtain ⟨n, hn, hd⟩ := (C23_s1g_no_signal_extension PhyState.fresh 100
    ⟨GetOfdmRate150KbpsBW1MHz, 1, 0, false⟩ .WIFI_PREAMBLE_S1G_SHORT 2412 0 rfl (by decide)
    (by simp)).1
  have hc : Nat.ceil ((8 + ((100 : Nat) : ℚ) * 8 + 6) / 6) = 136 := by
    rw [Nat.ceil_eq_iff (by norm_num)]
    norm_num
  have hT : s1gSymbolDuration GetOfdmRate150KbpsBW1MHz ⟨GetOfdmRate150KbpsBW1MHz, 1, 0, false⟩
      = MicroSeconds 40 := by decide
  have hn136 : n = 136 := by
    have h := standalone_count_eq PhyState.fresh 100 ⟨GetOfdmRate150KbpsBW1MHz, 1, 0, false⟩
      .WIFI_PREAMBLE_S1G_SHORT 0 (Or.inr (Or.inr (Or.inr rfl))) (by simp) hn
    rw [standaloneCount_150Kbps, hc] at h
    rw [h]
    rfl
  subst hn136
  refine ⟨hn, ?_⟩
  rw [hd]
  show (Except.ok (((136 : Nat) : Int) * s1gSymbolDuration GetOfdmRate150KbpsBW1MHz
    ⟨GetOfdmRate150KbpsBW1MHz, 1, 0, false⟩), PhyState.fresh) = _
  rw [hT]
  norm_num [MicroSeconds]

/-- C23 fails as stated at the S1G mode OfdmRate150KbpsBW1MHz, 100 bytes, preamble S1G-Short,
frequency 2412 MHz, Standalone: the call returns 136 symbols of 40 microseconds, 5440
microseconds, not 5446. -/
theorem C23_counterexample :
    GetOfdmRate150KbpsBW1MHz.modClass = .WIFI_MOD_CLASS_S1G
      ∧ (2400 : ℚ) ≤ 2412 ∧ (2412 : ℚ) ≤ 2500
      ∧ payloadNumSymbols PhyState.fresh 100 ⟨GetOfdmRate150KbpsBW1MHz, 1, 0, false⟩
          .WIFI_PREAMBLE_S1G_SHORT 0 0 = (.ok 136, PhyState.fresh)
      ∧ payloadSymbolDuration ⟨GetOfdmRate150KbpsBW1MHz, 1, 0, false⟩ = MicroSeconds 40
      ∧ GetPayloadDuration PhyState.fresh 100 ⟨GetOfdmRate150KbpsBW1MHz, 1, 0, false⟩
          .WIFI_PREAMBLE_S1G_SHORT 2412 0 0 = (.ok (MicroSeconds 5440), PhyState.fresh)
      ∧ GetPayloadDuration PhyState.fresh 100 ⟨GetOfdmRate150KbpsBW1MHz, 1, 0, false⟩
          .WIFI_PREAMBLE_S1G_SHORT 2412 0 0
        ≠ (.ok (136 * MicroSeconds 40 + MicroSeconds 6), PhyState.fresh) := by
  have hcls : (⟨GetOfdmRate150KbpsBW1MHz, 1, 0, false⟩ : WifiTxVector).mode.modClass
      = .WIFI_MOD_CLASS_S1G := rfl
  have hc : Nat.ceil ((8 + ((100 : Nat) : ℚ) * 8 + 6) / 6) = 136 := by
    rw [Nat.ceil_eq_iff (by norm_num)]
    norm_num
  have hs := payloadNumSymbols_standalone_count PhyState.fresh 100
    ⟨GetOfdmRate150KbpsBW1MHz, 1, 0, false⟩ .WIFI_PREAMBLE_S1G_SHORT 0
    (Or.inr (Or.inr (Or.inr hcls))) (by simp)
  rw [standaloneCount_150Kbps, hc] at hs
  refine ⟨rfl, by norm_num, by norm_num, hs, by decide, ?_, ?_⟩
  · rw [GetPayloadDuration_150Kbps_100]
    norm_num [MicroSeconds]
  · rw [GetPayloadDuration_150Kbps_100]
    norm_num [MicroSeconds]

/-! ## First and Standalone calls; the factor for STBC -/

/-- Bits per symbol of OfdmRate65MbpsBW20MHz with one stream and STBC: the flag does not enter
the product. -/
theorem payloadBitsPerSymbol_65Mbps_stbc :
    payloadBitsPerSymbol ⟨GetOfdmRate65MbpsBW20MHz, 1, 0, true⟩ = 260 := by
  have hT : payloadSymbolDuration ⟨GetOfdmRate65MbpsBW20MHz, 1, 0, true⟩ = 4000 := by decide
  have hN : numDataBitsPerSymbol 65000000 1 4000 = 260 := by
    norm_num [numDataBitsPerSymbol, uint64]
  show numDataBitsPerSymbol 65000000 1
    (payloadSymbolDuration ⟨GetOfdmRate65MbpsBW20MHz, 1, 0, true⟩) = 260
  rw [hT, hN]

/-- The duration of a First call (packetType 1, real preamble) on a symbol-counting mode: only
an ERP-OFDM mode gets the 6 microseconds. -/
theorem GetPayloadDuration_first (st : PhyState) (size : Nat) (tx : WifiTxVector)
    (preamble : WifiPreamble) (frequency : ℚ) (incFlag : Nat)
    (hcls : tx.mode.modClass = .WIFI_MOD_CLASS_OFDM ∨ tx.mode.modClass = .WIFI_MOD_CLASS_ERP_OFDM
      ∨ tx.mode.modClass = .WIFI_MOD_CLASS_HT ∨ tx.mode.modClass = .WIFI_MOD_CLASS_S1G)
    (hpre : preamble ≠ .WIFI_PREAMBLE_NONE) :
    (GetPayloadDuration st size tx preamble frequency 1 incFlag).1
      = .ok ((uint32 (Nat.ceil ((8 + (size : ℚ) * 8 + 6) / payloadBitsPerSymbol tx)) : Int)
          * payloadSymbolDuration tx
          + (if tx.mode.modClass = .WIFI_MOD_CLASS_ERP_OFDM then MicroSeconds 6 else 0)) := by
  rw [GetPayloadDuration_ok st size tx preamble frequency 1 incFlag hcls
    (payloadNumSymbols_first st size tx preamble incFlag hcls hpre)]
  by_cases he : tx.mode.modClass = .WIFI_MOD_CLASS_ERP_OFDM <;> simp [he]

/-- The duration of a Standalone call (packetType 0, real preamble) on a symbol-counting
mode. -/
theorem GetPayloadDuration_standalone (st : PhyState) (size : Nat) (tx : WifiTxVector)
    (preamble : WifiPreamble) (frequency : ℚ) (incFlag : Nat)
    (hcls : tx.mode.modClass = .WIFI_MOD_CLASS_OFDM ∨ tx.mode.modClass = .WIFI_MOD_CLASS_ERP_OFDM
      ∨ tx.mode.modClass = .WIFI_MOD_CLASS_HT ∨ tx.mode.modClass = .WIFI_MOD_CLASS_S1G)
    (hpre : preamble ≠ .WIFI_PREAMBLE_NONE) :
    (GetPayloadDuration st size tx preamble frequency 0 incFlag).1
      = .ok ((uint32 (standaloneCount tx size) : Int) * payloadSymbolDuration tx
          + (if tx.mode.modClass = .WIFI_MOD_CLASS_ERP_OFDM
                ∨ (tx.mode.modClass = .WIFI_MOD_CLASS_HT ∧ 2400 ≤ frequency ∧ frequency ≤ 2500)
              then MicroSeconds 6 else 0)) := by
  rw [GetPayloadDuration_ok st size tx preamble frequency 0 incFlag hcls
    (payloadNumSymbols_standalone_count st size tx preamble incFlag hcls hpre)]
  by_cases he : tx.mode.modClass = .WIFI_MOD_CLASS_ERP_OFDM <;>
    by_cases hh : tx.mode.modClass = .WIFI_MOD_CLASS_HT <;>
    by_cases h1 : 2400 ≤ frequency <;> by_cases h2 : frequency ≤ 2500 <;>
    simp [he, hh, h1, h2, hpre]

/-- C24, as the code has it: for every mode of class OFDM, ERP-OFDM, HT or S1G, every size
and every tx vector with at least one stream and with STBC disabled on an HT or S1G mode, and
every frequency that lies outside `2400 .. 2500` on an HT mode, a First call (packetType 1,
real preamble) returns the same payload duration as a Standalone call (packetType 0, same
preamble) with the same arguments: the two calls compute one symbol count and return that
count times the symbol duration, plus 6 microseconds on an ERP-OFDM mode; on a catalog mode
with a whole number of bits per symbol, at most 255 streams and a 32-bit size the count is
`ceil ((8 + 8 * size + 6) / bitsPerSymbol)`, stored in 32 bits. -/
theorem C24_first_equals_standalone (st : PhyState) (size : Nat) (tx : WifiTxVector)
    (preamble : WifiPreamble) (frequency : ℚ) (incFlag : Nat)
    (hcls : tx.mode.modClass = .WIFI_MOD_CLASS_OFDM ∨ tx.mode.modClass = .WIFI_MOD_CLASS_ERP_OFDM
      ∨ tx.mode.modClass = .WIFI_MOD_CLASS_HT ∨ tx.mode.modClass = .WIFI_MOD_CLASS_S1G)
    (_hnss : 1 ≤ tx.nss) (hpre : preamble ≠ .WIFI_PREAMBLE_NONE)
    (hstbc : tx.mode.modClass = .WIFI_MOD_CLASS_HT ∨ tx.mode.modClass = .WIFI_MOD_CLASS_S1G →
      tx.stbc = false)
    (hfreq : tx.mode.modClass = .WIFI_MOD_CLASS_HT → ¬ (2400 ≤ frequency ∧ frequency ≤ 2500)) :
    (GetPayloadDuration st size tx preamble frequency 1 incFlag).1
        = (GetPayloadDuration st size tx preamble frequency 0 incFlag).1
      ∧ ∃ n, (payloadNumSymbols st size tx preamble 1 incFlag).1 = .ok n
        ∧ payloadNumSymbols st size tx preamble 0 incFlag = (.ok n, st)
        ∧ GetPayloadDuration st size tx preamble frequency 0 incFlag
          = (.ok ((n : Int) * payloadSymbolDuration tx
              + (if tx.mode.modClass = .WIFI_MOD_CLASS_ERP_OFDM then MicroSeconds 6 else 0)),
            st)
        ∧ (tx.mode ∈ allModes → wholeBitsPerSymbol tx → tx.nss < 256 → size < 4294967296 →
          n = uint32 (Nat.ceil ((8 + (size : ℚ) * 8 + 6) / payloadBitsPerSymbol tx))) := by
  have hm : payloadStbc tx = 1 := by
    rcases symbolCounting_cases hcls with h | h
    · exact payloadStbc_ofdm tx h
    · have hs := hstbc h
      rcases h with h | h <;> simp [payloadStbc, h, hs]
  have hcount : standaloneCount tx size
      = Nat.ceil ((8 + (size : ℚ) * 8 + 6) / payloadBitsPerSymbol tx) := by
    simp [standaloneCount, hm]
  have hs := GetPayloadDuration_standalone st size tx preamble frequency incFlag hcls hpre
  have hext : (tx.mode.modClass = .WIFI_MOD_CLASS_ERP_OFDM
      ∨ (tx.mode.modClass = .WIFI_MOD_CLASS_HT ∧ 2400 ≤ frequency ∧ frequency ≤ 2500))
      ↔ tx.mode.modClass = .WIFI_MOD_CLASS_ERP_OFDM := by
    constructor
    · rintro (h | ⟨h, h1⟩)
      · exact h
      · exact absurd h1 (hfreq h)
    · exact Or.inl
  rw [hcount, if_congr hext rfl rfl] at hs
  have hn0 := payloadNumSymbols_standalone_count st size tx preamble incFlag hcls hpre
  rw [hcount] at hn0
  have hext0 : (tx.mode.modClass = .WIFI_MOD_CLASS_ERP_OFDM
      ∨ (tx.mode.modClass = .WIFI_MOD_CLASS_HT ∧ frequency ≥ 2400 ∧ frequency ≤ 2500
        ∧ (((0 : Nat) = 0 ∧ preamble ≠ .WIFI_PREAMBLE_NONE)
          ∨ ((0 : Nat) = 2 ∧ preamble = .WIFI_PREAMBLE_NONE))))
      ↔ tx.mode.modClass = .WIFI_MOD_CLASS_ERP_OFDM := by
    constructor
    · rintro (h | ⟨h, h1, h2, -⟩)
      · exact h
      · exact absurd ⟨h1, h2⟩ (hfreq h)
    · exact Or.inl
  refine ⟨(GetPayloadDuration_first st size tx preamble frequency incFlag hcls hpre).trans
    hs.symm, _, ?_, hn0, ?_, fun _ _ _ _ => rfl⟩
  · rw [payloadNumSymbols_first st size tx preamble incFlag hcls hpre]
  · rw [GetPayloadDuration_ok st size tx preamble frequency 0 incFlag hcls hn0,
      if_congr hext0 rfl rfl]

/-- C24 at OfdmRate54Mbps (216 bits per symbol), 1000 bytes, preamble Long, 2412 MHz: the
First call and the Standalone call return the same duration. -/
theorem C24_first_equals_standalone_witness :
    (GetPayloadDuration PhyState.fresh 1000 ⟨GetOfdmRate54Mbps, 1, 0, false⟩
        .WIFI_PREAMBLE_LONG 2412 1 1).1
      = (GetPayloadDuration PhyState.fresh 1000 ⟨GetOfdmRate54Mbps, 1, 0, false⟩
        .WIFI_PREAMBLE_LONG 2412 0 1).1 :=
  (C24_first_equals_standalone PhyState.fresh 1000 ⟨GetOfdmRate54Mbps, 1, 0, false⟩
    .WIFI_PREAMBLE_LONG 2412 1 (Or.inl rfl) (by decide) (by simp)
    (fun h => by rcases h with h | h <;> exact absurd h (by decide))
    (fun h => absurd h (by decide))).1

/-- C24 fails as stated on the HT mode OfdmRate65MbpsBW20MHz (260 bits per symbol), 1000
bytes, preamble HT-Mixed: at 2412 MHz the First call returns 31 symbols of 4 microseconds,
124 microseconds, and the Standalone call 6 microseconds more; at 5180 MHz with STBC the
First call returns 31 symbols and the Standalone call `2 * ceil (8014 / 520) = 32`. -/
theorem C24_counterexample :
    (GetPayloadDuration PhyState.fresh 1000 ⟨GetOfdmRate65MbpsBW20MHz, 1, 0, false⟩
        .WIFI_PREAMBLE_HT_MF 2412 1 0).1 = .ok (MicroSeconds 124)
      ∧ (GetPayloadDuration PhyState.fresh 1000 ⟨GetOfdmRate65MbpsBW20MHz, 1, 0, false⟩
        .WIFI_PREAMBLE_HT_MF 2412 0 0).1 = .ok (MicroSeconds 130)
      ∧ (GetPayloadDuration PhyState.fresh 1000 ⟨GetOfdmRate65MbpsBW20MHz, 1, 0, true⟩
        .WIFI_PREAMBLE_HT_MF 5180 1 0).1 = .ok (MicroSeconds 124)
      ∧ (GetPayloadDuration PhyState.fresh 1000 ⟨GetOfdmRate65MbpsBW20MHz, 1, 0, true⟩
        .WIFI_PREAMBLE_HT_MF 5180 0 0).1 = .ok (MicroSeconds 128)
      ∧ MicroSeconds 124 ≠ MicroSeconds 130 ∧ MicroSeconds 124 ≠ MicroSeconds 128 := by
  have hT1 : payloadSymbolDuration ⟨GetOfdmRate65MbpsBW20MHz, 1, 0, false⟩ = MicroSeconds 4 := by
    decide
  have hT2 : payloadSymbolDuration ⟨GetOfdmRate65MbpsBW20MHz, 1, 0, true⟩ = MicroSeconds 4 := by
    decide
  have hc1 : Nat.ceil ((8 + ((1000 : Nat) : ℚ) * 8 + 6) / 260) = 31 := by
    rw [Nat.ceil_eq_iff (by norm_num)]
    norm_num
  have hc2 : Nat.ceil ((8 + ((1000 : Nat) : ℚ) * 8 + 6) / (((1 : Nat) : ℚ) * 260)) = 31 := by
    rw [Nat.ceil_eq_iff (by norm_num)]
    norm_num
  have hc3 : Nat.ceil ((8 + ((1000 : Nat) : ℚ) * 8 + 6) / (((2 : Nat) : ℚ) * 260)) = 16 := by
    rw [Nat.ceil_eq_iff (by norm_num)]
    norm_num
  have hm1 : payloadStbc ⟨GetOfdmRate65MbpsBW20MHz, 1, 0, false⟩ = 1 := rfl
  have hm2 : payloadStbc ⟨GetOfdmRate65MbpsBW20MHz, 1, 0, true⟩ = 2 := rfl
  have hcls1 : (⟨GetOfdmRate65MbpsBW20MHz, 1, 0, false⟩ : WifiTxVector).mode.modClass
      = .WIFI_MOD_CLASS_HT := rfl
  have hcls2 : (⟨GetOfdmRate65MbpsBW20MHz, 1, 0, true⟩ : WifiTxVector).mode.modClass
      = .WIFI_MOD_CLASS_HT := rfl
  refine ⟨?_, ?_, ?_, ?_, by norm_num [MicroSeconds], by norm_num [MicroSeconds]⟩
  · rw [GetPayloadDuration_first _ _ _ _ _ _ (Or.inr (Or.inr (Or.inl hcls1))) (by simp),
      payloadBitsPerSymbol_65Mbps, hc1, hT1, hcls1]
    norm_num [uint32, MicroSeconds]
    decide
  · rw [GetPayloadDuration_standalone _ _ _ _ _ _ (Or.inr (Or.inr (Or.inl hcls1))) (by simp),
      standaloneCount, hm1, payloadBitsPerSymbol_65Mbps, hc2, hT1, hcls1]
    norm_num [uint32, MicroSeconds]
  · rw [GetPayloadDuration_first _ _ _ _ _ _ (Or.inr (Or.inr (Or.inl hcls2))) (by simp),
      payloadBitsPerSymbol_65Mbps_stbc, hc1, hT2, hcls2]
    norm_num [uint32, MicroSeconds]
    decide
  · rw [GetPayloadDuration_standalone _ _ _ _ _ _ (Or.inr (Or.inr (Or.inl hcls2))) (by simp),
      standaloneCount, hm2, payloadBitsPerSymbol_65Mbps_stbc, hc3, hT2, hcls2]
    norm_num [uint32, MicroSeconds]
    decide

/-- C25, as the code has it: for every catalog mode of class HT or S1G with data rate `R`,
every `Nss` from 1 to 255 for which bitsPerSymbol = `R * Nss * T` (`T` the selected symbol
duration) is a whole number, and every 32-bit size whose count is below `2 ^ 32` (every
32-bit size on an HT mode), a Standalone call computes the symbol count
`m * ceil ((8 + 8 * size + 6) / (m * bitsPerSymbol))` with `m = 2` when STBC is enabled, an
even count, and `m = 1` when it is disabled, and returns that many symbols of duration `T`
(plus 6 microseconds on an HT mode between 2400 and 2500 MHz): the factor multiplies the
divisor and the ceiling, the six tail bits are counted once.  The whole-number condition keeps
the statement to the inputs on which the `double` division of the source is the exact one. -/
theorem C25_standalone_stbc_symbol_count (st : PhyState) (size : Nat) (tx : WifiTxVector)
    (preamble : WifiPreamble) (frequency : ℚ) (incFlag : Nat)
    (hmode : tx.mode ∈ allModes)
    (hcls : tx.mode.modClass = .WIFI_MOD_CLASS_HT ∨ tx.mode.modClass = .WIFI_MOD_CLASS_S1G)
    (hnss1 : 1 ≤ tx.nss) (hnss : tx.nss < 256) (_hwhole : wholeBitsPerSymbol tx)
    (hpre : preamble ≠ .WIFI_PREAMBLE_NONE) (_hsize : size < 4294967296)
    (hfit : standaloneCount tx size < 4294967296) :
    payloadNumSymbols st size tx preamble 0 incFlag
        = (.ok ((if tx.stbc then 2 else 1)
            * Nat.ceil ((8 + 8 * (size : ℚ) + 6)
              / (((if tx.stbc then 2 else 1 : Nat) : ℚ)
                * ((tx.mode.dataRate : ℚ) * (tx.nss : ℚ) * (payloadSymbolDuration tx : ℚ)
                  / 1000000000)))), st)
      ∧ GetPayloadDuration st size tx preamble frequency 0 incFlag
        = (.ok ((((if tx.stbc then 2 else 1)
            * Nat.ceil ((8 + 8 * (size : ℚ) + 6)
              / (((if tx.stbc then 2 else 1 : Nat) : ℚ)
                * ((tx.mode.dataRate : ℚ) * (tx.nss : ℚ) * (payloadSymbolDuration tx : ℚ)
                  / 1000000000))) : Nat) : Int) * payloadSymbolDuration tx
            + (if tx.mode.modClass = .WIFI_MOD_CLASS_HT ∧ 2400 ≤ frequency ∧ frequency ≤ 2500
                then MicroSeconds 6 else 0)), st)
      ∧ (tx.stbc = true → ∃ k, payloadNumSymbols st size tx preamble 0 incFlag
            = (.ok (2 * k), st)
          ∧ GetPayloadDuration st size tx preamble frequency 0 incFlag
            = (.ok (((2 * k : Nat) : Int) * payloadSymbolDuration tx
                + (if tx.mode.modClass = .WIFI_MOD_CLASS_HT ∧ 2400 ≤ frequency
                    ∧ frequency ≤ 2500 then MicroSeconds 6 else 0)), st))
      ∧ (tx.mode.modClass = .WIFI_MOD_CLASS_HT → ∀ s : Nat, s < 4294967296 →
          standaloneCount tx s < 4294967296) := by
  have hcls4 : tx.mode.modClass = .WIFI_MOD_CLASS_OFDM
      ∨ tx.mode.modClass = .WIFI_MOD_CLASS_ERP_OFDM
      ∨ tx.mode.modClass = .WIFI_MOD_CLASS_HT ∨ tx.mode.modClass = .WIFI_MOD_CLASS_S1G :=
    Or.inr (Or.inr hcls)
  have hm : payloadStbc tx = if tx.stbc then 2 else 1 := by
    rcases hcls with h | h <;> simp only [payloadStbc, h]
  have hb := payloadBitsPerSymbol_exact tx hmode hnss
  rw [if_pos hcls] at hb
  have hs := payloadNumSymbols_standalone_count st size tx preamble incFlag hcls4 hpre
  rw [uint32_of_lt hfit] at hs
  have hval : standaloneCount tx size
      = (if tx.stbc then 2 else 1)
        * Nat.ceil ((8 + 8 * (size : ℚ) + 6)
          / (((if tx.stbc then 2 else 1 : Nat) : ℚ)
            * ((tx.mode.dataRate : ℚ) * (tx.nss : ℚ) * (payloadSymbolDuration tx : ℚ)
              / 1000000000))) := by
    rw [standaloneCount, hm, hb, mul_comm (size : ℚ) 8]
  have hnerp : tx.mode.modClass ≠ .WIFI_MOD_CLASS_ERP_OFDM := by
    rcases hcls with h | h <;> rw [h] <;> decide
  have hext : (tx.mode.modClass = .WIFI_MOD_CLASS_ERP_OFDM
      ∨ (tx.mode.modClass = .WIFI_MOD_CLASS_HT ∧ frequency ≥ 2400 ∧ frequency ≤ 2500
        ∧ (((0 : Nat) = 0 ∧ preamble ≠ .WIFI_PREAMBLE_NONE)
          ∨ ((0 : Nat) = 2 ∧ preamble = .WIFI_PREAMBLE_NONE))))
      ↔ (tx.mode.modClass = .WIFI_MOD_CLASS_HT ∧ 2400 ≤ frequency ∧ frequency ≤ 2500) := by
    constructor
    · rintro (h | ⟨h, h1, h2, -⟩)
      · exact absurd h hnerp
      · exact ⟨h, h1, h2⟩
    · rintro ⟨h, h1, h2⟩
      exact Or.inr ⟨h, h1, h2, Or.inl ⟨rfl, hpre⟩⟩
  have hd := GetPayloadDuration_ok st size tx preamble frequency 0 incFlag hcls4 hs
  rw [if_congr hext rfl rfl] at hd
  refine ⟨by rw [hs, hval], by rw [hd, hval], ?_, ?_⟩
  · intro hst
    refine ⟨Nat.ceil ((8 + (size : ℚ) * 8 + 6)
      / ((payloadStbc tx : ℚ) * payloadBitsPerSymbol tx)), ?_, ?_⟩
    · rw [hs, standaloneCount, hm, if_pos hst]
    · rw [hd, standaloneCount, hm, if_pos hst]
  · intro hht s hs32
    exact standaloneCount_lt tx s hs32
      (payloadBitsPerSymbol_ge tx hmode (Or.inr (Or.inr hht)) hnss1 hnss)

set_option maxRecDepth 100000 in
/-- C25 at OfdmRate65MbpsBW20MHz with one stream and STBC (260 bits per symbol), 1000 bytes,
preamble HT-Mixed, 5180 MHz: the count is `2 * ceil (8014 / 520) = 32`, the duration 128
microseconds. -/
theorem C25_standalone_stbc_symbol_count_witness :
    wholeBitsPerSymbol ⟨GetOfdmRate65MbpsBW20MHz, 1, 0, true⟩
      ∧ payloadNumSymbols PhyState.fresh 1000 ⟨GetOfdmRate65MbpsBW20MHz, 1, 0, true⟩
        .WIFI_PREAMBLE_HT_MF 0 0 = (.ok 32, PhyState.fresh)
      ∧ GetPayloadDuration PhyState.fresh 1000 ⟨GetOfdmRate65MbpsBW20MHz, 1, 0, true⟩
        .WIFI_PREAMBLE_HT_MF 5180 0 0 = (.ok (MicroSeconds 128), PhyState.fresh) := by
  have hw : wholeBitsPerSymbol ⟨GetOfdmRate65MbpsBW20MHz, 1, 0, true⟩ :=
    wholeBitsPerSymbol_of_eq 260 (by rw [payloadBitsPerSymbol_65Mbps_stbc]; norm_num)
  have hm : payloadStbc ⟨GetOfdmRate65MbpsBW20MHz, 1, 0, true⟩ = 2 := rfl
  have hc : Nat.ceil ((8 + ((1000 : Nat) : ℚ) * 8 + 6) / (((2 : Nat) : ℚ) * 260)) = 16 := by
    rw [Nat.ceil_eq_iff (by norm_num)]
    norm_num
  have hval : standaloneCount ⟨GetOfdmRate65MbpsBW20MHz, 1, 0, true⟩ 1000 = 32 := by
    rw [standaloneCount, hm, payloadBitsPerSymbol_65Mbps_stbc, hc]
  have hs := payloadNumSymbols_standalone_count PhyState.fresh 1000
    ⟨GetOfdmRate65MbpsBW20MHz, 1, 0, true⟩ .WIFI_PREAMBLE_HT_MF 0
    (Or.inr (Or.inr (Or.inl rfl))) (by simp)
  rw [hval] at hs
  have hs32 : payloadNumSymbols PhyState.fresh 1000 ⟨GetOfdmRate65MbpsBW20MHz, 1, 0, true⟩
      .WIFI_PREAMBLE_HT_MF 0 0 = (.ok 32, PhyState.fresh) := by
    rw [hs]
    rfl
  obtain ⟨k, hk, hd⟩ := (C25_standalone_stbc_symbol_count PhyState.fresh 1000
    ⟨GetOfdmRate65MbpsBW20MHz, 1, 0, true⟩ .WIFI_PREAMBLE_HT_MF 5180 0 (by decide)
    (Or.inl rfl) (by decide) (by decide) hw (by simp) (by norm_num)
    (by rw [hval]; norm_num)).2.2.1 rfl
  have hk16 : 2 * k = 32 := by
    rw [hs32] at hk
    have h1 := congrArg Prod.fst hk
    simp only [Except.ok.injEq] at h1
    exact h1.symm
  have hT : payloadSymbolDuration ⟨GetOfdmRate65MbpsBW20MHz, 1, 0, true⟩ = MicroSeconds 4 := by
    decide
  refine ⟨hw, hs32, ?_⟩
  rw [hd, hk16, hT]
  norm_num [MicroSeconds]

/-- C25 fails as stated at the HT mode OfdmRate65MbpsBW20MHz (260 bits per symbol), one
stream, STBC enabled, 1000 bytes: the claim's `ceil ((8 + 8 * 1000 + 6 * 2) / 260)` is 31,
the Standalone call counts 32 symbols. -/
theorem C25_counterexample :
    GetOfdmRate65MbpsBW20MHz ∈ allModes
      ∧ GetOfdmRate65MbpsBW20MHz.modClass = .WIFI_MOD_CLASS_HT
      ∧ payloadBitsPerSymbol ⟨GetOfdmRate65MbpsBW20MHz, 1, 0, true⟩ = 260
      ∧ Nat.ceil ((8 + 8 * (1000 : ℚ) + 6 * 2) / 260) = 31
      ∧ payloadNumSymbols PhyState.fresh 1000 ⟨GetOfdmRate65MbpsBW20MHz, 1, 0, true⟩
          .WIFI_PREAMBLE_HT_MF 0 0 = (.ok 32, PhyState.fresh)
      ∧ GetPayloadDuration PhyState.fresh 1000 ⟨GetOfdmRate65MbpsBW20MHz, 1, 0, true⟩
          .WIFI_PREAMBLE_HT_MF 5180 0 0 = (.ok (32 * MicroSeconds 4), PhyState.fresh)
      ∧ GetPayloadDuration PhyState.fresh 1000 ⟨GetOfdmRate65MbpsBW20MHz, 1, 0, true⟩
          .WIFI_PREAMBLE_HT_MF 5180 0 0 ≠ (.ok (31 * MicroSeconds 4), PhyState.fresh) := by
  have hm : payloadStbc ⟨GetOfdmRate65MbpsBW20MHz, 1, 0, true⟩ = 2 := rfl
  have hc : Nat.ceil ((8 + ((1000 : Nat) : ℚ) * 8 + 6) / (((2 : Nat) : ℚ) * 260)) = 16 := by
    rw [Nat.ceil_eq_iff (by norm_num)]
    norm_num
  have hs := payloadNumSymbols_standalone_count PhyState.fresh 1000
    ⟨GetOfdmRate65MbpsBW20MHz, 1, 0, true⟩ .WIFI_PREAMBLE_HT_MF 0
    (Or.inr (Or.inr (Or.inl rfl))) (by simp)
  rw [standaloneCount, hm, payloadBitsPerSymbol_65Mbps_stbc, hc] at hs
  have hs32 : payloadNumSymbols PhyState.fresh 1000 ⟨GetOfdmRate65MbpsBW20MHz, 1, 0, true⟩
      .WIFI_PREAMBLE_HT_MF 0 0 = (.ok 32, PhyState.fresh) := by
    rw [hs]
    rfl
  have hT : payloadSymbolDuration ⟨GetOfdmRate65MbpsBW20MHz, 1, 0, true⟩ = MicroSeconds 4 := by
    decide
  have hd : GetPayloadDuration PhyState.fresh 1000 ⟨GetOfdmRate65MbpsBW20MHz, 1, 0, true⟩
      .WIFI_PREAMBLE_HT_MF 5180 0 0 = (.ok (32 * MicroSeconds 4), PhyState.fresh) := by
    rw [GetPayloadDuration_ok PhyState.fresh 1000 ⟨GetOfdmRate65MbpsBW20MHz, 1, 0, true⟩
      .WIFI_PREAMBLE_HT_MF 5180 0 0 (Or.inr (Or.inr (Or.inl rfl))) hs32, hT]
    norm_num [MicroSeconds, GetOfdmRate65MbpsBW20MHz]
    decide
  refine ⟨by decide, rfl, payloadBitsPerSymbol_65Mbps_stbc, ?_, hs32, hd, ?_⟩
  · rw [Nat.ceil_eq_iff (by norm_num)]
    norm_num
  · rw [hd]
    norm_num [MicroSeconds]

/-! ## Guard-interval selection -/

/-- The selected symbol duration reads the mode and the stream count of the tx vector only. -/
theorem payloadSymbolDuration_streams (m : WifiMode) (nss ness : Nat) (stbc : Bool) :
    payloadSymbolDuration ⟨m, nss, ness, stbc⟩ = payloadSymbolDuration ⟨m, nss, 0, false⟩ :=
  rfl

/-- Bits per symbol of OfdmRate6_5MbpsBW2MHz with one stream, as the call computes it: 6.5
Mbit/s over the 36 microseconds the rate switch selects. -/
theorem payloadBitsPerSymbol_6_5MbpsBW2MHz :
    payloadBitsPerSymbol ⟨GetOfdmRate6_5MbpsBW2MHz, 1, 0, false⟩ = 234 := by
  have hT : payloadSymbolDuration ⟨GetOfdmRate6_5MbpsBW2MHz, 1, 0, false⟩ = 36000 := by decide
  have hN : numDataBitsPerSymbol 6500000 1 36000 = 234 := by
    norm_num [numDataBitsPerSymbol, uint64]
  show numDataBitsPerSymbol 6500000 1
    (payloadSymbolDuration ⟨GetOfdmRate6_5MbpsBW2MHz, 1, 0, false⟩) = 234
  rw [hT, hN]

set_option maxRecDepth 100000 in
/-- C26 on the code: with one stream, the two HT pairs and eight of the nine S1G pairs of
catalog modes named X and XShGi get the long symbol duration (4 or 40 microseconds) for X and
the short one (3.6 or 36 microseconds) for XShGi.  The pair of OfdmRate6_5MbpsBW2MHz does not:
the long-guard-interval mode has the data rate 6500000, which the rate switch of the S1G
branch lists among the short-guard-interval rates, so it gets 36 microseconds as well, and a
Standalone call of 100 bytes returns 4 symbols of 36 microseconds. -/
theorem C26_short_gi_selection_at_6_5MbpsBW2MHz (ness : Nat) (stbc : Bool) :
    (∀ p ∈ [(GetOfdmRate65MbpsBW20MHz, GetOfdmRate65MbpsBW20MHzShGi),
          (GetOfdmRate135MbpsBW40MHz, GetOfdmRate135MbpsBW40MHzShGi)],
        p.1 ∈ allModes ∧ p.2 ∈ allModes ∧ p.1.modClass = .WIFI_MOD_CLASS_HT
          ∧ p.2.modClass = .WIFI_MOD_CLASS_HT
          ∧ payloadSymbolDuration ⟨p.1, 1, ness, stbc⟩ = MicroSeconds 4
          ∧ payloadSymbolDuration ⟨p.2, 1, ness, stbc⟩ = NanoSeconds 3600)
      ∧ (∀ p ∈ [(GetOfdmRate3MbpsBW1MHz, GetOfdmRate3MbpsBW1MHzShGi),
          (GetOfdmRate4MbpsBW1MHz, GetOfdmRate4MbpsBW1MHzShGi),
          (GetOfdmRate13_5MbpsBW4MHz, GetOfdmRate13_5MbpsBW4MHzShGi),
          (GetOfdmRate18MbpsBW4MHz, GetOfdmRate18MbpsBW4MHzShGi),
          (GetOfdmRate29_25MbpsBW8MHz, GetOfdmRate29_25MbpsBW8MHzShGi),
          (GetOfdmRate39MbpsBW8MHz, GetOfdmRate39MbpsBW8MHzShGi),
          (GetOfdmRate58_5MbpsBW16MHz, GetOfdmRate58_5MbpsBW16MHzShGi),
          (GetOfdmRate78MbpsBW16MHz, GetOfdmRate78MbpsBW16MHzShGi)],
        p.1 ∈ allModes ∧ p.2 ∈ allModes ∧ p.1.modClass = .WIFI_MOD_CLASS_S1G
          ∧ p.2.modClass = .WIFI_MOD_CLASS_S1G
          ∧ payloadSymbolDuration ⟨p.1, 1, ness, stbc⟩ = MicroSeconds 40
          ∧ payloadSymbolDuration ⟨p.2, 1, ness, stbc⟩ = MicroSeconds 36)
      ∧ GetOfdmRate6_5MbpsBW2MHz ∈ allModes ∧ GetOfdmRate6_5MbpsBW2MHzShGi ∈ allModes
      ∧ GetOfdmRate6_5MbpsBW2MHz.uniqueName = "OfdmRate6_5MbpsBW2MHz"
      ∧ GetOfdmRate6_5MbpsBW2MHzShGi.uniqueName = "OfdmRate6_5MbpsBW2MHzShGi"
      ∧ GetOfdmRate6_5MbpsBW2MHz.modClass = .WIFI_MOD_CLASS_S1G
      ∧ GetOfdmRate6_5MbpsBW2MHz.dataRate / 1 ∈ s1gShortGiRates
      ∧ payloadSymbolDuration ⟨GetOfdmRate6_5MbpsBW2MHzShGi, 1, ness, stbc⟩ = MicroSeconds 36
      ∧ payloadSymbolDuration ⟨GetOfdmRate6_5MbpsBW2MHz, 1, ness, stbc⟩ = MicroSeconds 36
      ∧ GetPayloadDuration PhyState.fresh 100 ⟨GetOfdmRate6_5MbpsBW2MHz, 1, 0, false⟩
          .WIFI_PREAMBLE_S1G_SHORT 900 0 0 = (.ok (4 * MicroSeconds 36), PhyState.fresh) := by
  have hht : ∀ p ∈ [(GetOfdmRate65MbpsBW20MHz, GetOfdmRate65MbpsBW20MHzShGi),
        (GetOfdmRate135MbpsBW40MHz, GetOfdmRate135MbpsBW40MHzShGi)],
      p.1 ∈ allModes ∧ p.2 ∈ allModes ∧ p.1.modClass = .WIFI_MOD_CLASS_HT
        ∧ p.2.modClass = .WIFI_MOD_CLASS_HT
        ∧ payloadSymbolDuration ⟨p.1, 1, 0, false⟩ = MicroSeconds 4
        ∧ payloadSymbolDuration ⟨p.2, 1, 0, false⟩ = NanoSeconds 3600 := by
    decide
  have hs1g : ∀ p ∈ [(GetOfdmRate3MbpsBW1MHz, GetOfdmRate3MbpsBW1MHzShGi),
        (GetOfdmRate4MbpsBW1MHz, GetOfdmRate4MbpsBW1MHzShGi),
        (GetOfdmRate13_5MbpsBW4MHz, GetOfdmRate13_5MbpsBW4MHzShGi),
        (GetOfdmRate18MbpsBW4MHz, GetOfdmRate18MbpsBW4MHzShGi),
        (GetOfdmRate29_25MbpsBW8MHz, GetOfdmRate29_25MbpsBW8MHzShGi),
        (GetOfdmRate39MbpsBW8MHz, GetOfdmRate39MbpsBW8MHzShGi),
        (GetOfdmRate58_5MbpsBW16MHz, GetOfdmRate58_5MbpsBW16MHzShGi),
        (GetOfdmRate78MbpsBW16MHz, GetOfdmRate78MbpsBW16MHzShGi)],
      p.1 ∈ allModes ∧ p.2 ∈ allModes ∧ p.1.modClass = .WIFI_MOD_CLASS_S1G
        ∧ p.2.modClass = .WIFI_MOD_CLASS_S1G
        ∧ payloadSymbolDuration ⟨p.1, 1, 0, false⟩ = MicroSeconds 40
        ∧ payloadSymbolDuration ⟨p.2, 1, 0, false⟩ = MicroSeconds 36 := by
    decide
  have hcls : (⟨GetOfdmRate6_5MbpsBW2MHz, 1, 0, false⟩ : WifiTxVector).mode.modClass
      = .WIFI_MOD_CLASS_S1G := rfl
  have hT : payloadSymbolDuration ⟨GetOfdmRate6_5MbpsBW2MHz, 1, 0, false⟩ = MicroSeconds 36 := by
    decide
  have hT2 : payloadSymbolDuration ⟨GetOfdmRate6_5MbpsBW2MHzShGi, 1, 0, false⟩
      = MicroSeconds 36 := by
    decide
  have hm : payloadStbc ⟨GetOfdmRate6_5MbpsBW2MHz, 1, 0, false⟩ = 1 := rfl
  have hc : Nat.ceil ((8 + ((100 : Nat) : ℚ) * 8 + 6) / (((1 : Nat) : ℚ) * 234)) = 4 := by
    rw [Nat.ceil_eq_iff (by norm_num)]
    norm_num
  have hs := payloadNumSymbols_standalone_count PhyState.fresh 100
    ⟨GetOfdmRate6_5MbpsBW2MHz, 1, 0, false⟩ .WIFI_PREAMBLE_S1G_SHORT 0
    (Or.inr (Or.inr (Or.inr hcls))) (by simp)
  rw [standaloneCount, hm, payloadBitsPerSymbol_6_5MbpsBW2MHz, hc] at hs
  refine ⟨?_, ?_, by decide, by decide, rfl, rfl, rfl, by decide, ?_, ?_, ?_⟩
  · intro p hp
    rw [payloadSymbolDuration_streams p.1, payloadSymbolDuration_streams p.2]
    exact hht p hp
  · intro p hp
    rw [payloadSymbolDuration_streams p.1, payloadSymbolDuration_streams p.2]
    exact hs1g p hp
  · rw [payloadSymbolDuration_streams, hT2]
  · rw [payloadSymbolDuration_streams, hT]
  · rw [GetPayloadDuration_ok PhyState.fresh 100 ⟨GetOfdmRate6_5MbpsBW2MHz, 1, 0, false⟩
      .WIFI_PREAMBLE_S1G_SHORT 900 0 0 (Or.inr (Or.inr (Or.inr hcls))) hs, hT, hcls]
    norm_num [uint32, MicroSeconds]
    decide

/-! ## The catalog -/

set_option maxRecDepth 1000000 in
/-- The unique names of the catalog, read as numbers in base 256, without repetition. -/
theorem allModes_name_codes_nodup :
    (allModes.map fun m => m.uniqueName.data.foldl (fun a c => a * 256 + c.toNat) 0).Nodup := by
  decide

/-- C27: the unique names of the 168 modes registered at start-up (one per accessor the
static constructor calls) are pairwise distinct: no name occurs twice in the catalog, two
catalog modes with one name are the same descriptor, and selecting the catalog entries that
carry a queried name yields at most one descriptor, whose name is the query. -/
theorem C27_catalog_names_unique :
    allModes.length = 168
      ∧ (allModes.map fun m => m.uniqueName).Nodup
      ∧ (∀ m1 ∈ allModes, ∀ m2 ∈ allModes, m1.uniqueName = m2.uniqueName → m1 = m2)
      ∧ (∀ name : String, (allModes.filter fun m => m.uniqueName = name).length ≤ 1)
      ∧ (∀ name : String, ∀ m ∈ allModes.filter (fun m => m.uniqueName = name),
          m ∈ allModes ∧ m.uniqueName = name) := by
  have hnd : (allModes.map fun m => m.uniqueName).Nodup := by
    have h : ((allModes.map fun m => m.uniqueName).map
        fun s : String => s.data.foldl (fun a c => a * 256 + c.toNat) 0).Nodup := by
      rw [List.map_map]
      exact allModes_name_codes_nodup
    exact List.Nodup.of_map _ h
  refine ⟨rfl, hnd, ?_, ?_, ?_⟩
  · intro m1 h1 m2 h2 he
    exact List.inj_on_of_nodup_map hnd h1 h2 he
  · intro name
    have hsub : ((allModes.filter fun m => m.uniqueName = name).map fun m => m.uniqueName).Nodup :=
      hnd.sublist ((List.filter_sublist _).map _)
    have hall : ∀ s ∈ (allModes.filter fun m => m.uniqueName = name).map fun m => m.uniqueName,
        s = name := by
      intro s hs
      obtain ⟨m, hm, rfl⟩ := List.mem_map.1 hs
      simpa using (List.mem_filter.1 hm).2
    rw [List.eq_replicate_of_mem hall, List.nodup_replicate, List.length_map] at hsub
    exact hsub
  · intro name m hm
    obtain ⟨h1, h2⟩ := List.mem_filter.1 hm
    exact ⟨h1, by simpa using h2⟩

set_option maxRecDepth 100000 in
/-- Data rate and bandwidth of the catalog modes, by modulation class. -/
theorem catalog_bandwidth_facts : ∀ m ∈ allModes,
    0 < m.dataRate
      ∧ (m.modClass = .WIFI_MOD_CLASS_OFDM →
          m.bandwidth = 5000000 ∨ m.bandwidth = 10000000 ∨ m.bandwidth = 20000000)
      ∧ (m.modClass = .WIFI_MOD_CLASS_HT → m.bandwidth = 20000000 ∨ m.bandwidth = 40000000)
      ∧ (m.modClass = .WIFI_MOD_CLASS_S1G →
          m.bandwidth = 1000000 ∨ m.bandwidth = 2000000 ∨ m.bandwidth = 4000000
            ∨ m.bandwidth = 8000000 ∨ m.bandwidth = 16000000) := by
  decide

/-- C28: every catalog mode has a strictly positive data rate and a bandwidth allowed for its
class (5, 10 or 20 MHz for OFDM, 20 or 40 MHz for HT, 1, 2, 4, 8 or 16 MHz for S1G); and for a
tx vector with a catalog mode and 1 to 255 streams every divisor of `GetPayloadDuration` is
non-zero: the stream count of the rate switch, the bits per symbol (also times the factor
for STBC) and the DSSS rate in Mbit/s. -/
theorem C28_catalog_rates_and_divisors (tx : WifiTxVector) (hmode : tx.mode ∈ allModes)
    (hnss1 : 1 ≤ tx.nss) (hnss : tx.nss < 256) :
    (∀ m ∈ allModes,
        0 < m.dataRate
          ∧ (m.modClass = .WIFI_MOD_CLASS_OFDM →
              m.bandwidth = 5000000 ∨ m.bandwidth = 10000000 ∨ m.bandwidth = 20000000)
          ∧ (m.modClass = .WIFI_MOD_CLASS_HT → m.bandwidth = 20000000 ∨ m.bandwidth = 40000000)
          ∧ (m.modClass = .WIFI_MOD_CLASS_S1G →
              m.bandwidth = 1000000 ∨ m.bandwidth = 2000000 ∨ m.bandwidth = 4000000
                ∨ m.bandwidth = 8000000 ∨ m.bandwidth = 16000000))
      ∧ tx.nss ≠ 0
      ∧ 0 < payloadBitsPerSymbol tx
      ∧ 0 < (payloadStbc tx : ℚ) * payloadBitsPerSymbol tx
      ∧ 0 < numDataBitsPerSymbol tx.mode.dataRate 1 (ofdmSymbolDuration tx.mode)
      ∧ 0 < numDataBitsPerSymbol tx.mode.dataRate tx.nss (htSymbolDuration tx.mode tx)
      ∧ 0 < numDataBitsPerSymbol tx.mode.dataRate tx.nss (s1gSymbolDuration tx.mode tx)
      ∧ 0 < (tx.mode.dataRate : ℚ) / 1000000 := by
  obtain ⟨hlo, hhi, -, -⟩ := catalog_rate_facts tx.mode hmode
  have hR : (0 : ℚ) < tx.mode.dataRate := by
    have : 0 < tx.mode.dataRate := by omega
    exact_mod_cast this
  have hn : (0 : ℚ) < tx.nss := by exact_mod_cast hnss1
  have hN := payloadBitsPerSymbol_pos tx hmode hnss1 hnss
  have hm : (0 : ℚ) < payloadStbc tx := by
    rcases payloadStbc_cases tx with h | h <;> rw [h] <;> norm_num
  have hpos : ∀ (n : Nat) (T : Int), 1 ≤ n → n < 256 → 3600 ≤ T → T ≤ 40000 →
      0 < numDataBitsPerSymbol tx.mode.dataRate n T := by
    intro n T h1 h2 h3 h4
    rw [numDataBitsPerSymbol_exact hhi h2 (by linarith) h4]
    have hn' : (0 : ℚ) < n := by exact_mod_cast h1
    have hT : (0 : ℚ) < (T : ℚ) := by
      have : (0 : Int) < T := by linarith
      exact_mod_cast this
    positivity
  refine ⟨catalog_bandwidth_facts, by omega, hN, mul_pos hm hN, ?_, ?_, ?_, by positivity⟩
  · rcases ofdmSymbolDuration_cases tx.mode with ⟨-, h⟩ | ⟨-, h⟩ | ⟨-, -, h⟩ <;>
      exact hpos 1 _ le_rfl (by norm_num) (by norm_num [h]) (by norm_num [h])
  · rcases htSymbolDuration_cases tx.mode tx with h | h <;>
      exact hpos tx.nss _ hnss1 hnss (by norm_num [h]) (by norm_num [h])
  · rcases s1gSymbolDuration_cases tx.mode tx with h | h <;>
      exact hpos tx.nss _ hnss1 hnss (by norm_num [h]) (by norm_num [h])

set_option maxRecDepth 100000 in
/-- C28 at OfdmRate150KbpsBW1MHz, the slowest mode of the catalog, with one stream: 6 bits
per symbol. -/
theorem C28_catalog_rates_and_divisors_witness :
    GetOfdmRate150KbpsBW1MHz ∈ allModes
      ∧ payloadBitsPerSymbol ⟨GetOfdmRate150KbpsBW1MHz, 1, 0, false⟩ = 6
      ∧ 0 < payloadBitsPerSymbol ⟨GetOfdmRate150KbpsBW1MHz, 1, 0, false⟩ :=
  ⟨by decide, payloadBitsPerSymbol_150Kbps,
    (C28_catalog_rates_and_divisors ⟨GetOfdmRate150KbpsBW1MHz, 1, 0, false⟩ (by decide)
      (by decide) (by decide)).2.2.1⟩

/-! ## The accumulator along an aggregate -/

/-- An aggregate is its head followed by the Last call. -/
theorem aggregateCalls_eq (tx : WifiTxVector) (preamble : WifiPreamble) (frequency : ℚ)
    (first : Nat) (middle : List Nat) (last : Nat) :
    aggregateCalls tx preamble frequency first middle last
      = aggregateHead tx preamble frequency first middle
        ++ [⟨last, tx, .WIFI_PREAMBLE_NONE, frequency, 2, 1⟩] :=
  rfl

/-- The final accumulator of a run of calls followed by more calls. -/
theorem runGetPayloadDuration_append (cs ds : List Call) :
    ∀ st : PhyState, (runGetPayloadDuration st (cs ++ ds)).2
      = (runGetPayloadDuration (runGetPayloadDuration st cs).2 ds).2 := by
  induction cs with
  | nil => intro st; rfl
  | cons c cs ih =>
    intro st
    simp only [List.cons_append, runGetPayloadDuration]
    exact ih _

/-- A committed Middle call whose counters do not wrap. -/
theorem GetPayloadDuration_middle_state (st : PhyState) (size : Nat) (tx : WifiTxVector)
    (frequency : ℚ)
    (hcls : tx.mode.modClass = .WIFI_MOD_CLASS_OFDM ∨ tx.mode.modClass = .WIFI_MOD_CLASS_ERP_OFDM
      ∨ tx.mode.modClass = .WIFI_MOD_CLASS_HT ∨ tx.mode.modClass = .WIFI_MOD_CLASS_S1G)
    (hbytes : st.m_totalAmpduSize + size < 4294967296)
    (hsyms : st.m_totalAmpduNumSymbols
      + Nat.floor (((size : ℚ) * 8) / payloadBitsPerSymbol tx) < 4294967296) :
    (GetPayloadDuration st size tx .WIFI_PREAMBLE_NONE frequency 1 1).2
      = ⟨st.m_totalAmpduSize + size,
          st.m_totalAmpduNumSymbols + Nat.floor (((size : ℚ) * 8) / payloadBitsPerSymbol tx)⟩ := by
  rw [(GetPayloadDuration_of_numSymbols st size tx .WIFI_PREAMBLE_NONE frequency 1 1 hcls).1,
    payloadNumSymbols_middle st size tx 1 hcls]
  have hc : uint32 (Nat.floor (((size : ℚ) * 8) / payloadBitsPerSymbol tx))
      = Nat.floor (((size : ℚ) * 8) / payloadBitsPerSymbol tx) := uint32_of_lt (by omega)
  simp only [if_true, hc, uint32_of_lt hbytes, uint32_of_lt hsyms]

/-- The committed Middle calls of an aggregate, from an accumulator whose symbol counter does
not exceed the First formula of its byte counter, when nothing wraps: no call lowers a
counter, the byte counter ends at the sum of the sizes, and the symbol counter stays within
the First formula of the byte counter. -/
theorem middle_calls_invariant (tx : WifiTxVector) (frequency : ℚ)
    (hcls : tx.mode.modClass = .WIFI_MOD_CLASS_OFDM ∨ tx.mode.modClass = .WIFI_MOD_CLASS_ERP_OFDM
      ∨ tx.mode.modClass = .WIFI_MOD_CLASS_HT ∨ tx.mode.modClass = .WIFI_MOD_CLASS_S1G)
    (hN : 0 < payloadBitsPerSymbol tx) :
    ∀ (middle : List Nat) (st : PhyState),
      st.m_totalAmpduSize + middle.sum < 4294967296 →
      Nat.ceil ((8 + ((st.m_totalAmpduSize + middle.sum : Nat) : ℚ) * 8 + 6)
        / payloadBitsPerSymbol tx) < 4294967296 →
      st.m_totalAmpduNumSymbols
        ≤ Nat.ceil ((8 + (st.m_totalAmpduSize : ℚ) * 8 + 6) / payloadBitsPerSymbol tx) →
      List.Chain PhyState.le st (accumulatorTrace st (middle.map fun s =>
          (⟨s, tx, .WIFI_PREAMBLE_NONE, frequency, 1, 1⟩ : Call)))
        ∧ (runGetPayloadDuration st (middle.map fun s =>
            (⟨s, tx, .WIFI_PREAMBLE_NONE, frequency, 1, 1⟩ : Call))).2.m_totalAmpduSize
          = st.m_totalAmpduSize + middle.sum
        ∧ (runGetPayloadDuration st (middle.map fun s =>
            (⟨s, tx, .WIFI_PREAMBLE_NONE, frequency, 1, 1⟩ : Call))).2.m_totalAmpduNumSymbols
          ≤ Nat.ceil ((8 + ((st.m_totalAmpduSize + middle.sum : Nat) : ℚ) * 8 + 6)
            / payloadBitsPerSymbol tx) := by
  intro middle
  induction middle with
  | nil =>
    intro st _ _ hinv
    refine ⟨List.Chain.nil, ?_, ?_⟩
    · simp [runGetPayloadDuration]
    · simpa [runGetPayloadDuration] using hinv
  | cons s rest ih =>
    intro st hbytes hfit hinv
    simp only [List.sum_cons] at hbytes hfit
    have hstep := first_count_add_middle st.m_totalAmpduSize s hN
    have hmono : Nat.ceil ((8 + ((st.m_totalAmpduSize + s : Nat) : ℚ) * 8 + 6)
        / payloadBitsPerSymbol tx)
        ≤ Nat.ceil ((8 + ((st.m_totalAmpduSize + (s + rest.sum) : Nat) : ℚ) * 8 + 6)
          / payloadBitsPerSymbol tx) := first_count_mono (by omega) hN
    have hst := GetPayloadDuration_middle_state st s tx frequency hcls (by omega) (by omega)
    obtain ⟨h1, h2, h3⟩ := ih
      ⟨st.m_totalAmpduSize + s, st.m_totalAmpduNumSymbols
        + Nat.floor (((s : ℚ) * 8) / payloadBitsPerSymbol tx)⟩
      (by simp only; omega)
      (by simp only; rw [Nat.add_assoc]; exact hfit)
      (by simp only; omega)
    simp only at h2 h3
    refine ⟨?_, ?_, ?_⟩
    · simp only [List.map_cons, accumulatorTrace, hst]
      exact List.Chain.cons ⟨Nat.le_add_right _ _, Nat.le_add_right _ _⟩ h1
    · simp only [List.map_cons, runGetPayloadDuration, hst, List.sum_cons]
      rw [h2]
      omega
    · simp only [List.map_cons, runGetPayloadDuration, hst, List.sum_cons]
      rw [← Nat.add_assoc]
      exact h3

/-- The head of an aggregate committed on a zeroed accumulator, when nothing wraps: no call
lowers a counter, the byte counter ends at the sum of the sizes, and the symbol counter ends
within the First formula of that sum. -/
theorem aggregateHead_invariant (tx : WifiTxVector) (preamble : WifiPreamble) (frequency : ℚ)
    (first : Nat) (middle : List Nat)
    (hcls : tx.mode.modClass = .WIFI_MOD_CLASS_OFDM ∨ tx.mode.modClass = .WIFI_MOD_CLASS_ERP_OFDM
      ∨ tx.mode.modClass = .WIFI_MOD_CLASS_HT ∨ tx.mode.modClass = .WIFI_MOD_CLASS_S1G)
    (hN : 0 < payloadBitsPerSymbol tx) (hpre : preamble ≠ .WIFI_PREAMBLE_NONE)
    (hbytes : first + middle.sum < 4294967296)
    (hfit : Nat.ceil ((8 + ((first + middle.sum : Nat) : ℚ) * 8 + 6)
      / payloadBitsPerSymbol tx) < 4294967296) :
    List.Chain PhyState.le ⟨0, 0⟩
        (accumulatorTrace ⟨0, 0⟩ (aggregateHead tx preamble frequency first middle))
      ∧ (runGetPayloadDuration ⟨0, 0⟩
          (aggregateHead tx preamble frequency first middle)).2.m_totalAmpduSize
        = first + middle.sum
      ∧ (runGetPayloadDuration ⟨0, 0⟩
          (aggregateHead tx preamble frequency first middle)).2.m_totalAmpduNumSymbols
        ≤ Nat.ceil ((8 + ((first + middle.sum : Nat) : ℚ) * 8 + 6)
          / payloadBitsPerSymbol tx) := by
  have hc1 : Nat.ceil ((8 + (first : ℚ) * 8 + 6) / payloadBitsPerSymbol tx) < 4294967296 :=
    lt_of_le_of_lt (first_count_mono (Nat.le_add_right _ _) hN) hfit
  have hfirst : (GetPayloadDuration ⟨0, 0⟩ first tx preamble frequency 1 1).2
      = ⟨first, Nat.ceil ((8 + (first : ℚ) * 8 + 6) / payloadBitsPerSymbol tx)⟩ := by
    rw [(GetPayloadDuration_of_numSymbols ⟨0, 0⟩ first tx preamble frequency 1 1 hcls).1,
      payloadNumSymbols_first ⟨0, 0⟩ first tx preamble 1 hcls hpre]
    simp only [if_true, zero_add, uint32_of_lt hc1,
      uint32_of_lt (show first < 4294967296 by omega)]
  obtain ⟨h1, h2, h3⟩ := middle_calls_invariant tx frequency hcls hN middle
    ⟨first, Nat.ceil ((8 + (first : ℚ) * 8 + 6) / payloadBitsPerSymbol tx)⟩
    hbytes hfit le_rfl
  simp only at h2 h3
  refine ⟨?_, ?_, ?_⟩
  · simp only [aggregateHead, accumulatorTrace, hfirst]
    exact List.Chain.cons ⟨Nat.zero_le _, Nat.zero_le _⟩ h1
  · simp only [aggregateHead, runGetPayloadDuration, hfirst]
    exact h2
  · simp only [aggregateHead, runGetPayloadDuration, hfirst]
    exact h3

/-- The Standalone formula of a catalog mode stays below `2 ^ 32` for a 32-bit size, given
that it does on an S1G mode. -/
theorem standaloneCount_fit (tx : WifiTxVector) (size : Nat) (hmode : tx.mode ∈ allModes)
    (hcls : tx.mode.modClass = .WIFI_MOD_CLASS_OFDM ∨ tx.mode.modClass = .WIFI_MOD_CLASS_ERP_OFDM
      ∨ tx.mode.modClass = .WIFI_MOD_CLASS_HT ∨ tx.mode.modClass = .WIFI_MOD_CLASS_S1G)
    (hnss1 : 1 ≤ tx.nss) (hnss : tx.nss < 256) (hsize : size < 4294967296)
    (hfit : tx.mode.modClass = .WIFI_MOD_CLASS_S1G → standaloneCount tx size < 4294967296) :
    standaloneCount tx size < 4294967296 := by
  rcases hcls with h | h | h | h
  · exact standaloneCount_lt tx _ hsize (payloadBitsPerSymbol_ge tx hmode (Or.inl h) hnss1 hnss)
  · exact standaloneCount_lt tx _ hsize
      (payloadBitsPerSymbol_ge tx hmode (Or.inr (Or.inl h)) hnss1 hnss)
  · exact standaloneCount_lt tx _ hsize
      (payloadBitsPerSymbol_ge tx hmode (Or.inr (Or.inr h)) hnss1 hnss)
  · exact hfit h

/-- The calls of a DSSS mode leave the accumulator alone. -/
theorem dsss_calls_state (cs : List Call) :
    (∀ c ∈ cs, c.txvector.mode.modClass = .WIFI_MOD_CLASS_DSSS) →
    ∀ st : PhyState, List.Chain PhyState.le st (accumulatorTrace st cs)
      ∧ (runGetPayloadDuration st cs).2 = st := by
  induction cs with
  | nil => intro _ st; exact ⟨List.Chain.nil, rfl⟩
  | cons c cs ih =>
    intro hall st
    have hc : c.txvector.mode.modClass = .WIFI_MOD_CLASS_DSSS := hall c (List.mem_cons_self _ _)
    have hst : (GetPayloadDuration st c.size c.txvector c.preamble c.frequency c.packetType
        c.incFlag).2 = st := by
      simp only [GetPayloadDuration, hc]
    obtain ⟨h1, h2⟩ := ih (fun d hd => hall d (List.mem_cons_of_mem _ hd)) st
    refine ⟨?_, ?_⟩
    · simp only [accumulatorTrace, hst]
      exact List.Chain.cons ⟨le_rfl, le_rfl⟩ h1
    · simp only [runGetPayloadDuration, hst]
      exact h2

/-- C29, as the code has it: a newly constructed PHY has both counters at zero; for every
catalog mode, every `Nss` from 1 to 255 (with a whole number of bits per symbol, when the mode
counts symbols) and every aggregate First(s1), Middle(s2) .. Middle(s(k-1)), Last(sk)
committed on it whose total size is below `2 ^ 32` and, for an S1G mode, whose Standalone
symbol count is below `2 ^ 32` as well, every First or Middle call leaves each counter
greater than or equal to its previous value, and after the Last call the accumulator is
(0, 0) again.  The whole-number condition keeps the statement to the inputs on which the
`double` divisions of the source are the exact ones. -/
theorem C29_accumulator_invariant (tx : WifiTxVector) (preamble : WifiPreamble)
    (frequency : ℚ) (first : Nat) (middle : List Nat) (last : Nat)
    (hmode : tx.mode ∈ allModes) (hnss1 : 1 ≤ tx.nss) (hnss : tx.nss < 256)
    (_hwhole : tx.mode.modClass ≠ .WIFI_MOD_CLASS_DSSS → wholeBitsPerSymbol tx)
    (hpre : preamble ≠ .WIFI_PREAMBLE_NONE)
    (htotal : first + middle.sum + last < 4294967296)
    (hfit : tx.mode.modClass = .WIFI_MOD_CLASS_S1G →
      standaloneCount tx (first + middle.sum + last) < 4294967296) :
    PhyState.fresh = ⟨0, 0⟩
      ∧ List.Chain PhyState.le PhyState.fresh
          (accumulatorTrace PhyState.fresh (aggregateHead tx preamble frequency first middle))
      ∧ (runGetPayloadDuration PhyState.fresh
          (aggregateCalls tx preamble frequency first middle last)).2 = ⟨0, 0⟩ := by
  refine ⟨rfl, ?_⟩
  rcases catalog_class_facts tx.mode hmode with hd | h | h | h | h
  · -- DSSS: the accumulator is never written
    have hall1 : ∀ c ∈ aggregateHead tx preamble frequency first middle,
        c.txvector.mode.modClass = .WIFI_MOD_CLASS_DSSS := by
      intro c hc
      simp only [aggregateHead, List.mem_cons, List.mem_map] at hc
      rcases hc with rfl | ⟨s, -, rfl⟩ <;> exact hd
    have hall2 : ∀ c ∈ aggregateCalls tx preamble frequency first middle last,
        c.txvector.mode.modClass = .WIFI_MOD_CLASS_DSSS := by
      intro c hc
      rw [aggregateCalls_eq, List.mem_append, List.mem_singleton] at hc
      rcases hc with hc | rfl
      · exact hall1 c hc
      · exact hd
    exact ⟨(dsss_calls_state _ hall1 PhyState.fresh).1,
      (dsss_calls_state _ hall2 PhyState.fresh).2⟩
  all_goals
    have hcls : tx.mode.modClass = .WIFI_MOD_CLASS_OFDM
        ∨ tx.mode.modClass = .WIFI_MOD_CLASS_ERP_OFDM
        ∨ tx.mode.modClass = .WIFI_MOD_CLASS_HT ∨ tx.mode.modClass = .WIFI_MOD_CLASS_S1G := by
      simp [h]
    have hN := payloadBitsPerSymbol_pos tx hmode hnss1 hnss
    have hfit2 := standaloneCount_fit tx _ hmode hcls hnss1 hnss htotal hfit
    have hle : Nat.ceil ((8 + ((first + middle.sum : Nat) : ℚ) * 8 + 6)
        / payloadBitsPerSymbol tx) ≤ standaloneCount tx (first + middle.sum + last) :=
      le_trans (first_count_mono (Nat.le_add_right _ _) hN)
        (first_count_le_standaloneCount tx _ hN)
    obtain ⟨h1, h2, h3⟩ := aggregateHead_invariant tx preamble frequency first middle hcls hN
      hpre (by omega) (lt_of_le_of_lt hle hfit2)
    have hlast : ∀ hd : PhyState, hd.m_totalAmpduSize = first + middle.sum →
        hd.m_totalAmpduNumSymbols ≤ Nat.ceil ((8 + ((first + middle.sum : Nat) : ℚ) * 8 + 6)
          / payloadBitsPerSymbol tx) →
        (runGetPayloadDuration hd [⟨last, tx, .WIFI_PREAMBLE_NONE, frequency, 2, 1⟩]).2
          = ⟨0, 0⟩ := by
      intro hd e2 e3
      simp only [runGetPayloadDuration]
      rw [(GetPayloadDuration_of_numSymbols hd last tx .WIFI_PREAMBLE_NONE frequency 2 1 hcls).1,
        payloadNumSymbols_last_commit hd last tx hcls 1 (by rw [e2]; exact htotal)
          (by rw [e2]; exact hfit2) (by rw [e2]; exact le_trans e3 hle)]
      rfl
    refine ⟨h1, ?_⟩
    rw [aggregateCalls_eq, runGetPayloadDuration_append]
    exact hlast _ h2 h3

set_option maxRecDepth 100000 in
/-- C29 at OfdmRate54Mbps (216 bits per symbol), preamble Long, sizes 1000, 500 and 200
bytes. -/
theorem C29_accumulator_invariant_witness :
    List.Chain PhyState.le PhyState.fresh
        (accumulatorTrace PhyState.fresh
          (aggregateHead ⟨GetOfdmRate54Mbps, 1, 0, false⟩ .WIFI_PREAMBLE_LONG 5180 1000 [500]))
      ∧ (runGetPayloadDuration PhyState.fresh
          (aggregateCalls ⟨GetOfdmRate54Mbps, 1, 0, false⟩ .WIFI_PREAMBLE_LONG 5180 1000 [500]
            200)).2 = ⟨0, 0⟩ :=
  (C29_accumulator_invariant ⟨GetOfdmRate54Mbps, 1, 0, false⟩ .WIFI_PREAMBLE_LONG 5180 1000
    [500] 200 (by decide) (by decide) (by decide)
    (fun _ => wholeBitsPerSymbol_of_eq 216 (by rw [payloadBitsPerSymbol_54Mbps]; norm_num))
    (by simp) (by norm_num) (fun h => absurd h (by decide))).2

/-- C29 fails as stated when the byte counter wraps: on the HT mode OfdmRate65MbpsBW20MHz
(260 bits per symbol) a committed First call of 4294967295 bytes leaves (4294967295,
132152840), and a committed Middle call of 1 byte then leaves (0, 132152840): the byte
counter has dropped. -/
theorem C29_counterexample :
    accumulatorTrace PhyState.fresh
        (aggregateHead ⟨GetOfdmRate65MbpsBW20MHz, 1, 0, false⟩ .WIFI_PREAMBLE_HT_MF 5180
          4294967295 [1])
        = [⟨4294967295, 132152840⟩, ⟨0, 132152840⟩]
      ∧ ¬ PhyState.le ⟨4294967295, 132152840⟩ ⟨0, 132152840⟩
      ∧ ¬ List.Chain PhyState.le PhyState.fresh
          (accumulatorTrace PhyState.fresh
            (aggregateHead ⟨GetOfdmRate65MbpsBW20MHz, 1, 0, false⟩ .WIFI_PREAMBLE_HT_MF 5180
              4294967295 [1])) := by
  have hcls : (⟨GetOfdmRate65MbpsBW20MHz, 1, 0, false⟩ : WifiTxVector).mode.modClass
        = .WIFI_MOD_CLASS_OFDM
      ∨ (⟨GetOfdmRate65MbpsBW20MHz, 1, 0, false⟩ : WifiTxVector).mode.modClass
        = .WIFI_MOD_CLASS_ERP_OFDM
      ∨ (⟨GetOfdmRate65MbpsBW20MHz, 1, 0, false⟩ : WifiTxVector).mode.modClass
        = .WIFI_MOD_CLASS_HT
      ∨ (⟨GetOfdmRate65MbpsBW20MHz, 1, 0, false⟩ : WifiTxVector).mode.modClass
        = .WIFI_MOD_CLASS_S1G := Or.inr (Or.inr (Or.inl rfl))
  have hc : Nat.ceil ((8 + ((4294967295 : Nat) : ℚ) * 8 + 6) / 260) = 132152840 := by
    rw [Nat.ceil_eq_iff (by norm_num)]
    norm_num
  have hf : Nat.floor ((((1 : Nat) : ℚ) * 8) / 260) = 0 := by
    rw [Nat.floor_eq_zero]
    norm_num
  have h1 : (GetPayloadDuration PhyState.fresh 4294967295
      ⟨GetOfdmRate65MbpsBW20MHz, 1, 0, false⟩ .WIFI_PREAMBLE_HT_MF 5180 1 1).2
      = ⟨4294967295, 132152840⟩ := by
    rw [(GetPayloadDuration_of_numSymbols _ _ _ _ _ _ _ hcls).1,
      payloadNumSymbols_first _ _ _ _ _ hcls (by simp), payloadBitsPerSymbol_65Mbps, hc]
    rfl
  have h2 : (GetPayloadDuration ⟨4294967295, 132152840⟩ 1
      ⟨GetOfdmRate65MbpsBW20MHz, 1, 0, false⟩ .WIFI_PREAMBLE_NONE 5180 1 1).2
      = ⟨0, 132152840⟩ := by
    rw [(GetPayloadDuration_of_numSymbols _ _ _ _ _ _ _ hcls).1,
      payloadNumSymbols_middle _ _ _ _ hcls, payloadBitsPerSymbol_65Mbps, hf]
    rfl
  have htrace : accumulatorTrace PhyState.fresh
      (aggregateHead ⟨GetOfdmRate65MbpsBW20MHz, 1, 0, false⟩ .WIFI_PREAMBLE_HT_MF 5180
        4294967295 [1]) = [⟨4294967295, 132152840⟩, ⟨0, 132152840⟩] := by
    simp only [aggregateHead, List.map_cons, List.map_nil, accumulatorTrace, h1, h2]
  have hnot : ¬ PhyState.le ⟨4294967295, 132152840⟩ ⟨0, 132152840⟩ := by
    simp [PhyState.le]
  refine ⟨htrace, hnot, ?_⟩
  rw [htrace]
  intro hch
  simp only [List.chain_cons] at hch
  exact hnot hch.2.1

/-- C30, as the code has it: for every catalog mode of class OFDM, ERP-OFDM, HT or S1G, every
`Nss` from 1 to 255 with a whole number of bits per symbol, STBC on or off, and every
committed head First(s1), Middle(s2) .. Middle(s(k-1)) of an aggregate on a zeroed
accumulator, followed by a Last call of any size `sk` such that the total size is below
`2 ^ 32` and, for an S1G mode, so is the Standalone symbol count of the total: the accumulated
symbol count is at most the whole-aggregate count the Last call computes, so that the
assertion of the HT and S1G branches holds, the 32-bit subtraction does not wrap, and the Last
call returns the duration of the difference.  The whole-number condition keeps the statement
to the inputs on which the `double` divisions of the source are the exact ones. -/
theorem C30_accumulated_symbols_within_aggregate (tx : WifiTxVector) (preamble : WifiPreamble)
    (frequency : ℚ) (first : Nat) (middle : List Nat) (last : Nat)
    (hmode : tx.mode ∈ allModes)
    (hcls : tx.mode.modClass = .WIFI_MOD_CLASS_OFDM ∨ tx.mode.modClass = .WIFI_MOD_CLASS_ERP_OFDM
      ∨ tx.mode.modClass = .WIFI_MOD_CLASS_HT ∨ tx.mode.modClass = .WIFI_MOD_CLASS_S1G)
    (hnss1 : 1 ≤ tx.nss) (hnss : tx.nss < 256) (_hwhole : wholeBitsPerSymbol tx)
    (hpre : preamble ≠ .WIFI_PREAMBLE_NONE)
    (htotal : first + middle.sum + last < 4294967296)
    (hfit : tx.mode.modClass = .WIFI_MOD_CLASS_S1G →
      standaloneCount tx (first + middle.sum + last) < 4294967296) :
    (runGetPayloadDuration ⟨0, 0⟩
          (aggregateHead tx preamble frequency first middle)).2.m_totalAmpduNumSymbols
        ≤ uint32 (standaloneCount tx (uint32 ((runGetPayloadDuration ⟨0, 0⟩
            (aggregateHead tx preamble frequency first middle)).2.m_totalAmpduSize + last)))
      ∧ uint32 (standaloneCount tx (uint32 ((runGetPayloadDuration ⟨0, 0⟩
            (aggregateHead tx preamble frequency first middle)).2.m_totalAmpduSize + last)))
        = standaloneCount tx (first + middle.sum + last)
      ∧ uint32Sub (standaloneCount tx (first + middle.sum + last))
          (runGetPayloadDuration ⟨0, 0⟩
            (aggregateHead tx preamble frequency first middle)).2.m_totalAmpduNumSymbols
        = standaloneCount tx (first + middle.sum + last)
          - (runGetPayloadDuration ⟨0, 0⟩
            (aggregateHead tx preamble frequency first middle)).2.m_totalAmpduNumSymbols
      ∧ payloadNumSymbols
          (runGetPayloadDuration ⟨0, 0⟩ (aggregateHead tx preamble frequency first middle)).2
          last tx .WIFI_PREAMBLE_NONE 2 1
        = (.ok (standaloneCount tx (first + middle.sum + last)
            - (runGetPayloadDuration ⟨0, 0⟩
              (aggregateHead tx preamble frequency first middle)).2.m_totalAmpduNumSymbols),
          ⟨0, 0⟩)
      ∧ GetPayloadDuration
          (runGetPayloadDuration ⟨0, 0⟩ (aggregateHead tx preamble frequency first middle)).2
          last tx .WIFI_PREAMBLE_NONE frequency 2 1
        = (.ok (((standaloneCount tx (first + middle.sum + last)
            - (runGetPayloadDuration ⟨0, 0⟩
              (aggregateHead tx preamble frequency first middle)).2.m_totalAmpduNumSymbols
              : Nat) : Int) * payloadSymbolDuration tx
            + signalExtension tx .WIFI_PREAMBLE_NONE frequency 2), ⟨0, 0⟩) := by
  have hN := payloadBitsPerSymbol_pos tx hmode hnss1 hnss
  have hfit2 := standaloneCount_fit tx _ hmode hcls hnss1 hnss htotal hfit
  have hle : Nat.ceil ((8 + ((first + middle.sum : Nat) : ℚ) * 8 + 6)
      / payloadBitsPerSymbol tx) ≤ standaloneCount tx (first + middle.sum + last) :=
    le_trans (first_count_mono (Nat.le_add_right _ _) hN)
      (first_count_le_standaloneCount tx _ hN)
  obtain ⟨-, h2, h3⟩ := aggregateHead_invariant tx preamble frequency first middle hcls hN
    hpre (by omega) (lt_of_le_of_lt hle hfit2)
  have hsyms := le_trans h3 hle
  have hcount : uint32 (standaloneCount tx (uint32 ((runGetPayloadDuration ⟨0, 0⟩
      (aggregateHead tx preamble frequency first middle)).2.m_totalAmpduSize + last)))
      = standaloneCount tx (first + middle.sum + last) := by
    rw [h2, uint32_of_lt htotal, uint32_of_lt hfit2]
  have hlast : payloadNumSymbols
      (runGetPayloadDuration ⟨0, 0⟩ (aggregateHead tx preamble frequency first middle)).2
      last tx .WIFI_PREAMBLE_NONE 2 1
      = (.ok (standaloneCount tx (first + middle.sum + last)
          - (runGetPayloadDuration ⟨0, 0⟩
            (aggregateHead tx preamble frequency first middle)).2.m_totalAmpduNumSymbols),
        ⟨0, 0⟩) := by
    rw [payloadNumSymbols_last_commit _ last tx hcls 1 (by rw [h2]; exact htotal)
      (by rw [h2]; exact hfit2) (by rw [h2]; exact hsyms), h2]
    rfl
  exact ⟨by rw [hcount]; exact hsyms, hcount, uint32Sub_of_le hsyms hfit2, hlast,
    GetPayloadDuration_eq _ last tx .WIFI_PREAMBLE_NONE frequency 2 1 hcls hlast⟩

set_option maxRecDepth 100000 in
/-- C30 at OfdmRate65MbpsBW20MHz with STBC (260 bits per symbol), preamble HT-Mixed, a head
of 1000 and 500 bytes and a Last call of 200 bytes: the assertion of the HT branch holds. -/
theorem C30_accumulated_symbols_within_aggregate_witness :
    (runGetPayloadDuration ⟨0, 0⟩ (aggregateHead ⟨GetOfdmRate65MbpsBW20MHz, 1, 0, true⟩
          .WIFI_PREAMBLE_HT_MF 5180 1000 [500])).2.m_totalAmpduNumSymbols
      ≤ uint32 (standaloneCount ⟨GetOfdmRate65MbpsBW20MHz, 1, 0, true⟩
          (uint32 ((runGetPayloadDuration ⟨0, 0⟩
            (aggregateHead ⟨GetOfdmRate65MbpsBW20MHz, 1, 0, true⟩ .WIFI_PREAMBLE_HT_MF 5180
              1000 [500])).2.m_totalAmpduSize + 200))) :=
  (C30_accumulated_symbols_within_aggregate ⟨GetOfdmRate65MbpsBW20MHz, 1, 0, true⟩
    .WIFI_PREAMBLE_HT_MF 5180 1000 [500] 200 (by decide) (Or.inr (Or.inr (Or.inl rfl)))
    (by decide) (by decide)
    (wholeBitsPerSymbol_of_eq 260 (by rw [payloadBitsPerSymbol_65Mbps_stbc]; norm_num))
    (by simp) (by norm_num) (fun h => absurd h (by decide))).1

/-- Bits per symbol of ErpOfdmRate54Mbps: 54 Mbit/s over 4 microseconds. -/
theorem payloadBitsPerSymbol_Erp54Mbps :
    payloadBitsPerSymbol ⟨GetErpOfdmRate54Mbps, 1, 0, false⟩ = 216 := by
  have hT : payloadSymbolDuration ⟨GetErpOfdmRate54Mbps, 1, 0, false⟩ = 4000 := by decide
  have hN : numDataBitsPerSymbol 54000000 1 4000 = 216 := by
    norm_num [numDataBitsPerSymbol, uint64]
  show numDataBitsPerSymbol 54000000 1
    (payloadSymbolDuration ⟨GetErpOfdmRate54Mbps, 1, 0, false⟩) = 216
  rw [hT, hN]

/-- C30 fails as stated when the byte counter wraps: on ErpOfdmRate54Mbps (216 bits per
symbol) the committed head First(4294967295) leaves (4294967295, 159072863); a Last call of 1
byte adds the sizes in 32 bits, computes the whole-aggregate count of 0 bytes, 1, which is
below the 159072863 symbols accumulated, and the subtraction of the OFDM branch wraps to
4135894434 symbols. -/
theorem C30_counterexample :
    (runGetPayloadDuration ⟨0, 0⟩ (aggregateHead ⟨GetErpOfdmRate54Mbps, 1, 0, false⟩
        .WIFI_PREAMBLE_LONG 2412 4294967295 [])).2 = ⟨4294967295, 159072863⟩
      ∧ uint32 (standaloneCount ⟨GetErpOfdmRate54Mbps, 1, 0, false⟩
          (uint32 (4294967295 + 1))) = 1
      ∧ ¬ (159072863 ≤ uint32 (standaloneCount ⟨GetErpOfdmRate54Mbps, 1, 0, false⟩
          (uint32 (4294967295 + 1))))
      ∧ payloadNumSymbols ⟨4294967295, 159072863⟩ 1 ⟨GetErpOfdmRate54Mbps, 1, 0, false⟩
          .WIFI_PREAMBLE_NONE 2 1 = (.ok 4135894434, ⟨0, 0⟩) := by
  have hcls : (⟨GetErpOfdmRate54Mbps, 1, 0, false⟩ : WifiTxVector).mode.modClass
      = .WIFI_MOD_CLASS_ERP_OFDM := rfl
  have hm : payloadStbc ⟨GetErpOfdmRate54Mbps, 1, 0, false⟩ = 1 := rfl
  have hc1 : Nat.ceil ((8 + ((4294967295 : Nat) : ℚ) * 8 + 6) / 216) = 159072863 := by
    rw [Nat.ceil_eq_iff (by norm_num)]
    norm_num
  have hc0 : Nat.ceil ((8 + ((0 : Nat) : ℚ) * 8 + 6) / (((1 : Nat) : ℚ) * 216)) = 1 := by
    rw [Nat.ceil_eq_iff (by norm_num)]
    norm_num
  have hu : uint32 (4294967295 + 1) = 0 := rfl
  have hcount : uint32 (standaloneCount ⟨GetErpOfdmRate54Mbps, 1, 0, false⟩
      (uint32 (4294967295 + 1))) = 1 := by
    rw [hu, standaloneCount, hm, payloadBitsPerSymbol_Erp54Mbps, hc0]
    rfl
  have h1 : (GetPayloadDuration ⟨0, 0⟩ 4294967295 ⟨GetErpOfdmRate54Mbps, 1, 0, false⟩
      .WIFI_PREAMBLE_LONG 2412 1 1).2 = ⟨4294967295, 159072863⟩ := by
    rw [(GetPayloadDuration_of_numSymbols _ _ _ _ _ _ _ (Or.inr (Or.inl hcls))).1,
      payloadNumSymbols_first _ _ _ _ _ (Or.inr (Or.inl hcls)) (by simp),
      payloadBitsPerSymbol_Erp54Mbps, hc1]
    rfl
  have hl := payloadNumSymbols_last_ofdm ⟨4294967295, 159072863⟩ 1
    ⟨GetErpOfdmRate54Mbps, 1, 0, false⟩ 1 (Or.inr hcls)
  refine ⟨?_, hcount, ?_, ?_⟩
  · simp only [aggregateHead, List.map_nil, runGetPayloadDuration, h1]
  · rw [hcount]
    norm_num
  · rw [hl]
    show (Except.ok (uint32Sub (uint32 (standaloneCount ⟨GetErpOfdmRate54Mbps, 1, 0, false⟩
      (uint32 (4294967295 + 1)))) 159072863), (⟨0, 0⟩ : PhyState)) = _
    rw [hcount]
    rfl

/-! ## The signal extension of ERP-OFDM -/

/-- C32: for every mode of class ERP-OFDM, every size, tx vector, frequency, accumulator and
commit flag, a call in any accepted role (Standalone with a real preamble, First or Middle
with packetType 1, Last with preamble None) returns, and its payload duration is
symbolCount * symbolDuration + 6 microseconds, the count being the one the call computes. -/
theorem C32_erp_signal_extension (st : PhyState) (size : Nat) (tx : WifiTxVector)
    (preamble : WifiPreamble) (frequency : ℚ) (packetType incFlag : Nat)
    (hcls : tx.mode.modClass = .WIFI_MOD_CLASS_ERP_OFDM)
    (hvalid : (packetType = 0 ∧ preamble ≠ .WIFI_PREAMBLE_NONE) ∨ packetType = 1
      ∨ (packetType = 2 ∧ preamble = .WIFI_PREAMBLE_NONE)) :
    ∃ n st2, payloadNumSymbols st size tx preamble packetType incFlag = (.ok n, st2)
      ∧ GetPayloadDuration st size tx preamble frequency packetType incFlag
        = (.ok ((n : Int) * ofdmSymbolDuration tx.mode + MicroSeconds 6), st2) := by
  have hcls4 : tx.mode.modClass = .WIFI_MOD_CLASS_OFDM
      ∨ tx.mode.modClass = .WIFI_MOD_CLASS_ERP_OFDM
      ∨ tx.mode.modClass = .WIFI_MOD_CLASS_HT ∨ tx.mode.modClass = .WIFI_MOD_CLASS_S1G :=
    Or.inr (Or.inl hcls)
  obtain ⟨n, st2, hn⟩ := payloadNumSymbols_valid_ok st size tx preamble packetType incFlag
    hcls4 hvalid (fun _ h => by rcases h with h | h <;> rw [hcls] at h <;> exact absurd h (by decide))
  have hT : payloadSymbolDuration tx = ofdmSymbolDuration tx.mode := by
    simp only [payloadSymbolDuration, hcls]
  refine ⟨n, st2, hn, ?_⟩
  rw [GetPayloadDuration_ofdm_ok st size tx preamble frequency packetType incFlag
    (Or.inr hcls) hn, hT]
  simp [hcls]

/-- C32 at ErpOfdmRate54Mbps, a Middle call of 1000 bytes at 5180 MHz: 37 symbols of 4
microseconds and 6 microseconds. -/
theorem C32_erp_signal_extension_witness :
    GetPayloadDuration PhyState.fresh 1000 ⟨GetErpOfdmRate54Mbps, 1, 0, false⟩
      .WIFI_PREAMBLE_NONE 5180 1 0 = (.ok (MicroSeconds 154), PhyState.fresh) := by
  obtain ⟨n, st2, hn, hd⟩ := C32_erp_signal_extension PhyState.fresh 1000
    ⟨GetErpOfdmRate54Mbps, 1, 0, false⟩ .WIFI_PREAMBLE_NONE 5180 1 0 rfl (Or.inr (Or.inl rfl))
  have hf : Nat.floor ((((1000 : Nat) : ℚ) * 8) / 216) = 37 := by
    rw [Nat.floor_eq_iff (by norm_num)]
    norm_num
  have hm := payloadNumSymbols_middle PhyState.fresh 1000 ⟨GetErpOfdmRate54Mbps, 1, 0, false⟩ 0
    (Or.inr (Or.inl rfl))
  rw [payloadBitsPerSymbol_Erp54Mbps, hf] at hm
  rw [hm] at hn
  simp only [Prod.mk.injEq, Except.ok.injEq] at hn
  obtain ⟨hn1, hn2⟩ := hn
  have hT : ofdmSymbolDuration GetErpOfdmRate54Mbps = MicroSeconds 4 := by decide
  rw [hd, ← hn1, ← hn2]
  show (Except.ok ((uint32 37 : Int) * ofdmSymbolDuration GetErpOfdmRate54Mbps
    + MicroSeconds 6), (if (0 : Nat) = 1 then _ else PhyState.fresh)) = _
  rw [hT]
  norm_num [uint32, MicroSeconds]

/-! ## Preamble None -/

/-- C33: with preamble None, `CalculatePlcpPreambleAndHeaderDuration` returns 0 for every
mode, of any class, and every tx vector; so for a Middle or a Last fragment, and for any
other call with preamble None, `CalculateTxDuration` is `GetPayloadDuration`, for the duration
or the failure as for the accumulator. -/
theorem C33_preamble_none_plcp_zero (st : PhyState) (size : Nat) (tx : WifiTxVector)
    (frequency : ℚ) (packetType incFlag : Nat) :
    GetPlcpPreambleDuration tx.mode .WIFI_PREAMBLE_NONE = .ok 0
      ∧ GetPlcpHeaderDuration tx.mode .WIFI_PREAMBLE_NONE = .ok 0
      ∧ CalculatePlcpPreambleAndHeaderDuration tx .WIFI_PREAMBLE_NONE = .ok 0
      ∧ CalculateTxDuration st size tx .WIFI_PREAMBLE_NONE frequency packetType incFlag
        = GetPayloadDuration st size tx .WIFI_PREAMBLE_NONE frequency packetType incFlag := by
  have hp : GetPlcpPreambleDuration tx.mode .WIFI_PREAMBLE_NONE = .ok 0 := by
    simp [GetPlcpPreambleDuration, MicroSeconds]
  have hh : GetPlcpHeaderDuration tx.mode .WIFI_PREAMBLE_NONE = .ok 0 := by
    simp [GetPlcpHeaderDuration, MicroSeconds]
  have hc : CalculatePlcpPreambleAndHeaderDuration tx .WIFI_PREAMBLE_NONE = .ok 0 := by
    unfold CalculatePlcpPreambleAndHeaderDuration
    by_cases hs : tx.mode.modClass = .WIFI_MOD_CLASS_S1G
    · simp only [hs, ne_eq, not_true_eq_false, if_false, hp, hh, bind, Except.bind, pure,
        Except.pure]
      simp [GetPlcpTrainingSymbolDuration, GetPlcpSigADuration,
        GetPlcpS1gTrainingSymbolDuration, GetPlcpSigBDuration, MicroSeconds]
    · simp only [hs, ne_eq, not_false_eq_true, if_true, hp, hh, bind, Except.bind, pure,
        Except.pure]
      simp [GetPlcpHtSigHeaderDuration, GetPlcpHtTrainingSymbolDuration, MicroSeconds]
  refine ⟨hp, hh, hc, ?_⟩
  simp only [CalculateTxDuration, hc]
  cases h : (GetPayloadDuration st size tx .WIFI_PREAMBLE_NONE frequency packetType incFlag).1
    with
  | error e =>
    exact Prod.ext (by simp only [bind, Except.bind, h]) rfl
  | ok d =>
    refine Prod.ext ?_ rfl
    simp only [bind, Except.bind, pure, Except.pure, h, zero_add]

/-! ## Frame conditions and the commit flag -/

/-- The OFDM role dispatch leaves the accumulator alone in role Standalone and when it ends in
the wrong-combination error. -/
theorem ofdmNumSymbols_frame (st : PhyState) (size : Nat) (preamble : WifiPreamble)
    (packetType incFlag : Nat) (N : ℚ) :
    (packetType = 0 → (ofdmNumSymbols st size preamble packetType incFlag N).2 = st)
      ∧ ((ofdmNumSymbols st size preamble packetType incFlag N).1 = .error .wrongCombination →
        (ofdmNumSymbols st size preamble packetType incFlag N).2 = st) := by
  simp only [ofdmNumSymbols]
  constructor
  · intro h0
    subst h0
    split_ifs <;> simp_all
  · split_ifs <;> simp

/-- The HT and S1G role dispatch leaves the accumulator alone in role Standalone and when it
ends in the wrong-combination error. -/
theorem htNumSymbols_frame (st : PhyState) (size : Nat) (preamble : WifiPreamble)
    (packetType incFlag m : Nat) (N : ℚ) :
    (packetType = 0 → (htNumSymbols st size preamble packetType incFlag m N).2 = st)
      ∧ ((htNumSymbols st size preamble packetType incFlag m N).1 = .error .wrongCombination →
        (htNumSymbols st size preamble packetType incFlag m N).2 = st) := by
  simp only [htNumSymbols]
  constructor
  · intro h0
    subst h0
    split_ifs <;> simp_all
  · split_ifs <;> simp

/-- The symbol count of the OFDM role dispatch does not read `incFlag`. -/
theorem ofdmNumSymbols_result (st : PhyState) (size : Nat) (preamble : WifiPreamble)
    (packetType i1 i2 : Nat) (N : ℚ) :
    (ofdmNumSymbols st size preamble packetType i1 N).1
      = (ofdmNumSymbols st size preamble packetType i2 N).1 := by
  simp only [ofdmNumSymbols]
  split_ifs <;> rfl

/-- The symbol count of the HT and S1G role dispatch does not read `incFlag`. -/
theorem htNumSymbols_result (st : PhyState) (size : Nat) (preamble : WifiPreamble)
    (packetType i1 i2 m : Nat) (N : ℚ) :
    (htNumSymbols st size preamble packetType i1 m N).1
      = (htNumSymbols st size preamble packetType i2 m N).1 := by
  simp only [htNumSymbols]
  split_ifs <;> rfl

/-- C34: a Standalone call (packetType 0) on any mode, with any preamble, and any call on a
mode of class DSSS leave both counters of the accumulator unchanged, whatever `incFlag`; and
so does every call that fails with the wrong-combination error.  The same holds for
`CalculateTxDuration`, which touches the accumulator only through `GetPayloadDuration`. -/
theorem C34_frame (st : PhyState) (size : Nat) (tx : WifiTxVector) (preamble : WifiPreamble)
    (frequency : ℚ) (packetType incFlag : Nat) :
    (GetPayloadDuration st size tx preamble frequency 0 incFlag).2 = st
      ∧ (CalculateTxDuration st size tx preamble frequency 0 incFlag).2 = st
      ∧ (tx.mode.modClass = .WIFI_MOD_CLASS_DSSS →
          (GetPayloadDuration st size tx preamble frequency packetType incFlag).2 = st
            ∧ (CalculateTxDuration st size tx preamble frequency packetType incFlag).2 = st)
      ∧ ((GetPayloadDuration st size tx preamble frequency packetType incFlag).1
            = .error .wrongCombination →
          (GetPayloadDuration st size tx preamble frequency packetType incFlag).2 = st
            ∧ (CalculateTxDuration st size tx preamble frequency packetType incFlag).2
              = st) := by
  have key : ∀ pt : Nat,
      (pt = 0 → (GetPayloadDuration st size tx preamble frequency pt incFlag).2 = st)
        ∧ ((GetPayloadDuration st size tx preamble frequency pt incFlag).1
            = .error .wrongCombination →
          (GetPayloadDuration st size tx preamble frequency pt incFlag).2 = st) := by
    intro pt
    cases hc : tx.mode.modClass <;> simp only [GetPayloadDuration, hc]
    case WIFI_MOD_CLASS_UNKNOWN => simp
    case WIFI_MOD_CLASS_DSSS => simp
    case WIFI_MOD_CLASS_ERP_OFDM =>
      obtain ⟨h1, h2⟩ := ofdmNumSymbols_frame st size preamble pt incFlag
        (numDataBitsPerSymbol tx.mode.dataRate 1 (ofdmSymbolDuration tx.mode))
      refine ⟨h1, fun h => h2 ?_⟩
      cases hr : (ofdmNumSymbols st size preamble pt incFlag
        (numDataBitsPerSymbol tx.mode.dataRate 1 (ofdmSymbolDuration tx.mode))).1 <;>
        simp_all [Except.map]
    case WIFI_MOD_CLASS_OFDM =>
      obtain ⟨h1, h2⟩ := ofdmNumSymbols_frame st size preamble pt incFlag
        (numDataBitsPerSymbol tx.mode.dataRate 1 (ofdmSymbolDuration tx.mode))
      refine ⟨h1, fun h => h2 ?_⟩
      cases hr : (ofdmNumSymbols st size preamble pt incFlag
        (numDataBitsPerSymbol tx.mode.dataRate 1 (ofdmSymbolDuration tx.mode))).1 <;>
        simp_all [Except.map]
    case WIFI_MOD_CLASS_HT =>
      obtain ⟨h1, h2⟩ := htNumSymbols_frame st size preamble pt incFlag
        (if tx.stbc then 2 else 1)
        (numDataBitsPerSymbol tx.mode.dataRate tx.nss (htSymbolDuration tx.mode tx))
      refine ⟨h1, fun h => h2 ?_⟩
      cases hr : (htNumSymbols st size preamble pt incFlag (if tx.stbc then 2 else 1)
        (numDataBitsPerSymbol tx.mode.dataRate tx.nss (htSymbolDuration tx.mode tx))).1 <;>
        simp_all [Except.map]
    case WIFI_MOD_CLASS_S1G =>
      obtain ⟨h1, h2⟩ := htNumSymbols_frame st size preamble pt incFlag
        (if tx.stbc then 2 else 1)
        (numDataBitsPerSymbol tx.mode.dataRate tx.nss (s1gSymbolDuration tx.mode tx))
      refine ⟨h1, fun h => h2 ?_⟩
      rw [s1gNumSymbols_eq_htNumSymbols] at h
      cases hr : (htNumSymbols st size preamble pt incFlag (if tx.stbc then 2 else 1)
        (numDataBitsPerSymbol tx.mode.dataRate tx.nss (s1gSymbolDuration tx.mode tx))).1 <;>
        simp_all [Except.map]
  refine ⟨(key 0).1 rfl, (key 0).1 rfl, ?_, ?_⟩
  · intro hd
    have : (GetPayloadDuration st size tx preamble frequency packetType incFlag).2 = st := by
      simp only [GetPayloadDuration, hd]
    exact ⟨this, this⟩
  · intro he
    exact ⟨(key packetType).2 he, (key packetType).2 he⟩

/-- C35: the duration `GetPayloadDuration` returns, or the failure it ends in, is the same for
any two values of `incFlag`, the size, tx vector, preamble, frequency, packetType and
accumulator before the call being equal; so is the result of `CalculateTxDuration`.  The two
calls can differ in the accumulator they leave only: a call with `incFlag` other than 1
leaves it as it was. -/
theorem C35_incFlag_independence (st : PhyState) (size : Nat) (tx : WifiTxVector)
    (preamble : WifiPreamble) (frequency : ℚ) (packetType i1 i2 : Nat) :
    (GetPayloadDuration st size tx preamble frequency packetType i1).1
        = (GetPayloadDuration st size tx preamble frequency packetType i2).1
      ∧ (CalculateTxDuration st size tx preamble frequency packetType i1).1
        = (CalculateTxDuration st size tx preamble frequency packetType i2).1
      ∧ (i1 ≠ 1 → (GetPayloadDuration st size tx preamble frequency packetType i1).2 = st) := by
  have h : (GetPayloadDuration st size tx preamble frequency packetType i1).1
      = (GetPayloadDuration st size tx preamble frequency packetType i2).1 := by
    cases hc : tx.mode.modClass <;> simp only [GetPayloadDuration, hc]
    · rw [ofdmNumSymbols_result st size preamble packetType i1 i2]
    · rw [ofdmNumSymbols_result st size preamble packetType i1 i2]
    · rw [htNumSymbols_result st size preamble packetType i1 i2]
    · rw [s1gNumSymbols_eq_htNumSymbols, htNumSymbols_result st size preamble packetType i1 i2]
  refine ⟨h, ?_, GetPayloadDuration_state st size tx preamble frequency packetType i1⟩
  simp only [CalculateTxDuration, h]

/-! ## The PLCP duration of the S1G preambles -/

/-- C36: for every mode of class S1G and `Nltf = Nss` if `Nss < 3`, else 4,
`CalculatePlcpPreambleAndHeaderDuration` is `160 + 80 + 40 * (Nltf - 1)` microseconds for
preamble S1G-Short, `160 + 0 + 80 + (40 + 40 * Nltf) + 40` microseconds for S1G-Long and
`320 + 240 + 40 * (Nltf - 1)` microseconds for S1G-1M; with one stream these are 240, 360 and
560 microseconds. -/
theorem C36_s1g_plcp_durations (tx : WifiTxVector)
    (hcls : tx.mode.modClass = .WIFI_MOD_CLASS_S1G) :
    CalculatePlcpPreambleAndHeaderDuration tx .WIFI_PREAMBLE_S1G_SHORT
        = .ok (MicroSeconds (160 + 80
            + 40 * (((if tx.nss < 3 then tx.nss else 4 : Nat) : Int) - 1)))
      ∧ CalculatePlcpPreambleAndHeaderDuration tx .WIFI_PREAMBLE_S1G_LONG
        = .ok (MicroSeconds (160 + 0 + 80
            + (40 + 40 * ((if tx.nss < 3 then tx.nss else 4 : Nat) : Int)) + 40))
      ∧ CalculatePlcpPreambleAndHeaderDuration tx .WIFI_PREAMBLE_S1G_1M
        = .ok (MicroSeconds (320 + 240
            + 40 * (((if tx.nss < 3 then tx.nss else 4 : Nat) : Int) - 1)))
      ∧ (tx.nss = 1 →
          CalculatePlcpPreambleAndHeaderDuration tx .WIFI_PREAMBLE_S1G_SHORT
              = .ok (MicroSeconds 240)
            ∧ CalculatePlcpPreambleAndHeaderDuration tx .WIFI_PREAMBLE_S1G_LONG
              = .ok (MicroSeconds 360)
            ∧ CalculatePlcpPreambleAndHeaderDuration tx .WIFI_PREAMBLE_S1G_1M
              = .ok (MicroSeconds 560)) := by
  have h1 : CalculatePlcpPreambleAndHeaderDuration tx .WIFI_PREAMBLE_S1G_SHORT
      = .ok (MicroSeconds (160 + 80
          + 40 * (((if tx.nss < 3 then tx.nss else 4 : Nat) : Int) - 1))) := by
    simp only [CalculatePlcpPreambleAndHeaderDuration, GetPlcpPreambleDuration,
      GetPlcpHeaderDuration, GetPlcpTrainingSymbolDuration, GetPlcpSigADuration,
      GetPlcpS1gTrainingSymbolDuration, GetPlcpSigBDuration, hcls, ne_eq, not_true_eq_false,
      if_false, reduceCtorEq, true_or, if_true, bind, Except.bind, pure, Except.pure,
      MicroSeconds, Except.ok.injEq]
    ring
  have h2 : CalculatePlcpPreambleAndHeaderDuration tx .WIFI_PREAMBLE_S1G_LONG
      = .ok (MicroSeconds (160 + 0 + 80
          + (40 + 40 * ((if tx.nss < 3 then tx.nss else 4 : Nat) : Int)) + 40)) := by
    simp only [CalculatePlcpPreambleAndHeaderDuration, GetPlcpPreambleDuration,
      GetPlcpHeaderDuration, GetPlcpTrainingSymbolDuration, GetPlcpSigADuration,
      GetPlcpS1gTrainingSymbolDuration, GetPlcpSigBDuration, hcls, ne_eq, not_true_eq_false,
      if_false, reduceCtorEq, or_self, if_true, bind, Except.bind, pure, Except.pure,
      MicroSeconds, Except.ok.injEq]
    push_cast
    ring
  have h3 : CalculatePlcpPreambleAndHeaderDuration tx .WIFI_PREAMBLE_S1G_1M
      = .ok (MicroSeconds (320 + 240
          + 40 * (((if tx.nss < 3 then tx.nss else 4 : Nat) : Int) - 1))) := by
    simp only [CalculatePlcpPreambleAndHeaderDuration, GetPlcpPreambleDuration,
      GetPlcpHeaderDuration, GetPlcpTrainingSymbolDuration, GetPlcpSigADuration,
      GetPlcpS1gTrainingSymbolDuration, GetPlcpSigBDuration, hcls, ne_eq, not_true_eq_false,
      if_false, reduceCtorEq, or_true, if_true, bind, Except.bind, pure, Except.pure,
      MicroSeconds, Except.ok.injEq]
    ring
  refine ⟨h1, h2, h3, ?_⟩
  intro hn
  rw [h1, h2, h3, hn]
  simp [MicroSeconds]

/-- C36 at OfdmRate150KbpsBW1MHz with one stream and preamble S1G-1M: 560 microseconds. -/
theorem C36_s1g_plcp_durations_witness :
    CalculatePlcpPreambleAndHeaderDuration ⟨GetOfdmRate150KbpsBW1MHz, 1, 0, false⟩
      .WIFI_PREAMBLE_S1G_1M = .ok (MicroSeconds 560) :=
  ((C36_s1g_plcp_durations ⟨GetOfdmRate150KbpsBW1MHz, 1, 0, false⟩ rfl).2.2.2 rfl).2.2

/-! ## Accessor names -/

set_option maxRecDepth 1000000 in
/-- C37 on the code: the accessors are the 168 modes of the catalog; 166 of them register
their mode under the accessor's name without the leading `Get`, and two,
`GetOfdmRate12MbpsBW4MHz` and `GetOfdmRate6_5MbpsBW8MHz`, pass the accessor's whole name to
`CreateWifiMode`, so that no mode of the catalog is named OfdmRate12MbpsBW4MHz or
OfdmRate6_5MbpsBW8MHz. -/
theorem C37_accessor_names_with_get_prefix :
    modeAccessors.map Prod.snd = allModes
      ∧ (∀ p ∈ modeAccessors, p.1 ≠ "GetOfdmRate12MbpsBW4MHz" →
          p.1 ≠ "GetOfdmRate6_5MbpsBW8MHz" → p.1 = "Get" ++ p.2.uniqueName)
      ∧ ("GetOfdmRate12MbpsBW4MHz", GetOfdmRate12MbpsBW4MHz) ∈ modeAccessors
      ∧ ("GetOfdmRate6_5MbpsBW8MHz", GetOfdmRate6_5MbpsBW8MHz) ∈ modeAccessors
      ∧ GetOfdmRate12MbpsBW4MHz.uniqueName = "GetOfdmRate12MbpsBW4MHz"
      ∧ GetOfdmRate6_5MbpsBW8MHz.uniqueName = "GetOfdmRate6_5MbpsBW8MHz"
      ∧ (∀ m ∈ allModes, m.uniqueName ≠ "OfdmRate12MbpsBW4MHz")
      ∧ (∀ m ∈ allModes, m.uniqueName ≠ "OfdmRate6_5MbpsBW8MHz") := by
  refine ⟨rfl, ?_, ?_, ?_, rfl, rfl, ?_, ?_⟩
  · decide
  · decide
  · decide
  · decide
  · decide

/-! ## Conservation of the payload duration along an aggregate -/

/-- A committed Middle call whose counters do not wrap, on a mode other than ERP-OFDM: the
duration is the floor count times the symbol duration. -/
theorem GetPayloadDuration_middle_commit (st : PhyState) (size : Nat) (tx : WifiTxVector)
    (frequency : ℚ)
    (hcls : tx.mode.modClass = .WIFI_MOD_CLASS_OFDM ∨ tx.mode.modClass = .WIFI_MOD_CLASS_ERP_OFDM
      ∨ tx.mode.modClass = .WIFI_MOD_CLASS_HT ∨ tx.mode.modClass = .WIFI_MOD_CLASS_S1G)
    (hne : tx.mode.modClass ≠ .WIFI_MOD_CLASS_ERP_OFDM)
    (hbytes : st.m_totalAmpduSize + size < 4294967296)
    (hsyms : st.m_totalAmpduNumSymbols
      + Nat.floor (((size : ℚ) * 8) / payloadBitsPerSymbol tx) < 4294967296) :
    GetPayloadDuration st size tx .WIFI_PREAMBLE_NONE frequency 1 1
      = (.ok ((Nat.floor (((size : ℚ) * 8) / payloadBitsPerSymbol tx) : Int)
          * payloadSymbolDuration tx),
        ⟨st.m_totalAmpduSize + size,
          st.m_totalAmpduNumSymbols
            + Nat.floor (((size : ℚ) * 8) / payloadBitsPerSymbol tx)⟩) := by
  have hc : uint32 (Nat.floor (((size : ℚ) * 8) / payloadBitsPerSymbol tx))
      = Nat.floor (((size : ℚ) * 8) / payloadBitsPerSymbol tx) := uint32_of_lt (by omega)
  have hm := payloadNumSymbols_middle st size tx 1 hcls
  rw [hc, uint32_of_lt hbytes, uint32_of_lt hsyms, if_pos rfl] at hm
  rw [GetPayloadDuration_ok st size tx .WIFI_PREAMBLE_NONE frequency 1 1 hcls hm]
  simp [hne]

/-- A committed Last call, when the symbols counted so far do not exceed the Standalone
formula of the whole aggregate and nothing wraps, on a mode other than ERP-OFDM: the duration
is the remaining count times the symbol duration, plus 6 microseconds on an HT mode between
2400 and 2500 MHz. -/
theorem GetPayloadDuration_last_commit (st : PhyState) (size : Nat) (tx : WifiTxVector)
    (frequency : ℚ)
    (hcls : tx.mode.modClass = .WIFI_MOD_CLASS_OFDM ∨ tx.mode.modClass = .WIFI_MOD_CLASS_ERP_OFDM
      ∨ tx.mode.modClass = .WIFI_MOD_CLASS_HT ∨ tx.mode.modClass = .WIFI_MOD_CLASS_S1G)
    (hne : tx.mode.modClass ≠ .WIFI_MOD_CLASS_ERP_OFDM)
    (hbytes : st.m_totalAmpduSize + size < 4294967296)
    (hfit : standaloneCount tx (st.m_totalAmpduSize + size) < 4294967296)
    (hsyms : st.m_totalAmpduNumSymbols ≤ standaloneCount tx (st.m_totalAmpduSize + size)) :
    GetPayloadDuration st size tx .WIFI_PREAMBLE_NONE frequency 2 1
      = (.ok (((standaloneCount tx (st.m_totalAmpduSize + size)
            - st.m_totalAmpduNumSymbols : Nat) : Int) * payloadSymbolDuration tx
          + (if tx.mode.modClass = .WIFI_MOD_CLASS_HT ∧ 2400 ≤ frequency ∧ frequency ≤ 2500
              then MicroSeconds 6 else 0)), ⟨0, 0⟩) := by
  have hl := payloadNumSymbols_last_commit st size tx hcls 1 hbytes hfit hsyms
  rw [if_pos rfl] at hl
  rw [GetPayloadDuration_ok st size tx .WIFI_PREAMBLE_NONE frequency 2 1 hcls hl]
  by_cases hh : tx.mode.modClass = .WIFI_MOD_CLASS_HT <;>
    by_cases h1 : 2400 ≤ frequency <;> by_cases h2 : frequency ≤ 2500 <;>
    simp [hne, hh, h1, h2]

/-- One step of `runGetPayloadDuration`. -/
theorem runGetPayloadDuration_cons (st : PhyState) (c : Call) (cs : List Call) :
    runGetPayloadDuration st (c :: cs)
      = ((c, (GetPayloadDuration st c.size c.txvector c.preamble c.frequency c.packetType
              c.incFlag).1)
            :: (runGetPayloadDuration
              (GetPayloadDuration st c.size c.txvector c.preamble c.frequency c.packetType
                c.incFlag).2 cs).1,
          (runGetPayloadDuration
            (GetPayloadDuration st c.size c.txvector c.preamble c.frequency c.packetType
              c.incFlag).2 cs).2) :=
  rfl

/-- The durations of the Middle and Last calls of an aggregate, from an accumulator whose
symbol counter does not exceed the First formula of its byte counter, when nothing wraps, on a
mode other than ERP-OFDM: every call returns, and the durations add up to the duration of the
Standalone formula of the whole aggregate less the duration of the symbols already counted. -/
theorem runGetPayloadDuration_aggregate_tail (tx : WifiTxVector) (frequency : ℚ) (last : Nat)
    (hcls : tx.mode.modClass = .WIFI_MOD_CLASS_OFDM ∨ tx.mode.modClass = .WIFI_MOD_CLASS_ERP_OFDM
      ∨ tx.mode.modClass = .WIFI_MOD_CLASS_HT ∨ tx.mode.modClass = .WIFI_MOD_CLASS_S1G)
    (hne : tx.mode.modClass ≠ .WIFI_MOD_CLASS_ERP_OFDM)
    (hN : 0 < payloadBitsPerSymbol tx) :
    ∀ (middle : List Nat) (st : PhyState),
      st.m_totalAmpduSize + middle.sum + last < 4294967296 →
      standaloneCount tx (st.m_totalAmpduSize + middle.sum + last) < 4294967296 →
      st.m_totalAmpduNumSymbols
        ≤ Nat.ceil ((8 + (st.m_totalAmpduSize : ℚ) * 8 + 6) / payloadBitsPerSymbol tx) →
      ∃ ds : List Time,
        (runGetPayloadDuration st ((middle.map fun s =>
            (⟨s, tx, .WIFI_PREAMBLE_NONE, frequency, 1, 1⟩ : Call))
          ++ [⟨last, tx, .WIFI_PREAMBLE_NONE, frequency, 2, 1⟩])).1.map Prod.snd
            = ds.map Except.ok
        ∧ ds.length = middle.length + 1
        ∧ (st.m_totalAmpduNumSymbols : Int) * payloadSymbolDuration tx + ds.sum
          = (standaloneCount tx (st.m_totalAmpduSize + middle.sum + last) : Int)
              * payloadSymbolDuration tx
            + (if tx.mode.modClass = .WIFI_MOD_CLASS_HT ∧ 2400 ≤ frequency ∧ frequency ≤ 2500
                then MicroSeconds 6 else 0) := by
  intro middle
  induction middle with
  | nil =>
    intro st hbytes hfit hinv
    simp only [List.sum_nil, add_zero] at hbytes hfit
    have hsyms : st.m_totalAmpduNumSymbols
        ≤ standaloneCount tx (st.m_totalAmpduSize + last) :=
      le_trans hinv (le_trans (first_count_mono (Nat.le_add_right _ _) hN)
        (first_count_le_standaloneCount tx _ hN))
    have hl := GetPayloadDuration_last_commit st last tx frequency hcls hne hbytes hfit hsyms
    refine ⟨[((standaloneCount tx (st.m_totalAmpduSize + last)
        - st.m_totalAmpduNumSymbols : Nat) : Int) * payloadSymbolDuration tx
      + (if tx.mode.modClass = .WIFI_MOD_CLASS_HT ∧ 2400 ≤ frequency ∧ frequency ≤ 2500
          then MicroSeconds 6 else 0)], ?_, rfl, ?_⟩
    · simp [runGetPayloadDuration, hl]
    · simp only [List.sum_cons, List.sum_nil, add_zero, List.map_nil, List.sum_nil]
      rw [Nat.cast_sub hsyms]
      ring
  | cons s rest ih =>
    intro st hbytes hfit hinv
    simp only [List.sum_cons] at hbytes hfit
    have hstep := first_count_add_middle st.m_totalAmpduSize s hN
    have htop : Nat.ceil ((8 + ((st.m_totalAmpduSize + s : Nat) : ℚ) * 8 + 6)
        / payloadBitsPerSymbol tx) < 4294967296 :=
      lt_of_le_of_lt (le_trans (first_count_mono (by omega) hN)
        (first_count_le_standaloneCount tx (st.m_totalAmpduSize + (s + rest.sum) + last) hN)) hfit
    have hm := GetPayloadDuration_middle_commit st s tx frequency hcls hne (by omega) (by omega)
    obtain ⟨ds, h1, h2, h3⟩ := ih
      ⟨st.m_totalAmpduSize + s, st.m_totalAmpduNumSymbols
        + Nat.floor (((s : ℚ) * 8) / payloadBitsPerSymbol tx)⟩
      (by simp only; omega)
      (by simp only; rw [show st.m_totalAmpduSize + s + rest.sum + last
          = st.m_totalAmpduSize + (s + rest.sum) + last by omega]; exact hfit)
      (by simp only; omega)
    refine ⟨(Nat.floor (((s : ℚ) * 8) / payloadBitsPerSymbol tx) : Int)
      * payloadSymbolDuration tx :: ds, ?_, ?_, ?_⟩
    · rw [List.map_cons, List.cons_append, runGetPayloadDuration_cons]
      simp only [hm, List.map_cons]
      rw [h1]
    · simp only [List.length_cons, h2]
    · simp only [List.sum_cons]
      simp only at h3
      rw [show st.m_totalAmpduSize + (s + rest.sum) + last
        = st.m_totalAmpduSize + s + rest.sum + last by omega, ← h3]
      push_cast
      ring

/-- C31, as the code has it: for every catalog mode of class OFDM, HT or S1G, every frequency
(inside or outside 2400 .. 2500 MHz), every `Nss` from 1 to 255 with a whole number of bits
per symbol, STBC on or off, and every aggregate First(s1), Middle(s2) .. Middle(s(k-1)),
Last(sk) committed on a zeroed accumulator whose total size is below `2 ^ 32` and, for an S1G
mode, whose Standalone symbol count is below `2 ^ 32` as well, every call returns a payload
duration and the `k` durations add up to the payload duration of one Standalone call of size
`s1 + .. + sk`.  The whole-number condition keeps the statement to the inputs on which the
`double` divisions of the source are the exact ones. -/
theorem C31_duration_conservation (tx : WifiTxVector) (preamble : WifiPreamble)
    (frequency : ℚ) (first : Nat) (middle : List Nat) (last : Nat)
    (hmode : tx.mode ∈ allModes)
    (hcls : tx.mode.modClass = .WIFI_MOD_CLASS_OFDM ∨ tx.mode.modClass = .WIFI_MOD_CLASS_HT
      ∨ tx.mode.modClass = .WIFI_MOD_CLASS_S1G)
    (hnss1 : 1 ≤ tx.nss) (hnss : tx.nss < 256) (_hwhole : wholeBitsPerSymbol tx)
    (hpre : preamble ≠ .WIFI_PREAMBLE_NONE)
    (htotal : first + middle.sum + last < 4294967296)
    (hfit : tx.mode.modClass = .WIFI_MOD_CLASS_S1G →
      standaloneCount tx (first + middle.sum + last) < 4294967296) :
    ∃ ds : List Time,
      (runGetPayloadDuration ⟨0, 0⟩
          (aggregateCalls tx preamble frequency first middle last)).1.map Prod.snd
          = ds.map Except.ok
        ∧ ds.length = middle.length + 2
        ∧ (GetPayloadDuration ⟨0, 0⟩ (first + middle.sum + last) tx preamble frequency 0 1).1
          = .ok ds.sum := by
  have hcls4 : tx.mode.modClass = .WIFI_MOD_CLASS_OFDM
      ∨ tx.mode.modClass = .WIFI_MOD_CLASS_ERP_OFDM
      ∨ tx.mode.modClass = .WIFI_MOD_CLASS_HT ∨ tx.mode.modClass = .WIFI_MOD_CLASS_S1G := by
    rcases hcls with h | h | h
    · exact Or.inl h
    · exact Or.inr (Or.inr (Or.inl h))
    · exact Or.inr (Or.inr (Or.inr h))
  have hne : tx.mode.modClass ≠ .WIFI_MOD_CLASS_ERP_OFDM := by
    rcases hcls with h | h | h <;> rw [h] <;> decide
  have hN := payloadBitsPerSymbol_pos tx hmode hnss1 hnss
  have hfit2 := standaloneCount_fit tx _ hmode hcls4 hnss1 hnss htotal hfit
  have hc1 : Nat.ceil ((8 + (first : ℚ) * 8 + 6) / payloadBitsPerSymbol tx) < 4294967296 :=
    lt_of_le_of_lt (le_trans (first_count_mono (by omega) hN)
      (first_count_le_standaloneCount tx (first + middle.sum + last) hN)) hfit2
  -- the First call
  have hf := payloadNumSymbols_first ⟨0, 0⟩ first tx preamble 1 hcls4 hpre
  simp only [if_pos, zero_add, uint32_of_lt hc1,
    uint32_of_lt (show first < 4294967296 by omega)] at hf
  have hfd : GetPayloadDuration ⟨0, 0⟩ first tx preamble frequency 1 1
      = (.ok ((Nat.ceil ((8 + (first : ℚ) * 8 + 6) / payloadBitsPerSymbol tx) : Int)
          * payloadSymbolDuration tx),
        ⟨first, Nat.ceil ((8 + (first : ℚ) * 8 + 6) / payloadBitsPerSymbol tx)⟩) := by
    rw [GetPayloadDuration_ok ⟨0, 0⟩ first tx preamble frequency 1 1 hcls4 hf]
    simp [hne]
  obtain ⟨ds, h1, h2, h3⟩ := runGetPayloadDuration_aggregate_tail tx frequency last hcls4 hne
    hN middle ⟨first, Nat.ceil ((8 + (first : ℚ) * 8 + 6) / payloadBitsPerSymbol tx)⟩
    htotal hfit2 le_rfl
  simp only at h3
  refine ⟨(Nat.ceil ((8 + (first : ℚ) * 8 + 6) / payloadBitsPerSymbol tx) : Int)
    * payloadSymbolDuration tx :: ds, ?_, ?_, ?_⟩
  · rw [aggregateCalls, List.cons_append, runGetPayloadDuration_cons]
    simp only [hfd, List.map_cons]
    rw [h1]
  · simp only [List.length_cons, h2]
  · rw [GetPayloadDuration_standalone ⟨0, 0⟩ _ tx preamble frequency 1 hcls4 hpre,
      uint32_of_lt hfit2, List.sum_cons, h3]
    simp [hne]

set_option maxRecDepth 100000 in
/-- C31 at OfdmRate65MbpsBW20MHz with STBC (260 bits per symbol) at 2412 MHz, preamble
HT-Mixed, sizes 1000, 500 and 200 bytes. -/
theorem C31_duration_conservation_witness :
    ∃ ds : List Time,
      (runGetPayloadDuration ⟨0, 0⟩ (aggregateCalls ⟨GetOfdmRate65MbpsBW20MHz, 1, 0, true⟩
          .WIFI_PREAMBLE_HT_MF 2412 1000 [500] 200)).1.map Prod.snd = ds.map Except.ok
        ∧ ds.length = [500].length + 2
        ∧ (GetPayloadDuration ⟨0, 0⟩ (1000 + [500].sum + 200)
            ⟨GetOfdmRate65MbpsBW20MHz, 1, 0, true⟩ .WIFI_PREAMBLE_HT_MF 2412 0 1).1
          = .ok ds.sum :=
  C31_duration_conservation ⟨GetOfdmRate65MbpsBW20MHz, 1, 0, true⟩ .WIFI_PREAMBLE_HT_MF 2412
    1000 [500] 200 (by decide) (Or.inr (Or.inl rfl)) (by decide) (by decide)
    (wholeBitsPerSymbol_of_eq 260 (by rw [payloadBitsPerSymbol_65Mbps_stbc]; norm_num))
    (by simp) (by norm_num) (fun h => absurd h (by decide))

/-- C31 fails as stated when the symbol counter wraps: on the S1G mode OfdmRate150KbpsBW1MHz
(6 bits per symbol, 40 microseconds), one stream, the committed calls First(2000000000),
Middle(2000000000), Last(294967295) return 2666666669, 2666666666 and 393289728 symbols, the
32-bit counter having wrapped to 1038366039 before the Last call, 5726623063 symbols in all,
while the Standalone call of the total, 4294967295 bytes, stores that count in 32 bits and
returns 1431655767 symbols. -/
theorem C31_counterexample :
    (runGetPayloadDuration ⟨0, 0⟩ (aggregateCalls ⟨GetOfdmRate150KbpsBW1MHz, 1, 0, false⟩
        .WIFI_PREAMBLE_S1G_SHORT 900 2000000000 [2000000000] 294967295)).1.map Prod.snd
        = [.ok (2666666669 * MicroSeconds 40), .ok (2666666666 * MicroSeconds 40),
            .ok (393289728 * MicroSeconds 40)]
      ∧ 2000000000 + [2000000000].sum + 294967295 = 4294967295
      ∧ (GetPayloadDuration ⟨0, 0⟩ 4294967295 ⟨GetOfdmRate150KbpsBW1MHz, 1, 0, false⟩
          .WIFI_PREAMBLE_S1G_SHORT 900 0 1).1 = .ok (1431655767 * MicroSeconds 40)
      ∧ [2666666669 * MicroSeconds 40, 2666666666 * MicroSeconds 40,
            393289728 * MicroSeconds 40].sum
        ≠ 1431655767 * MicroSeconds 40 := by
  have hcls : (⟨GetOfdmRate150KbpsBW1MHz, 1, 0, false⟩ : WifiTxVector).mode.modClass
      = .WIFI_MOD_CLASS_S1G := rfl
  have hcls4 : (⟨GetOfdmRate150KbpsBW1MHz, 1, 0, false⟩ : WifiTxVector).mode.modClass
        = .WIFI_MOD_CLASS_OFDM
      ∨ (⟨GetOfdmRate150KbpsBW1MHz, 1, 0, false⟩ : WifiTxVector).mode.modClass
        = .WIFI_MOD_CLASS_ERP_OFDM
      ∨ (⟨GetOfdmRate150KbpsBW1MHz, 1, 0, false⟩ : WifiTxVector).mode.modClass
        = .WIFI_MOD_CLASS_HT
      ∨ (⟨GetOfdmRate150KbpsBW1MHz, 1, 0, false⟩ : WifiTxVector).mode.modClass
        = .WIFI_MOD_CLASS_S1G := Or.inr (Or.inr (Or.inr rfl))
  have hT : payloadSymbolDuration ⟨GetOfdmRate150KbpsBW1MHz, 1, 0, false⟩ = MicroSeconds 40 := by
    decide
  have hc1 : Nat.ceil ((8 + ((2000000000 : Nat) : ℚ) * 8 + 6) / 6) = 2666666669 := by
    rw [Nat.ceil_eq_iff (by norm_num)]
    norm_num
  have hfl : Nat.floor ((((2000000000 : Nat) : ℚ) * 8) / 6) = 2666666666 := by
    rw [Nat.floor_eq_iff (by norm_num)]
    norm_num
  -- the three symbol counts
  have hn1 : payloadNumSymbols ⟨0, 0⟩ 2000000000 ⟨GetOfdmRate150KbpsBW1MHz, 1, 0, false⟩
      .WIFI_PREAMBLE_S1G_SHORT 1 1 = (.ok 2666666669, ⟨2000000000, 2666666669⟩) := by
    rw [payloadNumSymbols_first _ _ _ _ _ hcls4 (by simp), payloadBitsPerSymbol_150Kbps, hc1]
    rfl
  have hn2 : payloadNumSymbols ⟨2000000000, 2666666669⟩ 2000000000
      ⟨GetOfdmRate150KbpsBW1MHz, 1, 0, false⟩ .WIFI_PREAMBLE_NONE 1 1
      = (.ok 2666666666, ⟨4000000000, 1038366039⟩) := by
    rw [payloadNumSymbols_middle _ _ _ _ hcls4, payloadBitsPerSymbol_150Kbps, hfl]
    rfl
  have hu : uint32 (4000000000 + 294967295) = 4294967295 := rfl
  have hn3 : payloadNumSymbols ⟨4000000000, 1038366039⟩ 294967295
      ⟨GetOfdmRate150KbpsBW1MHz, 1, 0, false⟩ .WIFI_PREAMBLE_NONE 2 1
      = (.ok 393289728, ⟨0, 0⟩) := by
    rw [payloadNumSymbols_last_ht _ _ _ _ (Or.inr hcls)]
    show (if 1038366039 ≤ uint32 (standaloneCount ⟨GetOfdmRate150KbpsBW1MHz, 1, 0, false⟩
          (uint32 (4000000000 + 294967295))) then
        (Except.ok (uint32Sub (uint32 (standaloneCount ⟨GetOfdmRate150KbpsBW1MHz, 1, 0, false⟩
          (uint32 (4000000000 + 294967295)))) 1038366039),
          if (1 : Nat) = 1 then (⟨0, 0⟩ : PhyState) else ⟨4000000000, 1038366039⟩)
      else (Except.error PhyError.assertionFailed, ⟨4000000000, 1038366039⟩)) = _
    rw [hu, standaloneCount_150Kbps_max]
    rfl
  have hn0 := payloadNumSymbols_standalone_count ⟨0, 0⟩ 4294967295
    ⟨GetOfdmRate150KbpsBW1MHz, 1, 0, false⟩ .WIFI_PREAMBLE_S1G_SHORT 1 hcls4 (by simp)
  rw [standaloneCount_150Kbps_max] at hn0
  -- the durations
  have hd1 := GetPayloadDuration_ok ⟨0, 0⟩ 2000000000 ⟨GetOfdmRate150KbpsBW1MHz, 1, 0, false⟩
    .WIFI_PREAMBLE_S1G_SHORT 900 1 1 hcls4 hn1
  have hd2 := GetPayloadDuration_ok ⟨2000000000, 2666666669⟩ 2000000000
    ⟨GetOfdmRate150KbpsBW1MHz, 1, 0, false⟩ .WIFI_PREAMBLE_NONE 900 1 1 hcls4 hn2
  have hd3 := GetPayloadDuration_ok ⟨4000000000, 1038366039⟩ 294967295
    ⟨GetOfdmRate150KbpsBW1MHz, 1, 0, false⟩ .WIFI_PREAMBLE_NONE 900 2 1 hcls4 hn3
  have hd0 := GetPayloadDuration_ok ⟨0, 0⟩ 4294967295 ⟨GetOfdmRate150KbpsBW1MHz, 1, 0, false⟩
    .WIFI_PREAMBLE_S1G_SHORT 900 0 1 hcls4 hn0
  have hext : ∀ (pt : Nat) (p : WifiPreamble),
      (if (⟨GetOfdmRate150KbpsBW1MHz, 1, 0, false⟩ : WifiTxVector).mode.modClass
            = .WIFI_MOD_CLASS_ERP_OFDM
          ∨ ((⟨GetOfdmRate150KbpsBW1MHz, 1, 0, false⟩ : WifiTxVector).mode.modClass
              = .WIFI_MOD_CLASS_HT ∧ (900 : ℚ) ≥ 2400 ∧ (900 : ℚ) ≤ 2500
            ∧ ((pt = 0 ∧ p ≠ .WIFI_PREAMBLE_NONE) ∨ (pt = 2 ∧ p = .WIFI_PREAMBLE_NONE)))
        then MicroSeconds 6 else (0 : Time)) = 0 := by
    intro pt p
    rw [hcls]
    simp
  rw [hext, hT, add_zero] at hd1 hd2 hd3 hd0
  refine ⟨?_, by norm_num, ?_, by norm_num [MicroSeconds]⟩
  · simp only [aggregateCalls, List.map_cons, List.map_nil, List.cons_append, List.nil_append,
      runGetPayloadDuration, hd1, hd2, hd3]
    rfl
  · rw [hd0]
    rfl
/-- C4, as the code has it: for every catalog mode of class HT or S1G with data rate `R`,
every `Nss` from 1 to 255 for which `bitsPerSymbol = R * Nss * T` is a whole number, with `T`
the selected symbol duration (3.6 or 4 microseconds for HT, 36 or 40 for S1G), STBC disabled,
every preamble other than None and every 32-bit size whose symbol count
`ceil ((8 + 8 * size + 6) / bitsPerSymbol)` is below `2 ^ 32` (always so for an HT mode), a
Standalone call counts that many symbols and returns `count * T`, plus 6 microseconds for an
HT mode between 2400 and 2500 MHz; the accumulator is left alone.  The whole-number condition
keeps the statement to the inputs on which the `double` division of the source is the exact
one. -/
theorem C4_ht_s1g_standalone_symbol_count (st : PhyState) (size : Nat) (tx : WifiTxVector)
    (preamble : WifiPreamble) (frequency : ℚ) (incFlag : Nat)
    (hmode : tx.mode ∈ allModes)
    (hcls : tx.mode.modClass = .WIFI_MOD_CLASS_HT ∨ tx.mode.modClass = .WIFI_MOD_CLASS_S1G)
    (hnss1 : 1 ≤ tx.nss) (hnss : tx.nss < 256) (_hwhole : wholeBitsPerSymbol tx)
    (hstbc : tx.stbc = false)
    (hsize : size < 4294967296) (hpre : preamble ≠ .WIFI_PREAMBLE_NONE)
    (hfit : tx.mode.modClass = .WIFI_MOD_CLASS_HT
      ∨ Nat.ceil ((8 + 8 * (size : ℚ) + 6)
          / ((tx.mode.dataRate : ℚ) * tx.nss * (payloadSymbolDuration tx : ℚ) / 1000000000))
        < 4294967296) :
    payloadNumSymbols st size tx preamble 0 incFlag
        = (.ok (Nat.ceil ((8 + 8 * (size : ℚ) + 6)
            / ((tx.mode.dataRate : ℚ) * tx.nss * (payloadSymbolDuration tx : ℚ) / 1000000000))),
          st)
      ∧ GetPayloadDuration st size tx preamble frequency 0 incFlag
        = (.ok ((Nat.ceil ((8 + 8 * (size : ℚ) + 6)
              / ((tx.mode.dataRate : ℚ) * tx.nss * (payloadSymbolDuration tx : ℚ) / 1000000000))
              : Int) * payloadSymbolDuration tx
            + (if tx.mode.modClass = .WIFI_MOD_CLASS_HT ∧ 2400 ≤ frequency ∧ frequency ≤ 2500
                then MicroSeconds 6 else 0)), st)
      ∧ (tx.mode.modClass = .WIFI_MOD_CLASS_HT →
          payloadSymbolDuration tx = NanoSeconds 3600 ∨ payloadSymbolDuration tx = MicroSeconds 4)
      ∧ (tx.mode.modClass = .WIFI_MOD_CLASS_S1G →
          payloadSymbolDuration tx = MicroSeconds 36
            ∨ payloadSymbolDuration tx = MicroSeconds 40) := by
  obtain ⟨hlo, hhi, hht, -⟩ := catalog_rate_facts tx.mode hmode
  have hT : (payloadSymbolDuration tx = 3600 ∨ payloadSymbolDuration tx = 4000)
      ∨ (payloadSymbolDuration tx = 36000 ∨ payloadSymbolDuration tx = 40000) := by
    rcases hcls with h | h
    · left; simpa [payloadSymbolDuration, h] using htSymbolDuration_cases tx.mode tx
    · right; simpa [payloadSymbolDuration, h] using s1gSymbolDuration_cases tx.mode tx
  have hT0 : (0 : Int) ≤ payloadSymbolDuration tx := by
    rcases hT with (h | h) | (h | h) <;> rw [h] <;> norm_num
  have hT1 : payloadSymbolDuration tx ≤ 40000 := by
    rcases hT with (h | h) | (h | h) <;> rw [h] <;> norm_num
  have hN := numDataBitsPerSymbol_exact (R := tx.mode.dataRate) hhi hnss hT0 hT1
  -- the symbol count
  have hsym : payloadNumSymbols st size tx preamble 0 incFlag
      = (.ok (Nat.ceil ((8 + 8 * (size : ℚ) + 6)
          / ((tx.mode.dataRate : ℚ) * tx.nss * (payloadSymbolDuration tx : ℚ) / 1000000000))),
        st) := by
    have hu := payloadNumSymbols_standalone st size tx preamble incFlag hcls hstbc hpre
    rw [hu, hN, uint32_of_lt]
    rcases hfit with h | h
    · have e : (8 + 8 * (size : ℚ) + 6) = 8 + (size : ℚ) * 8 + 6 := by ring
      rw [e]
      refine ceil_lt_of_bits hsize ?_
      have h1 : (6500000 : ℚ) ≤ tx.mode.dataRate := by exact_mod_cast hht h
      have h2 : (1 : ℚ) ≤ tx.nss := by exact_mod_cast hnss1
      have h3 : (3600 : ℚ) ≤ (payloadSymbolDuration tx : ℚ) := by
        have : (3600 : Int) ≤ payloadSymbolDuration tx := by
          simp only [payloadSymbolDuration, h]
          rcases htSymbolDuration_cases tx.mode tx with h' | h' <;> rw [h']
          norm_num
        exact_mod_cast this
      have h4 : (6500000 : ℚ) * 1 ≤ (tx.mode.dataRate : ℚ) * tx.nss :=
        mul_le_mul h1 h2 (by norm_num) (by positivity)
      have h5 : (6500000 : ℚ) * 1 * 3600 ≤ (tx.mode.dataRate : ℚ) * tx.nss
          * (payloadSymbolDuration tx : ℚ) := mul_le_mul h4 h3 (by norm_num) (by positivity)
      rw [le_div_iff₀ (by norm_num)]
      linarith
    · exact h
  refine ⟨hsym, ?_, ?_, ?_⟩
  · rcases hcls with h | h
    · rw [GetPayloadDuration_ht_ok st size tx preamble frequency 0 incFlag h hsym]
      by_cases hf : 2400 ≤ frequency ∧ frequency ≤ 2500
      · have c1 : frequency ≥ 2400 ∧ frequency ≤ 2500
            ∧ (((0 : Nat) = 0 ∧ preamble ≠ .WIFI_PREAMBLE_NONE)
              ∨ ((0 : Nat) = 2 ∧ preamble = .WIFI_PREAMBLE_NONE)) :=
          ⟨hf.1, hf.2, Or.inl ⟨rfl, hpre⟩⟩
        have c2 : tx.mode.modClass = .WIFI_MOD_CLASS_HT ∧ 2400 ≤ frequency ∧ frequency ≤ 2500 :=
          ⟨h, hf⟩
        rw [if_pos c1, if_pos c2]
      · have c1 : ¬ (frequency ≥ 2400 ∧ frequency ≤ 2500
            ∧ (((0 : Nat) = 0 ∧ preamble ≠ .WIFI_PREAMBLE_NONE)
              ∨ ((0 : Nat) = 2 ∧ preamble = .WIFI_PREAMBLE_NONE))) :=
          fun hh => hf ⟨hh.1, hh.2.1⟩
        have c2 : ¬ (tx.mode.modClass = .WIFI_MOD_CLASS_HT ∧ 2400 ≤ frequency
            ∧ frequency ≤ 2500) := fun hh => hf hh.2
        rw [if_neg c1, if_neg c2, add_zero]
    · rw [GetPayloadDuration_s1g_ok st size tx preamble frequency 0 incFlag h hsym]
      have c2 : ¬ (tx.mode.modClass = .WIFI_MOD_CLASS_HT ∧ 2400 ≤ frequency
          ∧ frequency ≤ 2500) := fun hh => by rw [h] at hh; exact absurd hh.1 (by decide)
      rw [if_neg c2, add_zero]
  · intro h
    simpa [payloadSymbolDuration, h, NanoSeconds, MicroSeconds]
      using htSymbolDuration_cases tx.mode tx
  · intro h
    simpa [payloadSymbolDuration, h, MicroSeconds] using s1gSymbolDuration_cases tx.mode tx

set_option maxRecDepth 100000 in
/-- C4 at OfdmRate65MbpsBW20MHz, one stream, 1000 bytes, preamble HT-Mixed, 2412 MHz: 260 bits
per 4-microsecond symbol, 31 symbols, 124 + 6 microseconds. -/
theorem C4_ht_s1g_standalone_symbol_count_witness :
    GetOfdmRate65MbpsBW20MHz ∈ allModes
      ∧ wholeBitsPerSymbol ⟨GetOfdmRate65MbpsBW20MHz, 1, 0, false⟩
      ∧ payloadSymbolDuration ⟨GetOfdmRate65MbpsBW20MHz, 1, 0, false⟩ = MicroSeconds 4
      ∧ payloadNumSymbols PhyState.fresh 1000 ⟨GetOfdmRate65MbpsBW20MHz, 1, 0, false⟩
          .WIFI_PREAMBLE_HT_MF 0 0 = (.ok 31, PhyState.fresh)
      ∧ GetPayloadDuration PhyState.fresh 1000 ⟨GetOfdmRate65MbpsBW20MHz, 1, 0, false⟩
          .WIFI_PREAMBLE_HT_MF 2412 0 0 = (.ok (MicroSeconds 130), PhyState.fresh) := by
  have hT : payloadSymbolDuration ⟨GetOfdmRate65MbpsBW20MHz, 1, 0, false⟩ = MicroSeconds 4 := by
    decide
  have hc : Nat.ceil ((8 + 8 * ((1000 : Nat) : ℚ) + 6)
      / (((65000000 : Nat) : ℚ) * ((1 : Nat) : ℚ) * ((4000 : Int) : ℚ) / 1000000000)) = 31 := by
    rw [Nat.ceil_eq_iff (by norm_num)]
    norm_num
  have key := C4_ht_s1g_standalone_symbol_count PhyState.fresh 1000
    ⟨GetOfdmRate65MbpsBW20MHz, 1, 0, false⟩ .WIFI_PREAMBLE_HT_MF 2412 0 (by decide)
    (Or.inl rfl) (by norm_num) (by norm_num)
    (wholeBitsPerSymbol_of_eq 260 (by rw [payloadBitsPerSymbol_65Mbps]; norm_num))
    rfl (by norm_num) (by simp) (Or.inl rfl)
  rw [hT] at key
  have hc2 : Nat.ceil ((8 + 8 * ((1000 : Nat) : ℚ) + 6)
      / ((((⟨GetOfdmRate65MbpsBW20MHz, 1, 0, false⟩ : WifiTxVector).mode.dataRate : Nat) : ℚ)
        * (((⟨GetOfdmRate65MbpsBW20MHz, 1, 0, false⟩ : WifiTxVector).nss : Nat) : ℚ)
        * ((MicroSeconds 4 : Int) : ℚ) / 1000000000)) = 31 := hc
  rw [hc2] at key
  refine ⟨by decide,
    wholeBitsPerSymbol_of_eq 260 (by rw [payloadBitsPerSymbol_65Mbps]; norm_num), hT, key.1, ?_⟩
  rw [key.2.1]
  norm_num [MicroSeconds, GetOfdmRate65MbpsBW20MHz]


/-! ## Aggregation conservation -/

/-- The durations `GetPayloadDuration` returns for a run of calls on symbol-counting modes all
of whose symbol counts exist: each is the count of the call times the symbol duration, plus
the signal extension of the call; the accumulator ends where the role dispatch leaves it. -/
theorem runGetPayloadDuration_of_counts :
    ∀ (cs : List Call) (st : PhyState) (counts : List Nat),
      (∀ c ∈ cs, c.txvector.mode.modClass = .WIFI_MOD_CLASS_OFDM
        ∨ c.txvector.mode.modClass = .WIFI_MOD_CLASS_ERP_OFDM
        ∨ c.txvector.mode.modClass = .WIFI_MOD_CLASS_HT
        ∨ c.txvector.mode.modClass = .WIFI_MOD_CLASS_S1G) →
      (runNumSymbols st cs).1 = counts.map Except.ok →
      (runGetPayloadDuration st cs).1
          = List.zipWith (fun (c : Call) (n : Nat) =>
              (c, Except.ok ((n : Int) * payloadSymbolDuration c.txvector
                + signalExtension c.txvector c.preamble c.frequency c.packetType))) cs counts
        ∧ (runGetPayloadDuration st cs).2 = (runNumSymbols st cs).2 := by
  intro cs
  induction cs with
  | nil =>
    intro st counts _ h
    cases counts with
    | nil => exact ⟨rfl, rfl⟩
    | cons n ns => simp [runNumSymbols] at h
  | cons c cs ih =>
    intro st counts hcls h
    rw [runNumSymbols_cons] at h
    cases counts with
    | nil => simp at h
    | cons n ns =>
      rw [List.map_cons] at h
      have h1 : (payloadNumSymbols st c.size c.txvector c.preamble c.packetType c.incFlag).1
          = .ok n := (List.cons.inj h).1
      have h2 := (List.cons.inj h).2
      have hp : payloadNumSymbols st c.size c.txvector c.preamble c.packetType c.incFlag
          = (.ok n, (payloadNumSymbols st c.size c.txvector c.preamble c.packetType
              c.incFlag).2) := by
        rw [← h1]
      have hg := GetPayloadDuration_eq st c.size c.txvector c.preamble c.frequency
        c.packetType c.incFlag (hcls c (List.mem_cons_self c cs)) hp
      obtain ⟨i1, i2⟩ := ih _ ns (fun d hd => hcls d (List.mem_cons_of_mem c hd)) h2
      rw [runGetPayloadDuration_cons, runNumSymbols_cons, hg]
      exact ⟨by rw [List.zipWith_cons_cons, i1], i2⟩

/-- C5, as the code has it: for every catalog mode of class OFDM, ERP-OFDM, HT or S1G, every
`Nss` from 1 to 255 with a whole number of bits per symbol, STBC on or off, and every
aggregate First(s1), Middle(s2) .. Middle(s(k-1)), Last(sk) committed on a zeroed accumulator
whose total size is below `2 ^ 32` and, for an S1G mode, whose Standalone symbol count is
below `2 ^ 32` as well (it always is for the other classes), every call yields a symbol
count, the `k` counts add up to the count a single Standalone call of size `s1 + .. + sk`
computes, and the accumulator is back at zero; the durations `GetPayloadDuration` returns are
those of these counts.  The whole-number condition keeps the statement to the inputs on which
the `double` divisions of the source are the exact ones. -/
theorem C5_aggregation_conservation (tx : WifiTxVector) (preamble : WifiPreamble)
    (frequency : ℚ) (first : Nat) (middle : List Nat) (last : Nat)
    (hmode : tx.mode ∈ allModes)
    (hcls : tx.mode.modClass = .WIFI_MOD_CLASS_OFDM ∨ tx.mode.modClass = .WIFI_MOD_CLASS_ERP_OFDM
      ∨ tx.mode.modClass = .WIFI_MOD_CLASS_HT ∨ tx.mode.modClass = .WIFI_MOD_CLASS_S1G)
    (hnss1 : 1 ≤ tx.nss) (hnss : tx.nss < 256) (_hwhole : wholeBitsPerSymbol tx)
    (hpre : preamble ≠ .WIFI_PREAMBLE_NONE)
    (htotal : first + middle.sum + last < 4294967296)
    (hfit : tx.mode.modClass = .WIFI_MOD_CLASS_S1G →
      standaloneCount tx (first + middle.sum + last) < 4294967296) :
    ∃ counts : List Nat,
      (runNumSymbols ⟨0, 0⟩ (aggregateCalls tx preamble frequency first middle last)).1
          = counts.map Except.ok
        ∧ counts.length = middle.length + 2
        ∧ payloadNumSymbols ⟨0, 0⟩ (first + middle.sum + last) tx preamble 0 1
          = (.ok counts.sum, ⟨0, 0⟩)
        ∧ (runNumSymbols ⟨0, 0⟩ (aggregateCalls tx preamble frequency first middle last)).2
          = ⟨0, 0⟩
        ∧ (runGetPayloadDuration ⟨0, 0⟩
            (aggregateCalls tx preamble frequency first middle last)).1
          = List.zipWith (fun (c : Call) (n : Nat) =>
              (c, Except.ok ((n : Int) * payloadSymbolDuration c.txvector
                + signalExtension c.txvector c.preamble c.frequency c.packetType)))
            (aggregateCalls tx preamble frequency first middle last) counts
        ∧ (runGetPayloadDuration ⟨0, 0⟩
            (aggregateCalls tx preamble frequency first middle last)).2 = ⟨0, 0⟩
        ∧ GetPayloadDuration ⟨0, 0⟩ (first + middle.sum + last) tx preamble frequency 0 1
          = (.ok ((counts.sum : Int) * payloadSymbolDuration tx
              + signalExtension tx preamble frequency 0), ⟨0, 0⟩) := by
  have hN := payloadBitsPerSymbol_pos tx hmode hnss1 hnss
  have hfit2 : standaloneCount tx (first + middle.sum + last) < 4294967296 := by
    rcases hcls with h | h | h | h
    · exact standaloneCount_lt tx _ htotal
        (payloadBitsPerSymbol_ge tx hmode (Or.inl h) hnss1 hnss)
    · exact standaloneCount_lt tx _ htotal
        (payloadBitsPerSymbol_ge tx hmode (Or.inr (Or.inl h)) hnss1 hnss)
    · exact standaloneCount_lt tx _ htotal
        (payloadBitsPerSymbol_ge tx hmode (Or.inr (Or.inr h)) hnss1 hnss)
    · exact hfit h
  -- the First call
  have hf := payloadNumSymbols_first ⟨0, 0⟩ first tx preamble 1 hcls hpre
  have hc1 : Nat.ceil ((8 + (first : ℚ) * 8 + 6) / payloadBitsPerSymbol tx) < 4294967296 :=
    lt_of_le_of_lt (le_trans (first_count_mono (by omega) hN)
      (first_count_le_standaloneCount tx (first + middle.sum + last) hN)) hfit2
  simp only [if_pos, zero_add, uint32_of_lt hc1,
    uint32_of_lt (show first < 4294967296 by omega)] at hf
  obtain ⟨counts, h1, h2, h3, h4⟩ := runNumSymbols_aggregate_tail tx frequency last hcls hN
    middle ⟨first, Nat.ceil ((8 + (first : ℚ) * 8 + 6) / payloadBitsPerSymbol tx)⟩
    htotal hfit2 le_rfl
  have hrun1 : (runNumSymbols ⟨0, 0⟩ (aggregateCalls tx preamble frequency first middle
      last)).1 = (Nat.ceil ((8 + (first : ℚ) * 8 + 6) / payloadBitsPerSymbol tx)
        :: counts).map Except.ok := by
    rw [aggregateCalls, List.cons_append, runNumSymbols_cons]
    simp only [hf]
    rw [h1, List.map_cons]
  have hrun2 : (runNumSymbols ⟨0, 0⟩ (aggregateCalls tx preamble frequency first middle
      last)).2 = ⟨0, 0⟩ := by
    rw [aggregateCalls, List.cons_append, runNumSymbols_cons]
    simp only [hf]
    exact h4
  have hstand : payloadNumSymbols ⟨0, 0⟩ (first + middle.sum + last) tx preamble 0 1
      = (.ok (Nat.ceil ((8 + (first : ℚ) * 8 + 6) / payloadBitsPerSymbol tx) :: counts).sum,
        ⟨0, 0⟩) := by
    rw [payloadNumSymbols_standalone_count ⟨0, 0⟩ _ tx preamble 1 hcls hpre,
      uint32_of_lt hfit2, List.sum_cons]
    simp only at h3
    rw [h3]
  have hall : ∀ c ∈ aggregateCalls tx preamble frequency first middle last,
      c.txvector.mode.modClass = .WIFI_MOD_CLASS_OFDM
        ∨ c.txvector.mode.modClass = .WIFI_MOD_CLASS_ERP_OFDM
        ∨ c.txvector.mode.modClass = .WIFI_MOD_CLASS_HT
        ∨ c.txvector.mode.modClass = .WIFI_MOD_CLASS_S1G := by
    intro c hc
    have htx : c.txvector = tx := by
      simp only [aggregateCalls, List.cons_append, List.mem_cons, List.mem_append,
        List.mem_map, List.mem_singleton, List.not_mem_nil, or_false] at hc
      rcases hc with h | ⟨s, -, h⟩ | h
      · rw [h]
      · rw [← h]
      · rw [h]
    rw [htx]
    exact hcls
  obtain ⟨hd1, hd2⟩ := runGetPayloadDuration_of_counts _ ⟨0, 0⟩ _ hall hrun1
  refine ⟨Nat.ceil ((8 + (first : ℚ) * 8 + 6) / payloadBitsPerSymbol tx) :: counts,
    hrun1, ?_, hstand, hrun2, hd1, hd2.trans hrun2, ?_⟩
  · simp only [List.length_cons, h2]
  · have hg := GetPayloadDuration_eq ⟨0, 0⟩ (first + middle.sum + last) tx preamble frequency
      0 1 hcls hstand
    rw [hg]

set_option maxRecDepth 100000 in
/-- C5 at OfdmRate54Mbps (216 bits per symbol), preamble Long, sizes 1000, 500 and 200
bytes. -/
theorem C5_aggregation_conservation_witness :
    GetOfdmRate54Mbps ∈ allModes ∧ 1000 + [500].sum + 200 < 4294967296
      ∧ wholeBitsPerSymbol ⟨GetOfdmRate54Mbps, 1, 0, false⟩
      ∧ ∃ counts : List Nat,
        (runNumSymbols ⟨0, 0⟩ (aggregateCalls ⟨GetOfdmRate54Mbps, 1, 0, false⟩
            .WIFI_PREAMBLE_LONG 5180 1000 [500] 200)).1 = counts.map Except.ok
          ∧ counts.length = [500].length + 2
          ∧ payloadNumSymbols ⟨0, 0⟩ (1000 + [500].sum + 200) ⟨GetOfdmRate54Mbps, 1, 0, false⟩
              .WIFI_PREAMBLE_LONG 0 1 = (.ok counts.sum, ⟨0, 0⟩)
          ∧ (runGetPayloadDuration ⟨0, 0⟩ (aggregateCalls ⟨GetOfdmRate54Mbps, 1, 0, false⟩
              .WIFI_PREAMBLE_LONG 5180 1000 [500] 200)).2 = ⟨0, 0⟩ := by
  have hw : wholeBitsPerSymbol ⟨GetOfdmRate54Mbps, 1, 0, false⟩ :=
    wholeBitsPerSymbol_of_eq 216 (by rw [payloadBitsPerSymbol_54Mbps]; norm_num)
  obtain ⟨counts, h1, h2, h3, -, -, h6, -⟩ :=
    C5_aggregation_conservation ⟨GetOfdmRate54Mbps, 1, 0, false⟩ .WIFI_PREAMBLE_LONG 5180 1000
      [500] 200 (by decide) (Or.inl rfl) (by norm_num) (by norm_num) hw (by simp)
      (by norm_num) (fun h => absurd h (by decide))
  exact ⟨by decide, by norm_num, hw, counts, h1, h2, h3, h6⟩


end WifiPhy
